import Mathlib

/-!
# GLES_GPU: the GE command interpreter of `GPU/GLES/GLES_GPU.cpp`

A shallow embedding of the opcode flag table, its construction, the fast
interpreter loop `FastRunLoop` and the opcode executor `ExecuteOpInternal`.

Conventions of the embedding:

* `u32` and `u8` values are natural numbers; where C++ arithmetic can wrap the
  reduction `% 2 ^ 32` is written out.
* The register mirror `gstate.cmdmem` and the matrix files are functions from
  the slot index to the stored 32-bit word; floats are kept as their bit patterns.
* The subsystems the core talks to (transform/draw engine, shader manager,
  texture cache, framebuffer manager) are represented by the ordered list of
  calls they receive (`GPU.calls`); what they return is supplied by `Env`.
  A `Flush` call records the register state it is issued under.
* Logging (`ERROR_LOG`, `WARN_LOG_REPORT_ONCE`, ...) is not represented, except
  for the two construction-time checks of the command table.
-/

namespace PPSSPP

/-! ## Command flags -/

abbrev FLAG_FLUSHBEFORE : Nat := 1
abbrev FLAG_FLUSHBEFOREONCHANGE : Nat := 2
abbrev FLAG_EXECUTE : Nat := 4
abbrev FLAG_EXECUTEONCHANGE : Nat := 8
abbrev FLAG_ANY_EXECUTE : Nat := 4 ||| 8

/-- One row of the static `commandTable`. -/
structure CommandTableEntry where
  cmd : Nat
  flags : Nat
deriving DecidableEq, Repr

/-! ## Opcode numbers

Modelled from the spec: the `GE_CMD_*` enumerators are declared in
`GPU/ge_constants.h`, which is not among the sources.  The spec fixes an opcode
as the top byte of a command word, in `[0x00, 0xFF]`, with the checked range
`[0x00, 0xEE]`; the numbers below are the GE's command numbers, the
`UNKNOWN_xx` names carry their own number, and `TRANSFERSTART = 0xEA` is the
value the constructor's own sanity check expects.
-/

/-- Modelled from the spec: opcode number 0x00 of the `GECommand` enum (ge_constants.h). -/
abbrev GE_CMD_NOP : Nat := 0x00
/-- Modelled from the spec: opcode number 0x01 of the `GECommand` enum (ge_constants.h). -/
abbrev GE_CMD_VADDR : Nat := 0x01
/-- Modelled from the spec: opcode number 0x02 of the `GECommand` enum (ge_constants.h). -/
abbrev GE_CMD_IADDR : Nat := 0x02
/-- Modelled from the spec: opcode number 0x03 of the `GECommand` enum (ge_constants.h). -/
abbrev GE_CMD_UNKNOWN_03 : Nat := 0x03
/-- Modelled from the spec: opcode number 0x04 of the `GECommand` enum (ge_constants.h). -/
abbrev GE_CMD_PRIM : Nat := 0x04
/-- Modelled from the spec: opcode number 0x05 of the `GECommand` enum (ge_constants.h). -/
abbrev GE_CMD_BEZIER : Nat := 0x05
/-- Modelled from the spec: opcode number 0x06 of the `GECommand` enum (ge_constants.h). -/
abbrev GE_CMD_SPLINE : Nat := 0x06
/-- Modelled from the spec: opcode number 0x07 of the `GECommand` enum (ge_constants.h). -/
abbrev GE_CMD_BOUNDINGBOX : Nat := 0x07
/-- Modelled from the spec: opcode number 0x08 of the `GECommand` enum (ge_constants.h). -/
abbrev GE_CMD_JUMP : Nat := 0x08
/-- Modelled from the spec: opcode number 0x09 of the `GECommand` enum (ge_constants.h). -/
abbrev GE_CMD_BJUMP : Nat := 0x09
/-- Modelled from the spec: opcode number 0x0A of the `GECommand` enum (ge_constants.h). -/
abbrev GE_CMD_CALL : Nat := 0x0A
/-- Modelled from the spec: opcode number 0x0B of the `GECommand` enum (ge_constants.h). -/
abbrev GE_CMD_RET : Nat := 0x0B
/-- Modelled from the spec: opcode number 0x0C of the `GECommand` enum (ge_constants.h). -/
abbrev GE_CMD_END : Nat := 0x0C
/-- Modelled from the spec: opcode number 0x0D of the `GECommand` enum (ge_constants.h). -/
abbrev GE_CMD_UNKNOWN_0D : Nat := 0x0D
/-- Modelled from the spec: opcode number 0x0E of the `GECommand` enum (ge_constants.h). -/
abbrev GE_CMD_SIGNAL : Nat := 0x0E
/-- Modelled from the spec: opcode number 0x0F of the `GECommand` enum (ge_constants.h). -/
abbrev GE_CMD_FINISH : Nat := 0x0F
/-- Modelled from the spec: opcode number 0x10 of the `GECommand` enum (ge_constants.h). -/
abbrev GE_CMD_BASE : Nat := 0x10
/-- Modelled from the spec: opcode number 0x11 of the `GECommand` enum (ge_constants.h). -/
abbrev GE_CMD_UNKNOWN_11 : Nat := 0x11
/-- Modelled from the spec: opcode number 0x12 of the `GECommand` enum (ge_constants.h). -/
abbrev GE_CMD_VERTEXTYPE : Nat := 0x12
/-- Modelled from the spec: opcode number 0x13 of the `GECommand` enum (ge_constants.h). -/
abbrev GE_CMD_OFFSETADDR : Nat := 0x13
/-- Modelled from the spec: opcode number 0x14 of the `GECommand` enum (ge_constants.h). -/
abbrev GE_CMD_ORIGIN : Nat := 0x14
/-- Modelled from the spec: opcode number 0x15 of the `GECommand` enum (ge_constants.h). -/
abbrev GE_CMD_REGION1 : Nat := 0x15
/-- Modelled from the spec: opcode number 0x16 of the `GECommand` enum (ge_constants.h). -/
abbrev GE_CMD_REGION2 : Nat := 0x16
/-- Modelled from the spec: opcode number 0x17 of the `GECommand` enum (ge_constants.h). -/
abbrev GE_CMD_LIGHTINGENABLE : Nat := 0x17
/-- Modelled from the spec: opcode number 0x18 of the `GECommand` enum (ge_constants.h). -/
abbrev GE_CMD_LIGHTENABLE0 : Nat := 0x18
/-- Modelled from the spec: opcode number 0x19 of the `GECommand` enum (ge_constants.h). -/
abbrev GE_CMD_LIGHTENABLE1 : Nat := 0x19
/-- Modelled from the spec: opcode number 0x1A of the `GECommand` enum (ge_constants.h). -/
abbrev GE_CMD_LIGHTENABLE2 : Nat := 0x1A
/-- Modelled from the spec: opcode number 0x1B of the `GECommand` enum (ge_constants.h). -/
abbrev GE_CMD_LIGHTENABLE3 : Nat := 0x1B
/-- Modelled from the spec: opcode number 0x1C of the `GECommand` enum (ge_constants.h). -/
abbrev GE_CMD_CLIPENABLE : Nat := 0x1C
/-- Modelled from the spec: opcode number 0x1D of the `GECommand` enum (ge_constants.h). -/
abbrev GE_CMD_CULLFACEENABLE : Nat := 0x1D
/-- Modelled from the spec: opcode number 0x1E of the `GECommand` enum (ge_constants.h). -/
abbrev GE_CMD_TEXTUREMAPENABLE : Nat := 0x1E
/-- Modelled from the spec: opcode number 0x1F of the `GECommand` enum (ge_constants.h). -/
abbrev GE_CMD_FOGENABLE : Nat := 0x1F
/-- Modelled from the spec: opcode number 0x20 of the `GECommand` enum (ge_constants.h). -/
abbrev GE_CMD_DITHERENABLE : Nat := 0x20
/-- Modelled from the spec: opcode number 0x21 of the `GECommand` enum (ge_constants.h). -/
abbrev GE_CMD_ALPHABLENDENABLE : Nat := 0x21
/-- Modelled from the spec: opcode number 0x22 of the `GECommand` enum (ge_constants.h). -/
abbrev GE_CMD_ALPHATESTENABLE : Nat := 0x22
/-- Modelled from the spec: opcode number 0x23 of the `GECommand` enum (ge_constants.h). -/
abbrev GE_CMD_ZTESTENABLE : Nat := 0x23
/-- Modelled from the spec: opcode number 0x24 of the `GECommand` enum (ge_constants.h). -/
abbrev GE_CMD_STENCILTESTENABLE : Nat := 0x24
/-- Modelled from the spec: opcode number 0x25 of the `GECommand` enum (ge_constants.h). -/
abbrev GE_CMD_ANTIALIASENABLE : Nat := 0x25
/-- Modelled from the spec: opcode number 0x26 of the `GECommand` enum (ge_constants.h). -/
abbrev GE_CMD_PATCHCULLENABLE : Nat := 0x26
/-- Modelled from the spec: opcode number 0x27 of the `GECommand` enum (ge_constants.h). -/
abbrev GE_CMD_COLORTESTENABLE : Nat := 0x27
/-- Modelled from the spec: opcode number 0x28 of the `GECommand` enum (ge_constants.h). -/
abbrev GE_CMD_LOGICOPENABLE : Nat := 0x28
/-- Modelled from the spec: opcode number 0x29 of the `GECommand` enum (ge_constants.h). -/
abbrev GE_CMD_UNKNOWN_29 : Nat := 0x29
/-- Modelled from the spec: opcode number 0x2A of the `GECommand` enum (ge_constants.h). -/
abbrev GE_CMD_BONEMATRIXNUMBER : Nat := 0x2A
/-- Modelled from the spec: opcode number 0x2B of the `GECommand` enum (ge_constants.h). -/
abbrev GE_CMD_BONEMATRIXDATA : Nat := 0x2B
/-- Modelled from the spec: opcode number 0x2C of the `GECommand` enum (ge_constants.h). -/
abbrev GE_CMD_MORPHWEIGHT0 : Nat := 0x2C
/-- Modelled from the spec: opcode number 0x2D of the `GECommand` enum (ge_constants.h). -/
abbrev GE_CMD_MORPHWEIGHT1 : Nat := 0x2D
/-- Modelled from the spec: opcode number 0x2E of the `GECommand` enum (ge_constants.h). -/
abbrev GE_CMD_MORPHWEIGHT2 : Nat := 0x2E
/-- Modelled from the spec: opcode number 0x2F of the `GECommand` enum (ge_constants.h). -/
abbrev GE_CMD_MORPHWEIGHT3 : Nat := 0x2F
/-- Modelled from the spec: opcode number 0x30 of the `GECommand` enum (ge_constants.h). -/
abbrev GE_CMD_MORPHWEIGHT4 : Nat := 0x30
/-- Modelled from the spec: opcode number 0x31 of the `GECommand` enum (ge_constants.h). -/
abbrev GE_CMD_MORPHWEIGHT5 : Nat := 0x31
/-- Modelled from the spec: opcode number 0x32 of the `GECommand` enum (ge_constants.h). -/
abbrev GE_CMD_MORPHWEIGHT6 : Nat := 0x32
/-- Modelled from the spec: opcode number 0x33 of the `GECommand` enum (ge_constants.h). -/
abbrev GE_CMD_MORPHWEIGHT7 : Nat := 0x33
/-- Modelled from the spec: opcode number 0x34 of the `GECommand` enum (ge_constants.h). -/
abbrev GE_CMD_UNKNOWN_34 : Nat := 0x34
/-- Modelled from the spec: opcode number 0x35 of the `GECommand` enum (ge_constants.h). -/
abbrev GE_CMD_UNKNOWN_35 : Nat := 0x35
/-- Modelled from the spec: opcode number 0x36 of the `GECommand` enum (ge_constants.h). -/
abbrev GE_CMD_PATCHDIVISION : Nat := 0x36
/-- Modelled from the spec: opcode number 0x37 of the `GECommand` enum (ge_constants.h). -/
abbrev GE_CMD_PATCHPRIMITIVE : Nat := 0x37
/-- Modelled from the spec: opcode number 0x38 of the `GECommand` enum (ge_constants.h). -/
abbrev GE_CMD_PATCHFACING : Nat := 0x38
/-- Modelled from the spec: opcode number 0x39 of the `GECommand` enum (ge_constants.h). -/
abbrev GE_CMD_UNKNOWN_39 : Nat := 0x39
/-- Modelled from the spec: opcode number 0x3A of the `GECommand` enum (ge_constants.h). -/
abbrev GE_CMD_WORLDMATRIXNUMBER : Nat := 0x3A
/-- Modelled from the spec: opcode number 0x3B of the `GECommand` enum (ge_constants.h). -/
abbrev GE_CMD_WORLDMATRIXDATA : Nat := 0x3B
/-- Modelled from the spec: opcode number 0x3C of the `GECommand` enum (ge_constants.h). -/
abbrev GE_CMD_VIEWMATRIXNUMBER : Nat := 0x3C
/-- Modelled from the spec: opcode number 0x3D of the `GECommand` enum (ge_constants.h). -/
abbrev GE_CMD_VIEWMATRIXDATA : Nat := 0x3D
/-- Modelled from the spec: opcode number 0x3E of the `GECommand` enum (ge_constants.h). -/
abbrev GE_CMD_PROJMATRIXNUMBER : Nat := 0x3E
/-- Modelled from the spec: opcode number 0x3F of the `GECommand` enum (ge_constants.h). -/
abbrev GE_CMD_PROJMATRIXDATA : Nat := 0x3F
/-- Modelled from the spec: opcode number 0x40 of the `GECommand` enum (ge_constants.h). -/
abbrev GE_CMD_TGENMATRIXNUMBER : Nat := 0x40
/-- Modelled from the spec: opcode number 0x41 of the `GECommand` enum (ge_constants.h). -/
abbrev GE_CMD_TGENMATRIXDATA : Nat := 0x41
/-- Modelled from the spec: opcode number 0x42 of the `GECommand` enum (ge_constants.h). -/
abbrev GE_CMD_VIEWPORTX1 : Nat := 0x42
/-- Modelled from the spec: opcode number 0x43 of the `GECommand` enum (ge_constants.h). -/
abbrev GE_CMD_VIEWPORTY1 : Nat := 0x43
/-- Modelled from the spec: opcode number 0x44 of the `GECommand` enum (ge_constants.h). -/
abbrev GE_CMD_VIEWPORTZ1 : Nat := 0x44
/-- Modelled from the spec: opcode number 0x45 of the `GECommand` enum (ge_constants.h). -/
abbrev GE_CMD_VIEWPORTX2 : Nat := 0x45
/-- Modelled from the spec: opcode number 0x46 of the `GECommand` enum (ge_constants.h). -/
abbrev GE_CMD_VIEWPORTY2 : Nat := 0x46
/-- Modelled from the spec: opcode number 0x47 of the `GECommand` enum (ge_constants.h). -/
abbrev GE_CMD_VIEWPORTZ2 : Nat := 0x47
/-- Modelled from the spec: opcode number 0x48 of the `GECommand` enum (ge_constants.h). -/
abbrev GE_CMD_TEXSCALEU : Nat := 0x48
/-- Modelled from the spec: opcode number 0x49 of the `GECommand` enum (ge_constants.h). -/
abbrev GE_CMD_TEXSCALEV : Nat := 0x49
/-- Modelled from the spec: opcode number 0x4A of the `GECommand` enum (ge_constants.h). -/
abbrev GE_CMD_TEXOFFSETU : Nat := 0x4A
/-- Modelled from the spec: opcode number 0x4B of the `GECommand` enum (ge_constants.h). -/
abbrev GE_CMD_TEXOFFSETV : Nat := 0x4B
/-- Modelled from the spec: opcode number 0x4C of the `GECommand` enum (ge_constants.h). -/
abbrev GE_CMD_OFFSETX : Nat := 0x4C
/-- Modelled from the spec: opcode number 0x4D of the `GECommand` enum (ge_constants.h). -/
abbrev GE_CMD_OFFSETY : Nat := 0x4D
/-- Modelled from the spec: opcode number 0x4E of the `GECommand` enum (ge_constants.h). -/
abbrev GE_CMD_UNKNOWN_4E : Nat := 0x4E
/-- Modelled from the spec: opcode number 0x4F of the `GECommand` enum (ge_constants.h). -/
abbrev GE_CMD_UNKNOWN_4F : Nat := 0x4F
/-- Modelled from the spec: opcode number 0x50 of the `GECommand` enum (ge_constants.h). -/
abbrev GE_CMD_SHADEMODE : Nat := 0x50
/-- Modelled from the spec: opcode number 0x51 of the `GECommand` enum (ge_constants.h). -/
abbrev GE_CMD_REVERSENORMAL : Nat := 0x51
/-- Modelled from the spec: opcode number 0x52 of the `GECommand` enum (ge_constants.h). -/
abbrev GE_CMD_UNKNOWN_52 : Nat := 0x52
/-- Modelled from the spec: opcode number 0x53 of the `GECommand` enum (ge_constants.h). -/
abbrev GE_CMD_MATERIALUPDATE : Nat := 0x53
/-- Modelled from the spec: opcode number 0x54 of the `GECommand` enum (ge_constants.h). -/
abbrev GE_CMD_MATERIALEMISSIVE : Nat := 0x54
/-- Modelled from the spec: opcode number 0x55 of the `GECommand` enum (ge_constants.h). -/
abbrev GE_CMD_MATERIALAMBIENT : Nat := 0x55
/-- Modelled from the spec: opcode number 0x56 of the `GECommand` enum (ge_constants.h). -/
abbrev GE_CMD_MATERIALDIFFUSE : Nat := 0x56
/-- Modelled from the spec: opcode number 0x57 of the `GECommand` enum (ge_constants.h). -/
abbrev GE_CMD_MATERIALSPECULAR : Nat := 0x57
/-- Modelled from the spec: opcode number 0x58 of the `GECommand` enum (ge_constants.h). -/
abbrev GE_CMD_MATERIALALPHA : Nat := 0x58
/-- Modelled from the spec: opcode number 0x59 of the `GECommand` enum (ge_constants.h). -/
abbrev GE_CMD_UNKNOWN_59 : Nat := 0x59
/-- Modelled from the spec: opcode number 0x5A of the `GECommand` enum (ge_constants.h). -/
abbrev GE_CMD_UNKNOWN_5A : Nat := 0x5A
/-- Modelled from the spec: opcode number 0x5B of the `GECommand` enum (ge_constants.h). -/
abbrev GE_CMD_MATERIALSPECULARCOEF : Nat := 0x5B
/-- Modelled from the spec: opcode number 0x5C of the `GECommand` enum (ge_constants.h). -/
abbrev GE_CMD_AMBIENTCOLOR : Nat := 0x5C
/-- Modelled from the spec: opcode number 0x5D of the `GECommand` enum (ge_constants.h). -/
abbrev GE_CMD_AMBIENTALPHA : Nat := 0x5D
/-- Modelled from the spec: opcode number 0x5E of the `GECommand` enum (ge_constants.h). -/
abbrev GE_CMD_LIGHTMODE : Nat := 0x5E
/-- Modelled from the spec: opcode number 0x5F of the `GECommand` enum (ge_constants.h). -/
abbrev GE_CMD_LIGHTTYPE0 : Nat := 0x5F
/-- Modelled from the spec: opcode number 0x60 of the `GECommand` enum (ge_constants.h). -/
abbrev GE_CMD_LIGHTTYPE1 : Nat := 0x60
/-- Modelled from the spec: opcode number 0x61 of the `GECommand` enum (ge_constants.h). -/
abbrev GE_CMD_LIGHTTYPE2 : Nat := 0x61
/-- Modelled from the spec: opcode number 0x62 of the `GECommand` enum (ge_constants.h). -/
abbrev GE_CMD_LIGHTTYPE3 : Nat := 0x62
/-- Modelled from the spec: opcode number 0x63 of the `GECommand` enum (ge_constants.h). -/
abbrev GE_CMD_LX0 : Nat := 0x63
/-- Modelled from the spec: opcode number 0x64 of the `GECommand` enum (ge_constants.h). -/
abbrev GE_CMD_LY0 : Nat := 0x64
/-- Modelled from the spec: opcode number 0x65 of the `GECommand` enum (ge_constants.h). -/
abbrev GE_CMD_LZ0 : Nat := 0x65
/-- Modelled from the spec: opcode number 0x66 of the `GECommand` enum (ge_constants.h). -/
abbrev GE_CMD_LX1 : Nat := 0x66
/-- Modelled from the spec: opcode number 0x67 of the `GECommand` enum (ge_constants.h). -/
abbrev GE_CMD_LY1 : Nat := 0x67
/-- Modelled from the spec: opcode number 0x68 of the `GECommand` enum (ge_constants.h). -/
abbrev GE_CMD_LZ1 : Nat := 0x68
/-- Modelled from the spec: opcode number 0x69 of the `GECommand` enum (ge_constants.h). -/
abbrev GE_CMD_LX2 : Nat := 0x69
/-- Modelled from the spec: opcode number 0x6A of the `GECommand` enum (ge_constants.h). -/
abbrev GE_CMD_LY2 : Nat := 0x6A
/-- Modelled from the spec: opcode number 0x6B of the `GECommand` enum (ge_constants.h). -/
abbrev GE_CMD_LZ2 : Nat := 0x6B
/-- Modelled from the spec: opcode number 0x6C of the `GECommand` enum (ge_constants.h). -/
abbrev GE_CMD_LX3 : Nat := 0x6C
/-- Modelled from the spec: opcode number 0x6D of the `GECommand` enum (ge_constants.h). -/
abbrev GE_CMD_LY3 : Nat := 0x6D
/-- Modelled from the spec: opcode number 0x6E of the `GECommand` enum (ge_constants.h). -/
abbrev GE_CMD_LZ3 : Nat := 0x6E
/-- Modelled from the spec: opcode number 0x6F of the `GECommand` enum (ge_constants.h). -/
abbrev GE_CMD_LDX0 : Nat := 0x6F
/-- Modelled from the spec: opcode number 0x70 of the `GECommand` enum (ge_constants.h). -/
abbrev GE_CMD_LDY0 : Nat := 0x70
/-- Modelled from the spec: opcode number 0x71 of the `GECommand` enum (ge_constants.h). -/
abbrev GE_CMD_LDZ0 : Nat := 0x71
/-- Modelled from the spec: opcode number 0x72 of the `GECommand` enum (ge_constants.h). -/
abbrev GE_CMD_LDX1 : Nat := 0x72
/-- Modelled from the spec: opcode number 0x73 of the `GECommand` enum (ge_constants.h). -/
abbrev GE_CMD_LDY1 : Nat := 0x73
/-- Modelled from the spec: opcode number 0x74 of the `GECommand` enum (ge_constants.h). -/
abbrev GE_CMD_LDZ1 : Nat := 0x74
/-- Modelled from the spec: opcode number 0x75 of the `GECommand` enum (ge_constants.h). -/
abbrev GE_CMD_LDX2 : Nat := 0x75
/-- Modelled from the spec: opcode number 0x76 of the `GECommand` enum (ge_constants.h). -/
abbrev GE_CMD_LDY2 : Nat := 0x76
/-- Modelled from the spec: opcode number 0x77 of the `GECommand` enum (ge_constants.h). -/
abbrev GE_CMD_LDZ2 : Nat := 0x77
/-- Modelled from the spec: opcode number 0x78 of the `GECommand` enum (ge_constants.h). -/
abbrev GE_CMD_LDX3 : Nat := 0x78
/-- Modelled from the spec: opcode number 0x79 of the `GECommand` enum (ge_constants.h). -/
abbrev GE_CMD_LDY3 : Nat := 0x79
/-- Modelled from the spec: opcode number 0x7A of the `GECommand` enum (ge_constants.h). -/
abbrev GE_CMD_LDZ3 : Nat := 0x7A
/-- Modelled from the spec: opcode number 0x7B of the `GECommand` enum (ge_constants.h). -/
abbrev GE_CMD_LKA0 : Nat := 0x7B
/-- Modelled from the spec: opcode number 0x7C of the `GECommand` enum (ge_constants.h). -/
abbrev GE_CMD_LKB0 : Nat := 0x7C
/-- Modelled from the spec: opcode number 0x7D of the `GECommand` enum (ge_constants.h). -/
abbrev GE_CMD_LKC0 : Nat := 0x7D
/-- Modelled from the spec: opcode number 0x7E of the `GECommand` enum (ge_constants.h). -/
abbrev GE_CMD_LKA1 : Nat := 0x7E
/-- Modelled from the spec: opcode number 0x7F of the `GECommand` enum (ge_constants.h). -/
abbrev GE_CMD_LKB1 : Nat := 0x7F
/-- Modelled from the spec: opcode number 0x80 of the `GECommand` enum (ge_constants.h). -/
abbrev GE_CMD_LKC1 : Nat := 0x80
/-- Modelled from the spec: opcode number 0x81 of the `GECommand` enum (ge_constants.h). -/
abbrev GE_CMD_LKA2 : Nat := 0x81
/-- Modelled from the spec: opcode number 0x82 of the `GECommand` enum (ge_constants.h). -/
abbrev GE_CMD_LKB2 : Nat := 0x82
/-- Modelled from the spec: opcode number 0x83 of the `GECommand` enum (ge_constants.h). -/
abbrev GE_CMD_LKC2 : Nat := 0x83
/-- Modelled from the spec: opcode number 0x84 of the `GECommand` enum (ge_constants.h). -/
abbrev GE_CMD_LKA3 : Nat := 0x84
/-- Modelled from the spec: opcode number 0x85 of the `GECommand` enum (ge_constants.h). -/
abbrev GE_CMD_LKB3 : Nat := 0x85
/-- Modelled from the spec: opcode number 0x86 of the `GECommand` enum (ge_constants.h). -/
abbrev GE_CMD_LKC3 : Nat := 0x86
/-- Modelled from the spec: opcode number 0x87 of the `GECommand` enum (ge_constants.h). -/
abbrev GE_CMD_LKS0 : Nat := 0x87
/-- Modelled from the spec: opcode number 0x88 of the `GECommand` enum (ge_constants.h). -/
abbrev GE_CMD_LKS1 : Nat := 0x88
/-- Modelled from the spec: opcode number 0x89 of the `GECommand` enum (ge_constants.h). -/
abbrev GE_CMD_LKS2 : Nat := 0x89
/-- Modelled from the spec: opcode number 0x8A of the `GECommand` enum (ge_constants.h). -/
abbrev GE_CMD_LKS3 : Nat := 0x8A
/-- Modelled from the spec: opcode number 0x8B of the `GECommand` enum (ge_constants.h). -/
abbrev GE_CMD_LKO0 : Nat := 0x8B
/-- Modelled from the spec: opcode number 0x8C of the `GECommand` enum (ge_constants.h). -/
abbrev GE_CMD_LKO1 : Nat := 0x8C
/-- Modelled from the spec: opcode number 0x8D of the `GECommand` enum (ge_constants.h). -/
abbrev GE_CMD_LKO2 : Nat := 0x8D
/-- Modelled from the spec: opcode number 0x8E of the `GECommand` enum (ge_constants.h). -/
abbrev GE_CMD_LKO3 : Nat := 0x8E
/-- Modelled from the spec: opcode number 0x8F of the `GECommand` enum (ge_constants.h). -/
abbrev GE_CMD_LAC0 : Nat := 0x8F
/-- Modelled from the spec: opcode number 0x90 of the `GECommand` enum (ge_constants.h). -/
abbrev GE_CMD_LDC0 : Nat := 0x90
/-- Modelled from the spec: opcode number 0x91 of the `GECommand` enum (ge_constants.h). -/
abbrev GE_CMD_LSC0 : Nat := 0x91
/-- Modelled from the spec: opcode number 0x92 of the `GECommand` enum (ge_constants.h). -/
abbrev GE_CMD_LAC1 : Nat := 0x92
/-- Modelled from the spec: opcode number 0x93 of the `GECommand` enum (ge_constants.h). -/
abbrev GE_CMD_LDC1 : Nat := 0x93
/-- Modelled from the spec: opcode number 0x94 of the `GECommand` enum (ge_constants.h). -/
abbrev GE_CMD_LSC1 : Nat := 0x94
/-- Modelled from the spec: opcode number 0x95 of the `GECommand` enum (ge_constants.h). -/
abbrev GE_CMD_LAC2 : Nat := 0x95
/-- Modelled from the spec: opcode number 0x96 of the `GECommand` enum (ge_constants.h). -/
abbrev GE_CMD_LDC2 : Nat := 0x96
/-- Modelled from the spec: opcode number 0x97 of the `GECommand` enum (ge_constants.h). -/
abbrev GE_CMD_LSC2 : Nat := 0x97
/-- Modelled from the spec: opcode number 0x98 of the `GECommand` enum (ge_constants.h). -/
abbrev GE_CMD_LAC3 : Nat := 0x98
/-- Modelled from the spec: opcode number 0x99 of the `GECommand` enum (ge_constants.h). -/
abbrev GE_CMD_LDC3 : Nat := 0x99
/-- Modelled from the spec: opcode number 0x9A of the `GECommand` enum (ge_constants.h). -/
abbrev GE_CMD_LSC3 : Nat := 0x9A
/-- Modelled from the spec: opcode number 0x9B of the `GECommand` enum (ge_constants.h). -/
abbrev GE_CMD_CULL : Nat := 0x9B
/-- Modelled from the spec: opcode number 0x9C of the `GECommand` enum (ge_constants.h). -/
abbrev GE_CMD_FRAMEBUFPTR : Nat := 0x9C
/-- Modelled from the spec: opcode number 0x9D of the `GECommand` enum (ge_constants.h). -/
abbrev GE_CMD_FRAMEBUFWIDTH : Nat := 0x9D
/-- Modelled from the spec: opcode number 0x9E of the `GECommand` enum (ge_constants.h). -/
abbrev GE_CMD_ZBUFPTR : Nat := 0x9E
/-- Modelled from the spec: opcode number 0x9F of the `GECommand` enum (ge_constants.h). -/
abbrev GE_CMD_ZBUFWIDTH : Nat := 0x9F
/-- Modelled from the spec: opcode number 0xA0 of the `GECommand` enum (ge_constants.h). -/
abbrev GE_CMD_TEXADDR0 : Nat := 0xA0
/-- Modelled from the spec: opcode number 0xA1 of the `GECommand` enum (ge_constants.h). -/
abbrev GE_CMD_TEXADDR1 : Nat := 0xA1
/-- Modelled from the spec: opcode number 0xA2 of the `GECommand` enum (ge_constants.h). -/
abbrev GE_CMD_TEXADDR2 : Nat := 0xA2
/-- Modelled from the spec: opcode number 0xA3 of the `GECommand` enum (ge_constants.h). -/
abbrev GE_CMD_TEXADDR3 : Nat := 0xA3
/-- Modelled from the spec: opcode number 0xA4 of the `GECommand` enum (ge_constants.h). -/
abbrev GE_CMD_TEXADDR4 : Nat := 0xA4
/-- Modelled from the spec: opcode number 0xA5 of the `GECommand` enum (ge_constants.h). -/
abbrev GE_CMD_TEXADDR5 : Nat := 0xA5
/-- Modelled from the spec: opcode number 0xA6 of the `GECommand` enum (ge_constants.h). -/
abbrev GE_CMD_TEXADDR6 : Nat := 0xA6
/-- Modelled from the spec: opcode number 0xA7 of the `GECommand` enum (ge_constants.h). -/
abbrev GE_CMD_TEXADDR7 : Nat := 0xA7
/-- Modelled from the spec: opcode number 0xA8 of the `GECommand` enum (ge_constants.h). -/
abbrev GE_CMD_TEXBUFWIDTH0 : Nat := 0xA8
/-- Modelled from the spec: opcode number 0xA9 of the `GECommand` enum (ge_constants.h). -/
abbrev GE_CMD_TEXBUFWIDTH1 : Nat := 0xA9
/-- Modelled from the spec: opcode number 0xAA of the `GECommand` enum (ge_constants.h). -/
abbrev GE_CMD_TEXBUFWIDTH2 : Nat := 0xAA
/-- Modelled from the spec: opcode number 0xAB of the `GECommand` enum (ge_constants.h). -/
abbrev GE_CMD_TEXBUFWIDTH3 : Nat := 0xAB
/-- Modelled from the spec: opcode number 0xAC of the `GECommand` enum (ge_constants.h). -/
abbrev GE_CMD_TEXBUFWIDTH4 : Nat := 0xAC
/-- Modelled from the spec: opcode number 0xAD of the `GECommand` enum (ge_constants.h). -/
abbrev GE_CMD_TEXBUFWIDTH5 : Nat := 0xAD
/-- Modelled from the spec: opcode number 0xAE of the `GECommand` enum (ge_constants.h). -/
abbrev GE_CMD_TEXBUFWIDTH6 : Nat := 0xAE
/-- Modelled from the spec: opcode number 0xAF of the `GECommand` enum (ge_constants.h). -/
abbrev GE_CMD_TEXBUFWIDTH7 : Nat := 0xAF
/-- Modelled from the spec: opcode number 0xB0 of the `GECommand` enum (ge_constants.h). -/
abbrev GE_CMD_CLUTADDR : Nat := 0xB0
/-- Modelled from the spec: opcode number 0xB1 of the `GECommand` enum (ge_constants.h). -/
abbrev GE_CMD_CLUTADDRUPPER : Nat := 0xB1
/-- Modelled from the spec: opcode number 0xB2 of the `GECommand` enum (ge_constants.h). -/
abbrev GE_CMD_TRANSFERSRC : Nat := 0xB2
/-- Modelled from the spec: opcode number 0xB3 of the `GECommand` enum (ge_constants.h). -/
abbrev GE_CMD_TRANSFERSRCW : Nat := 0xB3
/-- Modelled from the spec: opcode number 0xB4 of the `GECommand` enum (ge_constants.h). -/
abbrev GE_CMD_TRANSFERDST : Nat := 0xB4
/-- Modelled from the spec: opcode number 0xB5 of the `GECommand` enum (ge_constants.h). -/
abbrev GE_CMD_TRANSFERDSTW : Nat := 0xB5
/-- Modelled from the spec: opcode number 0xB6 of the `GECommand` enum (ge_constants.h). -/
abbrev GE_CMD_UNKNOWN_B6 : Nat := 0xB6
/-- Modelled from the spec: opcode number 0xB7 of the `GECommand` enum (ge_constants.h). -/
abbrev GE_CMD_UNKNOWN_B7 : Nat := 0xB7
/-- Modelled from the spec: opcode number 0xB8 of the `GECommand` enum (ge_constants.h). -/
abbrev GE_CMD_TEXSIZE0 : Nat := 0xB8
/-- Modelled from the spec: opcode number 0xB9 of the `GECommand` enum (ge_constants.h). -/
abbrev GE_CMD_TEXSIZE1 : Nat := 0xB9
/-- Modelled from the spec: opcode number 0xBA of the `GECommand` enum (ge_constants.h). -/
abbrev GE_CMD_TEXSIZE2 : Nat := 0xBA
/-- Modelled from the spec: opcode number 0xBB of the `GECommand` enum (ge_constants.h). -/
abbrev GE_CMD_TEXSIZE3 : Nat := 0xBB
/-- Modelled from the spec: opcode number 0xBC of the `GECommand` enum (ge_constants.h). -/
abbrev GE_CMD_TEXSIZE4 : Nat := 0xBC
/-- Modelled from the spec: opcode number 0xBD of the `GECommand` enum (ge_constants.h). -/
abbrev GE_CMD_TEXSIZE5 : Nat := 0xBD
/-- Modelled from the spec: opcode number 0xBE of the `GECommand` enum (ge_constants.h). -/
abbrev GE_CMD_TEXSIZE6 : Nat := 0xBE
/-- Modelled from the spec: opcode number 0xBF of the `GECommand` enum (ge_constants.h). -/
abbrev GE_CMD_TEXSIZE7 : Nat := 0xBF
/-- Modelled from the spec: opcode number 0xC0 of the `GECommand` enum (ge_constants.h). -/
abbrev GE_CMD_TEXMAPMODE : Nat := 0xC0
/-- Modelled from the spec: opcode number 0xC1 of the `GECommand` enum (ge_constants.h). -/
abbrev GE_CMD_TEXSHADELS : Nat := 0xC1
/-- Modelled from the spec: opcode number 0xC2 of the `GECommand` enum (ge_constants.h). -/
abbrev GE_CMD_TEXMODE : Nat := 0xC2
/-- Modelled from the spec: opcode number 0xC3 of the `GECommand` enum (ge_constants.h). -/
abbrev GE_CMD_TEXFORMAT : Nat := 0xC3
/-- Modelled from the spec: opcode number 0xC4 of the `GECommand` enum (ge_constants.h). -/
abbrev GE_CMD_LOADCLUT : Nat := 0xC4
/-- Modelled from the spec: opcode number 0xC5 of the `GECommand` enum (ge_constants.h). -/
abbrev GE_CMD_CLUTFORMAT : Nat := 0xC5
/-- Modelled from the spec: opcode number 0xC6 of the `GECommand` enum (ge_constants.h). -/
abbrev GE_CMD_TEXFILTER : Nat := 0xC6
/-- Modelled from the spec: opcode number 0xC7 of the `GECommand` enum (ge_constants.h). -/
abbrev GE_CMD_TEXWRAP : Nat := 0xC7
/-- Modelled from the spec: opcode number 0xC8 of the `GECommand` enum (ge_constants.h). -/
abbrev GE_CMD_TEXLEVEL : Nat := 0xC8
/-- Modelled from the spec: opcode number 0xC9 of the `GECommand` enum (ge_constants.h). -/
abbrev GE_CMD_TEXFUNC : Nat := 0xC9
/-- Modelled from the spec: opcode number 0xCA of the `GECommand` enum (ge_constants.h). -/
abbrev GE_CMD_TEXENVCOLOR : Nat := 0xCA
/-- Modelled from the spec: opcode number 0xCB of the `GECommand` enum (ge_constants.h). -/
abbrev GE_CMD_TEXFLUSH : Nat := 0xCB
/-- Modelled from the spec: opcode number 0xCC of the `GECommand` enum (ge_constants.h). -/
abbrev GE_CMD_TEXSYNC : Nat := 0xCC
/-- Modelled from the spec: opcode number 0xCD of the `GECommand` enum (ge_constants.h). -/
abbrev GE_CMD_FOG1 : Nat := 0xCD
/-- Modelled from the spec: opcode number 0xCE of the `GECommand` enum (ge_constants.h). -/
abbrev GE_CMD_FOG2 : Nat := 0xCE
/-- Modelled from the spec: opcode number 0xCF of the `GECommand` enum (ge_constants.h). -/
abbrev GE_CMD_FOGCOLOR : Nat := 0xCF
/-- Modelled from the spec: opcode number 0xD0 of the `GECommand` enum (ge_constants.h). -/
abbrev GE_CMD_TEXLODSLOPE : Nat := 0xD0
/-- Modelled from the spec: opcode number 0xD1 of the `GECommand` enum (ge_constants.h). -/
abbrev GE_CMD_UNKNOWN_D1 : Nat := 0xD1
/-- Modelled from the spec: opcode number 0xD2 of the `GECommand` enum (ge_constants.h). -/
abbrev GE_CMD_FRAMEBUFPIXFORMAT : Nat := 0xD2
/-- Modelled from the spec: opcode number 0xD3 of the `GECommand` enum (ge_constants.h). -/
abbrev GE_CMD_CLEARMODE : Nat := 0xD3
/-- Modelled from the spec: opcode number 0xD4 of the `GECommand` enum (ge_constants.h). -/
abbrev GE_CMD_SCISSOR1 : Nat := 0xD4
/-- Modelled from the spec: opcode number 0xD5 of the `GECommand` enum (ge_constants.h). -/
abbrev GE_CMD_SCISSOR2 : Nat := 0xD5
/-- Modelled from the spec: opcode number 0xD6 of the `GECommand` enum (ge_constants.h). -/
abbrev GE_CMD_MINZ : Nat := 0xD6
/-- Modelled from the spec: opcode number 0xD7 of the `GECommand` enum (ge_constants.h). -/
abbrev GE_CMD_MAXZ : Nat := 0xD7
/-- Modelled from the spec: opcode number 0xD8 of the `GECommand` enum (ge_constants.h). -/
abbrev GE_CMD_COLORTEST : Nat := 0xD8
/-- Modelled from the spec: opcode number 0xD9 of the `GECommand` enum (ge_constants.h). -/
abbrev GE_CMD_COLORREF : Nat := 0xD9
/-- Modelled from the spec: opcode number 0xDA of the `GECommand` enum (ge_constants.h). -/
abbrev GE_CMD_COLORTESTMASK : Nat := 0xDA
/-- Modelled from the spec: opcode number 0xDB of the `GECommand` enum (ge_constants.h). -/
abbrev GE_CMD_ALPHATEST : Nat := 0xDB
/-- Modelled from the spec: opcode number 0xDC of the `GECommand` enum (ge_constants.h). -/
abbrev GE_CMD_STENCILTEST : Nat := 0xDC
/-- Modelled from the spec: opcode number 0xDD of the `GECommand` enum (ge_constants.h). -/
abbrev GE_CMD_STENCILOP : Nat := 0xDD
/-- Modelled from the spec: opcode number 0xDE of the `GECommand` enum (ge_constants.h). -/
abbrev GE_CMD_ZTEST : Nat := 0xDE
/-- Modelled from the spec: opcode number 0xDF of the `GECommand` enum (ge_constants.h). -/
abbrev GE_CMD_BLENDMODE : Nat := 0xDF
/-- Modelled from the spec: opcode number 0xE0 of the `GECommand` enum (ge_constants.h). -/
abbrev GE_CMD_BLENDFIXEDA : Nat := 0xE0
/-- Modelled from the spec: opcode number 0xE1 of the `GECommand` enum (ge_constants.h). -/
abbrev GE_CMD_BLENDFIXEDB : Nat := 0xE1
/-- Modelled from the spec: opcode number 0xE2 of the `GECommand` enum (ge_constants.h). -/
abbrev GE_CMD_DITH0 : Nat := 0xE2
/-- Modelled from the spec: opcode number 0xE3 of the `GECommand` enum (ge_constants.h). -/
abbrev GE_CMD_DITH1 : Nat := 0xE3
/-- Modelled from the spec: opcode number 0xE4 of the `GECommand` enum (ge_constants.h). -/
abbrev GE_CMD_DITH2 : Nat := 0xE4
/-- Modelled from the spec: opcode number 0xE5 of the `GECommand` enum (ge_constants.h). -/
abbrev GE_CMD_DITH3 : Nat := 0xE5
/-- Modelled from the spec: opcode number 0xE6 of the `GECommand` enum (ge_constants.h). -/
abbrev GE_CMD_LOGICOP : Nat := 0xE6
/-- Modelled from the spec: opcode number 0xE7 of the `GECommand` enum (ge_constants.h). -/
abbrev GE_CMD_ZWRITEDISABLE : Nat := 0xE7
/-- Modelled from the spec: opcode number 0xE8 of the `GECommand` enum (ge_constants.h). -/
abbrev GE_CMD_MASKRGB : Nat := 0xE8
/-- Modelled from the spec: opcode number 0xE9 of the `GECommand` enum (ge_constants.h). -/
abbrev GE_CMD_MASKALPHA : Nat := 0xE9
/-- Modelled from the spec: opcode number 0xEA of the `GECommand` enum (ge_constants.h). -/
abbrev GE_CMD_TRANSFERSTART : Nat := 0xEA
/-- Modelled from the spec: opcode number 0xEB of the `GECommand` enum (ge_constants.h). -/
abbrev GE_CMD_TRANSFERSRCPOS : Nat := 0xEB
/-- Modelled from the spec: opcode number 0xEC of the `GECommand` enum (ge_constants.h). -/
abbrev GE_CMD_TRANSFERDSTPOS : Nat := 0xEC
/-- Modelled from the spec: opcode number 0xED of the `GECommand` enum (ge_constants.h). -/
abbrev GE_CMD_UNKNOWN_ED : Nat := 0xED
/-- Modelled from the spec: opcode number 0xEE of the `GECommand` enum (ge_constants.h). -/
abbrev GE_CMD_TRANSFERSIZE : Nat := 0xEE
/-- Modelled from the spec: opcode number 0xEF of the `GECommand` enum (ge_constants.h). -/
abbrev GE_CMD_UNKNOWN_EF : Nat := 0xEF
/-- Modelled from the spec: opcode number 0xF0 of the `GECommand` enum (ge_constants.h). -/
abbrev GE_CMD_UNKNOWN_F0 : Nat := 0xF0
/-- Modelled from the spec: opcode number 0xF1 of the `GECommand` enum (ge_constants.h). -/
abbrev GE_CMD_UNKNOWN_F1 : Nat := 0xF1
/-- Modelled from the spec: opcode number 0xF2 of the `GECommand` enum (ge_constants.h). -/
abbrev GE_CMD_UNKNOWN_F2 : Nat := 0xF2
/-- Modelled from the spec: opcode number 0xF3 of the `GECommand` enum (ge_constants.h). -/
abbrev GE_CMD_UNKNOWN_F3 : Nat := 0xF3
/-- Modelled from the spec: opcode number 0xF4 of the `GECommand` enum (ge_constants.h). -/
abbrev GE_CMD_UNKNOWN_F4 : Nat := 0xF4
/-- Modelled from the spec: opcode number 0xF5 of the `GECommand` enum (ge_constants.h). -/
abbrev GE_CMD_UNKNOWN_F5 : Nat := 0xF5
/-- Modelled from the spec: opcode number 0xF6 of the `GECommand` enum (ge_constants.h). -/
abbrev GE_CMD_UNKNOWN_F6 : Nat := 0xF6
/-- Modelled from the spec: opcode number 0xF7 of the `GECommand` enum (ge_constants.h). -/
abbrev GE_CMD_UNKNOWN_F7 : Nat := 0xF7
/-- Modelled from the spec: opcode number 0xF8 of the `GECommand` enum (ge_constants.h). -/
abbrev GE_CMD_UNKNOWN_F8 : Nat := 0xF8
/-- Modelled from the spec: opcode number 0xF9 of the `GECommand` enum (ge_constants.h). -/
abbrev GE_CMD_UNKNOWN_F9 : Nat := 0xF9
/-- Modelled from the spec: opcode number 0xFA of the `GECommand` enum (ge_constants.h). -/
abbrev GE_CMD_UNKNOWN_FA : Nat := 0xFA
/-- Modelled from the spec: opcode number 0xFB of the `GECommand` enum (ge_constants.h). -/
abbrev GE_CMD_UNKNOWN_FB : Nat := 0xFB
/-- Modelled from the spec: opcode number 0xFC of the `GECommand` enum (ge_constants.h). -/
abbrev GE_CMD_UNKNOWN_FC : Nat := 0xFC
/-- Modelled from the spec: opcode number 0xFD of the `GECommand` enum (ge_constants.h). -/
abbrev GE_CMD_UNKNOWN_FD : Nat := 0xFD
/-- Modelled from the spec: opcode number 0xFE of the `GECommand` enum (ge_constants.h). -/
abbrev GE_CMD_UNKNOWN_FE : Nat := 0xFE
/-- Modelled from the spec: opcode number 0xFF of the `GECommand` enum (ge_constants.h). -/
abbrev GE_CMD_UNKNOWN_FF : Nat := 0xFF

/-! ## The static command table -/

/-- Rows 1 to 32 of the static table, in source order. -/
def commandTable0 : List CommandTableEntry := [
  CommandTableEntry.mk GE_CMD_FRAMEBUFPTR (FLAG_FLUSHBEFOREONCHANGE ||| FLAG_EXECUTE),
  CommandTableEntry.mk GE_CMD_FRAMEBUFWIDTH (FLAG_FLUSHBEFOREONCHANGE ||| FLAG_EXECUTE),
  CommandTableEntry.mk GE_CMD_FRAMEBUFPIXFORMAT (FLAG_FLUSHBEFOREONCHANGE ||| FLAG_EXECUTE),
  CommandTableEntry.mk GE_CMD_ZBUFPTR (FLAG_FLUSHBEFOREONCHANGE),
  CommandTableEntry.mk GE_CMD_ZBUFWIDTH (FLAG_FLUSHBEFOREONCHANGE),
  CommandTableEntry.mk GE_CMD_FOGCOLOR (FLAG_FLUSHBEFOREONCHANGE ||| FLAG_EXECUTEONCHANGE),
  CommandTableEntry.mk GE_CMD_FOG1 (FLAG_FLUSHBEFOREONCHANGE ||| FLAG_EXECUTEONCHANGE),
  CommandTableEntry.mk GE_CMD_FOG2 (FLAG_FLUSHBEFOREONCHANGE ||| FLAG_EXECUTEONCHANGE),
  CommandTableEntry.mk GE_CMD_MINZ (FLAG_FLUSHBEFOREONCHANGE),
  CommandTableEntry.mk GE_CMD_MAXZ (FLAG_FLUSHBEFOREONCHANGE),
  CommandTableEntry.mk GE_CMD_TEXMAPMODE (FLAG_FLUSHBEFOREONCHANGE ||| FLAG_EXECUTEONCHANGE),
  CommandTableEntry.mk GE_CMD_TEXSCALEU (FLAG_FLUSHBEFOREONCHANGE ||| FLAG_EXECUTEONCHANGE),
  CommandTableEntry.mk GE_CMD_TEXSCALEV (FLAG_FLUSHBEFOREONCHANGE ||| FLAG_EXECUTEONCHANGE),
  CommandTableEntry.mk GE_CMD_TEXOFFSETU (FLAG_FLUSHBEFOREONCHANGE ||| FLAG_EXECUTEONCHANGE),
  CommandTableEntry.mk GE_CMD_TEXOFFSETV (FLAG_FLUSHBEFOREONCHANGE ||| FLAG_EXECUTEONCHANGE),
  CommandTableEntry.mk GE_CMD_TEXSIZE0 (FLAG_FLUSHBEFOREONCHANGE ||| FLAG_EXECUTEONCHANGE),
  CommandTableEntry.mk GE_CMD_TEXSIZE1 (FLAG_FLUSHBEFOREONCHANGE ||| FLAG_EXECUTEONCHANGE),
  CommandTableEntry.mk GE_CMD_TEXSIZE2 (FLAG_FLUSHBEFOREONCHANGE ||| FLAG_EXECUTEONCHANGE),
  CommandTableEntry.mk GE_CMD_TEXSIZE3 (FLAG_FLUSHBEFOREONCHANGE ||| FLAG_EXECUTEONCHANGE),
  CommandTableEntry.mk GE_CMD_TEXSIZE4 (FLAG_FLUSHBEFOREONCHANGE ||| FLAG_EXECUTEONCHANGE),
  CommandTableEntry.mk GE_CMD_TEXSIZE5 (FLAG_FLUSHBEFOREONCHANGE ||| FLAG_EXECUTEONCHANGE),
  CommandTableEntry.mk GE_CMD_TEXSIZE6 (FLAG_FLUSHBEFOREONCHANGE ||| FLAG_EXECUTEONCHANGE),
  CommandTableEntry.mk GE_CMD_TEXSIZE7 (FLAG_FLUSHBEFOREONCHANGE ||| FLAG_EXECUTEONCHANGE),
  CommandTableEntry.mk GE_CMD_TEXFORMAT (FLAG_FLUSHBEFOREONCHANGE ||| FLAG_EXECUTEONCHANGE),
  CommandTableEntry.mk GE_CMD_TEXADDR0 (FLAG_FLUSHBEFOREONCHANGE ||| FLAG_EXECUTEONCHANGE),
  CommandTableEntry.mk GE_CMD_TEXADDR1 (FLAG_FLUSHBEFOREONCHANGE ||| FLAG_EXECUTEONCHANGE),
  CommandTableEntry.mk GE_CMD_TEXADDR2 (FLAG_FLUSHBEFOREONCHANGE ||| FLAG_EXECUTEONCHANGE),
  CommandTableEntry.mk GE_CMD_TEXADDR3 (FLAG_FLUSHBEFOREONCHANGE ||| FLAG_EXECUTEONCHANGE),
  CommandTableEntry.mk GE_CMD_TEXADDR4 (FLAG_FLUSHBEFOREONCHANGE ||| FLAG_EXECUTEONCHANGE),
  CommandTableEntry.mk GE_CMD_TEXADDR5 (FLAG_FLUSHBEFOREONCHANGE ||| FLAG_EXECUTEONCHANGE),
  CommandTableEntry.mk GE_CMD_TEXADDR6 (FLAG_FLUSHBEFOREONCHANGE ||| FLAG_EXECUTEONCHANGE),
  CommandTableEntry.mk GE_CMD_TEXADDR7 (FLAG_FLUSHBEFOREONCHANGE ||| FLAG_EXECUTEONCHANGE)
]

/-- Rows 33 to 64 of the static table, in source order. -/
def commandTable1 : List CommandTableEntry := [
  CommandTableEntry.mk GE_CMD_TEXBUFWIDTH0 (FLAG_FLUSHBEFOREONCHANGE ||| FLAG_EXECUTEONCHANGE),
  CommandTableEntry.mk GE_CMD_TEXBUFWIDTH1 (FLAG_FLUSHBEFOREONCHANGE ||| FLAG_EXECUTEONCHANGE),
  CommandTableEntry.mk GE_CMD_TEXBUFWIDTH2 (FLAG_FLUSHBEFOREONCHANGE ||| FLAG_EXECUTEONCHANGE),
  CommandTableEntry.mk GE_CMD_TEXBUFWIDTH3 (FLAG_FLUSHBEFOREONCHANGE ||| FLAG_EXECUTEONCHANGE),
  CommandTableEntry.mk GE_CMD_TEXBUFWIDTH4 (FLAG_FLUSHBEFOREONCHANGE ||| FLAG_EXECUTEONCHANGE),
  CommandTableEntry.mk GE_CMD_TEXBUFWIDTH5 (FLAG_FLUSHBEFOREONCHANGE ||| FLAG_EXECUTEONCHANGE),
  CommandTableEntry.mk GE_CMD_TEXBUFWIDTH6 (FLAG_FLUSHBEFOREONCHANGE ||| FLAG_EXECUTEONCHANGE),
  CommandTableEntry.mk GE_CMD_TEXBUFWIDTH7 (FLAG_FLUSHBEFOREONCHANGE ||| FLAG_EXECUTEONCHANGE),
  CommandTableEntry.mk GE_CMD_CLUTADDR (FLAG_FLUSHBEFOREONCHANGE ||| FLAG_EXECUTE),
  CommandTableEntry.mk GE_CMD_CLUTADDRUPPER (FLAG_FLUSHBEFOREONCHANGE ||| FLAG_EXECUTE),
  CommandTableEntry.mk GE_CMD_CLUTFORMAT (FLAG_FLUSHBEFOREONCHANGE ||| FLAG_EXECUTE),
  CommandTableEntry.mk GE_CMD_CLEARMODE (FLAG_FLUSHBEFOREONCHANGE),
  CommandTableEntry.mk GE_CMD_TEXTUREMAPENABLE (FLAG_FLUSHBEFOREONCHANGE ||| FLAG_EXECUTEONCHANGE),
  CommandTableEntry.mk GE_CMD_FOGENABLE (FLAG_FLUSHBEFOREONCHANGE),
  CommandTableEntry.mk GE_CMD_TEXMODE (FLAG_FLUSHBEFOREONCHANGE ||| FLAG_EXECUTEONCHANGE),
  CommandTableEntry.mk GE_CMD_TEXSHADELS (FLAG_FLUSHBEFOREONCHANGE),
  CommandTableEntry.mk GE_CMD_SHADEMODE (FLAG_FLUSHBEFOREONCHANGE),
  CommandTableEntry.mk GE_CMD_TEXFUNC (FLAG_FLUSHBEFOREONCHANGE),
  CommandTableEntry.mk GE_CMD_COLORTEST (FLAG_FLUSHBEFOREONCHANGE),
  CommandTableEntry.mk GE_CMD_ALPHATESTENABLE (FLAG_FLUSHBEFOREONCHANGE),
  CommandTableEntry.mk GE_CMD_COLORTESTENABLE (FLAG_FLUSHBEFOREONCHANGE),
  CommandTableEntry.mk GE_CMD_COLORTESTMASK (FLAG_FLUSHBEFOREONCHANGE),
  CommandTableEntry.mk GE_CMD_REVERSENORMAL (FLAG_FLUSHBEFOREONCHANGE),
  CommandTableEntry.mk GE_CMD_LIGHTINGENABLE (FLAG_FLUSHBEFOREONCHANGE),
  CommandTableEntry.mk GE_CMD_LIGHTENABLE0 (FLAG_FLUSHBEFOREONCHANGE),
  CommandTableEntry.mk GE_CMD_LIGHTENABLE1 (FLAG_FLUSHBEFOREONCHANGE),
  CommandTableEntry.mk GE_CMD_LIGHTENABLE2 (FLAG_FLUSHBEFOREONCHANGE),
  CommandTableEntry.mk GE_CMD_LIGHTENABLE3 (FLAG_FLUSHBEFOREONCHANGE),
  CommandTableEntry.mk GE_CMD_LIGHTTYPE0 (FLAG_FLUSHBEFOREONCHANGE),
  CommandTableEntry.mk GE_CMD_LIGHTTYPE1 (FLAG_FLUSHBEFOREONCHANGE),
  CommandTableEntry.mk GE_CMD_LIGHTTYPE2 (FLAG_FLUSHBEFOREONCHANGE),
  CommandTableEntry.mk GE_CMD_LIGHTTYPE3 (FLAG_FLUSHBEFOREONCHANGE)
]

/-- Rows 65 to 96 of the static table, in source order. -/
def commandTable2 (usingGLES2 : Bool) : List CommandTableEntry := [
  CommandTableEntry.mk GE_CMD_MATERIALUPDATE (FLAG_FLUSHBEFOREONCHANGE),
  CommandTableEntry.mk GE_CMD_LIGHTMODE (FLAG_FLUSHBEFOREONCHANGE),
  CommandTableEntry.mk GE_CMD_TEXFILTER (FLAG_FLUSHBEFOREONCHANGE ||| FLAG_EXECUTEONCHANGE),
  CommandTableEntry.mk GE_CMD_TEXWRAP (FLAG_FLUSHBEFOREONCHANGE ||| FLAG_EXECUTEONCHANGE),
  CommandTableEntry.mk GE_CMD_ALPHATEST (FLAG_FLUSHBEFOREONCHANGE ||| FLAG_EXECUTEONCHANGE),
  CommandTableEntry.mk GE_CMD_COLORREF (FLAG_FLUSHBEFOREONCHANGE ||| FLAG_EXECUTEONCHANGE),
  CommandTableEntry.mk GE_CMD_TEXENVCOLOR (FLAG_FLUSHBEFOREONCHANGE ||| FLAG_EXECUTEONCHANGE),
  CommandTableEntry.mk GE_CMD_OFFSETX (FLAG_FLUSHBEFOREONCHANGE),
  CommandTableEntry.mk GE_CMD_OFFSETY (FLAG_FLUSHBEFOREONCHANGE),
  CommandTableEntry.mk GE_CMD_CULL (FLAG_FLUSHBEFOREONCHANGE),
  CommandTableEntry.mk GE_CMD_CULLFACEENABLE (FLAG_FLUSHBEFOREONCHANGE),
  CommandTableEntry.mk GE_CMD_DITHERENABLE (FLAG_FLUSHBEFOREONCHANGE),
  CommandTableEntry.mk GE_CMD_STENCILOP (FLAG_FLUSHBEFOREONCHANGE),
  CommandTableEntry.mk GE_CMD_STENCILTEST (FLAG_FLUSHBEFOREONCHANGE ||| FLAG_EXECUTEONCHANGE),
  CommandTableEntry.mk GE_CMD_STENCILTESTENABLE (FLAG_FLUSHBEFOREONCHANGE),
  CommandTableEntry.mk GE_CMD_ALPHABLENDENABLE (FLAG_FLUSHBEFOREONCHANGE),
  CommandTableEntry.mk GE_CMD_BLENDMODE (FLAG_FLUSHBEFOREONCHANGE),
  CommandTableEntry.mk GE_CMD_BLENDFIXEDA (FLAG_FLUSHBEFOREONCHANGE),
  CommandTableEntry.mk GE_CMD_BLENDFIXEDB (FLAG_FLUSHBEFOREONCHANGE),
  CommandTableEntry.mk GE_CMD_MASKRGB (FLAG_FLUSHBEFOREONCHANGE),
  CommandTableEntry.mk GE_CMD_MASKALPHA (FLAG_FLUSHBEFOREONCHANGE),
  CommandTableEntry.mk GE_CMD_ZTEST (FLAG_FLUSHBEFOREONCHANGE),
  CommandTableEntry.mk GE_CMD_ZTESTENABLE (FLAG_FLUSHBEFOREONCHANGE),
  CommandTableEntry.mk GE_CMD_ZWRITEDISABLE (FLAG_FLUSHBEFOREONCHANGE),
  CommandTableEntry.mk GE_CMD_LOGICOP (if usingGLES2 then 0 else FLAG_FLUSHBEFOREONCHANGE),
  CommandTableEntry.mk GE_CMD_LOGICOPENABLE (if usingGLES2 then 0 else FLAG_FLUSHBEFOREONCHANGE),
  CommandTableEntry.mk GE_CMD_ANTIALIASENABLE (FLAG_FLUSHBEFOREONCHANGE),
  CommandTableEntry.mk GE_CMD_MORPHWEIGHT0 (FLAG_FLUSHBEFOREONCHANGE ||| FLAG_EXECUTEONCHANGE),
  CommandTableEntry.mk GE_CMD_MORPHWEIGHT1 (FLAG_FLUSHBEFOREONCHANGE ||| FLAG_EXECUTEONCHANGE),
  CommandTableEntry.mk GE_CMD_MORPHWEIGHT2 (FLAG_FLUSHBEFOREONCHANGE ||| FLAG_EXECUTEONCHANGE),
  CommandTableEntry.mk GE_CMD_MORPHWEIGHT3 (FLAG_FLUSHBEFOREONCHANGE ||| FLAG_EXECUTEONCHANGE),
  CommandTableEntry.mk GE_CMD_MORPHWEIGHT4 (FLAG_FLUSHBEFOREONCHANGE ||| FLAG_EXECUTEONCHANGE)
]

/-- Rows 97 to 128 of the static table, in source order. -/
def commandTable3 : List CommandTableEntry := [
  CommandTableEntry.mk GE_CMD_MORPHWEIGHT5 (FLAG_FLUSHBEFOREONCHANGE ||| FLAG_EXECUTEONCHANGE),
  CommandTableEntry.mk GE_CMD_MORPHWEIGHT6 (FLAG_FLUSHBEFOREONCHANGE ||| FLAG_EXECUTEONCHANGE),
  CommandTableEntry.mk GE_CMD_MORPHWEIGHT7 (FLAG_FLUSHBEFOREONCHANGE ||| FLAG_EXECUTEONCHANGE),
  CommandTableEntry.mk GE_CMD_PATCHDIVISION (FLAG_FLUSHBEFOREONCHANGE),
  CommandTableEntry.mk GE_CMD_PATCHPRIMITIVE (FLAG_FLUSHBEFOREONCHANGE),
  CommandTableEntry.mk GE_CMD_PATCHFACING (FLAG_FLUSHBEFOREONCHANGE),
  CommandTableEntry.mk GE_CMD_PATCHCULLENABLE (FLAG_FLUSHBEFOREONCHANGE),
  CommandTableEntry.mk GE_CMD_VIEWPORTX1 (FLAG_FLUSHBEFOREONCHANGE ||| FLAG_EXECUTEONCHANGE),
  CommandTableEntry.mk GE_CMD_VIEWPORTY1 (FLAG_FLUSHBEFOREONCHANGE ||| FLAG_EXECUTEONCHANGE),
  CommandTableEntry.mk GE_CMD_VIEWPORTX2 (FLAG_FLUSHBEFOREONCHANGE ||| FLAG_EXECUTEONCHANGE),
  CommandTableEntry.mk GE_CMD_VIEWPORTY2 (FLAG_FLUSHBEFOREONCHANGE ||| FLAG_EXECUTEONCHANGE),
  CommandTableEntry.mk GE_CMD_VIEWPORTZ1 (FLAG_FLUSHBEFOREONCHANGE ||| FLAG_EXECUTEONCHANGE),
  CommandTableEntry.mk GE_CMD_VIEWPORTZ2 (FLAG_FLUSHBEFOREONCHANGE ||| FLAG_EXECUTEONCHANGE),
  CommandTableEntry.mk GE_CMD_REGION1 (FLAG_FLUSHBEFOREONCHANGE ||| FLAG_EXECUTEONCHANGE),
  CommandTableEntry.mk GE_CMD_REGION2 (FLAG_FLUSHBEFOREONCHANGE ||| FLAG_EXECUTEONCHANGE),
  CommandTableEntry.mk GE_CMD_SCISSOR1 (FLAG_FLUSHBEFOREONCHANGE ||| FLAG_EXECUTEONCHANGE),
  CommandTableEntry.mk GE_CMD_SCISSOR2 (FLAG_FLUSHBEFOREONCHANGE ||| FLAG_EXECUTEONCHANGE),
  CommandTableEntry.mk GE_CMD_AMBIENTCOLOR (FLAG_FLUSHBEFOREONCHANGE ||| FLAG_EXECUTEONCHANGE),
  CommandTableEntry.mk GE_CMD_AMBIENTALPHA (FLAG_FLUSHBEFOREONCHANGE ||| FLAG_EXECUTEONCHANGE),
  CommandTableEntry.mk GE_CMD_MATERIALDIFFUSE (FLAG_FLUSHBEFOREONCHANGE ||| FLAG_EXECUTEONCHANGE),
  CommandTableEntry.mk GE_CMD_MATERIALEMISSIVE (FLAG_FLUSHBEFOREONCHANGE ||| FLAG_EXECUTEONCHANGE),
  CommandTableEntry.mk GE_CMD_MATERIALAMBIENT (FLAG_FLUSHBEFOREONCHANGE ||| FLAG_EXECUTEONCHANGE),
  CommandTableEntry.mk GE_CMD_MATERIALALPHA (FLAG_FLUSHBEFOREONCHANGE ||| FLAG_EXECUTEONCHANGE),
  CommandTableEntry.mk GE_CMD_MATERIALSPECULAR (FLAG_FLUSHBEFOREONCHANGE ||| FLAG_EXECUTEONCHANGE),
  CommandTableEntry.mk GE_CMD_MATERIALSPECULARCOEF (FLAG_FLUSHBEFOREONCHANGE ||| FLAG_EXECUTEONCHANGE),
  CommandTableEntry.mk GE_CMD_LX0 (FLAG_FLUSHBEFOREONCHANGE ||| FLAG_EXECUTEONCHANGE),
  CommandTableEntry.mk GE_CMD_LY0 (FLAG_FLUSHBEFOREONCHANGE ||| FLAG_EXECUTEONCHANGE),
  CommandTableEntry.mk GE_CMD_LZ0 (FLAG_FLUSHBEFOREONCHANGE ||| FLAG_EXECUTEONCHANGE),
  CommandTableEntry.mk GE_CMD_LX1 (FLAG_FLUSHBEFOREONCHANGE ||| FLAG_EXECUTEONCHANGE),
  CommandTableEntry.mk GE_CMD_LY1 (FLAG_FLUSHBEFOREONCHANGE ||| FLAG_EXECUTEONCHANGE),
  CommandTableEntry.mk GE_CMD_LZ1 (FLAG_FLUSHBEFOREONCHANGE ||| FLAG_EXECUTEONCHANGE),
  CommandTableEntry.mk GE_CMD_LX2 (FLAG_FLUSHBEFOREONCHANGE ||| FLAG_EXECUTEONCHANGE)
]

/-- Rows 129 to 160 of the static table, in source order. -/
def commandTable4 : List CommandTableEntry := [
  CommandTableEntry.mk GE_CMD_LY2 (FLAG_FLUSHBEFOREONCHANGE ||| FLAG_EXECUTEONCHANGE),
  CommandTableEntry.mk GE_CMD_LZ2 (FLAG_FLUSHBEFOREONCHANGE ||| FLAG_EXECUTEONCHANGE),
  CommandTableEntry.mk GE_CMD_LX3 (FLAG_FLUSHBEFOREONCHANGE ||| FLAG_EXECUTEONCHANGE),
  CommandTableEntry.mk GE_CMD_LY3 (FLAG_FLUSHBEFOREONCHANGE ||| FLAG_EXECUTEONCHANGE),
  CommandTableEntry.mk GE_CMD_LZ3 (FLAG_FLUSHBEFOREONCHANGE ||| FLAG_EXECUTEONCHANGE),
  CommandTableEntry.mk GE_CMD_LDX0 (FLAG_FLUSHBEFOREONCHANGE ||| FLAG_EXECUTEONCHANGE),
  CommandTableEntry.mk GE_CMD_LDY0 (FLAG_FLUSHBEFOREONCHANGE ||| FLAG_EXECUTEONCHANGE),
  CommandTableEntry.mk GE_CMD_LDZ0 (FLAG_FLUSHBEFOREONCHANGE ||| FLAG_EXECUTEONCHANGE),
  CommandTableEntry.mk GE_CMD_LDX1 (FLAG_FLUSHBEFOREONCHANGE ||| FLAG_EXECUTEONCHANGE),
  CommandTableEntry.mk GE_CMD_LDY1 (FLAG_FLUSHBEFOREONCHANGE ||| FLAG_EXECUTEONCHANGE),
  CommandTableEntry.mk GE_CMD_LDZ1 (FLAG_FLUSHBEFOREONCHANGE ||| FLAG_EXECUTEONCHANGE),
  CommandTableEntry.mk GE_CMD_LDX2 (FLAG_FLUSHBEFOREONCHANGE ||| FLAG_EXECUTEONCHANGE),
  CommandTableEntry.mk GE_CMD_LDY2 (FLAG_FLUSHBEFOREONCHANGE ||| FLAG_EXECUTEONCHANGE),
  CommandTableEntry.mk GE_CMD_LDZ2 (FLAG_FLUSHBEFOREONCHANGE ||| FLAG_EXECUTEONCHANGE),
  CommandTableEntry.mk GE_CMD_LDX3 (FLAG_FLUSHBEFOREONCHANGE ||| FLAG_EXECUTEONCHANGE),
  CommandTableEntry.mk GE_CMD_LDY3 (FLAG_FLUSHBEFOREONCHANGE ||| FLAG_EXECUTEONCHANGE),
  CommandTableEntry.mk GE_CMD_LDZ3 (FLAG_FLUSHBEFOREONCHANGE ||| FLAG_EXECUTEONCHANGE),
  CommandTableEntry.mk GE_CMD_LKA0 (FLAG_FLUSHBEFOREONCHANGE ||| FLAG_EXECUTEONCHANGE),
  CommandTableEntry.mk GE_CMD_LKB0 (FLAG_FLUSHBEFOREONCHANGE ||| FLAG_EXECUTEONCHANGE),
  CommandTableEntry.mk GE_CMD_LKC0 (FLAG_FLUSHBEFOREONCHANGE ||| FLAG_EXECUTEONCHANGE),
  CommandTableEntry.mk GE_CMD_LKA1 (FLAG_FLUSHBEFOREONCHANGE ||| FLAG_EXECUTEONCHANGE),
  CommandTableEntry.mk GE_CMD_LKB1 (FLAG_FLUSHBEFOREONCHANGE ||| FLAG_EXECUTEONCHANGE),
  CommandTableEntry.mk GE_CMD_LKC1 (FLAG_FLUSHBEFOREONCHANGE ||| FLAG_EXECUTEONCHANGE),
  CommandTableEntry.mk GE_CMD_LKA2 (FLAG_FLUSHBEFOREONCHANGE ||| FLAG_EXECUTEONCHANGE),
  CommandTableEntry.mk GE_CMD_LKB2 (FLAG_FLUSHBEFOREONCHANGE ||| FLAG_EXECUTEONCHANGE),
  CommandTableEntry.mk GE_CMD_LKC2 (FLAG_FLUSHBEFOREONCHANGE ||| FLAG_EXECUTEONCHANGE),
  CommandTableEntry.mk GE_CMD_LKA3 (FLAG_FLUSHBEFOREONCHANGE ||| FLAG_EXECUTEONCHANGE),
  CommandTableEntry.mk GE_CMD_LKB3 (FLAG_FLUSHBEFOREONCHANGE ||| FLAG_EXECUTEONCHANGE),
  CommandTableEntry.mk GE_CMD_LKC3 (FLAG_FLUSHBEFOREONCHANGE ||| FLAG_EXECUTEONCHANGE),
  CommandTableEntry.mk GE_CMD_LKS0 (FLAG_FLUSHBEFOREONCHANGE ||| FLAG_EXECUTEONCHANGE),
  CommandTableEntry.mk GE_CMD_LKS1 (FLAG_FLUSHBEFOREONCHANGE ||| FLAG_EXECUTEONCHANGE),
  CommandTableEntry.mk GE_CMD_LKS2 (FLAG_FLUSHBEFOREONCHANGE ||| FLAG_EXECUTEONCHANGE)
]

/-- Rows 161 to 192 of the static table, in source order. -/
def commandTable5 : List CommandTableEntry := [
  CommandTableEntry.mk GE_CMD_LKS3 (FLAG_FLUSHBEFOREONCHANGE ||| FLAG_EXECUTEONCHANGE),
  CommandTableEntry.mk GE_CMD_LKO0 (FLAG_FLUSHBEFOREONCHANGE ||| FLAG_EXECUTEONCHANGE),
  CommandTableEntry.mk GE_CMD_LKO1 (FLAG_FLUSHBEFOREONCHANGE ||| FLAG_EXECUTEONCHANGE),
  CommandTableEntry.mk GE_CMD_LKO2 (FLAG_FLUSHBEFOREONCHANGE ||| FLAG_EXECUTEONCHANGE),
  CommandTableEntry.mk GE_CMD_LKO3 (FLAG_FLUSHBEFOREONCHANGE ||| FLAG_EXECUTEONCHANGE),
  CommandTableEntry.mk GE_CMD_LAC0 (FLAG_FLUSHBEFOREONCHANGE ||| FLAG_EXECUTEONCHANGE),
  CommandTableEntry.mk GE_CMD_LDC0 (FLAG_FLUSHBEFOREONCHANGE ||| FLAG_EXECUTEONCHANGE),
  CommandTableEntry.mk GE_CMD_LSC0 (FLAG_FLUSHBEFOREONCHANGE ||| FLAG_EXECUTEONCHANGE),
  CommandTableEntry.mk GE_CMD_LAC1 (FLAG_FLUSHBEFOREONCHANGE ||| FLAG_EXECUTEONCHANGE),
  CommandTableEntry.mk GE_CMD_LDC1 (FLAG_FLUSHBEFOREONCHANGE ||| FLAG_EXECUTEONCHANGE),
  CommandTableEntry.mk GE_CMD_LSC1 (FLAG_FLUSHBEFOREONCHANGE ||| FLAG_EXECUTEONCHANGE),
  CommandTableEntry.mk GE_CMD_LAC2 (FLAG_FLUSHBEFOREONCHANGE ||| FLAG_EXECUTEONCHANGE),
  CommandTableEntry.mk GE_CMD_LDC2 (FLAG_FLUSHBEFOREONCHANGE ||| FLAG_EXECUTEONCHANGE),
  CommandTableEntry.mk GE_CMD_LSC2 (FLAG_FLUSHBEFOREONCHANGE ||| FLAG_EXECUTEONCHANGE),
  CommandTableEntry.mk GE_CMD_LAC3 (FLAG_FLUSHBEFOREONCHANGE ||| FLAG_EXECUTEONCHANGE),
  CommandTableEntry.mk GE_CMD_LDC3 (FLAG_FLUSHBEFOREONCHANGE ||| FLAG_EXECUTEONCHANGE),
  CommandTableEntry.mk GE_CMD_LSC3 (FLAG_FLUSHBEFOREONCHANGE ||| FLAG_EXECUTEONCHANGE),
  CommandTableEntry.mk GE_CMD_CLIPENABLE (0),
  CommandTableEntry.mk GE_CMD_TEXFLUSH (0),
  CommandTableEntry.mk GE_CMD_TEXLODSLOPE (0),
  CommandTableEntry.mk GE_CMD_TEXLEVEL (FLAG_EXECUTEONCHANGE),
  CommandTableEntry.mk GE_CMD_TEXSYNC (0),
  CommandTableEntry.mk GE_CMD_NOP (0),
  CommandTableEntry.mk GE_CMD_BASE (0),
  CommandTableEntry.mk GE_CMD_TRANSFERSRC (0),
  CommandTableEntry.mk GE_CMD_TRANSFERSRCW (0),
  CommandTableEntry.mk GE_CMD_TRANSFERDST (0),
  CommandTableEntry.mk GE_CMD_TRANSFERDSTW (0),
  CommandTableEntry.mk GE_CMD_TRANSFERSRCPOS (0),
  CommandTableEntry.mk GE_CMD_TRANSFERDSTPOS (0),
  CommandTableEntry.mk GE_CMD_TRANSFERSIZE (0),
  CommandTableEntry.mk GE_CMD_OFFSETADDR (FLAG_EXECUTE)
]

/-- Rows 193 to 224 of the static table, in source order. -/
def commandTable6 : List CommandTableEntry := [
  CommandTableEntry.mk GE_CMD_ORIGIN (FLAG_EXECUTE),
  CommandTableEntry.mk GE_CMD_PRIM (FLAG_EXECUTE),
  CommandTableEntry.mk GE_CMD_JUMP (FLAG_EXECUTE),
  CommandTableEntry.mk GE_CMD_CALL (FLAG_EXECUTE),
  CommandTableEntry.mk GE_CMD_RET (FLAG_EXECUTE),
  CommandTableEntry.mk GE_CMD_END (FLAG_EXECUTE),
  CommandTableEntry.mk GE_CMD_VADDR (FLAG_EXECUTE),
  CommandTableEntry.mk GE_CMD_IADDR (FLAG_EXECUTE),
  CommandTableEntry.mk GE_CMD_BJUMP (FLAG_EXECUTE),
  CommandTableEntry.mk GE_CMD_BOUNDINGBOX (FLAG_EXECUTE),
  CommandTableEntry.mk GE_CMD_VERTEXTYPE (FLAG_FLUSHBEFOREONCHANGE ||| FLAG_EXECUTEONCHANGE),
  CommandTableEntry.mk GE_CMD_BEZIER (FLAG_FLUSHBEFORE ||| FLAG_EXECUTE),
  CommandTableEntry.mk GE_CMD_SPLINE (FLAG_FLUSHBEFORE ||| FLAG_EXECUTE),
  CommandTableEntry.mk GE_CMD_SIGNAL (FLAG_FLUSHBEFORE),
  CommandTableEntry.mk GE_CMD_FINISH (FLAG_FLUSHBEFORE),
  CommandTableEntry.mk GE_CMD_LOADCLUT (FLAG_FLUSHBEFOREONCHANGE ||| FLAG_EXECUTE),
  CommandTableEntry.mk GE_CMD_TRANSFERSTART (FLAG_FLUSHBEFORE ||| FLAG_EXECUTE),
  CommandTableEntry.mk GE_CMD_DITH0 (0),
  CommandTableEntry.mk GE_CMD_DITH1 (0),
  CommandTableEntry.mk GE_CMD_DITH2 (0),
  CommandTableEntry.mk GE_CMD_DITH3 (0),
  CommandTableEntry.mk GE_CMD_WORLDMATRIXNUMBER (FLAG_EXECUTE),
  CommandTableEntry.mk GE_CMD_WORLDMATRIXDATA (FLAG_EXECUTE),
  CommandTableEntry.mk GE_CMD_VIEWMATRIXNUMBER (FLAG_EXECUTE),
  CommandTableEntry.mk GE_CMD_VIEWMATRIXDATA (FLAG_EXECUTE),
  CommandTableEntry.mk GE_CMD_PROJMATRIXNUMBER (FLAG_EXECUTE),
  CommandTableEntry.mk GE_CMD_PROJMATRIXDATA (FLAG_EXECUTE),
  CommandTableEntry.mk GE_CMD_TGENMATRIXNUMBER (FLAG_EXECUTE),
  CommandTableEntry.mk GE_CMD_TGENMATRIXDATA (FLAG_EXECUTE),
  CommandTableEntry.mk GE_CMD_BONEMATRIXNUMBER (FLAG_EXECUTE),
  CommandTableEntry.mk GE_CMD_BONEMATRIXDATA (FLAG_EXECUTE),
  CommandTableEntry.mk GE_CMD_UNKNOWN_03 (FLAG_EXECUTE)
]

/-- Rows 225 to 256 of the static table, in source order. -/
def commandTable7 : List CommandTableEntry := [
  CommandTableEntry.mk GE_CMD_UNKNOWN_0D (FLAG_EXECUTE),
  CommandTableEntry.mk GE_CMD_UNKNOWN_11 (FLAG_EXECUTE),
  CommandTableEntry.mk GE_CMD_UNKNOWN_29 (FLAG_EXECUTE),
  CommandTableEntry.mk GE_CMD_UNKNOWN_34 (FLAG_EXECUTE),
  CommandTableEntry.mk GE_CMD_UNKNOWN_35 (FLAG_EXECUTE),
  CommandTableEntry.mk GE_CMD_UNKNOWN_39 (FLAG_EXECUTE),
  CommandTableEntry.mk GE_CMD_UNKNOWN_4E (FLAG_EXECUTE),
  CommandTableEntry.mk GE_CMD_UNKNOWN_4F (FLAG_EXECUTE),
  CommandTableEntry.mk GE_CMD_UNKNOWN_52 (FLAG_EXECUTE),
  CommandTableEntry.mk GE_CMD_UNKNOWN_59 (FLAG_EXECUTE),
  CommandTableEntry.mk GE_CMD_UNKNOWN_5A (FLAG_EXECUTE),
  CommandTableEntry.mk GE_CMD_UNKNOWN_B6 (FLAG_EXECUTE),
  CommandTableEntry.mk GE_CMD_UNKNOWN_B7 (FLAG_EXECUTE),
  CommandTableEntry.mk GE_CMD_UNKNOWN_D1 (FLAG_EXECUTE),
  CommandTableEntry.mk GE_CMD_UNKNOWN_ED (FLAG_EXECUTE),
  CommandTableEntry.mk GE_CMD_UNKNOWN_EF (FLAG_EXECUTE),
  CommandTableEntry.mk GE_CMD_UNKNOWN_F0 (FLAG_EXECUTE),
  CommandTableEntry.mk GE_CMD_UNKNOWN_F1 (FLAG_EXECUTE),
  CommandTableEntry.mk GE_CMD_UNKNOWN_F2 (FLAG_EXECUTE),
  CommandTableEntry.mk GE_CMD_UNKNOWN_F3 (FLAG_EXECUTE),
  CommandTableEntry.mk GE_CMD_UNKNOWN_F4 (FLAG_EXECUTE),
  CommandTableEntry.mk GE_CMD_UNKNOWN_F5 (FLAG_EXECUTE),
  CommandTableEntry.mk GE_CMD_UNKNOWN_F6 (FLAG_EXECUTE),
  CommandTableEntry.mk GE_CMD_UNKNOWN_F7 (FLAG_EXECUTE),
  CommandTableEntry.mk GE_CMD_UNKNOWN_F8 (FLAG_EXECUTE),
  CommandTableEntry.mk GE_CMD_UNKNOWN_F9 (FLAG_EXECUTE),
  CommandTableEntry.mk GE_CMD_UNKNOWN_FA (FLAG_EXECUTE),
  CommandTableEntry.mk GE_CMD_UNKNOWN_FB (FLAG_EXECUTE),
  CommandTableEntry.mk GE_CMD_UNKNOWN_FC (FLAG_EXECUTE),
  CommandTableEntry.mk GE_CMD_UNKNOWN_FD (FLAG_EXECUTE),
  CommandTableEntry.mk GE_CMD_UNKNOWN_FE (FLAG_EXECUTE),
  CommandTableEntry.mk GE_CMD_UNKNOWN_FF (FLAG_EXECUTE)
]

/-- The static `commandTable`, row by row in source order.  `usingGLES2` selects
the `#ifndef USING_GLES2` alternative for `LOGICOP` and `LOGICOPENABLE`;
`{GE_CMD_DITH0}` leaves `flags` zero-initialised. -/
def commandTable (usingGLES2 : Bool) : List CommandTableEntry :=
  commandTable0 ++ commandTable1 ++ commandTable2 usingGLES2 ++ commandTable3 ++ commandTable4 ++ commandTable5 ++ commandTable6 ++ commandTable7

/-! ## Construction of the flag table (`GLES_GPU::GLES_GPU`) -/

/-- State of the constructor's seeding loop: the `std::set<u8> dupeCheck`, the
array `commandFlags_`, and the opcodes for which "Command table Dupe" was logged. -/
structure TableBuild where
  dupeCheck : List Nat
  commandFlags_ : Nat → Nat
  dupeLog : List Nat

/-- The state before the loop: empty set, `memset(commandFlags_, 0, ...)`. -/
def TableBuild.init : TableBuild :=
  { dupeCheck := [], commandFlags_ := fun _ => 0, dupeLog := [] }

/-- One iteration of `for (i < ARRAY_SIZE(commandTable))`. -/
def seedStep (b : TableBuild) (e : CommandTableEntry) : TableBuild :=
  let cmd := e.cmd
  { dupeCheck := if cmd ∈ b.dupeCheck then b.dupeCheck else b.dupeCheck ++ [cmd],
    dupeLog := if cmd ∈ b.dupeCheck then b.dupeLog ++ [cmd] else b.dupeLog,
    commandFlags_ := Function.update b.commandFlags_ cmd (b.commandFlags_ cmd ||| e.flags) }

/-- The whole seeding loop over a table. -/
def seedTable (table : List CommandTableEntry) : TableBuild :=
  table.foldl seedStep TableBuild.init

/-- The second loop: every `i < 0xEF` not found in `dupeCheck` is logged as
"Command missing from table". -/
def missingLog (b : TableBuild) : List Nat :=
  (List.range 0xEF).filter (fun i => decide (i ∉ b.dupeCheck))

/-- The step `commandFlags_[cmd] &= ~FLAG_FLUSHBEFOREONCHANGE` on a `u8` entry. -/
def clearFlushOnChange (flags : Nat → Nat) (cmd : Nat) : Nat → Nat :=
  Function.update flags cmd (flags cmd &&& (0xFF ^^^ FLAG_FLUSHBEFOREONCHANGE))

/-- The configuration part of the constructor, applied to a seeded array. -/
def applyConfig (bPrescaleUV bSoftwareSkinning : Bool) (flags : Nat → Nat) : Nat → Nat :=
  let f1 :=
    if bPrescaleUV then
      clearFlushOnChange (clearFlushOnChange (clearFlushOnChange (clearFlushOnChange flags
        GE_CMD_TEXSCALEU) GE_CMD_TEXSCALEV) GE_CMD_TEXOFFSETU) GE_CMD_TEXOFFSETV
    else flags
  if bSoftwareSkinning then clearFlushOnChange f1 GE_CMD_VERTEXTYPE else f1

/-- The array `commandFlags_` as the constructor leaves it, for a given seed table. -/
def constructFlags (bPrescaleUV bSoftwareSkinning : Bool) (table : List CommandTableEntry) :
    Nat → Nat :=
  applyConfig bPrescaleUV bSoftwareSkinning (seedTable table).commandFlags_

/-- The array `commandFlags_` of a constructed `GLES_GPU`. -/
def commandFlagsOf (bPrescaleUV bSoftwareSkinning usingGLES2 : Bool) : Nat → Nat :=
  constructFlags bPrescaleUV bSoftwareSkinning (commandTable usingGLES2)


/-- The opcodes named by the rows of the static table, in row order. -/
def tableOpcodes (usingGLES2 : Bool) : List Nat :=
  (commandTable usingGLES2).map (fun e => e.cmd)

/-- The spec's reading of construction with duplicates: the flags of the last
seed entry naming the opcode, and 0 when no entry names it. -/
def lastWinsFlags (table : List CommandTableEntry) (c : Nat) : Nat :=
  match table.reverse.find? (fun e => decide (e.cmd = c)) with
  | some e => e.flags
  | none => 0

/-- The bitwise OR of the flags of all seed entries naming the opcode. -/
def orFlags (table : List CommandTableEntry) (c : Nat) : Nat :=
  ((table.filter (fun e => decide (e.cmd = c))).map (fun e => e.flags)).foldl
    (fun x y => x ||| y) 0

/-! ## Further constants and types of headers that are not among the sources -/

/-- Modelled from the spec: texture-coordinate format field of a vertex type (ge_constants.h). -/
abbrev GE_VTYPE_TC_MASK : Nat := 3
/-- Modelled from the spec: index-format field of a vertex type, "non-indexed" (ge_constants.h). -/
abbrev GE_VTYPE_IDX_NONE : Nat := 0 <<< 11
/-- Modelled from the spec: index-format field of a vertex type, 8-bit indices (ge_constants.h). -/
abbrev GE_VTYPE_IDX_8BIT : Nat := 1 <<< 11
/-- Modelled from the spec: index-format field of a vertex type, 16-bit indices (ge_constants.h). -/
abbrev GE_VTYPE_IDX_16BIT : Nat := 2 <<< 11
/-- Modelled from the spec: index-format field of a vertex type (ge_constants.h). -/
abbrev GE_VTYPE_IDX_MASK : Nat := 3 <<< 11
/-- Modelled from the spec: weight-count field of a vertex type (ge_constants.h). -/
abbrev GE_VTYPE_WEIGHTCOUNT_MASK : Nat := 7 <<< 14
/-- Modelled from the spec: through-mode bit of a vertex type (ge_constants.h). -/
abbrev GE_VTYPE_THROUGH_MASK : Nat := 1 <<< 23
/-- Modelled from the spec: primitive type `LINES` (ge_constants.h). -/
abbrev GE_PRIM_LINES : Nat := 1
/-- Modelled from the spec: primitive type `LINE_STRIP` (ge_constants.h). -/
abbrev GE_PRIM_LINE_STRIP : Nat := 2
/-- Modelled from the spec: primitive type `TRIANGLES` (ge_constants.h). -/
abbrev GE_PRIM_TRIANGLES : Nat := 3
/-- Modelled from the spec: patch primitive "triangles" (ge_constants.h). -/
abbrev GE_PATCHPRIM_TRIANGLES : Nat := 0
/-- Modelled from the spec: pixel format `8888` (ge_constants.h). -/
abbrev GE_FORMAT_8888 : Nat := 3
/-- Modelled from the spec: skip-draw flag "skip this frame" (GPUState.h). -/
abbrev SKIPDRAW_SKIPFRAME : Nat := 1
/-- Modelled from the spec: skip-draw flag "framebuffer is not displayed" (GPUState.h). -/
abbrev SKIPDRAW_NON_DISPLAYED_FB : Nat := 2

/-- Modelled from the spec: the kind of a cache invalidation (`GPUInvalidationType`,
GPUInterface.h). -/
inductive GPUInvalidationType where
  | GPU_INVALIDATE_ALL
  | GPU_INVALIDATE_HINT
  | GPU_INVALIDATE_SAFE
deriving DecidableEq, Repr

/-- Modelled from the spec: the closed set of uniform dirty groups (§6; the `DIRTY_*`
flags of ShaderManager.h).  `LIGHT l` stands for `DIRTY_LIGHT0 << l` and
`BONEMATRIX n` for `DIRTY_BONEMATRIX0 << n`. -/
inductive DirtyGroup where
  | FOGCOLOR | FOGCOEF | UVSCALEOFFSET | AMBIENT
  | MATDIFFUSE | MATEMISSIVE | MATAMBIENTALPHA | MATSPECULAR
  | LIGHT (l : Nat)
  | WORLDMATRIX | VIEWMATRIX | PROJMATRIX | TEXMATRIX
  | BONEMATRIX (n : Nat)
  | COLORMASK | ALPHACOLORREF | TEXENV | STENCILREPLACEVALUE | ALL
deriving DecidableEq, Repr

/-- Modelled from the spec: `getFloat24` (GPUState.h): the 24-bit payload shifted
left by 8 and reinterpreted as a float (§9).  The float is kept as its bit pattern. -/
def getFloat24 (data : Nat) : Nat := (data <<< 8) % 2 ^ 32

/-- Modelled from the spec: the state mirror `gstate` (GPUState.h, §3): 256 command
words and the five matrix files, each matrix entry kept as its 32-bit pattern.  The
named registers of the source are the slots of their opcode (`gstate.vertType` is
`cmdmem[GE_CMD_VERTEXTYPE]`, `gstate.worldmtxnum` is `cmdmem[GE_CMD_WORLDMATRIXNUMBER]`,
...), the overlay the constructor's check on `gstate.transferstart` relies on. -/
structure GPUgstate where
  cmdmem : Nat → Nat
  worldMatrix : Nat → Nat
  viewMatrix : Nat → Nat
  projMatrix : Nat → Nat
  tgenMatrix : Nat → Nat
  boneMatrix : Nat → Nat

/-- Modelled from the spec: the cached UV scale and offset (`gstate_c.uv`). -/
structure UVScale where
  uScale : Nat
  vScale : Nat
  uOff : Nat
  vOff : Nat
deriving DecidableEq, Repr

/-- Modelled from the spec: the derived state `gstate_c` (GPUState.h, §3).  Floats
are kept as bit patterns; a light colour channel is kept as the byte that the source
scales by `1/255`. -/
structure GPUStateCache where
  vertexAddr : Nat
  indexAddr : Nat
  offsetAddr : Nat
  textureChanged : Bool
  framebufChanged : Bool
  skipDrawReason : Nat
  curTextureWidth : Nat
  curTextureHeight : Nat
  uv : UVScale
  lightpos : Nat → Nat → Nat
  lightdir : Nat → Nat → Nat
  lightatt : Nat → Nat → Nat
  lightspotCoef : Nat → Nat
  lightangle : Nat → Nat
  lightColor : Nat → Nat → Nat → Nat
  morphWeights : Nat → Nat

/-- A call received by one of the collaborating subsystems.  `Flush` is
`transformDraw_.Flush()` (also reached through `GLES_GPU::Flush()`), recorded together with
the register state under which it is issued.  Pointers into emulated memory are
represented by the emulated address. -/
inductive Call where
  | Flush (gstate : GPUgstate)
  | DirtyUniform (what : DirtyGroup)
  | SetRenderFrameBuffer
  | SetupVertexDecoder (vertType : Nat)
  | SubmitPrim (verts : Nat) (inds : Option Nat) (prim count vertType : Nat)
  | SubmitBezier (control_points : Nat) (indices : Option Nat)
      (ucount vcount patchPrim vertType : Nat)
  | SubmitSpline (control_points : Nat) (indices : Option Nat)
      (ucount vcount utype vtype patchPrim vertType : Nat)
  | TestBoundingBox (control_points count vertType : Nat)
  | LoadClut
  | NotifyBlockTransfer (dstBasePtr srcBasePtr : Nat)
  | Invalidate (addr size : Nat) (kind : GPUInvalidationType)
  | InvalidateAll (kind : GPUInvalidationType)
  | UpdateFromMemory (addr size : Nat) (safe : Bool)
  | DrawPixels (framebuf pixelFormat linesize : Nat)

/-- Whether a call is a flush of the transform/draw engine. -/
def Call.isFlush : Call → Bool
  | Call.Flush _ => true
  | _ => false

/-- Whether a call marks the given uniform group dirty. -/
def Call.isDirty (g : DirtyGroup) : Call → Bool
  | Call.DirtyUniform w => decide (w = g)
  | _ => false

/-- Whether a call marks some uniform group dirty. -/
def Call.isDirtyUniform : Call → Bool
  | Call.DirtyUniform _ => true
  | _ => false

/-- The display list being run: its program counter and bounding-box result. -/
structure DisplayList where
  pc : Nat
  bboxResult : Bool
deriving DecidableEq, Repr

/-- The state the interpreter works on: the flag table `commandFlags_`, the mirror
`gstate`, the derived state `gstate_c`, emulated memory (one byte per address), the
current display list, `downcount`, the cycle accumulators `cyclesExecuted` and
`gpuStats.vertexGPUCycles` (32-bit signed `int`s: every addition to them wraps, see
`toS32`), and the calls made to the collaborating subsystems so far, oldest first. -/
structure GPU where
  commandFlags_ : Nat → Nat
  gstate : GPUgstate
  gstate_c : GPUStateCache
  memory : Nat → Nat
  list : DisplayList
  downcount : Int
  cyclesExecuted : Int
  vertexGPUCycles : Int
  calls : List Call

/-- What the embedding takes from outside this file: the configuration switches, the
build alternative, and the values returned by code that is not among the sources
(memory map, `gstate` accessors, collaborating subsystems, `GPUCommon`). -/
structure Env where
  bPrescaleUV : Bool
  bSoftwareSkinning : Bool
  usingGLES2 : Bool
  IsValidAddress : Nat → Bool
  IsRAMAddress : Nat → Bool
  IsVRAMAddress : Nat → Bool
  getRelativeAddress : GPUgstate → GPUStateCache → Nat → Nat
  isAntiAliasEnabled : GPUgstate → Bool
  isSkinningEnabled : GPUgstate → Bool
  getPatchPrimitiveType : GPUgstate → Nat
  getTextureWidth : GPUgstate → Nat → Nat
  getTextureHeight : GPUgstate → Nat → Nat
  getTransferSrcAddress : GPUgstate → Nat
  getTransferSrcStride : GPUgstate → Nat
  getTransferDstAddress : GPUgstate → Nat
  getTransferDstStride : GPUgstate → Nat
  getTransferSrcX : GPUgstate → Nat
  getTransferSrcY : GPUgstate → Nat
  getTransferDstX : GPUgstate → Nat
  getTransferDstY : GPUgstate → Nat
  getTransferWidth : GPUgstate → Nat
  getTransferHeight : GPUgstate → Nat
  getTransferBpp : GPUgstate → Nat
  EstimatePerVertexCost : GPUgstate → Int
  SubmitPrim_bytesRead : (Nat → Nat) → Nat → Option Nat → Nat → Nat → Nat → Nat
  TestBoundingBox : GPUgstate → (Nat → Nat) → Nat → Nat → Nat → Bool
  PrevDisplayFramebufAddr : Nat
  DisplayFramebufAddr : Nat
  GPUCommon_ExecuteOp : Nat → Nat → GPU → GPU

/-! ## State helpers -/

/-- Record a call to a collaborating subsystem. -/
def GPU.call (s : GPU) (c : Call) : GPU := { s with calls := s.calls ++ [c] }

/-- The call `transformDraw_.Flush()` (`GLES_GPU::Flush()`), under the current registers. -/
def GPU.Flush (s : GPU) : GPU := s.call (Call.Flush s.gstate)

/-- The call `shaderManager_->DirtyUniform(what)`. -/
def GPU.DirtyUniform (s : GPU) (what : DirtyGroup) : GPU := s.call (Call.DirtyUniform what)

/-- Store a word in a slot of the mirror: `gstate.cmdmem[cmd] = v`. -/
def GPU.setCmd (s : GPU) (cmd v : Nat) : GPU :=
  { s with gstate := { s.gstate with cmdmem := Function.update s.gstate.cmdmem cmd v } }

/-- The assignment `gstate_c.textureChanged = true`. -/
def GPU.setTextureChanged (s : GPU) : GPU :=
  { s with gstate_c := { s.gstate_c with textureChanged := true } }

/-- The assignments `gstate_c.framebufChanged = true; gstate_c.textureChanged = true`. -/
def GPU.setFramebufChanged (s : GPU) : GPU :=
  { s with gstate_c := { s.gstate_c with framebufChanged := true, textureChanged := true } }

/-- Little-endian 32-bit read `*(const u32 *)(Memory::base + addr)`. -/
def Read_U32 (memory : Nat → Nat) (addr : Nat) : Nat :=
  memory addr % 256 + (memory (addr + 1) % 256) * 2 ^ 8 +
    (memory (addr + 2) % 256) * 2 ^ 16 + (memory (addr + 3) % 256) * 2 ^ 24

/-- The 32-bit value of a C++ expression computed in `int`/`u32` arithmetic. -/
def toU32 (x : Int) : Nat := (x % 2 ^ 32).toNat

/-- The value of a 32-bit pattern stored in an `int`: the representative of `x` modulo
`2^32` in `[-2^31, 2^31)`. -/
def toS32 (x : Int) : Int := (x + 2 ^ 31) % 2 ^ 32 - 2 ^ 31

/-- The call `memcpy(dst, src, n)` on emulated memory (source bytes are read before any
write). -/
def memcpy (memory : Nat → Nat) (dst src n : Nat) : Nat → Nat :=
  fun a => if dst ≤ a ∧ a < dst + n then memory (src + (a - dst)) else memory a

/-! ## Block transfer (`GLES_GPU::DoBlockTransfer`) -/

/-- The registers `DoBlockTransfer` reads at its start. -/
structure TransferRegs where
  srcBasePtr : Nat
  srcStride : Nat
  dstBasePtr : Nat
  dstStride : Nat
  srcX : Nat
  srcY : Nat
  dstX : Nat
  dstY : Nat
  width : Nat
  height : Nat
  bpp : Nat
deriving DecidableEq, Repr

/-- The reads of the transfer registers at the start of `DoBlockTransfer`. -/
def readTransferRegs (env : Env) (g : GPUgstate) : TransferRegs :=
  { srcBasePtr := env.getTransferSrcAddress g, srcStride := env.getTransferSrcStride g,
    dstBasePtr := env.getTransferDstAddress g, dstStride := env.getTransferDstStride g,
    srcX := env.getTransferSrcX g, srcY := env.getTransferSrcY g,
    dstX := env.getTransferDstX g, dstY := env.getTransferDstY g,
    width := env.getTransferWidth g, height := env.getTransferHeight g,
    bpp := env.getTransferBpp g }

/-- The value `srcLastAddr`. -/
def srcLastAddr (r : TransferRegs) : Nat :=
  toU32 (r.srcBasePtr + (((r.height : Int) - 1 + r.srcY) * r.srcStride + (r.srcX + r.width - 1)) * r.bpp)

/-- The value `dstLastAddr`. -/
def dstLastAddr (r : TransferRegs) : Nat :=
  toU32 (r.dstBasePtr + (((r.height : Int) - 1 + r.dstY) * r.dstStride + (r.dstX + r.width - 1)) * r.bpp)

/-- The value `srcLineStartAddr` of row `y`. -/
def srcLineStartAddr (r : TransferRegs) (y : Nat) : Nat :=
  (r.srcBasePtr + ((y + r.srcY) * r.srcStride + r.srcX) * r.bpp) % 2 ^ 32

/-- The value `dstLineStartAddr` of row `y`. -/
def dstLineStartAddr (r : TransferRegs) (y : Nat) : Nat :=
  (r.dstBasePtr + ((y + r.dstY) * r.dstStride + r.dstX) * r.bpp) % 2 ^ 32

/-- The four address checks of `DoBlockTransfer`, in order. -/
def transferValid (env : Env) (r : TransferRegs) : Bool :=
  env.IsValidAddress r.srcBasePtr && env.IsValidAddress r.dstBasePtr &&
    env.IsValidAddress (srcLastAddr r) && env.IsValidAddress (dstLastAddr r)

/-- The copy loop `for (int y = 0; y < height; y++) memcpy(dst, src, width * bpp)`. -/
def copyRows (r : TransferRegs) (memory : Nat → Nat) : Nat → Nat :=
  (List.range r.height).foldl
    (fun m y => memcpy m (dstLineStartAddr r y) (srcLineStartAddr r y) (r.width * r.bpp)) memory

/-- The function `GLES_GPU::DoBlockTransfer` (the debugger's memory checks left out). -/
def DoBlockTransfer (env : Env) (s : GPU) : GPU :=
  let r := readTransferRegs env s.gstate
  if ¬ env.IsValidAddress r.srcBasePtr then s
  else if ¬ env.IsValidAddress r.dstBasePtr then s
  else if ¬ env.IsValidAddress (srcLastAddr r) then s
  else if ¬ env.IsValidAddress (dstLastAddr r) then s
  else
    let s1 : GPU := { s with memory := copyRows r s.memory }
    let s2 := s1.call (Call.NotifyBlockTransfer r.dstBasePtr r.srcBasePtr)
    let s3 := s2.call (Call.Invalidate
      ((r.dstBasePtr + (r.dstY * r.dstStride + r.dstX) * r.bpp) % 2 ^ 32)
      ((r.height * r.dstStride * r.bpp) % 2 ^ 32) GPUInvalidationType.GPU_INVALIDATE_HINT)
    let s4 :=
      if env.IsRAMAddress r.srcBasePtr ∧ env.IsVRAMAddress r.dstBasePtr then
        if r.dstStride = r.srcStride ∧ r.dstY = 0 ∧ r.dstX = 0 ∧ r.srcX = 0 ∧ r.srcY = 0 then
          s3.call (Call.UpdateFromMemory r.dstBasePtr
            (((r.dstY + r.height) * r.dstStride * r.bpp) % 2 ^ 32) true)
        else s3
      else s3
    let backBuffer := env.PrevDisplayFramebufAddr
    let displayBuffer := env.DisplayFramebufAddr
    if ((backBuffer ≠ 0 ∧ r.dstBasePtr = backBuffer) ∨
        (displayBuffer ≠ 0 ∧ r.dstBasePtr = displayBuffer)) ∧
        r.dstStride = 512 ∧ r.height = 272 then
      s4.call (Call.DrawPixels r.dstBasePtr GE_FORMAT_8888 512)
    else s4

/-! ## The opcode executor (`GLES_GPU::ExecuteOpInternal`), case by case -/

/-- The test `gstate.vertType & GE_VTYPE_IDX_MASK) != GE_VTYPE_IDX_NONE`. -/
def isIndexed (g : GPUgstate) : Bool :=
  decide (g.cmdmem GE_CMD_VERTEXTYPE &&& GE_VTYPE_IDX_MASK ≠ GE_VTYPE_IDX_NONE)

/-- The test `gstate_c.skipDrawReason & (SKIPDRAW_SKIPFRAME | SKIPDRAW_NON_DISPLAYED_FB)`. -/
def skipDraw (c : GPUStateCache) : Bool :=
  decide (c.skipDrawReason &&& (SKIPDRAW_SKIPFRAME ||| SKIPDRAW_NON_DISPLAYED_FB) ≠ 0)

/-- The anti-aliased line discard at the head of `case GE_CMD_PRIM`. -/
def discardAALine (env : Env) (g : GPUgstate) (prim : Nat) : Bool :=
  env.isAntiAliasEnabled g &&
    (decide (prim = GE_PRIM_LINE_STRIP) ||
      (decide (prim = GE_PRIM_LINES) && env.isSkinningEnabled g))

/-- The value `indexSize` of `case GE_CMD_PRIM`. -/
def indexSize (g : GPUgstate) : Nat :=
  if g.cmdmem GE_CMD_VERTEXTYPE &&& GE_VTYPE_IDX_MASK = GE_VTYPE_IDX_16BIT then 2 else 1

/-- The body of `case GE_CMD_PRIM`.  In `cyclesExecuted += vertexCost * count` the product
of the `int` cost and the `u32` count and the sum are computed modulo `2^32` and stored
back into the `int` accumulator, hence `toS32` of the exact sum; likewise for
`gpuStats.vertexGPUCycles`. -/
def execPRIM (env : Env) (data : Nat) (s : GPU) : GPU :=
  let count := data &&& 0xFFFF
  let prim := data >>> 16
  if count = 0 then s
  else if discardAALine env s.gstate prim then s
  else
    let s1 := s.call Call.SetRenderFrameBuffer
    if skipDraw s1.gstate_c then
      let s2 := s1.call (Call.SetupVertexDecoder (s1.gstate.cmdmem GE_CMD_VERTEXTYPE))
      let vertexCost := env.EstimatePerVertexCost s2.gstate
      { s2 with cyclesExecuted := toS32 (s2.cyclesExecuted + vertexCost * (count : Int)) }
    else if ¬ env.IsValidAddress s1.gstate_c.vertexAddr then s1
    else
      let verts := s1.gstate_c.vertexAddr
      if isIndexed s1.gstate ∧ ¬ env.IsValidAddress s1.gstate_c.indexAddr then s1
      else
        let inds : Option Nat :=
          if isIndexed s1.gstate then some s1.gstate_c.indexAddr else none
        let vertType := s1.gstate.cmdmem GE_CMD_VERTEXTYPE
        let bytesRead := env.SubmitPrim_bytesRead s1.memory verts inds prim count vertType
        let s2 := s1.call (Call.SubmitPrim verts inds prim count vertType)
        let vertexCost := env.EstimatePerVertexCost s2.gstate
        let s3 : GPU :=
          { s2 with vertexGPUCycles := toS32 (s2.vertexGPUCycles + vertexCost * (count : Int)),
                    cyclesExecuted := toS32 (s2.cyclesExecuted + vertexCost * (count : Int)) }
        match inds with
        | some _ =>
          { s3 with gstate_c :=
              { s3.gstate_c with
                indexAddr := (s3.gstate_c.indexAddr + count * indexSize s3.gstate) % 2 ^ 32 } }
        | none =>
          { s3 with gstate_c :=
              { s3.gstate_c with vertexAddr := (s3.gstate_c.vertexAddr + bytesRead) % 2 ^ 32 } }

/-- The common front matter of `case GE_CMD_BEZIER` and `case GE_CMD_SPLINE`: bind the
render target, then either stop (`none`) or go on with the control points and indices. -/
def patchFront (env : Env) (s : GPU) : GPU × Option (Nat × Option Nat) :=
  let s1 := s.call Call.SetRenderFrameBuffer
  if skipDraw s1.gstate_c then (s1, none)
  else if ¬ env.IsValidAddress s1.gstate_c.vertexAddr then (s1, none)
  else if isIndexed s1.gstate ∧ ¬ env.IsValidAddress s1.gstate_c.indexAddr then (s1, none)
  else if env.getPatchPrimitiveType s1.gstate ≠ GE_PATCHPRIM_TRIANGLES then (s1, none)
  else
    (s1, some (s1.gstate_c.vertexAddr,
      if isIndexed s1.gstate then some s1.gstate_c.indexAddr else none))

/-- The body of `case GE_CMD_BEZIER`. -/
def execBEZIER (env : Env) (data : Nat) (s : GPU) : GPU :=
  match patchFront env s with
  | (s1, none) => s1
  | (s1, some (control_points, indices)) =>
    s1.call (Call.SubmitBezier control_points indices (data &&& 0xFF) ((data >>> 8) &&& 0xFF)
      (env.getPatchPrimitiveType s1.gstate) (s1.gstate.cmdmem GE_CMD_VERTEXTYPE))

/-- The body of `case GE_CMD_SPLINE`. -/
def execSPLINE (env : Env) (data : Nat) (s : GPU) : GPU :=
  match patchFront env s with
  | (s1, none) => s1
  | (s1, some (control_points, indices)) =>
    s1.call (Call.SubmitSpline control_points indices (data &&& 0xFF) ((data >>> 8) &&& 0xFF)
      ((data >>> 16) &&& 0x3) ((data >>> 18) &&& 0x3)
      (env.getPatchPrimitiveType s1.gstate) (s1.gstate.cmdmem GE_CMD_VERTEXTYPE))

/-- The assignment `currentList->bboxResult = b`. -/
def GPU.setBboxResult (s : GPU) (b : Bool) : GPU :=
  { s with list := { s.list with bboxResult := b } }

/-- The body of `case GE_CMD_BOUNDINGBOX`. -/
def execBOUNDINGBOX (env : Env) (data : Nat) (s : GPU) : GPU :=
  if data = 0 then s.setBboxResult true
  else if data &&& 7 = 0 ∧ data ≤ 64 then
    let control_points := s.gstate_c.vertexAddr
    if s.gstate.cmdmem GE_CMD_VERTEXTYPE &&& GE_VTYPE_IDX_MASK ≠ 0 then s.setBboxResult true
    else
      let vertType := s.gstate.cmdmem GE_CMD_VERTEXTYPE
      (s.call (Call.TestBoundingBox control_points data vertType)).setBboxResult
        (env.TestBoundingBox s.gstate s.memory control_points data vertType)
  else s.setBboxResult true

/-- The body of `case GE_CMD_VERTEXTYPE`.  `~GE_VTYPE_WEIGHTCOUNT_MASK` is taken in 32 bits. -/
def execVERTEXTYPE (env : Env) (diff : Nat) (s : GPU) : GPU :=
  if diff ≠ 0 then
    if ¬ env.bSoftwareSkinning then
      if diff &&& (GE_VTYPE_TC_MASK ||| GE_VTYPE_THROUGH_MASK) ≠ 0 then
        s.DirtyUniform DirtyGroup.UVSCALEOFFSET
      else s
    else
      if diff &&& (0xFFFFFFFF ^^^ GE_VTYPE_WEIGHTCOUNT_MASK) ≠ 0 then
        let s1 := s.setCmd GE_CMD_VERTEXTYPE (s.gstate.cmdmem GE_CMD_VERTEXTYPE ^^^ diff)
        let s2 := s1.Flush
        let s3 := s2.setCmd GE_CMD_VERTEXTYPE (s2.gstate.cmdmem GE_CMD_VERTEXTYPE ^^^ diff)
        if diff &&& (GE_VTYPE_TC_MASK ||| GE_VTYPE_THROUGH_MASK) ≠ 0 then
          s3.DirtyUniform DirtyGroup.UVSCALEOFFSET
        else s3
      else s
  else s

/-- The body of `case GE_CMD_TEXSIZE0`, including the fall-through into
`case GE_CMD_TEXSIZE1 ... GE_CMD_TEXSIZE7`. -/
def execTEXSIZE0 (env : Env) (diff : Nat) (s : GPU) : GPU :=
  let s1 :=
    if diff ≠ 0 ∨ s.gstate_c.textureChanged = true then
      let s2 : GPU := { s with gstate_c := { s.gstate_c with
        curTextureWidth := env.getTextureWidth s.gstate 0,
        curTextureHeight := env.getTextureHeight s.gstate 0 } }
      (s2.DirtyUniform DirtyGroup.UVSCALEOFFSET).setTextureChanged
    else s
  if diff ≠ 0 then s1.setTextureChanged else s1

/-- The body of the light position, direction and attenuation cases: `n = cmd - base`,
`l = n / 3`, `c = n % 3`, store `getFloat24(data)` and dirty `DIRTY_LIGHT0 << l`. -/
def execLightVec (which : Nat) (n data diff : Nat) (s : GPU) : GPU :=
  if diff ≠ 0 then
    let l := n / 3
    let c := n % 3
    let v := getFloat24 data
    let gc := s.gstate_c
    let gc1 : GPUStateCache :=
      if which = 0 then
        { gc with lightpos := Function.update gc.lightpos l (Function.update (gc.lightpos l) c v) }
      else if which = 1 then
        { gc with lightdir := Function.update gc.lightdir l (Function.update (gc.lightdir l) c v) }
      else
        { gc with lightatt := Function.update gc.lightatt l (Function.update (gc.lightatt l) c v) }
    ({ s with gstate_c := gc1 } : GPU).DirtyUniform (DirtyGroup.LIGHT l)
  else s

/-- The body of `case GE_CMD_LKS0 ... GE_CMD_LKS3`. -/
def execLKS (l data diff : Nat) (s : GPU) : GPU :=
  if diff ≠ 0 then
    ({ s with gstate_c := { s.gstate_c with
        lightspotCoef := Function.update s.gstate_c.lightspotCoef l (getFloat24 data) } }
      : GPU).DirtyUniform (DirtyGroup.LIGHT l)
  else s

/-- The body of `case GE_CMD_LKO0 ... GE_CMD_LKO3`. -/
def execLKO (l data diff : Nat) (s : GPU) : GPU :=
  if diff ≠ 0 then
    ({ s with gstate_c := { s.gstate_c with
        lightangle := Function.update s.gstate_c.lightangle l (getFloat24 data) } }
      : GPU).DirtyUniform (DirtyGroup.LIGHT l)
  else s

/-- The body of the light colour cases: `l = (cmd - GE_CMD_LAC0) / 3`,
`t = (cmd - GE_CMD_LAC0) % 3`; the three channels are the bytes of `data`. -/
def execLightColor (n data diff : Nat) (s : GPU) : GPU :=
  if diff ≠ 0 then
    let r := data &&& 0xff
    let g := (data >>> 8) &&& 0xff
    let b := data >>> 16
    let l := n / 3
    let t := n % 3
    let old := s.gstate_c.lightColor
    let rgb := Function.update (Function.update (Function.update (old t l) 0 r) 1 g) 2 b
    ({ s with gstate_c := { s.gstate_c with
        lightColor := Function.update old t (Function.update (old t) l rgb) } }
      : GPU).DirtyUniform (DirtyGroup.LIGHT l)
  else s

/-- The body of `case GE_CMD_MORPHWEIGHT0 ... GE_CMD_MORPHWEIGHT7`. -/
def execMORPHWEIGHT (i data diff : Nat) (s : GPU) : GPU :=
  if diff ≠ 0 then
    { s with gstate_c := { s.gstate_c with
        morphWeights := Function.update s.gstate_c.morphWeights i (getFloat24 data) } }
  else s

/-- The body of the `*MATRIXNUMBER` cases: `gstate.<num> &= mask`. -/
def execMatrixNumber (numReg mask : Nat) (s : GPU) : GPU :=
  s.setCmd numReg (s.gstate.cmdmem numReg &&& mask)

/-- The body of `case GE_CMD_WORLDMATRIXDATA`. -/
def execWORLDMATRIXDATA (data : Nat) (s : GPU) : GPU :=
  let num := s.gstate.cmdmem GE_CMD_WORLDMATRIXNUMBER &&& 0xF
  let newVal := data <<< 8
  let s1 :=
    if num < 12 ∧ newVal ≠ s.gstate.worldMatrix num then
      let s2 := s.Flush
      let s3 : GPU := { s2 with gstate := { s2.gstate with
        worldMatrix := Function.update s2.gstate.worldMatrix num newVal } }
      s3.DirtyUniform DirtyGroup.WORLDMATRIX
    else s
  s1.setCmd GE_CMD_WORLDMATRIXNUMBER ((GE_CMD_WORLDMATRIXNUMBER <<< 24) ||| ((num + 1) &&& 0xF))

/-- The body of `case GE_CMD_VIEWMATRIXDATA`. -/
def execVIEWMATRIXDATA (data : Nat) (s : GPU) : GPU :=
  let num := s.gstate.cmdmem GE_CMD_VIEWMATRIXNUMBER &&& 0xF
  let newVal := data <<< 8
  let s1 :=
    if num < 12 ∧ newVal ≠ s.gstate.viewMatrix num then
      let s2 := s.Flush
      let s3 : GPU := { s2 with gstate := { s2.gstate with
        viewMatrix := Function.update s2.gstate.viewMatrix num newVal } }
      s3.DirtyUniform DirtyGroup.VIEWMATRIX
    else s
  s1.setCmd GE_CMD_VIEWMATRIXNUMBER ((GE_CMD_VIEWMATRIXNUMBER <<< 24) ||| ((num + 1) &&& 0xF))

/-- The body of `case GE_CMD_PROJMATRIXDATA` (no bound test on `num`). -/
def execPROJMATRIXDATA (data : Nat) (s : GPU) : GPU :=
  let num := s.gstate.cmdmem GE_CMD_PROJMATRIXNUMBER &&& 0xF
  let newVal := data <<< 8
  let s1 :=
    if newVal ≠ s.gstate.projMatrix num then
      let s2 := s.Flush
      let s3 : GPU := { s2 with gstate := { s2.gstate with
        projMatrix := Function.update s2.gstate.projMatrix num newVal } }
      s3.DirtyUniform DirtyGroup.PROJMATRIX
    else s
  s1.setCmd GE_CMD_PROJMATRIXNUMBER ((GE_CMD_PROJMATRIXNUMBER <<< 24) ||| ((num + 1) &&& 0xF))

/-- The body of `case GE_CMD_TGENMATRIXDATA`. -/
def execTGENMATRIXDATA (data : Nat) (s : GPU) : GPU :=
  let num := s.gstate.cmdmem GE_CMD_TGENMATRIXNUMBER &&& 0xF
  let newVal := data <<< 8
  let s1 :=
    if num < 12 ∧ newVal ≠ s.gstate.tgenMatrix num then
      let s2 := s.Flush
      let s3 : GPU := { s2 with gstate := { s2.gstate with
        tgenMatrix := Function.update s2.gstate.tgenMatrix num newVal } }
      s3.DirtyUniform DirtyGroup.TEXMATRIX
    else s
  s1.setCmd GE_CMD_TGENMATRIXNUMBER ((GE_CMD_TGENMATRIXNUMBER <<< 24) ||| ((num + 1) &&& 0xF))

/-- The body of `case GE_CMD_BONEMATRIXDATA`. -/
def execBONEMATRIXDATA (env : Env) (data : Nat) (s : GPU) : GPU :=
  let num := s.gstate.cmdmem GE_CMD_BONEMATRIXNUMBER &&& 0x7F
  let newVal := data <<< 8
  let s1 :=
    if num < 96 ∧ newVal ≠ s.gstate.boneMatrix num then
      let s2 :=
        if ¬ env.bSoftwareSkinning then
          s.Flush.DirtyUniform (DirtyGroup.BONEMATRIX (num / 12))
        else s
      ({ s2 with gstate := { s2.gstate with
        boneMatrix := Function.update s2.gstate.boneMatrix num newVal } } : GPU)
    else s
  s1.setCmd GE_CMD_BONEMATRIXNUMBER ((GE_CMD_BONEMATRIXNUMBER <<< 24) ||| ((num + 1) &&& 0x7F))

/-- Modelled from the spec: `GPUCommon::ExecuteOp`, the common command processor the
`default:` case delegates to, is not among the sources.  Per the spec it handles the
control flow of the display list (`END`, `JUMP`, `CALL`, `RET`, `BJUMP`, ...) and the
state mirror is mutated only by the opcode executor; it is taken from `Env`, and of
what it returns the model keeps the display list, `downcount`, the cycle count and
`gstate_c.offsetAddr`. -/
def delegateToCommon (env : Env) (op diff : Nat) (s : GPU) : GPU :=
  let r := env.GPUCommon_ExecuteOp op diff s
  { s with list := r.list, downcount := r.downcount, cyclesExecuted := r.cyclesExecuted,
           gstate_c := { s.gstate_c with offsetAddr := r.gstate_c.offsetAddr } }

/-- A body of the form `if (diff) shaderManager_->DirtyUniform(what);`. -/
def dirtyOnChange (what : DirtyGroup) (diff : Nat) (s : GPU) : GPU :=
  if diff ≠ 0 then s.DirtyUniform what else s

/-- A body of the form `if (diff) gstate_c.textureChanged = true;`. -/
def textureChangedOnChange (diff : Nat) (s : GPU) : GPU :=
  if diff ≠ 0 then s.setTextureChanged else s

/-- A body of the form `if (diff) { framebufChanged = true; textureChanged = true; }`. -/
def framebufChangedOnChange (diff : Nat) (s : GPU) : GPU :=
  if diff ≠ 0 then s.setFramebufChanged else s

/-- The bodies of `case GE_CMD_TEXSCALEU`, `TEXSCALEV`, `TEXOFFSETU`, `TEXOFFSETV`
(`which` = 0, 1, 2, 3). -/
def execUV (which data diff : Nat) (s : GPU) : GPU :=
  if diff ≠ 0 then
    let uv := s.gstate_c.uv
    let uv1 : UVScale :=
      if which = 0 then { uv with uScale := getFloat24 data }
      else if which = 1 then { uv with vScale := getFloat24 data }
      else if which = 2 then { uv with uOff := getFloat24 data }
      else { uv with vOff := getFloat24 data }
    ({ s with gstate_c := { s.gstate_c with uv := uv1 } } : GPU).DirtyUniform
      DirtyGroup.UVSCALEOFFSET
  else s

/-- The case bodies of the `switch (cmd)` in `GLES_GPU::ExecuteOpInternal`.  `nop` is a
body that only breaks (or only logs); `common` is `default:`.  Cases that share a body up
to an index computed from `cmd` carry that index. -/
inductive OpCase where
  | nop | VADDR | IADDR | PRIM | BEZIER | SPLINE | BOUNDINGBOX | VERTEXTYPE
  | framebufChanged | textureChanged
  | dirty (what : DirtyGroup)
  | UV (which : Nat)
  | TEXADDR | LOADCLUT | TRANSFERSTART | TEXSIZE0
  | lightVec (which n : Nat)
  | LKS (l : Nat)
  | LKO (l : Nat)
  | lightColor (n : Nat)
  | MORPHWEIGHT (i : Nat)
  | matrixNumber (numReg mask : Nat)
  | WORLDMATRIXDATA | VIEWMATRIXDATA | PROJMATRIXDATA | TGENMATRIXDATA | BONEMATRIXDATA
  | common
deriving DecidableEq, Repr

/-- The case selection of the `switch (cmd)` in `GLES_GPU::ExecuteOpInternal`, the case
labels in source order.  The cases compiled only without `USING_GLES2` are guarded by the
build alternative; with it those opcodes reach `default:`. -/
def selectCase (usingGLES2 : Bool) (cmd : Nat) : OpCase :=
  if cmd = GE_CMD_BASE then OpCase.nop
  else if cmd = GE_CMD_VADDR then OpCase.VADDR
  else if cmd = GE_CMD_IADDR then OpCase.IADDR
  else if cmd = GE_CMD_PRIM then OpCase.PRIM
  else if cmd = GE_CMD_BEZIER then OpCase.BEZIER
  else if cmd = GE_CMD_SPLINE then OpCase.SPLINE
  else if cmd = GE_CMD_BOUNDINGBOX then OpCase.BOUNDINGBOX
  else if cmd = GE_CMD_VERTEXTYPE then OpCase.VERTEXTYPE
  else if cmd ∈ [GE_CMD_REGION1, GE_CMD_REGION2] then OpCase.framebufChanged
  else if cmd = GE_CMD_CLIPENABLE then OpCase.nop
  else if cmd ∈ [GE_CMD_CULLFACEENABLE, GE_CMD_CULL] then OpCase.nop
  else if cmd = GE_CMD_TEXTUREMAPENABLE then OpCase.textureChanged
  else if cmd = GE_CMD_LIGHTINGENABLE then OpCase.nop
  else if cmd = GE_CMD_FOGCOLOR then OpCase.dirty DirtyGroup.FOGCOLOR
  else if cmd = GE_CMD_FOG1 then OpCase.dirty DirtyGroup.FOGCOEF
  else if cmd = GE_CMD_FOG2 then OpCase.dirty DirtyGroup.FOGCOEF
  else if cmd = GE_CMD_FOGENABLE then OpCase.nop
  else if cmd = GE_CMD_DITHERENABLE then OpCase.nop
  else if cmd = GE_CMD_OFFSETX then OpCase.nop
  else if cmd = GE_CMD_OFFSETY then OpCase.nop
  else if cmd = GE_CMD_TEXSCALEU then OpCase.UV 0
  else if cmd = GE_CMD_TEXSCALEV then OpCase.UV 1
  else if cmd = GE_CMD_TEXOFFSETU then OpCase.UV 2
  else if cmd = GE_CMD_TEXOFFSETV then OpCase.UV 3
  else if cmd ∈ [GE_CMD_SCISSOR1, GE_CMD_SCISSOR2] then OpCase.framebufChanged
  else if cmd ∈ [GE_CMD_MINZ, GE_CMD_MAXZ] then OpCase.nop
  else if cmd ∈ [GE_CMD_FRAMEBUFPTR, GE_CMD_FRAMEBUFWIDTH, GE_CMD_FRAMEBUFPIXFORMAT] then
    OpCase.framebufChanged
  else if cmd ∈ [GE_CMD_TEXADDR0, GE_CMD_TEXADDR1, GE_CMD_TEXADDR2, GE_CMD_TEXADDR3,
      GE_CMD_TEXADDR4, GE_CMD_TEXADDR5, GE_CMD_TEXADDR6, GE_CMD_TEXADDR7] then
    OpCase.TEXADDR
  else if cmd ∈ [GE_CMD_TEXBUFWIDTH0, GE_CMD_TEXBUFWIDTH1, GE_CMD_TEXBUFWIDTH2,
      GE_CMD_TEXBUFWIDTH3, GE_CMD_TEXBUFWIDTH4, GE_CMD_TEXBUFWIDTH5, GE_CMD_TEXBUFWIDTH6,
      GE_CMD_TEXBUFWIDTH7] then
    OpCase.textureChanged
  else if cmd = GE_CMD_CLUTFORMAT then OpCase.textureChanged
  else if cmd ∈ [GE_CMD_CLUTADDR, GE_CMD_CLUTADDRUPPER] then OpCase.nop
  else if cmd = GE_CMD_LOADCLUT then OpCase.LOADCLUT
  else if cmd = GE_CMD_TEXMAPMODE then OpCase.dirty DirtyGroup.UVSCALEOFFSET
  else if cmd = GE_CMD_TEXSHADELS then OpCase.nop
  else if cmd ∈ [GE_CMD_TRANSFERSRC, GE_CMD_TRANSFERSRCW, GE_CMD_TRANSFERDST,
      GE_CMD_TRANSFERDSTW, GE_CMD_TRANSFERSRCPOS, GE_CMD_TRANSFERDSTPOS] then OpCase.nop
  else if cmd = GE_CMD_TRANSFERSIZE then OpCase.nop
  else if cmd = GE_CMD_TRANSFERSTART then OpCase.TRANSFERSTART
  else if cmd = GE_CMD_TEXSIZE0 then OpCase.TEXSIZE0
  else if cmd ∈ [GE_CMD_TEXSIZE1, GE_CMD_TEXSIZE2, GE_CMD_TEXSIZE3, GE_CMD_TEXSIZE4,
      GE_CMD_TEXSIZE5, GE_CMD_TEXSIZE6, GE_CMD_TEXSIZE7] then
    OpCase.textureChanged
  else if cmd ∈ [GE_CMD_ZBUFPTR, GE_CMD_ZBUFWIDTH] then OpCase.nop
  else if cmd ∈ [GE_CMD_AMBIENTCOLOR, GE_CMD_AMBIENTALPHA] then
    OpCase.dirty DirtyGroup.AMBIENT
  else if cmd = GE_CMD_MATERIALDIFFUSE then OpCase.dirty DirtyGroup.MATDIFFUSE
  else if cmd = GE_CMD_MATERIALEMISSIVE then OpCase.dirty DirtyGroup.MATEMISSIVE
  else if cmd ∈ [GE_CMD_MATERIALAMBIENT, GE_CMD_MATERIALALPHA] then
    OpCase.dirty DirtyGroup.MATAMBIENTALPHA
  else if cmd ∈ [GE_CMD_MATERIALSPECULAR, GE_CMD_MATERIALSPECULARCOEF] then
    OpCase.dirty DirtyGroup.MATSPECULAR
  else if cmd ∈ [GE_CMD_LIGHTTYPE0, GE_CMD_LIGHTTYPE1, GE_CMD_LIGHTTYPE2, GE_CMD_LIGHTTYPE3] then OpCase.nop
  else if cmd ∈ [GE_CMD_LX0, GE_CMD_LY0, GE_CMD_LZ0, GE_CMD_LX1, GE_CMD_LY1, GE_CMD_LZ1,
      GE_CMD_LX2, GE_CMD_LY2, GE_CMD_LZ2, GE_CMD_LX3, GE_CMD_LY3, GE_CMD_LZ3] then
    OpCase.lightVec 0 (cmd - GE_CMD_LX0)
  else if cmd ∈ [GE_CMD_LDX0, GE_CMD_LDY0, GE_CMD_LDZ0, GE_CMD_LDX1, GE_CMD_LDY1, GE_CMD_LDZ1,
      GE_CMD_LDX2, GE_CMD_LDY2, GE_CMD_LDZ2, GE_CMD_LDX3, GE_CMD_LDY3, GE_CMD_LDZ3] then
    OpCase.lightVec 1 (cmd - GE_CMD_LDX0)
  else if cmd ∈ [GE_CMD_LKA0, GE_CMD_LKB0, GE_CMD_LKC0, GE_CMD_LKA1, GE_CMD_LKB1, GE_CMD_LKC1,
      GE_CMD_LKA2, GE_CMD_LKB2, GE_CMD_LKC2, GE_CMD_LKA3, GE_CMD_LKB3, GE_CMD_LKC3] then
    OpCase.lightVec 2 (cmd - GE_CMD_LKA0)
  else if cmd ∈ [GE_CMD_LKS0, GE_CMD_LKS1, GE_CMD_LKS2, GE_CMD_LKS3] then
    OpCase.LKS (cmd - GE_CMD_LKS0)
  else if cmd ∈ [GE_CMD_LKO0, GE_CMD_LKO1, GE_CMD_LKO2, GE_CMD_LKO3] then
    OpCase.LKO (cmd - GE_CMD_LKO0)
  else if cmd ∈ [GE_CMD_LAC0, GE_CMD_LAC1, GE_CMD_LAC2, GE_CMD_LAC3,
      GE_CMD_LDC0, GE_CMD_LDC1, GE_CMD_LDC2, GE_CMD_LDC3,
      GE_CMD_LSC0, GE_CMD_LSC1, GE_CMD_LSC2, GE_CMD_LSC3] then
    OpCase.lightColor (cmd - GE_CMD_LAC0)
  else if cmd ∈ [GE_CMD_VIEWPORTX1, GE_CMD_VIEWPORTY1, GE_CMD_VIEWPORTX2, GE_CMD_VIEWPORTY2,
      GE_CMD_VIEWPORTZ1, GE_CMD_VIEWPORTZ2] then
    OpCase.framebufChanged
  else if cmd ∈ [GE_CMD_LIGHTENABLE0, GE_CMD_LIGHTENABLE1, GE_CMD_LIGHTENABLE2,
      GE_CMD_LIGHTENABLE3] then OpCase.nop
  else if cmd = GE_CMD_SHADEMODE then OpCase.nop
  else if cmd ∈ [GE_CMD_PATCHDIVISION, GE_CMD_PATCHPRIMITIVE, GE_CMD_PATCHFACING] then OpCase.nop
  else if cmd = GE_CMD_MATERIALUPDATE then OpCase.nop
  else if cmd = GE_CMD_CLEARMODE then OpCase.nop
  else if cmd ∈ [GE_CMD_ALPHABLENDENABLE, GE_CMD_BLENDMODE, GE_CMD_BLENDFIXEDA,
      GE_CMD_BLENDFIXEDB] then OpCase.nop
  else if cmd ∈ [GE_CMD_ALPHATESTENABLE, GE_CMD_COLORTESTENABLE] then OpCase.nop
  else if cmd ∈ [GE_CMD_COLORTEST, GE_CMD_COLORTESTMASK] then
    OpCase.dirty DirtyGroup.COLORMASK
  else if cmd = GE_CMD_ALPHATEST then OpCase.dirty DirtyGroup.ALPHACOLORREF
  else if cmd = GE_CMD_COLORREF then OpCase.dirty DirtyGroup.ALPHACOLORREF
  else if cmd = GE_CMD_TEXENVCOLOR then OpCase.dirty DirtyGroup.TEXENV
  else if cmd ∈ [GE_CMD_TEXFUNC, GE_CMD_TEXFLUSH] then OpCase.nop
  else if cmd ∈ [GE_CMD_TEXMODE, GE_CMD_TEXFORMAT, GE_CMD_TEXFILTER, GE_CMD_TEXWRAP] then
    OpCase.textureChanged
  else if cmd ∈ [GE_CMD_ZTESTENABLE, GE_CMD_ZTEST, GE_CMD_ZWRITEDISABLE] then OpCase.nop
  else if cmd ∈ [GE_CMD_MORPHWEIGHT0, GE_CMD_MORPHWEIGHT1, GE_CMD_MORPHWEIGHT2,
      GE_CMD_MORPHWEIGHT3, GE_CMD_MORPHWEIGHT4, GE_CMD_MORPHWEIGHT5, GE_CMD_MORPHWEIGHT6,
      GE_CMD_MORPHWEIGHT7] then
    OpCase.MORPHWEIGHT (cmd - GE_CMD_MORPHWEIGHT0)
  else if cmd ∈ [GE_CMD_DITH0, GE_CMD_DITH1, GE_CMD_DITH2, GE_CMD_DITH3] then OpCase.nop
  else if cmd = GE_CMD_WORLDMATRIXNUMBER then OpCase.matrixNumber GE_CMD_WORLDMATRIXNUMBER 0xFF00000F
  else if cmd = GE_CMD_WORLDMATRIXDATA then OpCase.WORLDMATRIXDATA
  else if cmd = GE_CMD_VIEWMATRIXNUMBER then OpCase.matrixNumber GE_CMD_VIEWMATRIXNUMBER 0xFF00000F
  else if cmd = GE_CMD_VIEWMATRIXDATA then OpCase.VIEWMATRIXDATA
  else if cmd = GE_CMD_PROJMATRIXNUMBER then OpCase.matrixNumber GE_CMD_PROJMATRIXNUMBER 0xFF00000F
  else if cmd = GE_CMD_PROJMATRIXDATA then OpCase.PROJMATRIXDATA
  else if cmd = GE_CMD_TGENMATRIXNUMBER then OpCase.matrixNumber GE_CMD_TGENMATRIXNUMBER 0xFF00000F
  else if cmd = GE_CMD_TGENMATRIXDATA then OpCase.TGENMATRIXDATA
  else if cmd = GE_CMD_BONEMATRIXNUMBER then OpCase.matrixNumber GE_CMD_BONEMATRIXNUMBER 0xFF00007F
  else if cmd = GE_CMD_BONEMATRIXDATA then OpCase.BONEMATRIXDATA
  else if usingGLES2 = false ∧ cmd = GE_CMD_ANTIALIASENABLE then OpCase.nop
  else if usingGLES2 = false ∧ cmd = GE_CMD_TEXLODSLOPE then OpCase.nop
  else if usingGLES2 = false ∧ cmd = GE_CMD_TEXLEVEL then OpCase.textureChanged
  else if cmd = GE_CMD_STENCILTEST then OpCase.dirty DirtyGroup.STENCILREPLACEVALUE
  else if cmd ∈ [GE_CMD_STENCILTESTENABLE, GE_CMD_STENCILOP] then OpCase.nop
  else if cmd ∈ [GE_CMD_MASKRGB, GE_CMD_MASKALPHA] then OpCase.nop
  else if cmd = GE_CMD_REVERSENORMAL then OpCase.nop
  else if cmd ∈ [GE_CMD_UNKNOWN_03, GE_CMD_UNKNOWN_0D, GE_CMD_UNKNOWN_11, GE_CMD_UNKNOWN_29,
      GE_CMD_UNKNOWN_34, GE_CMD_UNKNOWN_35, GE_CMD_UNKNOWN_39, GE_CMD_UNKNOWN_4E,
      GE_CMD_UNKNOWN_4F, GE_CMD_UNKNOWN_52, GE_CMD_UNKNOWN_59, GE_CMD_UNKNOWN_5A,
      GE_CMD_UNKNOWN_B6, GE_CMD_UNKNOWN_B7, GE_CMD_UNKNOWN_D1, GE_CMD_UNKNOWN_ED,
      GE_CMD_UNKNOWN_EF, GE_CMD_UNKNOWN_F0, GE_CMD_UNKNOWN_F1, GE_CMD_UNKNOWN_F2,
      GE_CMD_UNKNOWN_F3, GE_CMD_UNKNOWN_F4, GE_CMD_UNKNOWN_F5, GE_CMD_UNKNOWN_F6,
      GE_CMD_UNKNOWN_F7, GE_CMD_UNKNOWN_F8, GE_CMD_UNKNOWN_F9, GE_CMD_UNKNOWN_FA,
      GE_CMD_UNKNOWN_FB, GE_CMD_UNKNOWN_FC, GE_CMD_UNKNOWN_FD, GE_CMD_UNKNOWN_FE] then OpCase.nop
  else if cmd = GE_CMD_UNKNOWN_FF then OpCase.nop
  else OpCase.common


/-- The body of a case of the `switch (cmd)`, for the command word `op` and `diff`. -/
def runCase (env : Env) (c : OpCase) (op diff : Nat) (s : GPU) : GPU :=
  let data := op &&& 0xFFFFFF
  match c with
  | OpCase.nop => s
  | OpCase.VADDR =>
    { s with gstate_c := { s.gstate_c with
        vertexAddr := env.getRelativeAddress s.gstate s.gstate_c data } }
  | OpCase.IADDR =>
    { s with gstate_c := { s.gstate_c with
        indexAddr := env.getRelativeAddress s.gstate s.gstate_c data } }
  | OpCase.PRIM => execPRIM env data s
  | OpCase.BEZIER => execBEZIER env data s
  | OpCase.SPLINE => execSPLINE env data s
  | OpCase.BOUNDINGBOX => execBOUNDINGBOX env data s
  | OpCase.VERTEXTYPE => execVERTEXTYPE env diff s
  | OpCase.framebufChanged => framebufChangedOnChange diff s
  | OpCase.textureChanged => textureChangedOnChange diff s
  | OpCase.dirty what => dirtyOnChange what diff s
  | OpCase.UV which => execUV which data diff s
  | OpCase.TEXADDR =>
    if diff ≠ 0 then s.setTextureChanged.DirtyUniform DirtyGroup.UVSCALEOFFSET else s
  | OpCase.LOADCLUT => s.setTextureChanged.call Call.LoadClut
  | OpCase.TRANSFERSTART => (DoBlockTransfer env s).setTextureChanged
  | OpCase.TEXSIZE0 => execTEXSIZE0 env diff s
  | OpCase.lightVec which n => execLightVec which n data diff s
  | OpCase.LKS l => execLKS l data diff s
  | OpCase.LKO l => execLKO l data diff s
  | OpCase.lightColor n => execLightColor n data diff s
  | OpCase.MORPHWEIGHT i => execMORPHWEIGHT i data diff s
  | OpCase.matrixNumber numReg mask => execMatrixNumber numReg mask s
  | OpCase.WORLDMATRIXDATA => execWORLDMATRIXDATA data s
  | OpCase.VIEWMATRIXDATA => execVIEWMATRIXDATA data s
  | OpCase.PROJMATRIXDATA => execPROJMATRIXDATA data s
  | OpCase.TGENMATRIXDATA => execTGENMATRIXDATA data s
  | OpCase.BONEMATRIXDATA => execBONEMATRIXDATA env data s
  | OpCase.common => delegateToCommon env op diff s

/-- The function `GLES_GPU::ExecuteOpInternal`: `cmd = op >> 24` selects the case, whose
body runs with `data = op & 0xFFFFFF` and `diff`. -/
def ExecuteOpInternal (env : Env) (op diff : Nat) (s : GPU) : GPU :=
  runCase env (selectCase env.usingGLES2 (op >>> 24)) op diff s

/-! ## The fast interpreter loop (`GLES_GPU::FastRunLoop`) -/

/-- The loop body after the fetch, for the fetched word `op`: flush test, mirror write,
execute test. -/
def processOp (env : Env) (op : Nat) (s : GPU) : GPU :=
  let cmd := op >>> 24
  let cmdFlags := s.commandFlags_ cmd
  let diff := op ^^^ s.gstate.cmdmem cmd
  let s1 :=
    if cmdFlags &&& FLAG_FLUSHBEFORE ≠ 0 ∨
        (diff ≠ 0 ∧ cmdFlags &&& FLAG_FLUSHBEFOREONCHANGE ≠ 0) then s.Flush
    else s
  let s2 := s1.setCmd cmd op
  if cmdFlags &&& FLAG_ANY_EXECUTE ≠ 0 then ExecuteOpInternal env op diff s2 else s2

/-- One iteration of the loop: fetch at `list.pc`, the body, `list.pc += 4`, and the
`--downcount` of the loop header. -/
def FastRunLoopIter (env : Env) (s : GPU) : GPU :=
  let op := Read_U32 s.memory s.list.pc
  let s1 := processOp env op s
  { s1 with list := { s1.list with pc := (s1.list.pc + 4) % 2 ^ 32 },
            downcount := s1.downcount - 1 }

/-- The function `GLES_GPU::FastRunLoop`: iterate while `downcount > 0`.  The loop need
not terminate (a delegated command may raise `downcount`), so it is run with fuel;
`none` means the fuel ran out. -/
def FastRunLoop (env : Env) : Nat → GPU → Option GPU
  | 0, s => if s.downcount > 0 then none else some s
  | fuel + 1, s => if s.downcount > 0 then FastRunLoop env fuel (FastRunLoopIter env s) else some s

/-- The function `GLES_GPU::CheckFlushOp` (the dump-frame log line left out). -/
def CheckFlushOp (cmd diff : Nat) (s : GPU) : GPU :=
  let cmdFlags := s.commandFlags_ cmd
  if cmdFlags &&& FLAG_FLUSHBEFORE ≠ 0 ∨
      (diff ≠ 0 ∧ cmdFlags &&& FLAG_FLUSHBEFOREONCHANGE ≠ 0) then s.Flush
  else s

/-- The function `GLES_GPU::PreExecuteOp`. -/
def PreExecuteOp (op diff : Nat) (s : GPU) : GPU := CheckFlushOp (op >>> 24) diff s

/-- Whether the `switch (cmd)` reaches `default:`, which hands the command to the common
command processor `GPUCommon::ExecuteOp`. -/
def isDelegated (usingGLES2 : Bool) (cmd : Nat) : Bool :=
  decide (selectCase usingGLES2 cmd = OpCase.common)

/-- The number of flushes among a list of calls. -/
def flushCount (calls : List Call) : Nat := calls.countP Call.isFlush

/-- The number of `DirtyUniform(what)` calls among a list of calls. -/
def dirtyCount (what : DirtyGroup) (calls : List Call) : Nat := calls.countP (Call.isDirty what)

/-- Whether a call is a `SubmitPrim`. -/
def Call.isSubmitPrim : Call → Bool
  | Call.SubmitPrim _ _ _ _ _ => true
  | _ => false

/-! ## A concrete environment and state, for evaluating the definitions -/

/-- An all-zero mirror. -/
def GPUgstate.zero : GPUgstate :=
  { cmdmem := fun _ => 0, worldMatrix := fun _ => 0, viewMatrix := fun _ => 0,
    projMatrix := fun _ => 0, tgenMatrix := fun _ => 0, boneMatrix := fun _ => 0 }

/-- An all-zero derived state. -/
def GPUStateCache.zero : GPUStateCache :=
  { vertexAddr := 0, indexAddr := 0, offsetAddr := 0, textureChanged := false,
    framebufChanged := false, skipDrawReason := 0, curTextureWidth := 0,
    curTextureHeight := 0, uv := { uScale := 0, vScale := 0, uOff := 0, vOff := 0 },
    lightpos := fun _ _ => 0, lightdir := fun _ _ => 0, lightatt := fun _ _ => 0,
    lightspotCoef := fun _ => 0, lightangle := fun _ => 0, lightColor := fun _ _ _ => 0,
    morphWeights := fun _ => 0 }

/-- A sample environment: both switches off, the desktop build, every address valid, a
vertex stride of 16 bytes, texture sizes decoded as `1 << (texsize & 0xF)` and
`1 << ((texsize >> 8) & 0xF)`, and a common command processor that does nothing. -/
def Env.sample : Env :=
  { bPrescaleUV := false, bSoftwareSkinning := false, usingGLES2 := false,
    IsValidAddress := fun _ => true, IsRAMAddress := fun _ => false,
    IsVRAMAddress := fun _ => false,
    getRelativeAddress := fun _ c data => (c.offsetAddr + data) % 2 ^ 32,
    isAntiAliasEnabled := fun _ => false, isSkinningEnabled := fun _ => false,
    getPatchPrimitiveType := fun _ => 0,
    getTextureWidth := fun g level => 1 <<< (g.cmdmem (GE_CMD_TEXSIZE0 + level) &&& 0xF),
    getTextureHeight := fun g level =>
      1 <<< ((g.cmdmem (GE_CMD_TEXSIZE0 + level) >>> 8) &&& 0xF),
    getTransferSrcAddress := fun _ => 0, getTransferSrcStride := fun _ => 0,
    getTransferDstAddress := fun _ => 0, getTransferDstStride := fun _ => 0,
    getTransferSrcX := fun _ => 0, getTransferSrcY := fun _ => 0,
    getTransferDstX := fun _ => 0, getTransferDstY := fun _ => 0,
    getTransferWidth := fun _ => 1, getTransferHeight := fun _ => 1,
    getTransferBpp := fun _ => 2,
    EstimatePerVertexCost := fun _ => 20,
    SubmitPrim_bytesRead := fun _ _ _ _ count _ => 16 * count,
    TestBoundingBox := fun _ _ _ _ _ => true,
    PrevDisplayFramebufAddr := 0, DisplayFramebufAddr := 0,
    GPUCommon_ExecuteOp := fun _ _ s => s }

/-- A freshly constructed core for the sample environment: the constructed flag table, an
all-zero mirror and derived state, zeroed memory, and no call made yet. -/
def GPU.sample : GPU :=
  { commandFlags_ := commandFlagsOf false false false,
    gstate := GPUgstate.zero, gstate_c := GPUStateCache.zero, memory := fun _ => 0,
    list := { pc := 0, bboxResult := true }, downcount := 0, cyclesExecuted := 0,
    vertexGPUCycles := 0, calls := [] }

/-- The index register (a slot of the mirror) that a case body writes, if any: the
`*MATRIXNUMBER` bodies mask their own register, the `*MATRIXDATA` bodies store the
incremented index into the register of their family. -/
def OpCase.writesReg : OpCase → Option Nat
  | OpCase.matrixNumber numReg _ => some numReg
  | OpCase.WORLDMATRIXDATA => some GE_CMD_WORLDMATRIXNUMBER
  | OpCase.VIEWMATRIXDATA => some GE_CMD_VIEWMATRIXNUMBER
  | OpCase.PROJMATRIXDATA => some GE_CMD_PROJMATRIXNUMBER
  | OpCase.TGENMATRIXDATA => some GE_CMD_TGENMATRIXNUMBER
  | OpCase.BONEMATRIXDATA => some GE_CMD_BONEMATRIXNUMBER
  | _ => none

/-- Whether a case body is one of the five `*MATRIXDATA` bodies. -/
def OpCase.isMatrixData : OpCase → Bool
  | OpCase.WORLDMATRIXDATA => true
  | OpCase.VIEWMATRIXDATA => true
  | OpCase.PROJMATRIXDATA => true
  | OpCase.TGENMATRIXDATA => true
  | OpCase.BONEMATRIXDATA => true
  | _ => false

/-- Whether the constructor clears `FLAG_FLUSHBEFOREONCHANGE` for an opcode, under the
given switches. -/
def flushOnChangeCleared (bPrescaleUV bSoftwareSkinning : Bool) (c : Nat) : Bool :=
  (bPrescaleUV && decide (c ∈ [GE_CMD_TEXSCALEU, GE_CMD_TEXSCALEV, GE_CMD_TEXOFFSETU,
      GE_CMD_TEXOFFSETV])) ||
    (bSoftwareSkinning && decide (c = GE_CMD_VERTEXTYPE))

/-- Whether a case body has the form `if (diff) { ... }` (for `TEXSIZE0`:
`if (diff || gstate_c.textureChanged) { ... }`), so that it is gated on the diff. -/
def OpCase.isDiffGated : OpCase → Bool
  | OpCase.VERTEXTYPE => true
  | OpCase.framebufChanged => true
  | OpCase.textureChanged => true
  | OpCase.dirty _ => true
  | OpCase.UV _ => true
  | OpCase.TEXADDR => true
  | OpCase.TEXSIZE0 => true
  | OpCase.lightVec _ _ => true
  | OpCase.LKS _ => true
  | OpCase.LKO _ => true
  | OpCase.lightColor _ => true
  | OpCase.MORPHWEIGHT _ => true
  | _ => false

/-- Whether the command fetched at `list.pc` is one that the loop hands to the common
command processor: its flags ask for execution and the `switch` reaches `default:`. -/
def fetchesDelegated (env : Env) (s : GPU) : Bool :=
  decide (s.commandFlags_ (Read_U32 s.memory s.list.pc >>> 24) &&& FLAG_ANY_EXECUTE ≠ 0) &&
    isDelegated env.usingGLES2 (Read_U32 s.memory s.list.pc >>> 24)

/-! ## Spec-side conditions of the draw and bounding-box commands -/

/-- The anti-aliased line discard as the spec words it: anti-aliasing is enabled and the
primitive type is `LINE_STRIP`, or `LINES` with skinning enabled. -/
def aaLineDiscardApplies (env : Env) (g : GPUgstate) (prim : Nat) : Prop :=
  env.isAntiAliasEnabled g = true ∧
    (prim = GE_PRIM_LINE_STRIP ∨ (prim = GE_PRIM_LINES ∧ env.isSkinningEnabled g = true))

/-- One of the two skip-draw flags, `SKIPFRAME` or `NON_DISPLAYED_FB`, is set. -/
def skipDrawFlagSet (c : GPUStateCache) : Prop :=
  c.skipDrawReason &&& SKIPDRAW_SKIPFRAME ≠ 0 ∨ c.skipDrawReason &&& SKIPDRAW_NON_DISPLAYED_FB ≠ 0

/-- The submission condition of a `PRIM` command with the given 24-bit payload, as the spec
words it: the count is non-zero, the anti-aliased line discard does not apply, no skip-draw
flag is set, the vertex address is valid and, for an indexed vertex type, so is the index
address. -/
def primSubmitCondition (env : Env) (s : GPU) (payload : Nat) : Prop :=
  payload &&& 0xFFFF ≠ 0 ∧
    ¬ aaLineDiscardApplies env s.gstate (payload >>> 16) ∧
    ¬ skipDrawFlagSet s.gstate_c ∧
    env.IsValidAddress s.gstate_c.vertexAddr = true ∧
    (s.gstate.cmdmem GE_CMD_VERTEXTYPE &&& GE_VTYPE_IDX_MASK ≠ GE_VTYPE_IDX_NONE →
      env.IsValidAddress s.gstate_c.indexAddr = true)

/-- The number of `SubmitPrim` calls among a list of calls. -/
def submitPrimCount (calls : List Call) : Nat := calls.countP Call.isSubmitPrim

/-- Whether a call is a `TestBoundingBox`. -/
def Call.isTestBoundingBox : Call → Bool
  | Call.TestBoundingBox _ _ _ => true
  | _ => false

/-- The condition under which a `BOUNDINGBOX` command with payload `p` runs the test, as
the spec words it: `p` is non-zero, a multiple of 8, at most 64, and the vertex type is
non-indexed. -/
def bboxTestCondition (g : GPUgstate) (p : Nat) : Prop :=
  p ≠ 0 ∧ p % 8 = 0 ∧ p ≤ 64 ∧
    g.cmdmem GE_CMD_VERTEXTYPE &&& GE_VTYPE_IDX_MASK = GE_VTYPE_IDX_NONE

/-- The sample environment with a memory map in which only `[0x08000000, 0x0A000000)` is
valid. -/
def Env.strict : Env :=
  { Env.sample with IsValidAddress := fun a => decide (0x08000000 ≤ a ∧ a < 0x0A000000) }

/-- A sample state that skips drawing: the freshly constructed core with `SKIPFRAME` set
(its vertex address, 0, is invalid for `Env.strict`). -/
def GPU.sampleSkip : GPU :=
  { GPU.sample with gstate_c := { GPUStateCache.zero with skipDrawReason := SKIPDRAW_SKIPFRAME } }

/-! ## The matrix upload families, as the spec names their parts -/

/-- The five matrix upload families. -/
inductive MatrixFamily where
  | world | view | proj | tgen | bone
deriving DecidableEq, Repr

/-- The `*NUMBER` opcode of a family; its mirror slot is the family's index register. -/
def MatrixFamily.numberOp : MatrixFamily → Nat
  | MatrixFamily.world => GE_CMD_WORLDMATRIXNUMBER
  | MatrixFamily.view => GE_CMD_VIEWMATRIXNUMBER
  | MatrixFamily.proj => GE_CMD_PROJMATRIXNUMBER
  | MatrixFamily.tgen => GE_CMD_TGENMATRIXNUMBER
  | MatrixFamily.bone => GE_CMD_BONEMATRIXNUMBER

/-- The `*DATA` opcode of a family. -/
def MatrixFamily.dataOp : MatrixFamily → Nat
  | MatrixFamily.world => GE_CMD_WORLDMATRIXDATA
  | MatrixFamily.view => GE_CMD_VIEWMATRIXDATA
  | MatrixFamily.proj => GE_CMD_PROJMATRIXDATA
  | MatrixFamily.tgen => GE_CMD_TGENMATRIXDATA
  | MatrixFamily.bone => GE_CMD_BONEMATRIXDATA

/-- The mask under which the source reads the index out of the index register. -/
def MatrixFamily.indexMask : MatrixFamily → Nat
  | MatrixFamily.bone => 0x7F
  | _ => 0xF

/-- The matrix size of a family: 12 for world, view and texture-gen, 16 for projection,
96 for bone. -/
def MatrixFamily.size : MatrixFamily → Nat
  | MatrixFamily.world => 12
  | MatrixFamily.view => 12
  | MatrixFamily.proj => 16
  | MatrixFamily.tgen => 12
  | MatrixFamily.bone => 96

/-- The matrix file of a family. -/
def MatrixFamily.matrix : MatrixFamily → GPUgstate → Nat → Nat
  | MatrixFamily.world, g => g.worldMatrix
  | MatrixFamily.view, g => g.viewMatrix
  | MatrixFamily.proj, g => g.projMatrix
  | MatrixFamily.tgen, g => g.tgenMatrix
  | MatrixFamily.bone, g => g.boneMatrix

/-- The uniform group that belongs to slot `i` of a family's matrix: the family's matrix
group, and for bone the group of bone matrix `i / 12`. -/
def MatrixFamily.dirtyGroup : MatrixFamily → Nat → DirtyGroup
  | MatrixFamily.world, _ => DirtyGroup.WORLDMATRIX
  | MatrixFamily.view, _ => DirtyGroup.VIEWMATRIX
  | MatrixFamily.proj, _ => DirtyGroup.PROJMATRIX
  | MatrixFamily.tgen, _ => DirtyGroup.TEXMATRIX
  | MatrixFamily.bone, i => DirtyGroup.BONEMATRIX (i / 12)

/-- The index held by a family's index register, read as the source reads it
(`gstate.worldmtxnum & 0xF`, `gstate.boneMatrixNumber & 0x7F`). -/
def MatrixFamily.index (f : MatrixFamily) (g : GPUgstate) : Nat :=
  g.cmdmem f.numberOp &&& f.indexMask

/-- The command word `(op << 24) | payload`. -/
def cmdWord (op payload : Nat) : Nat := (op <<< 24) ||| payload

/-- A list of command words processed in order by the loop body. -/
def processOps (env : Env) (ops : List Nat) (s : GPU) : GPU :=
  ops.foldl (fun t op => processOp env op t) s

/-- The number of `DirtyUniform` calls among a list of calls. -/
def dirtyUniformCount (calls : List Call) : Nat := calls.countP Call.isDirtyUniform

/-- The sample environment with software skinning enabled. -/
def Env.skinning : Env := { Env.sample with bSoftwareSkinning := true }

/-- A freshly constructed core for `Env.skinning`. -/
def GPU.sampleSkinning : GPU :=
  { GPU.sample with commandFlags_ := commandFlagsOf false true false }

/-! ## Block transfer: the rectangles, as the spec names them -/

/-- The number of bytes in one row of a transfer, `width * bpp`. -/
def rowBytes (r : TransferRegs) : Nat := r.width * r.bpp

/-- No byte of a source row is a byte of a destination row: the source and destination
rectangles do not overlap. -/
def srcDstDisjoint (r : TransferRegs) : Prop :=
  ∀ y, y < r.height → ∀ y2, y2 < r.height → ∀ b, b < rowBytes r → ∀ b2, b2 < rowBytes r →
    dstLineStartAddr r y + b ≠ srcLineStartAddr r y2 + b2

/-- No two different destination rows share a byte. -/
def dstRowsDisjoint (r : TransferRegs) : Prop :=
  ∀ y, y < r.height → ∀ y2, y2 < r.height → y ≠ y2 →
    ∀ b, b < rowBytes r → ∀ b2, b2 < rowBytes r →
      dstLineStartAddr r y + b ≠ dstLineStartAddr r y2 + b2

/-- The address lies in row `y` of the destination rectangle. -/
def inDstRow (r : TransferRegs) (y a : Nat) : Prop :=
  dstLineStartAddr r y ≤ a ∧ a < dstLineStartAddr r y + rowBytes r

/-- A transfer of 2 x 2 pixels of 2 bytes between two disjoint rectangles in RAM. -/
def Env.transfer : Env :=
  { Env.strict with
    getTransferSrcAddress := fun _ => 0x08800000, getTransferSrcStride := fun _ => 16,
    getTransferDstAddress := fun _ => 0x08900000, getTransferDstStride := fun _ => 16,
    getTransferWidth := fun _ => 2, getTransferHeight := fun _ => 2,
    getTransferBpp := fun _ => 2 }

/-- A transfer of 9 x 2 pixels of 2 bytes whose destination stride, 8 pixels, is less than
its width, so that the two destination rows share the bytes 16 and 17 of the first. -/
def Env.transferNarrow : Env :=
  { Env.strict with
    getTransferSrcAddress := fun _ => 0x08800000, getTransferSrcStride := fun _ => 16,
    getTransferDstAddress := fun _ => 0x08900000, getTransferDstStride := fun _ => 8,
    getTransferWidth := fun _ => 9, getTransferHeight := fun _ => 2,
    getTransferBpp := fun _ => 2 }

/-- A freshly constructed core over a memory whose byte at address `a` is `a % 256`. -/
def GPU.sampleMemory : GPU := { GPU.sample with memory := fun a => a % 256 }

/-! ## Vocabulary for the state-change claims -/

/-- Whether a call is a `DrawPixels`. -/
def Call.isDrawPixels : Call → Bool
  | Call.DrawPixels _ _ _ => true
  | _ => false

/-- The condition under which a validated transfer is drawn directly: the destination base
is the non-zero previously displayed framebuffer address or the non-zero current display
framebuffer address, the destination stride is 512 and the height is 272. -/
def directDrawCondition (env : Env) (r : TransferRegs) : Prop :=
  ((env.PrevDisplayFramebufAddr ≠ 0 ∧ r.dstBasePtr = env.PrevDisplayFramebufAddr) ∨
      (env.DisplayFramebufAddr ≠ 0 ∧ r.dstBasePtr = env.DisplayFramebufAddr)) ∧
    r.dstStride = 512 ∧ r.height = 272

/-- The framebuffer-affecting registers: `FRAMEBUFPTR`, `FRAMEBUFWIDTH`,
`FRAMEBUFPIXFORMAT`, `REGION1/2`, `SCISSOR1/2` and the six `VIEWPORT` registers. -/
def framebufRegisters : List Nat :=
  [GE_CMD_FRAMEBUFPTR, GE_CMD_FRAMEBUFWIDTH, GE_CMD_FRAMEBUFPIXFORMAT, GE_CMD_REGION1,
    GE_CMD_REGION2, GE_CMD_SCISSOR1, GE_CMD_SCISSOR2, GE_CMD_VIEWPORTX1, GE_CMD_VIEWPORTY1,
    GE_CMD_VIEWPORTX2, GE_CMD_VIEWPORTY2, GE_CMD_VIEWPORTZ1, GE_CMD_VIEWPORTZ2]

/-- The texture address registers `TEXADDR0..7`. -/
def texAddrRegisters : List Nat :=
  [GE_CMD_TEXADDR0, GE_CMD_TEXADDR1, GE_CMD_TEXADDR2, GE_CMD_TEXADDR3, GE_CMD_TEXADDR4,
    GE_CMD_TEXADDR5, GE_CMD_TEXADDR6, GE_CMD_TEXADDR7]

/-- The ignored opcodes whose table flags are empty: `DITH0..3`, `CLIPENABLE`, `TEXFLUSH`,
`TEXSYNC`, `NOP`, `BASE`. -/
def ignoredUnflagged : List Nat :=
  [GE_CMD_DITH0, GE_CMD_DITH1, GE_CMD_DITH2, GE_CMD_DITH3, GE_CMD_CLIPENABLE, GE_CMD_TEXFLUSH,
    GE_CMD_TEXSYNC, GE_CMD_NOP, GE_CMD_BASE]

/-- The ignored opcodes that the table flags `FLAG_FLUSHBEFOREONCHANGE`: `DITHERENABLE` and
`ANTIALIASENABLE`. -/
def ignoredFlushing : List Nat := [GE_CMD_DITHERENABLE, GE_CMD_ANTIALIASENABLE]

/-- The `diff` of a `VERTEXTYPE` command has a bit outside the weight-count field (the test
`diff & ~GE_VTYPE_WEIGHTCOUNT_MASK` of the source, in 32 bits). -/
def changesOutsideWeightCount (diff : Nat) : Prop :=
  diff &&& (0xFFFFFFFF ^^^ GE_VTYPE_WEIGHTCOUNT_MASK) ≠ 0

/-- The `diff` of a `VERTEXTYPE` command has a bit in the texture-coordinate field or the
through-mode bit. -/
def changesTexCoordOrThrough (diff : Nat) : Prop :=
  diff &&& (GE_VTYPE_TC_MASK ||| GE_VTYPE_THROUGH_MASK) ≠ 0

/-- The opcode of component `c` (x, y, z) of the position of light `l`. -/
def lightPosOp (l c : Nat) : Nat :=
  ([[GE_CMD_LX0, GE_CMD_LY0, GE_CMD_LZ0], [GE_CMD_LX1, GE_CMD_LY1, GE_CMD_LZ1],
    [GE_CMD_LX2, GE_CMD_LY2, GE_CMD_LZ2], [GE_CMD_LX3, GE_CMD_LY3, GE_CMD_LZ3]].getD l []).getD
    c 0

/-- The opcode of component `c` (x, y, z) of the direction of light `l`. -/
def lightDirOp (l c : Nat) : Nat :=
  ([[GE_CMD_LDX0, GE_CMD_LDY0, GE_CMD_LDZ0], [GE_CMD_LDX1, GE_CMD_LDY1, GE_CMD_LDZ1],
    [GE_CMD_LDX2, GE_CMD_LDY2, GE_CMD_LDZ2], [GE_CMD_LDX3, GE_CMD_LDY3, GE_CMD_LDZ3]].getD l
    []).getD c 0

/-- The opcode of attenuation coefficient `c` (a, b, c) of light `l`. -/
def lightAttOp (l c : Nat) : Nat :=
  ([[GE_CMD_LKA0, GE_CMD_LKB0, GE_CMD_LKC0], [GE_CMD_LKA1, GE_CMD_LKB1, GE_CMD_LKC1],
    [GE_CMD_LKA2, GE_CMD_LKB2, GE_CMD_LKC2], [GE_CMD_LKA3, GE_CMD_LKB3, GE_CMD_LKC3]].getD l
    []).getD c 0

/-- The opcode of the spot coefficient of light `l`. -/
def lightSpotCoefOp (l : Nat) : Nat :=
  [GE_CMD_LKS0, GE_CMD_LKS1, GE_CMD_LKS2, GE_CMD_LKS3].getD l 0

/-- The opcode of the spot cutoff angle of light `l`. -/
def lightAngleOp (l : Nat) : Nat :=
  [GE_CMD_LKO0, GE_CMD_LKO1, GE_CMD_LKO2, GE_CMD_LKO3].getD l 0

/-- The opcode of colour `t` (0 ambient, 1 diffuse, 2 specular) of light `l`. -/
def lightColorOp (t l : Nat) : Nat :=
  ([[GE_CMD_LAC0, GE_CMD_LAC1, GE_CMD_LAC2, GE_CMD_LAC3],
    [GE_CMD_LDC0, GE_CMD_LDC1, GE_CMD_LDC2, GE_CMD_LDC3],
    [GE_CMD_LSC0, GE_CMD_LSC1, GE_CMD_LSC2, GE_CMD_LSC3]].getD t []).getD l 0

/-- A validated transfer of a 480 x 272 frame of 4-byte pixels, stride 512, onto the current
display framebuffer. -/
def Env.video : Env :=
  { Env.strict with
    getTransferSrcAddress := fun _ => 0x08800000, getTransferSrcStride := fun _ => 512,
    getTransferDstAddress := fun _ => 0x09000000, getTransferDstStride := fun _ => 512,
    getTransferWidth := fun _ => 480, getTransferHeight := fun _ => 272,
    getTransferBpp := fun _ => 4, DisplayFramebufAddr := 0x09000000 }

/-! ## Vocabulary for the remaining claims -/

/-- The opcodes whose case body is `if (diff) DirtyUniform(group)`, each with the uniform
group the spec lists for it. -/
def uniformGroupTable : List (Nat × DirtyGroup) :=
  [(GE_CMD_FOGCOLOR, DirtyGroup.FOGCOLOR), (GE_CMD_FOG1, DirtyGroup.FOGCOEF),
    (GE_CMD_FOG2, DirtyGroup.FOGCOEF), (GE_CMD_AMBIENTCOLOR, DirtyGroup.AMBIENT),
    (GE_CMD_AMBIENTALPHA, DirtyGroup.AMBIENT), (GE_CMD_MATERIALDIFFUSE, DirtyGroup.MATDIFFUSE),
    (GE_CMD_MATERIALEMISSIVE, DirtyGroup.MATEMISSIVE),
    (GE_CMD_MATERIALAMBIENT, DirtyGroup.MATAMBIENTALPHA),
    (GE_CMD_MATERIALALPHA, DirtyGroup.MATAMBIENTALPHA),
    (GE_CMD_MATERIALSPECULAR, DirtyGroup.MATSPECULAR),
    (GE_CMD_MATERIALSPECULARCOEF, DirtyGroup.MATSPECULAR),
    (GE_CMD_ALPHATEST, DirtyGroup.ALPHACOLORREF), (GE_CMD_COLORREF, DirtyGroup.ALPHACOLORREF),
    (GE_CMD_TEXENVCOLOR, DirtyGroup.TEXENV),
    (GE_CMD_STENCILTEST, DirtyGroup.STENCILREPLACEVALUE)]

/-- Whether a call is the texture cache's `LoadClut`. -/
def Call.isLoadClut : Call → Bool
  | Call.LoadClut => true
  | _ => false

/-- Whether a call is the framebuffer manager's `UpdateFromMemory`. -/
def Call.isUpdateFromMemory : Call → Bool
  | Call.UpdateFromMemory _ _ _ => true
  | _ => false

/-- Whether a call goes to the texture cache as an invalidation (range or all). -/
def Call.isTextureCacheInvalidation : Call → Bool
  | Call.Invalidate _ _ _ => true
  | Call.InvalidateAll _ => true
  | _ => false

/-- The condition under which a validated transfer hints the framebuffer manager: the
source base is a RAM address, the destination base is a VRAM address, the strides are
equal and the four offsets are zero. -/
def updateFromMemoryCondition (env : Env) (r : TransferRegs) : Prop :=
  (env.IsRAMAddress r.srcBasePtr = true ∧ env.IsVRAMAddress r.dstBasePtr = true) ∧
    r.dstStride = r.srcStride ∧ r.dstY = 0 ∧ r.dstX = 0 ∧ r.srcX = 0 ∧ r.srcY = 0

/-- The start of the range `DoBlockTransfer` passes to the texture cache's `Invalidate`. -/
def invalidateStart (r : TransferRegs) : Nat :=
  (r.dstBasePtr + (r.dstY * r.dstStride + r.dstX) * r.bpp) % 2 ^ 32

/-- The size of the range `DoBlockTransfer` passes to the texture cache's `Invalidate`. -/
def invalidateSize (r : TransferRegs) : Nat := (r.height * r.dstStride * r.bpp) % 2 ^ 32

/-- The address arithmetic of the invalidated destination range does not wrap around 32
bits: the end of the range is at most `2^32`, and its size fits the signed 32-bit `int`
that `Invalidate` receives. -/
def dstRangeNoWrap (r : TransferRegs) : Prop :=
  r.dstBasePtr + (r.dstY * r.dstStride + r.dstX) * r.bpp + r.height * r.dstStride * r.bpp ≤
      2 ^ 32 ∧
    r.height * r.dstStride * r.bpp < 2 ^ 31

/-- The address arithmetic of a transfer does not wrap around 32 bits: one past the last
byte of the bottom-right pixel of either rectangle is at most `2^32`. -/
def transferNoWrap (r : TransferRegs) : Prop :=
  r.srcBasePtr + ((r.height - 1 + r.srcY) * r.srcStride + (r.srcX + r.width)) * r.bpp ≤ 2 ^ 32 ∧
    r.dstBasePtr + ((r.height - 1 + r.dstY) * r.dstStride + (r.dstX + r.width)) * r.bpp ≤ 2 ^ 32

/-- Every slot `c` of the mirror holds a word whose top byte is `c`. -/
def mirrorTagged (g : GPUgstate) : Prop := ∀ c, c < 256 → g.cmdmem c >>> 24 = c

/-! ## Events (`GLES_GPU::ProcessEvent`) -/

/-- Modelled from the spec: the events the GPU thread processes (`GPUEvent`, GPUCommon.h):
the four kinds `ProcessEvent` handles itself, the cache invalidation carrying
`{addr, size, type}` with `size` an `int`, and any other kind. -/
inductive GPUEvent where
  | INIT_CLEAR
  | BEGIN_FRAME
  | COPY_DISPLAY_TO_OUTPUT
  | INVALIDATE_CACHE (addr : Nat) (size : Int) (type : GPUInvalidationType)
  | other (type : Nat)

/-- The handlers `ProcessEvent` dispatches to besides `InvalidateCacheInternal`.  Their
bodies act on GL state, the frame bookkeeping and subsystems that the call trace of this
development does not record, and `GPUCommon::ProcessEvent` is not among the sources; they
are parameters of the dispatch. -/
structure EventHandlers where
  InitClearInternal : GPU → GPU
  BeginFrameInternal : GPU → GPU
  CopyDisplayToOutputInternal : GPU → GPU
  GPUCommon_ProcessEvent : GPUEvent → GPU → GPU

/-- The function `GLES_GPU::InvalidateCacheInternal`.  The `int size` is passed on as its
32-bit pattern. -/
def InvalidateCacheInternal (addr : Nat) (size : Int) (type : GPUInvalidationType) (s : GPU) :
    GPU :=
  let s1 :=
    if size > 0 then s.call (Call.Invalidate addr (toU32 size) type)
    else s.call (Call.InvalidateAll type)
  if type ≠ GPUInvalidationType.GPU_INVALIDATE_ALL then
    s1.call (Call.UpdateFromMemory addr (toU32 size)
      (decide (type = GPUInvalidationType.GPU_INVALIDATE_SAFE)))
  else s1

/-- The function `GLES_GPU::ProcessEvent`. -/
def ProcessEvent (h : EventHandlers) (ev : GPUEvent) (s : GPU) : GPU :=
  match ev with
  | GPUEvent.INIT_CLEAR => h.InitClearInternal s
  | GPUEvent.BEGIN_FRAME => h.BeginFrameInternal s
  | GPUEvent.COPY_DISPLAY_TO_OUTPUT => h.CopyDisplayToOutputInternal s
  | GPUEvent.INVALIDATE_CACHE addr size type => InvalidateCacheInternal addr size type s
  | GPUEvent.other _ => h.GPUCommon_ProcessEvent ev s

/-- Handlers that leave the state as it is, for concrete runs of `ProcessEvent`. -/
def EventHandlers.sample : EventHandlers :=
  { InitClearInternal := fun s => s, BeginFrameInternal := fun s => s,
    CopyDisplayToOutputInternal := fun s => s, GPUCommon_ProcessEvent := fun _ s => s }

/-- A validated upload of a 480 x 272 frame from RAM to the start of VRAM with equal
strides and zero offsets. -/
def Env.upload : Env :=
  { Env.sample with
    IsRAMAddress := fun a => decide (0x08000000 ≤ a ∧ a < 0x0A000000),
    IsVRAMAddress := fun a => decide (0x04000000 ≤ a ∧ a < 0x04200000),
    getTransferSrcAddress := fun _ => 0x08800000, getTransferSrcStride := fun _ => 512,
    getTransferDstAddress := fun _ => 0x04000000, getTransferDstStride := fun _ => 512,
    getTransferWidth := fun _ => 480, getTransferHeight := fun _ => 272,
    getTransferBpp := fun _ => 4 }

/-- Whether a case body that writes its own register keeps the register's top byte: the
masks of the `*MATRIXNUMBER` bodies have all eight top bits set. -/
def OpCase.keepsTopByte : OpCase → Bool
  | OpCase.matrixNumber _ mask => decide (mask = 0xFF00000F ∨ mask = 0xFF00007F)
  | _ => true

/-- The mirror after a reset, every slot holding its opcode and a zero payload
(`cmdmem[i] = i << 24`). -/
def GPUgstate.reset : GPUgstate := { GPUgstate.zero with cmdmem := fun c => c <<< 24 }

/-- A freshly constructed core whose mirror has been reset. -/
def GPU.sampleReset : GPU := { GPU.sample with gstate := GPUgstate.reset }


/-! ## Further sample inputs -/

/-- The skip-draw sample state with `cyclesExecuted = 2147483632`, 16 below `2^31`. -/
def GPU.sampleSkipFull : GPU := { GPU.sampleSkip with cyclesExecuted := 2147483632 }

/-- The end of a loop iteration: `list.pc += 4` and the `--downcount` of the loop header. -/
def GPU.advance (s : GPU) : GPU :=
  { s with list := { s.list with pc := (s.list.pc + 4) % 2 ^ 32 },
           downcount := s.downcount - 1 }

/-- The loop body run on a given list of command words, in order, each followed by
`list.pc += 4` and `--downcount`. -/
def runWords (env : Env) (ws : List Nat) (s : GPU) : GPU :=
  ws.foldl (fun t w => (processOp env w t).advance) s

/-- A freshly constructed core about to run a display list of two words stored in RAM at
`0x08000000`: `(FOGCOLOR, 0x112233)` and `(FOG1, 0x000001)`, little-endian. -/
def GPU.sampleStream : GPU :=
  { GPU.sample with
    memory := fun a =>
      if a < 0x08000000 then 0
      else [0x33, 0x22, 0x11, 0xCF, 0x01, 0x00, 0x00, 0xCD].getD (a - 0x08000000) 0,
    list := { pc := 0x08000000, bboxResult := true },
    downcount := 2 }

/-- The memory after the first `n` iterations of the copy loop of `DoBlockTransfer`
(`copyRows` is `copyRowsUpTo` at `n = height`). -/
def copyRowsUpTo (r : TransferRegs) (memory : Nat → Nat) (n : Nat) : Nat → Nat :=
  (List.range n).foldl
    (fun m y => memcpy m (dstLineStartAddr r y) (srcLineStartAddr r y) (r.width * r.bpp)) memory

/-! # Theorems -/

/-! ## Construction of the flag table -/

theorem foldl_seedStep_flags (table : List CommandTableEntry) (b : TableBuild) (c : Nat) :
    (table.foldl seedStep b).commandFlags_ c =
      ((table.filter (fun e => decide (e.cmd = c))).map (fun e => e.flags)).foldl
        (fun x y => x ||| y) (b.commandFlags_ c) := by
  induction table generalizing b with
  | nil => rfl
  | cons e t ih =>
    rw [List.foldl_cons, ih]
    by_cases h : e.cmd = c
    · subst h
      simp [seedStep, List.filter_cons]
    · have h2 : c ≠ e.cmd := fun h3 => h h3.symm
      simp [seedStep, List.filter_cons, h, Function.update_noteq h2]

theorem foldl_seedStep_nodup (table : List CommandTableEntry) (b : TableBuild)
    (hlog : b.dupeLog = [])
    (hnd : (b.dupeCheck ++ table.map (fun e => e.cmd)).Nodup) :
    (table.foldl seedStep b).dupeLog = [] ∧
      (table.foldl seedStep b).dupeCheck = b.dupeCheck ++ table.map (fun e => e.cmd) := by
  induction table generalizing b with
  | nil => simp [hlog]
  | cons e t ih =>
    have hnot : e.cmd ∉ b.dupeCheck := by
      intro hmem
      have := List.nodup_append.mp hnd
      exact this.2.2 hmem (by simp)
    have hstep1 : (seedStep b e).dupeLog = [] := by simp [seedStep, hnot, hlog]
    have hstep2 : (seedStep b e).dupeCheck = b.dupeCheck ++ [e.cmd] := by simp [seedStep, hnot]
    have hnd2 : ((seedStep b e).dupeCheck ++ t.map (fun e => e.cmd)).Nodup := by
      rw [hstep2]
      simpa using hnd
    have := ih (seedStep b e) hstep1 hnd2
    rw [List.foldl_cons]
    refine ⟨this.1, ?_⟩
    rw [this.2, hstep2]
    simp

set_option maxRecDepth 100000 in
theorem tableOpcodes_sorted (usingGLES2 : Bool) :
    List.insertionSort (fun a b => a ≤ b) (tableOpcodes usingGLES2) = List.range 256 := by
  cases usingGLES2 <;> decide!

theorem tableOpcodes_perm (usingGLES2 : Bool) :
    (tableOpcodes usingGLES2).Perm (List.range 256) := by
  have h := List.perm_insertionSort (fun a b : Nat => a ≤ b) (tableOpcodes usingGLES2)
  rw [tableOpcodes_sorted] at h
  exact h.symm

theorem tableOpcodes_nodup (usingGLES2 : Bool) : (tableOpcodes usingGLES2).Nodup :=
  (tableOpcodes_perm usingGLES2).nodup_iff.mpr (List.nodup_range 256)

theorem mem_tableOpcodes (usingGLES2 : Bool) (op : Nat) :
    op ∈ tableOpcodes usingGLES2 ↔ op < 256 := by
  rw [(tableOpcodes_perm usingGLES2).mem_iff, List.mem_range]

theorem seedTable_commandTable (usingGLES2 : Bool) :
    (seedTable (commandTable usingGLES2)).dupeLog = [] ∧
      (seedTable (commandTable usingGLES2)).dupeCheck = tableOpcodes usingGLES2 := by
  have h := foldl_seedStep_nodup (commandTable usingGLES2) TableBuild.init rfl
    (by simpa [TableBuild.init, tableOpcodes] using tableOpcodes_nodup usingGLES2)
  simpa [seedTable, TableBuild.init, tableOpcodes] using h

/-- C6. Flag-table completeness: in the static `commandTable` (either build
alternative) every opcode in `[0x00, 0xEE]` is named by exactly one row, no opcode
is named by two rows, and therefore the constructor logs no "Dupe" and no
"Command missing from table". -/
theorem commandTable_complete (usingGLES2 : Bool) :
    (∀ op, op ≤ 0xEE →
      ((commandTable usingGLES2).filter (fun e => decide (e.cmd = op))).length = 1) ∧
    ((commandTable usingGLES2).map (fun e => e.cmd)).Nodup ∧
    (seedTable (commandTable usingGLES2)).dupeLog = [] ∧
    missingLog (seedTable (commandTable usingGLES2)) = [] := by
  refine ⟨?_, tableOpcodes_nodup usingGLES2, (seedTable_commandTable usingGLES2).1, ?_⟩
  · intro op hop
    have hmem : op ∈ tableOpcodes usingGLES2 := (mem_tableOpcodes usingGLES2 op).mpr (by omega)
    have hc := List.count_eq_one_of_mem (tableOpcodes_nodup usingGLES2) hmem
    rw [← hc, tableOpcodes, List.count, List.countP_map, List.countP_eq_length_filter]
    congr 1
  · rw [missingLog, (seedTable_commandTable usingGLES2).2, List.filter_eq_nil_iff]
    intro i hi
    have : i < 256 := by
      have := List.mem_range.mp hi
      omega
    simp [(mem_tableOpcodes usingGLES2 i).mpr this]

/-- Witness for C6: `FOGCOLOR` is named by exactly one row. -/
theorem commandTable_complete_witness :
    ((commandTable false).filter (fun e => decide (e.cmd = GE_CMD_FOGCOLOR))).length = 1 :=
  (commandTable_complete false).1 GE_CMD_FOGCOLOR (by decide)

/-- C7 (as stated) fails: seeding from two rows naming opcode `0x10` with flags
`FLUSHBEFORE` and `FLUSHBEFOREONCHANGE` leaves `commandFlags_[0x10] = 3`, the OR of
both, whereas "last wins" would give `2`. -/
theorem seedTable_not_last_wins :
    (seedTable [CommandTableEntry.mk 0x10 FLAG_FLUSHBEFORE,
        CommandTableEntry.mk 0x10 FLAG_FLUSHBEFOREONCHANGE]).commandFlags_ 0x10 = 3 ∧
    lastWinsFlags [CommandTableEntry.mk 0x10 FLAG_FLUSHBEFORE,
        CommandTableEntry.mk 0x10 FLAG_FLUSHBEFOREONCHANGE] 0x10 = 2 := by
  decide

/-- C7 (amended). For any seed list, the seeding loop gives each opcode the
bitwise OR of the flags of all rows naming it; an opcode no row names gets 0, and
an opcode named by exactly one row gets that row's flags. -/
theorem seedTable_flags_or (table : List CommandTableEntry) (c : Nat) :
    (seedTable table).commandFlags_ c = orFlags table c ∧
    (c ∉ table.map (fun e => e.cmd) → (seedTable table).commandFlags_ c = 0) ∧
    (∀ e, table.filter (fun x => decide (x.cmd = c)) = [e] →
      (seedTable table).commandFlags_ c = e.flags) := by
  have h : (seedTable table).commandFlags_ c = orFlags table c := by
    rw [seedTable, foldl_seedStep_flags]
    rfl
  refine ⟨h, ?_, ?_⟩
  · intro hc
    rw [h, orFlags]
    have : table.filter (fun e => decide (e.cmd = c)) = [] := by
      rw [List.filter_eq_nil_iff]
      intro e he
      simp only [decide_eq_true_eq]
      intro hec
      exact hc (List.mem_map.mpr ⟨e, he, hec⟩)
    rw [this]
    rfl
  · intro e he
    rw [h, orFlags, he]
    simp

/-- Witness for C7 (amended): an opcode no row names, and one named by exactly one row. -/
theorem seedTable_flags_or_witness :
    (seedTable [CommandTableEntry.mk 0x10 1, CommandTableEntry.mk 0x12 2,
        CommandTableEntry.mk 0x10 8]).commandFlags_ 0x11 = 0 ∧
    (seedTable [CommandTableEntry.mk 0x10 1, CommandTableEntry.mk 0x12 2,
        CommandTableEntry.mk 0x10 8]).commandFlags_ 0x12 = 2 :=
  ⟨(seedTable_flags_or _ 0x11).2.1 (by decide),
   (seedTable_flags_or _ 0x12).2.2 (CommandTableEntry.mk 0x12 2) (by decide)⟩


/-! ## Frame properties of the executor -/

theorem runCase_commandFlags (env : Env) (c : OpCase) (op diff : Nat) (s : GPU) :
    (runCase env c op diff s).commandFlags_ = s.commandFlags_ := by
  cases c <;>
    simp only [runCase, execPRIM, execBEZIER, execSPLINE, patchFront, execBOUNDINGBOX,
      execVERTEXTYPE, framebufChangedOnChange, textureChangedOnChange, dirtyOnChange, execUV,
      DoBlockTransfer, execTEXSIZE0, execLightVec, execLKS, execLKO, execLightColor,
      execMORPHWEIGHT, execMatrixNumber, execWORLDMATRIXDATA, execVIEWMATRIXDATA,
      execPROJMATRIXDATA, execTGENMATRIXDATA, execBONEMATRIXDATA, delegateToCommon,
      GPU.call, GPU.Flush, GPU.DirtyUniform, GPU.setCmd, GPU.setTextureChanged,
      GPU.setFramebufChanged, GPU.setBboxResult] <;>
    (try split_ifs) <;> rfl

theorem runCase_calls (env : Env) (c : OpCase) (op diff : Nat) (s : GPU) :
    ∃ rest : List Call, (runCase env c op diff s).calls = s.calls ++ rest := by
  cases c <;>
    simp only [runCase, execPRIM, execBEZIER, execSPLINE, patchFront, execBOUNDINGBOX,
      execVERTEXTYPE, framebufChangedOnChange, textureChangedOnChange, dirtyOnChange, execUV,
      DoBlockTransfer, execTEXSIZE0, execLightVec, execLKS, execLKO, execLightColor,
      execMORPHWEIGHT, execMatrixNumber, execWORLDMATRIXDATA, execVIEWMATRIXDATA,
      execPROJMATRIXDATA, execTGENMATRIXDATA, execBONEMATRIXDATA, delegateToCommon,
      GPU.call, GPU.Flush, GPU.DirtyUniform, GPU.setCmd, GPU.setTextureChanged,
      GPU.setFramebufChanged, GPU.setBboxResult] <;>
    (try split_ifs) <;>
    first
      | exact ⟨[], (List.append_nil _).symm⟩
      | exact ⟨_, rfl⟩
      | exact ⟨_, List.append_assoc _ _ _⟩
      | (simp only [List.append_assoc]; exact ⟨_, rfl⟩)

/-- C1. One pass of the loop body over a fetched word `op`: the calls it makes are, in
order, one `Flush` exactly when the opcode's flags contain `FLUSH_BEFORE`, or
`diff = op ^ mirror[cmd]` is non-zero and the flags contain `FLUSH_BEFORE_ON_CHANGE`,
and then the calls of the executor.  That flush is issued under the registers as they
were before the pass (the slot not yet overwritten), and the executor stage runs
afterwards, on the state whose slot has been written. -/
theorem processOp_flush_first (env : Env) (op : Nat) (s : GPU) :
    ∃ rest : List Call,
      (processOp env op s).calls =
        s.calls ++
          (if s.commandFlags_ (op >>> 24) &&& FLAG_FLUSHBEFORE ≠ 0 ∨
              (op ^^^ s.gstate.cmdmem (op >>> 24) ≠ 0 ∧
                s.commandFlags_ (op >>> 24) &&& FLAG_FLUSHBEFOREONCHANGE ≠ 0)
            then [Call.Flush s.gstate] else []) ++ rest ∧
      (if s.commandFlags_ (op >>> 24) &&& FLAG_ANY_EXECUTE ≠ 0 then
          (ExecuteOpInternal env op (op ^^^ s.gstate.cmdmem (op >>> 24))
            ((if s.commandFlags_ (op >>> 24) &&& FLAG_FLUSHBEFORE ≠ 0 ∨
                (op ^^^ s.gstate.cmdmem (op >>> 24) ≠ 0 ∧
                  s.commandFlags_ (op >>> 24) &&& FLAG_FLUSHBEFOREONCHANGE ≠ 0)
              then s.Flush else s).setCmd (op >>> 24) op)).calls =
            ((if s.commandFlags_ (op >>> 24) &&& FLAG_FLUSHBEFORE ≠ 0 ∨
                (op ^^^ s.gstate.cmdmem (op >>> 24) ≠ 0 ∧
                  s.commandFlags_ (op >>> 24) &&& FLAG_FLUSHBEFOREONCHANGE ≠ 0)
              then s.Flush else s).setCmd (op >>> 24) op).calls ++ rest
        else rest = []) := by
  by_cases hx : s.commandFlags_ (op >>> 24) &&& FLAG_ANY_EXECUTE ≠ 0
  · obtain ⟨rest, hrest⟩ := runCase_calls env (selectCase env.usingGLES2 (op >>> 24)) op
      (op ^^^ s.gstate.cmdmem (op >>> 24))
      ((if s.commandFlags_ (op >>> 24) &&& FLAG_FLUSHBEFORE ≠ 0 ∨
          (op ^^^ s.gstate.cmdmem (op >>> 24) ≠ 0 ∧
            s.commandFlags_ (op >>> 24) &&& FLAG_FLUSHBEFOREONCHANGE ≠ 0)
        then s.Flush else s).setCmd (op >>> 24) op)
    refine ⟨rest, ?_, ?_⟩
    · simp only [processOp, if_pos hx, ExecuteOpInternal, hrest]
      split_ifs <;> simp [GPU.setCmd, GPU.Flush, GPU.call]
    · rw [if_pos hx]
      exact hrest
  · refine ⟨[], ?_, ?_⟩
    · simp only [processOp, if_neg hx]
      split_ifs <;> simp [GPU.setCmd, GPU.Flush, GPU.call]
    · rw [if_neg hx]


/-! ## Bit-level facts about command words -/

theorem word_shiftRight (c p : Nat) (hp : p < 2 ^ 24) : ((c <<< 24) ||| p) >>> 24 = c := by
  apply Nat.eq_of_testBit_eq
  intro i
  have hpi : p.testBit (24 + i) = false :=
    Nat.testBit_lt_two_pow (lt_of_lt_of_le hp (Nat.pow_le_pow_right (by norm_num) (by omega)))
  simp [Nat.testBit_shiftRight, Nat.testBit_or, Nat.testBit_shiftLeft, hpi]

theorem testBit_FF00000F (i : Nat) :
    (0xFF00000F : Nat).testBit i = decide (i < 4 ∨ (24 ≤ i ∧ i < 32)) := by
  by_cases h : i < 32
  · interval_cases i <;> rfl
  · have h1 : (0xFF00000F : Nat) < 2 ^ i :=
      lt_of_lt_of_le (by norm_num) (Nat.pow_le_pow_right (by norm_num) (Nat.le_of_not_lt h))
    rw [Nat.testBit_lt_two_pow h1]
    simp only [Bool.false_eq, decide_eq_false_iff_not]
    omega

theorem testBit_FF00007F (i : Nat) :
    (0xFF00007F : Nat).testBit i = decide (i < 7 ∨ (24 ≤ i ∧ i < 32)) := by
  by_cases h : i < 32
  · interval_cases i <;> rfl
  · have h1 : (0xFF00007F : Nat) < 2 ^ i :=
      lt_of_lt_of_le (by norm_num) (Nat.pow_le_pow_right (by norm_num) (Nat.le_of_not_lt h))
    rw [Nat.testBit_lt_two_pow h1]
    simp only [Bool.false_eq, decide_eq_false_iff_not]
    omega

theorem testBit_lowMask (n i : Nat) : (2 ^ n - 1).testBit i = decide (i < n) :=
  Nat.testBit_two_pow_sub_one n i

theorem testBit_of_lt_of_le {x n i : Nat} (hx : x < 2 ^ n) (hi : n ≤ i) :
    x.testBit i = false :=
  Nat.testBit_lt_two_pow (lt_of_lt_of_le hx (Nat.pow_le_pow_right (by norm_num) hi))

theorem word_and_mask4 (c p : Nat) (hc : c < 256) (hp : p < 2 ^ 24) :
    ((c <<< 24) ||| p) &&& 0xFF00000F = (c <<< 24) ||| (p &&& 0xF) := by
  apply Nat.eq_of_testBit_eq
  intro i
  have hF : (0xF : Nat).testBit i = decide (i < 4) := testBit_lowMask 4 i
  rw [Nat.testBit_and, Nat.testBit_or, Nat.testBit_or, Nat.testBit_and, testBit_FF00000F, hF,
    Nat.testBit_shiftLeft]
  by_cases h1 : i < 4
  · simp [h1]
  · by_cases h2 : i < 24
    · have : ¬ 24 ≤ i := by omega
      simp [h1, this]
    · have hpi : p.testBit i = false := testBit_of_lt_of_le hp (by omega)
      have h24 : 24 ≤ i := by omega
      by_cases h3 : i < 32
      · simp [h1, h3, hpi, h24]
      · have hci : c.testBit (i - 24) = false :=
          testBit_of_lt_of_le (show c < 2 ^ 8 from hc) (by omega)
        simp [h1, h3, hpi, hci]

theorem word_and_mask7 (c p : Nat) (hc : c < 256) (hp : p < 2 ^ 24) :
    ((c <<< 24) ||| p) &&& 0xFF00007F = (c <<< 24) ||| (p &&& 0x7F) := by
  apply Nat.eq_of_testBit_eq
  intro i
  have hF : (0x7F : Nat).testBit i = decide (i < 7) := testBit_lowMask 7 i
  rw [Nat.testBit_and, Nat.testBit_or, Nat.testBit_or, Nat.testBit_and, testBit_FF00007F, hF,
    Nat.testBit_shiftLeft]
  by_cases h1 : i < 7
  · simp [h1]
  · by_cases h2 : i < 24
    · have : ¬ 24 ≤ i := by omega
      simp [h1, this]
    · have hpi : p.testBit i = false := testBit_of_lt_of_le hp (by omega)
      have h24 : 24 ≤ i := by omega
      by_cases h3 : i < 32
      · simp [h1, h3, hpi, h24]
      · have hci : c.testBit (i - 24) = false :=
          testBit_of_lt_of_le (show c < 2 ^ 8 from hc) (by omega)
        simp [h1, h3, hpi, hci]

/-! ## The mirror slot of a processed command -/

theorem runCase_cmdmem (env : Env) (c : OpCase) (op diff : Nat) (s : GPU) (j : Nat)
    (hj : c.writesReg ≠ some j) :
    (runCase env c op diff s).gstate.cmdmem j = s.gstate.cmdmem j := by
  cases c <;>
    simp only [runCase, execPRIM, execBEZIER, execSPLINE, patchFront, execBOUNDINGBOX,
      execVERTEXTYPE, framebufChangedOnChange, textureChangedOnChange, dirtyOnChange, execUV,
      DoBlockTransfer, execTEXSIZE0, execLightVec, execLKS, execLKO, execLightColor,
      execMORPHWEIGHT, execMatrixNumber, execWORLDMATRIXDATA, execVIEWMATRIXDATA,
      execPROJMATRIXDATA, execTGENMATRIXDATA, execBONEMATRIXDATA, delegateToCommon,
      GPU.call, GPU.Flush, GPU.DirtyUniform, GPU.setCmd, GPU.setTextureChanged,
      GPU.setFramebufChanged, GPU.setBboxResult, OpCase.writesReg, ne_eq, Option.some.injEq,
      not_false_eq_true, reduceCtorEq] at hj ⊢ <;>
    (try split_ifs) <;>
    first
      | rfl
      | (rw [Function.update_noteq (Ne.symm hj)]; done)
      | (simp [Function.update_apply, Nat.xor_assoc]; done)
      | (simp only [Function.update_apply]; split_ifs <;> simp_all [Nat.xor_assoc])

set_option maxRecDepth 100000 in
theorem selectCase_writesReg (usingGLES2 : Bool) :
    ∀ cmd, cmd < 256 → (selectCase usingGLES2 cmd).writesReg = some cmd →
      cmd ∈ [GE_CMD_WORLDMATRIXNUMBER, GE_CMD_VIEWMATRIXNUMBER, GE_CMD_PROJMATRIXNUMBER,
        GE_CMD_TGENMATRIXNUMBER, GE_CMD_BONEMATRIXNUMBER] := by
  cases usingGLES2 <;> decide!


theorem processOp_gstate_cmdmem (env : Env) (op : Nat) (s : GPU) :
    (processOp env op s).gstate.cmdmem (op >>> 24) =
      if s.commandFlags_ (op >>> 24) &&& FLAG_ANY_EXECUTE ≠ 0 then
        (runCase env (selectCase env.usingGLES2 (op >>> 24)) op
          (op ^^^ s.gstate.cmdmem (op >>> 24))
          ((if s.commandFlags_ (op >>> 24) &&& FLAG_FLUSHBEFORE ≠ 0 ∨
              (op ^^^ s.gstate.cmdmem (op >>> 24) ≠ 0 ∧
                s.commandFlags_ (op >>> 24) &&& FLAG_FLUSHBEFOREONCHANGE ≠ 0)
            then s.Flush else s).setCmd (op >>> 24) op)).gstate.cmdmem (op >>> 24)
      else op := by
  simp only [processOp, ExecuteOpInternal]
  split_ifs <;> simp [GPU.setCmd, GPU.Flush, GPU.call]

theorem setCmd_cmdmem_same (s : GPU) (cmd v : Nat) : (s.setCmd cmd v).gstate.cmdmem cmd = v := by
  simp [GPU.setCmd]

theorem selectCase_matrixNumber (usingGLES2 : Bool) :
    selectCase usingGLES2 GE_CMD_WORLDMATRIXNUMBER =
        OpCase.matrixNumber GE_CMD_WORLDMATRIXNUMBER 0xFF00000F ∧
      selectCase usingGLES2 GE_CMD_VIEWMATRIXNUMBER =
        OpCase.matrixNumber GE_CMD_VIEWMATRIXNUMBER 0xFF00000F ∧
      selectCase usingGLES2 GE_CMD_PROJMATRIXNUMBER =
        OpCase.matrixNumber GE_CMD_PROJMATRIXNUMBER 0xFF00000F ∧
      selectCase usingGLES2 GE_CMD_TGENMATRIXNUMBER =
        OpCase.matrixNumber GE_CMD_TGENMATRIXNUMBER 0xFF00000F ∧
      selectCase usingGLES2 GE_CMD_BONEMATRIXNUMBER =
        OpCase.matrixNumber GE_CMD_BONEMATRIXNUMBER 0xFF00007F := by
  cases usingGLES2 <;> decide

theorem runCase_matrixNumber (env : Env) (numReg mask op diff : Nat) (s : GPU) :
    (runCase env (OpCase.matrixNumber numReg mask) op diff s).gstate.cmdmem numReg =
      s.gstate.cmdmem numReg &&& mask := by
  simp [runCase, execMatrixNumber, GPU.setCmd]

/-- C2 (as stated) fails: processing `(WORLDMATRIXNUMBER, 0x10)` on a freshly constructed
core leaves `mirror[WORLDMATRIXNUMBER] = 0x3A000000`, not `(0x3A << 24) | 0x10`: the
executor masks the register to its low four bits. -/
theorem mirror_coherence_fails_for_matrix_number :
    (processOp Env.sample ((GE_CMD_WORLDMATRIXNUMBER <<< 24) ||| 0x10)
        GPU.sample).gstate.cmdmem GE_CMD_WORLDMATRIXNUMBER = 0x3A000000 ∧
      (GE_CMD_WORLDMATRIXNUMBER <<< 24) ||| 0x10 = 0x3A000010 := by
  decide!

theorem processOp_own_slot (env : Env) (s : GPU) (c p : Nat) (hc : c < 256)
    (hp : p < 2 ^ 24)
    (hnot : c ∉ [GE_CMD_WORLDMATRIXNUMBER, GE_CMD_VIEWMATRIXNUMBER, GE_CMD_PROJMATRIXNUMBER,
        GE_CMD_TGENMATRIXNUMBER, GE_CMD_BONEMATRIXNUMBER]) :
    (processOp env ((c <<< 24) ||| p) s).gstate.cmdmem c = (c <<< 24) ||| p := by
  have hcmd : ((c <<< 24) ||| p) >>> 24 = c := word_shiftRight c p hp
  have key := processOp_gstate_cmdmem env ((c <<< 24) ||| p) s
  rw [hcmd] at key
  rw [key]
  by_cases hx : s.commandFlags_ c &&& FLAG_ANY_EXECUTE ≠ 0
  · rw [if_pos hx, runCase_cmdmem, setCmd_cmdmem_same]
    intro hw
    exact hnot (selectCase_writesReg env.usingGLES2 c hc hw)
  · rw [if_neg hx]

/-- C2 (amended). After the loop body has processed the command `(c, p)`, with `c` an
opcode and `p` a 24-bit payload: for every opcode other than the five `*MATRIXNUMBER`
opcodes `mirror[c] = (c << 24) | p`; for an executed `WORLD`/`VIEW`/`PROJ`/`TGENMATRIXNUMBER`
(flags with `EXECUTE` or `EXECUTE_ON_CHANGE`, as the table gives them)
`mirror[c] = (c << 24) | (p & 0xF)`, and for an executed `BONEMATRIXNUMBER`
`mirror[c] = (c << 24) | (p & 0x7F)`. -/
theorem processOp_mirror_slot (env : Env) (s : GPU) (c p : Nat) (hc : c < 256)
    (hp : p < 2 ^ 24) :
    (c ∉ [GE_CMD_WORLDMATRIXNUMBER, GE_CMD_VIEWMATRIXNUMBER, GE_CMD_PROJMATRIXNUMBER,
        GE_CMD_TGENMATRIXNUMBER, GE_CMD_BONEMATRIXNUMBER] →
      (processOp env ((c <<< 24) ||| p) s).gstate.cmdmem c = (c <<< 24) ||| p) ∧
    (s.commandFlags_ c &&& FLAG_ANY_EXECUTE ≠ 0 →
      c ∈ [GE_CMD_WORLDMATRIXNUMBER, GE_CMD_VIEWMATRIXNUMBER, GE_CMD_PROJMATRIXNUMBER,
        GE_CMD_TGENMATRIXNUMBER] →
      (processOp env ((c <<< 24) ||| p) s).gstate.cmdmem c = (c <<< 24) ||| (p &&& 0xF)) ∧
    (s.commandFlags_ c &&& FLAG_ANY_EXECUTE ≠ 0 → c = GE_CMD_BONEMATRIXNUMBER →
      (processOp env ((c <<< 24) ||| p) s).gstate.cmdmem c = (c <<< 24) ||| (p &&& 0x7F)) := by
  have hcmd : ((c <<< 24) ||| p) >>> 24 = c := word_shiftRight c p hp
  have key := processOp_gstate_cmdmem env ((c <<< 24) ||| p) s
  rw [hcmd] at key
  have hsel := selectCase_matrixNumber env.usingGLES2
  refine ⟨?_, ?_, ?_⟩
  · exact processOp_own_slot env s c p hc hp
  · intro hx hmem
    rw [key, if_pos hx, ← word_and_mask4 c p hc hp]
    simp only [List.mem_cons, List.mem_singleton, List.mem_nil_iff, or_false] at hmem
    rcases hmem with h | h | h | h <;> subst h
    · rw [hsel.1, runCase_matrixNumber, setCmd_cmdmem_same]
    · rw [hsel.2.1, runCase_matrixNumber, setCmd_cmdmem_same]
    · rw [hsel.2.2.1, runCase_matrixNumber, setCmd_cmdmem_same]
    · rw [hsel.2.2.2.1, runCase_matrixNumber, setCmd_cmdmem_same]
  · intro hx h
    subst h
    rw [key, if_pos hx, ← word_and_mask7 _ p hc hp, hsel.2.2.2.2, runCase_matrixNumber,
      setCmd_cmdmem_same]

/-- Witness for C2 (amended): `FOGCOLOR`, `VIEWMATRIXNUMBER` and `BONEMATRIXNUMBER` on a
freshly constructed core. -/
theorem processOp_mirror_slot_witness :
    (processOp Env.sample ((GE_CMD_FOGCOLOR <<< 24) ||| 0x112233) GPU.sample).gstate.cmdmem
        GE_CMD_FOGCOLOR = (GE_CMD_FOGCOLOR <<< 24) ||| 0x112233 ∧
    (processOp Env.sample ((GE_CMD_VIEWMATRIXNUMBER <<< 24) ||| 0x35) GPU.sample).gstate.cmdmem
        GE_CMD_VIEWMATRIXNUMBER = (GE_CMD_VIEWMATRIXNUMBER <<< 24) ||| (0x35 &&& 0xF) ∧
    (processOp Env.sample ((GE_CMD_BONEMATRIXNUMBER <<< 24) ||| 0x1FF) GPU.sample).gstate.cmdmem
        GE_CMD_BONEMATRIXNUMBER = (GE_CMD_BONEMATRIXNUMBER <<< 24) ||| (0x1FF &&& 0x7F) :=
  ⟨(processOp_mirror_slot Env.sample GPU.sample GE_CMD_FOGCOLOR 0x112233 (by decide)
      (by decide)).1 (by decide),
   (processOp_mirror_slot Env.sample GPU.sample GE_CMD_VIEWMATRIXNUMBER 0x35 (by decide)
      (by decide)).2.1 (by decide!) (by decide),
   (processOp_mirror_slot Env.sample GPU.sample GE_CMD_BONEMATRIXNUMBER 0x1FF (by decide)
      (by decide)).2.2 (by decide!) rfl⟩


/-! ## The configuration switches -/

theorem foldl_or_lt (l : List Nat) (acc : Nat) (hacc : acc < 16) (hl : ∀ x ∈ l, x < 16) :
    l.foldl (fun x y => x ||| y) acc < 16 := by
  induction l generalizing acc with
  | nil => exact hacc
  | cons a t ih =>
    rw [List.foldl_cons]
    apply ih
    · exact Nat.or_lt_two_pow (n := 4) hacc (hl a (by simp))
    · intro x hx
      exact hl x (by simp [hx])

set_option maxRecDepth 100000 in
theorem commandTable_flags_lt (usingGLES2 : Bool) :
    ∀ e ∈ commandTable usingGLES2, e.flags < 16 := by
  cases usingGLES2 <;> decide!

theorem seeded_flags_lt (usingGLES2 : Bool) (c : Nat) :
    (seedTable (commandTable usingGLES2)).commandFlags_ c < 16 := by
  rw [seedTable, foldl_seedStep_flags]
  apply foldl_or_lt
  · show (0 : Nat) < 16
    norm_num
  · intro x hx
    obtain ⟨e, he, rfl⟩ := List.mem_map.mp hx
    exact commandTable_flags_lt usingGLES2 e (List.mem_of_mem_filter he)

theorem testBit_253 (i : Nat) : (253 : Nat).testBit i = decide (i < 8 ∧ i ≠ 1) := by
  by_cases h : i < 8
  · interval_cases i <;> rfl
  · rw [testBit_of_lt_of_le (show (253 : Nat) < 2 ^ 8 by norm_num) (by omega)]
    simp [h]

theorem testBit_clear_flushOnChange (x i : Nat) (hx : x < 16) :
    (x &&& (0xFF ^^^ FLAG_FLUSHBEFOREONCHANGE)).testBit i =
      (if i = 1 then false else x.testBit i) := by
  have h253 : (0xFF ^^^ FLAG_FLUSHBEFOREONCHANGE : Nat) = 253 := by decide
  rw [h253, Nat.testBit_and, testBit_253]
  by_cases h1 : i = 1
  · simp [h1]
  · by_cases h : i < 8
    · simp [h, h1]
    · have hxi : x.testBit i = false :=
        testBit_of_lt_of_le (show x < 2 ^ 4 from hx) (by omega)
      simp [hxi, h1]

theorem clearFlushOnChange_apply (flags : Nat → Nat) (k c : Nat) :
    clearFlushOnChange flags k c =
      if c = k then flags k &&& (0xFF ^^^ FLAG_FLUSHBEFOREONCHANGE) else flags c := by
  simp [clearFlushOnChange, Function.update_apply]

theorem applyConfig_apply (bPrescaleUV bSoftwareSkinning : Bool) (flags : Nat → Nat) (c : Nat) :
    applyConfig bPrescaleUV bSoftwareSkinning flags c =
      if flushOnChangeCleared bPrescaleUV bSoftwareSkinning c = true then
        flags c &&& (0xFF ^^^ FLAG_FLUSHBEFOREONCHANGE)
      else flags c := by
  by_cases h1 : c = GE_CMD_TEXSCALEU
  · subst h1
    cases bPrescaleUV <;> cases bSoftwareSkinning <;>
      simp [applyConfig, clearFlushOnChange_apply, flushOnChangeCleared]
  by_cases h2 : c = GE_CMD_TEXSCALEV
  · subst h2
    cases bPrescaleUV <;> cases bSoftwareSkinning <;>
      simp [applyConfig, clearFlushOnChange_apply, flushOnChangeCleared]
  by_cases h3 : c = GE_CMD_TEXOFFSETU
  · subst h3
    cases bPrescaleUV <;> cases bSoftwareSkinning <;>
      simp [applyConfig, clearFlushOnChange_apply, flushOnChangeCleared]
  by_cases h4 : c = GE_CMD_TEXOFFSETV
  · subst h4
    cases bPrescaleUV <;> cases bSoftwareSkinning <;>
      simp [applyConfig, clearFlushOnChange_apply, flushOnChangeCleared]
  by_cases h5 : c = GE_CMD_VERTEXTYPE
  · subst h5
    cases bPrescaleUV <;> cases bSoftwareSkinning <;>
      simp [applyConfig, clearFlushOnChange_apply, flushOnChangeCleared]
  cases bPrescaleUV <;> cases bSoftwareSkinning <;>
    simp [applyConfig, clearFlushOnChange_apply, flushOnChangeCleared, h1, h2, h3, h4, h5]

set_option maxRecDepth 100000 in
theorem seeded_flags_switch_opcodes (usingGLES2 : Bool) :
    ∀ c ∈ [GE_CMD_TEXSCALEU, GE_CMD_TEXSCALEV, GE_CMD_TEXOFFSETU, GE_CMD_TEXOFFSETV,
        GE_CMD_VERTEXTYPE],
      (seedTable (commandTable usingGLES2)).commandFlags_ c =
        FLAG_FLUSHBEFOREONCHANGE ||| FLAG_EXECUTEONCHANGE := by
  cases usingGLES2 <;> decide!

/-- C8. Configuration switches: for every setting of the switches (and either build
alternative) each bit of each entry of the constructed table equals the bit of the
table seeded from `commandTable`, except that the `FLUSH_BEFORE_ON_CHANGE` bit (bit 1) is
clear for `TEXSCALEU`, `TEXSCALEV`, `TEXOFFSETU`, `TEXOFFSETV` when pre-scaled UV is
enabled and for `VERTEXTYPE` when software skinning is enabled.  The seeded table has
that bit set for these five opcodes, so it is cleared exactly when the switch is on; and
with pre-scaled UV `table[TEXSCALEU]` has `FLUSH_BEFORE_ON_CHANGE` clear and
`EXECUTE_ON_CHANGE` set. -/
theorem config_switches (bPrescaleUV bSoftwareSkinning usingGLES2 : Bool) :
    (∀ c i, (commandFlagsOf bPrescaleUV bSoftwareSkinning usingGLES2 c).testBit i =
      if i = 1 ∧
          ((bPrescaleUV = true ∧
              c ∈ [GE_CMD_TEXSCALEU, GE_CMD_TEXSCALEV, GE_CMD_TEXOFFSETU, GE_CMD_TEXOFFSETV]) ∨
            (bSoftwareSkinning = true ∧ c = GE_CMD_VERTEXTYPE)) then false
      else ((seedTable (commandTable usingGLES2)).commandFlags_ c).testBit i) ∧
    (∀ c ∈ [GE_CMD_TEXSCALEU, GE_CMD_TEXSCALEV, GE_CMD_TEXOFFSETU, GE_CMD_TEXOFFSETV],
      ((seedTable (commandTable usingGLES2)).commandFlags_ c).testBit 1 = true ∧
      (commandFlagsOf bPrescaleUV bSoftwareSkinning usingGLES2 c &&& FLAG_FLUSHBEFOREONCHANGE = 0
        ↔ bPrescaleUV = true)) ∧
    (((seedTable (commandTable usingGLES2)).commandFlags_ GE_CMD_VERTEXTYPE).testBit 1 = true ∧
      (commandFlagsOf bPrescaleUV bSoftwareSkinning usingGLES2 GE_CMD_VERTEXTYPE &&&
          FLAG_FLUSHBEFOREONCHANGE = 0 ↔ bSoftwareSkinning = true)) ∧
    (commandFlagsOf true bSoftwareSkinning usingGLES2 GE_CMD_TEXSCALEU &&&
        FLAG_FLUSHBEFOREONCHANGE = 0 ∧
      commandFlagsOf true bSoftwareSkinning usingGLES2 GE_CMD_TEXSCALEU &&&
        FLAG_EXECUTEONCHANGE ≠ 0) := by
  have hs := seeded_flags_switch_opcodes usingGLES2
  have hval : ∀ a b c, c ∈ [GE_CMD_TEXSCALEU, GE_CMD_TEXSCALEV, GE_CMD_TEXOFFSETU,
      GE_CMD_TEXOFFSETV, GE_CMD_VERTEXTYPE] →
      commandFlagsOf a b usingGLES2 c =
        if flushOnChangeCleared a b c = true then 8 else 10 := by
    intro a b c hcm
    rw [commandFlagsOf, constructFlags, applyConfig_apply, hs c hcm]
    split_ifs <;> rfl
  refine ⟨?_, ?_, ?_, ?_⟩
  · intro c i
    rw [commandFlagsOf, constructFlags, applyConfig_apply]
    by_cases hcl : flushOnChangeCleared bPrescaleUV bSoftwareSkinning c = true
    · rw [if_pos hcl, testBit_clear_flushOnChange _ _ (seeded_flags_lt usingGLES2 c)]
      have hcl2 : (bPrescaleUV = true ∧
              c ∈ [GE_CMD_TEXSCALEU, GE_CMD_TEXSCALEV, GE_CMD_TEXOFFSETU, GE_CMD_TEXOFFSETV]) ∨
            (bSoftwareSkinning = true ∧ c = GE_CMD_VERTEXTYPE) := by
        simpa [flushOnChangeCleared] using hcl
      by_cases hi : i = 1
      · rw [if_pos hi, if_pos ⟨hi, hcl2⟩]
      · rw [if_neg hi, if_neg (fun h => hi h.1)]
    · rw [if_neg hcl, if_neg]
      intro h
      apply hcl
      simpa [flushOnChangeCleared] using h.2
  · intro c hc
    have hc5 : c ∈ [GE_CMD_TEXSCALEU, GE_CMD_TEXSCALEV, GE_CMD_TEXOFFSETU,
        GE_CMD_TEXOFFSETV, GE_CMD_VERTEXTYPE] := by
      simp only [List.mem_cons, List.mem_singleton, List.mem_nil_iff, or_false] at hc ⊢
      tauto
    refine ⟨by rw [hs c hc5]; rfl, ?_⟩
    rw [hval _ _ c hc5]
    simp only [List.mem_cons, List.mem_singleton, List.mem_nil_iff, or_false] at hc
    cases bPrescaleUV <;> cases bSoftwareSkinning <;>
      rcases hc with h | h | h | h <;> subst h <;> decide
  · refine ⟨by rw [hs _ (by simp)]; rfl, ?_⟩
    rw [hval _ _ _ (by simp)]
    cases bPrescaleUV <;> cases bSoftwareSkinning <;> decide
  · rw [hval _ _ _ (by simp)]
    cases bSoftwareSkinning <;> decide

/-- Witness for C8: with pre-scaled UV the flush-on-change bit of `TEXSCALEV` is clear. -/
theorem config_switches_witness :
    commandFlagsOf true false false GE_CMD_TEXSCALEV &&& FLAG_FLUSHBEFOREONCHANGE = 0 :=
  (((config_switches true false false).2.1 GE_CMD_TEXSCALEV (by decide)).2).mpr rfl

/-! ## Flushes made by the executor -/

theorem runCase_flushCount (env : Env) (c : OpCase) (op diff : Nat) (s : GPU)
    (hmd : c.isMatrixData = false)
    (hvt : c = OpCase.VERTEXTYPE → diff = 0 ∨ env.bSoftwareSkinning = false) :
    flushCount (runCase env c op diff s).calls = flushCount s.calls := by
  cases c <;>
    simp only [runCase, execPRIM, execBEZIER, execSPLINE, patchFront, execBOUNDINGBOX,
      execVERTEXTYPE, framebufChangedOnChange, textureChangedOnChange, dirtyOnChange, execUV,
      DoBlockTransfer, execTEXSIZE0, execLightVec, execLKS, execLKO, execLightColor,
      execMORPHWEIGHT, execMatrixNumber, delegateToCommon,
      GPU.call, GPU.Flush, GPU.DirtyUniform, GPU.setCmd, GPU.setTextureChanged,
      GPU.setFramebufChanged, GPU.setBboxResult, OpCase.isMatrixData, flushCount,
      reduceCtorEq] at hmd hvt ⊢ <;>
    (try split_ifs) <;>
    first
      | rfl
      | (simp [List.countP_append, Call.isFlush]; done)
      | (exfalso; simp_all; done)

theorem runCase_flushCount_le (env : Env) (c : OpCase) (op diff : Nat) (s : GPU)
    (hmd : c.isMatrixData = false) :
    flushCount (runCase env c op diff s).calls ≤ flushCount s.calls + 1 := by
  by_cases hvt : c = OpCase.VERTEXTYPE → diff = 0 ∨ env.bSoftwareSkinning = false
  · rw [runCase_flushCount env c op diff s hmd hvt]
    omega
  · have hc : c = OpCase.VERTEXTYPE := by
      by_contra h
      exact hvt (fun h2 => absurd h2 h)
    subst hc
    simp only [runCase, execVERTEXTYPE, GPU.call, GPU.Flush, GPU.DirtyUniform, GPU.setCmd,
      flushCount]
    split_ifs <;> simp [List.countP_append, Call.isFlush]

theorem processOp_commandFlags (env : Env) (op : Nat) (s : GPU) :
    (processOp env op s).commandFlags_ = s.commandFlags_ := by
  simp only [processOp, ExecuteOpInternal]
  split_ifs <;> simp [runCase_commandFlags, GPU.setCmd, GPU.Flush, GPU.call]

theorem processOp_flushCount (env : Env) (op : Nat) (s : GPU) :
    flushCount (processOp env op s).calls =
      if s.commandFlags_ (op >>> 24) &&& FLAG_ANY_EXECUTE ≠ 0 then
        flushCount (runCase env (selectCase env.usingGLES2 (op >>> 24)) op
          (op ^^^ s.gstate.cmdmem (op >>> 24))
          ((if s.commandFlags_ (op >>> 24) &&& FLAG_FLUSHBEFORE ≠ 0 ∨
              (op ^^^ s.gstate.cmdmem (op >>> 24) ≠ 0 ∧
                s.commandFlags_ (op >>> 24) &&& FLAG_FLUSHBEFOREONCHANGE ≠ 0)
            then s.Flush else s).setCmd (op >>> 24) op)).calls
      else
        flushCount s.calls +
          (if s.commandFlags_ (op >>> 24) &&& FLAG_FLUSHBEFORE ≠ 0 ∨
              (op ^^^ s.gstate.cmdmem (op >>> 24) ≠ 0 ∧
                s.commandFlags_ (op >>> 24) &&& FLAG_FLUSHBEFOREONCHANGE ≠ 0)
            then 1 else 0) := by
  simp only [processOp, ExecuteOpInternal]
  split_ifs <;> simp [GPU.setCmd, GPU.Flush, GPU.call, flushCount, List.countP_append, Call.isFlush]

theorem flushCount_flush_setCmd (s : GPU) (b : Prop) [Decidable b] (cmd v : Nat) :
    flushCount ((if b then s.Flush else s).setCmd cmd v).calls =
      flushCount s.calls + (if b then 1 else 0) := by
  split_ifs <;> simp [GPU.setCmd, GPU.Flush, GPU.call, flushCount, List.countP_append, Call.isFlush]

set_option maxRecDepth 100000 in
theorem selectCase_flushing (usingGLES2 : Bool) :
    ∀ cmd, cmd < 256 →
      ((selectCase usingGLES2 cmd).isMatrixData = true →
        cmd ∈ [GE_CMD_WORLDMATRIXDATA, GE_CMD_VIEWMATRIXDATA, GE_CMD_PROJMATRIXDATA,
          GE_CMD_TGENMATRIXDATA, GE_CMD_BONEMATRIXDATA]) ∧
      (selectCase usingGLES2 cmd = OpCase.VERTEXTYPE → cmd = GE_CMD_VERTEXTYPE) := by
  cases usingGLES2 <;> decide!

set_option maxRecDepth 100000 in
theorem seeded_flushBefore (usingGLES2 : Bool) :
    ∀ cmd, cmd < 256 →
      (seedTable (commandTable usingGLES2)).commandFlags_ cmd &&& FLAG_FLUSHBEFORE ≠ 0 →
      cmd ∈ [GE_CMD_BEZIER, GE_CMD_SPLINE, GE_CMD_SIGNAL, GE_CMD_FINISH, GE_CMD_TRANSFERSTART] := by
  cases usingGLES2 <;> decide!

set_option maxRecDepth 100000 in
theorem seeded_matrixNumber (usingGLES2 : Bool) :
    ∀ cmd ∈ [GE_CMD_WORLDMATRIXNUMBER, GE_CMD_VIEWMATRIXNUMBER, GE_CMD_PROJMATRIXNUMBER,
        GE_CMD_TGENMATRIXNUMBER, GE_CMD_BONEMATRIXNUMBER],
      (seedTable (commandTable usingGLES2)).commandFlags_ cmd = FLAG_EXECUTE := by
  cases usingGLES2 <;> decide!

theorem and_253_and_one (x : Nat) : x &&& (0xFF ^^^ FLAG_FLUSHBEFOREONCHANGE) &&& 1 = x &&& 1 := by
  rw [Nat.and_assoc]
  rfl

theorem constructed_flushBefore (a b g : Bool) (cmd : Nat) :
    commandFlagsOf a b g cmd &&& FLAG_FLUSHBEFORE =
      (seedTable (commandTable g)).commandFlags_ cmd &&& FLAG_FLUSHBEFORE := by
  rw [commandFlagsOf, constructFlags, applyConfig_apply]
  split_ifs
  · exact and_253_and_one _
  · rfl

theorem constructed_matrixNumber (a b g : Bool) (cmd : Nat)
    (h : cmd ∈ [GE_CMD_WORLDMATRIXNUMBER, GE_CMD_VIEWMATRIXNUMBER, GE_CMD_PROJMATRIXNUMBER,
        GE_CMD_TGENMATRIXNUMBER, GE_CMD_BONEMATRIXNUMBER]) :
    commandFlagsOf a b g cmd = FLAG_EXECUTE := by
  rw [commandFlagsOf, constructFlags, applyConfig_apply, seeded_matrixNumber g cmd h]
  split_ifs <;> rfl

theorem constructed_vertexType_skinning (a g : Bool) :
    commandFlagsOf a true g GE_CMD_VERTEXTYPE = FLAG_EXECUTEONCHANGE := by
  rw [commandFlagsOf, constructFlags, applyConfig_apply,
    seeded_flags_switch_opcodes g GE_CMD_VERTEXTYPE (by simp)]
  cases a <;> rfl

/-! ## Two successive identical writes -/

/-- C3 (as stated) fails: processing `(SIGNAL, 0x010203)` twice in succession on a
freshly constructed core flushes twice, once for each write, because `SIGNAL` is flagged
`FLUSH_BEFORE`. -/
theorem two_signal_writes_flush_twice :
    flushCount (processOp Env.sample ((GE_CMD_SIGNAL <<< 24) ||| 0x010203)
      (processOp Env.sample ((GE_CMD_SIGNAL <<< 24) ||| 0x010203) GPU.sample)).calls = 2 ∧
    flushCount (processOp Env.sample ((GE_CMD_SIGNAL <<< 24) ||| 0x010203) GPU.sample).calls = 1 ∧
    flushCount GPU.sample.calls = 0 := by
  decide!

/-- C3 (amended). On a core with the constructed flag table, for any opcode other than
those flagged `FLUSH_BEFORE` (`BEZIER`, `SPLINE`, `SIGNAL`, `FINISH`, `TRANSFERSTART`) and
the five `*MATRIXDATA` opcodes, and any payload `p`: processing `(op, p)` twice in
succession causes at most one flush in total, and the second write causes none. -/
theorem redundant_write_elision (env : Env) (s : GPU) (c p : Nat) (hc : c < 256)
    (hp : p < 2 ^ 24)
    (hT : s.commandFlags_ = commandFlagsOf env.bPrescaleUV env.bSoftwareSkinning env.usingGLES2)
    (hFB : c ∉ [GE_CMD_BEZIER, GE_CMD_SPLINE, GE_CMD_SIGNAL, GE_CMD_FINISH,
      GE_CMD_TRANSFERSTART])
    (hMD : c ∉ [GE_CMD_WORLDMATRIXDATA, GE_CMD_VIEWMATRIXDATA, GE_CMD_PROJMATRIXDATA,
      GE_CMD_TGENMATRIXDATA, GE_CMD_BONEMATRIXDATA]) :
    flushCount (processOp env ((c <<< 24) ||| p) s).calls ≤ flushCount s.calls + 1 ∧
    flushCount (processOp env ((c <<< 24) ||| p) (processOp env ((c <<< 24) ||| p) s)).calls =
      flushCount (processOp env ((c <<< 24) ||| p) s).calls := by
  have hcmd : ((c <<< 24) ||| p) >>> 24 = c := word_shiftRight c p hp
  have hsel := selectCase_flushing env.usingGLES2 c hc
  have hmd : (selectCase env.usingGLES2 c).isMatrixData = false := by
    cases h : (selectCase env.usingGLES2 c).isMatrixData
    · rfl
    · exact absurd (hsel.1 h) hMD
  have hfb : ∀ t : GPU, t.commandFlags_ = s.commandFlags_ →
      t.commandFlags_ c &&& FLAG_FLUSHBEFORE = 0 := by
    intro t ht
    rw [ht, hT, constructed_flushBefore]
    by_contra h
    exact hFB (seeded_flushBefore env.usingGLES2 c hc h)
  constructor
  · -- the first write
    rw [processOp_flushCount, hcmd]
    by_cases hx : s.commandFlags_ c &&& FLAG_ANY_EXECUTE ≠ 0
    · rw [if_pos hx]
      by_cases hvt : selectCase env.usingGLES2 c = OpCase.VERTEXTYPE ∧
          env.bSoftwareSkinning = true
      · have hcv : c = GE_CMD_VERTEXTYPE := hsel.2 hvt.1
        have hflags : s.commandFlags_ c = FLAG_EXECUTEONCHANGE := by
          rw [hT, hvt.2, hcv, constructed_vertexType_skinning]
        refine le_trans (runCase_flushCount_le env _ _ _ _ hmd) ?_
        rw [flushCount_flush_setCmd, hflags, if_neg]
        rintro (h | ⟨_, h⟩) <;> exact h (by decide)
      · rw [runCase_flushCount env _ _ _ _ hmd, flushCount_flush_setCmd]
        · split_ifs <;> omega
        · intro h
          right
          cases hb : env.bSoftwareSkinning
          · rfl
          · exact absurd ⟨h, hb⟩ hvt
    · rw [if_neg hx]
      split_ifs <;> omega
  · -- the second write
    have hflags2 := processOp_commandFlags env ((c <<< 24) ||| p) s
    rw [processOp_flushCount env _ (processOp env ((c <<< 24) ||| p) s), hcmd, hflags2]
    have hfb0 := hfb s rfl
    by_cases hnum : c ∈ [GE_CMD_WORLDMATRIXNUMBER, GE_CMD_VIEWMATRIXNUMBER,
        GE_CMD_PROJMATRIXNUMBER, GE_CMD_TGENMATRIXNUMBER, GE_CMD_BONEMATRIXNUMBER]
    · have hfl : s.commandFlags_ c = FLAG_EXECUTE := by
        rw [hT]
        exact constructed_matrixNumber _ _ _ c hnum
      have hvt : selectCase env.usingGLES2 c = OpCase.VERTEXTYPE → False := by
        intro h
        have := hsel.2 h
        subst this
        revert hnum
        decide
      rw [hfl]
      simp only [show (FLAG_EXECUTE &&& FLAG_ANY_EXECUTE ≠ 0) = True from by decide,
        show (FLAG_EXECUTE &&& FLAG_FLUSHBEFORE ≠ 0) = False from by decide,
        show (FLAG_EXECUTE &&& FLAG_FLUSHBEFOREONCHANGE ≠ 0) = False from by decide,
        if_true, and_false, or_false, if_false]
      rw [runCase_flushCount env _ _ _ _ hmd (fun h => absurd h hvt)]
      simp [GPU.setCmd]
    · have hmirror : (processOp env ((c <<< 24) ||| p) s).gstate.cmdmem c = (c <<< 24) ||| p :=
        processOp_own_slot env s c p hc hp hnum
      rw [hmirror, Nat.xor_self]
      have hno : ¬ (s.commandFlags_ c &&& FLAG_FLUSHBEFORE ≠ 0 ∨
          ((0 : Nat) ≠ 0 ∧ s.commandFlags_ c &&& FLAG_FLUSHBEFOREONCHANGE ≠ 0)) := by
        rintro (h | ⟨h, _⟩)
        · exact h hfb0
        · exact h rfl
      rw [if_neg hno, if_neg hno]
      by_cases hx : s.commandFlags_ c &&& FLAG_ANY_EXECUTE ≠ 0
      · rw [if_pos hx, runCase_flushCount env _ _ _ _ hmd (fun _ => Or.inl rfl)]
        simp [GPU.setCmd]
      · rw [if_neg hx, Nat.add_zero]

set_option maxRecDepth 100000 in
/-- Witness for C3 (amended): two `FOGCOLOR` writes on a freshly constructed core. -/
theorem redundant_write_elision_witness :
    flushCount (processOp Env.sample ((GE_CMD_FOGCOLOR <<< 24) ||| 0x112233) GPU.sample).calls
      ≤ flushCount GPU.sample.calls + 1 ∧
    flushCount (processOp Env.sample ((GE_CMD_FOGCOLOR <<< 24) ||| 0x112233)
      (processOp Env.sample ((GE_CMD_FOGCOLOR <<< 24) ||| 0x112233) GPU.sample)).calls =
      flushCount (processOp Env.sample ((GE_CMD_FOGCOLOR <<< 24) ||| 0x112233)
        GPU.sample).calls :=
  redundant_write_elision Env.sample GPU.sample GE_CMD_FOGCOLOR 0x112233 (by decide) (by decide)
    rfl (by decide) (by decide)

/-! ## Diff gating -/

theorem runCase_diff_zero (env : Env) (c : OpCase) (op : Nat) (s : GPU)
    (hg : c.isDiffGated = true)
    (hts : c = OpCase.TEXSIZE0 → s.gstate_c.textureChanged = false) :
    runCase env c op 0 s = s := by
  cases c <;>
    simp only [runCase, execVERTEXTYPE, framebufChangedOnChange, textureChangedOnChange,
      dirtyOnChange, execUV, execTEXSIZE0, execLightVec, execLKS, execLKO, execLightColor,
      execMORPHWEIGHT, OpCase.isDiffGated, ne_eq, not_true_eq_false, if_false, false_or,
      reduceCtorEq, forall_const] at hg hts ⊢
  · simp [hts]

theorem setCmd_self (s : GPU) (cmd : Nat) : s.setCmd cmd (s.gstate.cmdmem cmd) = s := by
  simp [GPU.setCmd, Function.update_eq_self]

theorem and_253_and_four (x : Nat) : x &&& (0xFF ^^^ FLAG_FLUSHBEFOREONCHANGE) &&& 4 = x &&& 4 := by
  rw [Nat.and_assoc]
  rfl

theorem and_253_and_eight (x : Nat) :
    x &&& (0xFF ^^^ FLAG_FLUSHBEFOREONCHANGE) &&& 8 = x &&& 8 := by
  rw [Nat.and_assoc]
  rfl

theorem constructed_execute (a b g : Bool) (cmd : Nat) :
    commandFlagsOf a b g cmd &&& FLAG_EXECUTE =
        (seedTable (commandTable g)).commandFlags_ cmd &&& FLAG_EXECUTE ∧
      commandFlagsOf a b g cmd &&& FLAG_EXECUTEONCHANGE =
        (seedTable (commandTable g)).commandFlags_ cmd &&& FLAG_EXECUTEONCHANGE := by
  rw [commandFlagsOf, constructFlags, applyConfig_apply]
  split_ifs
  · exact ⟨and_253_and_four _, and_253_and_eight _⟩
  · exact ⟨rfl, rfl⟩

set_option maxRecDepth 100000 in
theorem seeded_executeOnChange_only (usingGLES2 : Bool) :
    ∀ cmd, cmd < 256 →
      (seedTable (commandTable usingGLES2)).commandFlags_ cmd &&& FLAG_EXECUTEONCHANGE ≠ 0 →
      (seedTable (commandTable usingGLES2)).commandFlags_ cmd &&& FLAG_EXECUTE = 0 →
      (seedTable (commandTable usingGLES2)).commandFlags_ cmd &&& FLAG_FLUSHBEFORE = 0 ∧
      ((selectCase usingGLES2 cmd).isDiffGated = true ∨
        (usingGLES2 = true ∧ cmd = GE_CMD_TEXLEVEL)) ∧
      (selectCase usingGLES2 cmd = OpCase.TEXSIZE0 → cmd = GE_CMD_TEXSIZE0) := by
  cases usingGLES2 <;> decide!

theorem shiftRight_lt_256 (op : Nat) (hop : op < 2 ^ 32) : op >>> 24 < 256 := by
  rw [Nat.shiftRight_eq_div_pow]
  omega

/-- C4 (as stated) fails: `TEXSIZE0` is flagged `EXECUTE_ON_CHANGE` but not `EXECUTE`, yet
after `(TEXSIZE0, 0x000808)` has been processed once (which sets `textureChanged`), processing
the same word again, with `diff == 0`, calls `DirtyUniform(UVSCALEOFFSET)` a second time. -/
theorem texsize0_not_diff_gated :
    commandFlagsOf false false false GE_CMD_TEXSIZE0 =
      FLAG_FLUSHBEFOREONCHANGE ||| FLAG_EXECUTEONCHANGE ∧
    (processOp Env.sample ((GE_CMD_TEXSIZE0 <<< 24) ||| 0x000808) GPU.sample).gstate.cmdmem
      GE_CMD_TEXSIZE0 = (GE_CMD_TEXSIZE0 <<< 24) ||| 0x000808 ∧
    dirtyCount DirtyGroup.UVSCALEOFFSET
      (processOp Env.sample ((GE_CMD_TEXSIZE0 <<< 24) ||| 0x000808) GPU.sample).calls = 1 ∧
    dirtyCount DirtyGroup.UVSCALEOFFSET
      (processOp Env.sample ((GE_CMD_TEXSIZE0 <<< 24) ||| 0x000808)
        (processOp Env.sample ((GE_CMD_TEXSIZE0 <<< 24) ||| 0x000808) GPU.sample)).calls = 2 := by
  decide!

/-- C4 (amended). On a core with the constructed flag table, for every opcode whose flags
contain `EXECUTE_ON_CHANGE` but not `EXECUTE`, a pass of the loop body whose word equals the
mirrored word leaves the whole state as it was (no flush, no call to any subsystem, no
change to the mirror or to any derived state), provided that for `TEXSIZE0` the flag
`textureChanged` is not set, and that the opcode is not `TEXLEVEL` on a `USING_GLES2` build
(where it is handed to the common command processor). -/
theorem diff_gating (env : Env) (s : GPU) (op : Nat) (hop : op < 2 ^ 32)
    (hT : s.commandFlags_ = commandFlagsOf env.bPrescaleUV env.bSoftwareSkinning env.usingGLES2)
    (hEOC : s.commandFlags_ (op >>> 24) &&& FLAG_EXECUTEONCHANGE ≠ 0)
    (hE : s.commandFlags_ (op >>> 24) &&& FLAG_EXECUTE = 0)
    (hdiff : op = s.gstate.cmdmem (op >>> 24))
    (hTS : op >>> 24 = GE_CMD_TEXSIZE0 → s.gstate_c.textureChanged = false)
    (hGL : env.usingGLES2 = true → op >>> 24 ≠ GE_CMD_TEXLEVEL) :
    processOp env op s = s := by
  have hc := shiftRight_lt_256 op hop
  have hce := constructed_execute env.bPrescaleUV env.bSoftwareSkinning env.usingGLES2 (op >>> 24)
  have hcf := constructed_flushBefore env.bPrescaleUV env.bSoftwareSkinning env.usingGLES2
    (op >>> 24)
  rw [← hT] at hce hcf
  have htab := seeded_executeOnChange_only env.usingGLES2 (op >>> 24) hc
    (by rw [← hce.2]; exact hEOC) (by rw [← hce.1]; exact hE)
  have hfb : s.commandFlags_ (op >>> 24) &&& FLAG_FLUSHBEFORE = 0 := by
    rw [hcf]
    exact htab.1
  have hgated : (selectCase env.usingGLES2 (op >>> 24)).isDiffGated = true := by
    rcases htab.2.1 with h | h
    · exact h
    · exact absurd h.2 (hGL h.1)
  have hxor : op ^^^ s.gstate.cmdmem (op >>> 24) = 0 := by
    rw [← hdiff, Nat.xor_self]
  have hno : ¬ (s.commandFlags_ (op >>> 24) &&& FLAG_FLUSHBEFORE ≠ 0 ∨
      ((0 : Nat) ≠ 0 ∧ s.commandFlags_ (op >>> 24) &&& FLAG_FLUSHBEFOREONCHANGE ≠ 0)) := by
    rintro (h | ⟨h, _⟩)
    · exact h hfb
    · exact h rfl
  have hset : s.setCmd (op >>> 24) op = s := by
    have h := setCmd_self s (op >>> 24)
    rw [← hdiff] at h
    exact h
  simp only [processOp, hxor, if_neg hno, hset, ExecuteOpInternal]
  rw [runCase_diff_zero env _ op s hgated (fun h => hTS (htab.2.2 h))]
  simp

set_option maxRecDepth 100000 in
/-- Witness for C4 (amended): `FOGCOLOR` re-written with the mirrored word. -/
theorem diff_gating_witness :
    processOp Env.sample ((GE_CMD_FOGCOLOR <<< 24) ||| 0x112233)
        (GPU.sample.setCmd GE_CMD_FOGCOLOR ((GE_CMD_FOGCOLOR <<< 24) ||| 0x112233)) =
      GPU.sample.setCmd GE_CMD_FOGCOLOR ((GE_CMD_FOGCOLOR <<< 24) ||| 0x112233) :=
  diff_gating Env.sample (GPU.sample.setCmd GE_CMD_FOGCOLOR ((GE_CMD_FOGCOLOR <<< 24) ||| 0x112233))
    ((GE_CMD_FOGCOLOR <<< 24) ||| 0x112233) (by decide) rfl (by decide!) (by decide!) (by decide)
    (by decide) (by decide)

/-! ## Progress of the loop -/

theorem runCase_downcount_pc (env : Env) (c : OpCase) (op diff : Nat) (s : GPU)
    (hc : c ≠ OpCase.common) :
    (runCase env c op diff s).downcount = s.downcount ∧
      (runCase env c op diff s).list.pc = s.list.pc := by
  cases c <;>
    simp only [runCase, execPRIM, execBEZIER, execSPLINE, patchFront, execBOUNDINGBOX,
      execVERTEXTYPE, framebufChangedOnChange, textureChangedOnChange, dirtyOnChange, execUV,
      DoBlockTransfer, execTEXSIZE0, execLightVec, execLKS, execLKO, execLightColor,
      execMORPHWEIGHT, execMatrixNumber, execWORLDMATRIXDATA, execVIEWMATRIXDATA,
      execPROJMATRIXDATA, execTGENMATRIXDATA, execBONEMATRIXDATA,
      GPU.call, GPU.Flush, GPU.DirtyUniform, GPU.setCmd, GPU.setTextureChanged,
      GPU.setFramebufChanged, GPU.setBboxResult] <;>
    (try split_ifs) <;>
    first
      | exact ⟨rfl, rfl⟩
      | exact ⟨trivial, trivial⟩
      | exact absurd rfl hc

theorem FastRunLoopIter_step (env : Env) (s : GPU) (h : fetchesDelegated env s = false) :
    (FastRunLoopIter env s).downcount = s.downcount - 1 ∧
      (FastRunLoopIter env s).list.pc = (s.list.pc + 4) % 2 ^ 32 := by
  have key : (processOp env (Read_U32 s.memory s.list.pc) s).downcount = s.downcount ∧
      (processOp env (Read_U32 s.memory s.list.pc) s).list.pc = s.list.pc := by
    simp only [processOp, ExecuteOpInternal]
    by_cases hx : s.commandFlags_ (Read_U32 s.memory s.list.pc >>> 24) &&& FLAG_ANY_EXECUTE ≠ 0
    · have hnc : selectCase env.usingGLES2 (Read_U32 s.memory s.list.pc >>> 24) ≠
          OpCase.common := by
        intro hc
        simp [fetchesDelegated, isDelegated, hc] at h
        exact hx h
      rw [if_pos hx]
      have := runCase_downcount_pc env _ (Read_U32 s.memory s.list.pc)
        (Read_U32 s.memory s.list.pc ^^^
          s.gstate.cmdmem (Read_U32 s.memory s.list.pc >>> 24))
        ((if s.commandFlags_ (Read_U32 s.memory s.list.pc >>> 24) &&& FLAG_FLUSHBEFORE ≠ 0 ∨
            (Read_U32 s.memory s.list.pc ^^^
                s.gstate.cmdmem (Read_U32 s.memory s.list.pc >>> 24) ≠ 0 ∧
              s.commandFlags_ (Read_U32 s.memory s.list.pc >>> 24) &&&
                FLAG_FLUSHBEFOREONCHANGE ≠ 0)
          then s.Flush else s).setCmd (Read_U32 s.memory s.list.pc >>> 24)
            (Read_U32 s.memory s.list.pc)) hnc
      rw [this.1, this.2]
      split_ifs <;> exact ⟨rfl, rfl⟩
    · rw [if_neg hx]
      split_ifs <;> exact ⟨rfl, rfl⟩
  simp only [FastRunLoopIter, key.1, key.2, and_self]

theorem FastRunLoop_stops (env : Env) (fuel : Nat) (s : GPU) (h : s.downcount ≤ 0) :
    FastRunLoop env fuel s = some s := by
  have hn : ¬ s.downcount > 0 := not_lt.mpr h
  cases fuel <;> simp [FastRunLoop, hn]

theorem iterate_pc_downcount (env : Env) (s : GPU) (n : Nat) (a : Nat) (ha : a < 2 ^ 32)
    (hpc : s.list.pc = a) (hd : s.downcount = (n : Int))
    (hnd : ∀ i, i < n → fetchesDelegated env ((FastRunLoopIter env)^[i] s) = false) :
    ∀ i, i ≤ n →
      ((FastRunLoopIter env)^[i] s).list.pc = (a + 4 * i) % 2 ^ 32 ∧
        ((FastRunLoopIter env)^[i] s).downcount = (n : Int) - (i : Int) := by
  intro i
  induction i with
  | zero =>
    intro _
    have hmod : a % 2 ^ 32 = a := Nat.mod_eq_of_lt ha
    simp only [Function.iterate_zero, id_eq, hpc, hd, Nat.mul_zero, Nat.add_zero, hmod,
      Nat.cast_zero, sub_zero, and_self]
  | succ k ih =>
    intro hk
    have hk1 := ih (by omega)
    have hstep := FastRunLoopIter_step env _ (hnd k (by omega))
    rw [Function.iterate_succ_apply']
    rw [hstep.1, hstep.2, hk1.1, hk1.2]
    constructor
    · omega
    · push_cast
      ring

theorem FastRunLoop_runs (env : Env) (n : Nat) :
    ∀ (s : GPU) (fuel : Nat), s.downcount = (n : Int) → n ≤ fuel →
      (∀ i, i < n → fetchesDelegated env ((FastRunLoopIter env)^[i] s) = false) →
      FastRunLoop env fuel s = some ((FastRunLoopIter env)^[n] s) := by
  induction n with
  | zero =>
    intro s fuel hd _ _
    rw [FastRunLoop_stops env fuel s (by rw [hd]; rfl)]
    rfl
  | succ k ih =>
    intro s fuel hd hfuel hnd
    obtain ⟨f, rfl⟩ : ∃ f, fuel = f + 1 := ⟨fuel - 1, by omega⟩
    have hpos : s.downcount > 0 := by
      rw [hd]
      exact Int.natCast_pos.mpr (Nat.succ_pos k)
    have hstep := FastRunLoopIter_step env s (hnd 0 (Nat.succ_pos k))
    rw [FastRunLoop, if_pos hpos, Function.iterate_succ_apply]
    apply ih
    · rw [hstep.1, hd]
      push_cast
      ring
    · omega
    · intro i hi
      have := hnd (i + 1) (by omega)
      rwa [Function.iterate_succ_apply] at this

theorem Read_U32_lt (memory : Nat → Nat) (addr : Nat) : Read_U32 memory addr < 2 ^ 32 := by
  unfold Read_U32
  have h0 := Nat.mod_lt (memory addr) (show 0 < 256 by decide)
  have h1 := Nat.mod_lt (memory (addr + 1)) (show 0 < 256 by decide)
  have h2 := Nat.mod_lt (memory (addr + 2)) (show 0 < 256 by decide)
  have h3 := Nat.mod_lt (memory (addr + 3)) (show 0 < 256 by decide)
  omega

theorem runCase_memory (env : Env) (c : OpCase) (op diff : Nat) (s : GPU)
    (hc : c ≠ OpCase.TRANSFERSTART) : (runCase env c op diff s).memory = s.memory := by
  cases c <;>
    simp only [runCase, execPRIM, execBEZIER, execSPLINE, patchFront, execBOUNDINGBOX,
      execVERTEXTYPE, framebufChangedOnChange, textureChangedOnChange, dirtyOnChange, execUV,
      execTEXSIZE0, execLightVec, execLKS, execLKO, execLightColor,
      execMORPHWEIGHT, execMatrixNumber, execWORLDMATRIXDATA, execVIEWMATRIXDATA,
      execPROJMATRIXDATA, execTGENMATRIXDATA, execBONEMATRIXDATA, delegateToCommon,
      GPU.call, GPU.Flush, GPU.DirtyUniform, GPU.setCmd, GPU.setTextureChanged,
      GPU.setFramebufChanged, GPU.setBboxResult] <;>
    (try split_ifs) <;>
    first
      | rfl
      | exact absurd rfl hc

set_option maxRecDepth 100000 in
theorem selectCase_transferstart (g : Bool) :
    ∀ cmd, cmd < 256 → selectCase g cmd = OpCase.TRANSFERSTART → cmd = GE_CMD_TRANSFERSTART := by
  cases g <;> decide!

/-- The loop body changes emulated memory only on a `TRANSFERSTART` command. -/
theorem processOp_memory (env : Env) (op : Nat) (s : GPU) (hop : op < 2 ^ 32)
    (hnt : op >>> 24 ≠ GE_CMD_TRANSFERSTART) : (processOp env op s).memory = s.memory := by
  have hc : selectCase env.usingGLES2 (op >>> 24) ≠ OpCase.TRANSFERSTART :=
    fun h => hnt (selectCase_transferstart _ _ (shiftRight_lt_256 op hop) h)
  simp only [processOp, ExecuteOpInternal]
  split_ifs <;> simp [runCase_memory _ _ _ _ _ hc, GPU.setCmd, GPU.Flush, GPU.call]

theorem runWords_append (env : Env) (ws : List Nat) (w : Nat) (s : GPU) :
    runWords env (ws ++ [w]) s = (processOp env w (runWords env ws s)).advance := by
  simp [runWords, List.foldl_append]

/-- The iterations of the loop are the loop body run, in order, on the words fetched at
`a, a+4, ...`, each read from emulated memory as it is when its turn comes. -/
theorem iterate_eq_runWords_fetched (env : Env) (s : GPU) (a : Nat) :
    ∀ n, (∀ i, i < n → ((FastRunLoopIter env)^[i] s).list.pc = (a + 4 * i) % 2 ^ 32) →
      (FastRunLoopIter env)^[n] s =
        runWords env ((List.range n).map (fun i =>
          Read_U32 ((FastRunLoopIter env)^[i] s).memory ((a + 4 * i) % 2 ^ 32))) s := by
  intro n
  induction n with
  | zero =>
    intro _
    rfl
  | succ k ih =>
    intro hpcs
    have h1 := ih (fun i hi => hpcs i (Nat.lt_succ_of_lt hi))
    rw [List.range_succ, List.map_append, List.map_singleton, runWords_append, ← h1,
      Function.iterate_succ_apply', ← hpcs k (Nat.lt_succ_self k)]
    rfl

/-- The iterations of the loop over a stream that no command overwrites are the loop body
run on the words of the stream in order. -/
theorem iterate_eq_runWords (env : Env) (s : GPU) (n a : Nat) (ws : List Nat)
    (hlen : ws.length = n)
    (hpcs : ∀ i, i ≤ n → ((FastRunLoopIter env)^[i] s).list.pc = (a + 4 * i) % 2 ^ 32)
    (hnt : ∀ w ∈ ws, w >>> 24 ≠ GE_CMD_TRANSFERSTART)
    (hmem : ∀ i, i < n → Read_U32 s.memory ((a + 4 * i) % 2 ^ 32) = ws.getD i 0) :
    ∀ i, i ≤ n →
      (FastRunLoopIter env)^[i] s = runWords env (ws.take i) s ∧
        ((FastRunLoopIter env)^[i] s).memory = s.memory := by
  intro i
  induction i with
  | zero =>
    intro _
    exact ⟨rfl, rfl⟩
  | succ k ih =>
    intro hk
    obtain ⟨h1, h2⟩ := ih (by omega)
    have hkl : k < ws.length := by omega
    have hword : Read_U32 ((FastRunLoopIter env)^[k] s).memory
        ((FastRunLoopIter env)^[k] s).list.pc = ws.getD k 0 := by
      rw [h2, hpcs k (by omega)]
      exact hmem k (by omega)
    have hget : ws[k]? = some (ws.getD k 0) := by
      rw [List.getD_eq_getElem?_getD, List.getElem?_eq_getElem hkl]
      rfl
    have htake : ws.take (k + 1) = ws.take k ++ [ws.getD k 0] := by
      rw [List.take_succ, hget]
      rfl
    have hstep : (FastRunLoopIter env)^[k + 1] s =
        (processOp env (ws.getD k 0) ((FastRunLoopIter env)^[k] s)).advance := by
      rw [Function.iterate_succ_apply', ← hword]
      rfl
    constructor
    · rw [hstep, htake, runWords_append, h1]
    · rw [hstep]
      have hlt : ws.getD k 0 < 2 ^ 32 := by
        rw [← hword]
        exact Read_U32_lt _ _
      have hne : ws.getD k 0 >>> 24 ≠ GE_CMD_TRANSFERSTART := by
        apply hnt
        rw [List.getD_eq_getElem?_getD, List.getElem?_eq_getElem hkl]
        exact List.getElem_mem _
      have := processOp_memory env (ws.getD k 0) ((FastRunLoopIter env)^[k] s) hlt hne
      simp only [GPU.advance]
      rw [this, h2]

/-- C5. Loop progress: if `FastRunLoop` starts with `downcount = n` and `list.pc = a`, and
none of the `n` commands it fetches is one it hands to the common command processor, then
with any fuel of at least `n` it returns after exactly `n` iterations; the `i`-th iteration
(from 0) runs with `downcount = n - i` and processes the word it reads at `a + 4i` (32-bit
arithmetic; `Read_U32`, the little-endian word made of the four bytes of emulated memory
from that address on), its result being the loop body on that word followed by
`list.pc += 4` and `--downcount`; the loop ends with `downcount = 0` and `list.pc = a + 4n`
(reduced modulo `2^32`, `list.pc` being a `u32`).  The state it returns is the loop body
run on exactly the words fetched at `a, a+4, ..., a+4(n-1)`, in that order; and for every
stream `ws` of `n` words stored there beforehand, none of them a `TRANSFERSTART` (the one
command that writes emulated memory, so that every word is still in place when it is
fetched), it is the loop body run on the words of `ws` in order.  Started with
`downcount <= 0` the loop returns the state unchanged, having processed no word. -/
theorem FastRunLoop_progress (env : Env) (s : GPU) (n fuel a : Nat) (ha : a < 2 ^ 32)
    (hpc : s.list.pc = a) (hd : s.downcount = (n : Int)) (hfuel : n ≤ fuel)
    (hnd : ∀ i, i < n → fetchesDelegated env ((FastRunLoopIter env)^[i] s) = false) :
    FastRunLoop env fuel s = some ((FastRunLoopIter env)^[n] s) ∧
    ((FastRunLoopIter env)^[n] s).downcount = 0 ∧
    ((FastRunLoopIter env)^[n] s).list.pc = (a + 4 * n) % 2 ^ 32 ∧
    (a + 4 * n < 2 ^ 32 → ((FastRunLoopIter env)^[n] s).list.pc = a + 4 * n) ∧
    (∀ i, i < n →
      ((FastRunLoopIter env)^[i] s).list.pc = (a + 4 * i) % 2 ^ 32 ∧
      ((FastRunLoopIter env)^[i] s).downcount = (n : Int) - (i : Int) ∧
      (FastRunLoopIter env)^[i + 1] s =
        FastRunLoopIter env ((FastRunLoopIter env)^[i] s) ∧
      (FastRunLoopIter env)^[i + 1] s =
        (processOp env
          (Read_U32 ((FastRunLoopIter env)^[i] s).memory ((a + 4 * i) % 2 ^ 32))
          ((FastRunLoopIter env)^[i] s)).advance) ∧
    (∀ (m : Nat → Nat) (x : Nat), Read_U32 m x =
      m x % 256 + (m (x + 1) % 256) * 2 ^ 8 + (m (x + 2) % 256) * 2 ^ 16 +
        (m (x + 3) % 256) * 2 ^ 24) ∧
    FastRunLoop env fuel s =
      some (runWords env ((List.range n).map (fun i =>
        Read_U32 ((FastRunLoopIter env)^[i] s).memory ((a + 4 * i) % 2 ^ 32))) s) ∧
    (∀ ws : List Nat, ws.length = n →
      (∀ w ∈ ws, w >>> 24 ≠ GE_CMD_TRANSFERSTART) →
      (∀ i, i < n → Read_U32 s.memory ((a + 4 * i) % 2 ^ 32) = ws.getD i 0) →
      FastRunLoop env fuel s = some (runWords env ws s) ∧
        (runWords env ws s).memory = s.memory) ∧
    (∀ (t : GPU) (f : Nat), t.downcount ≤ 0 → FastRunLoop env f t = some t ∧
      runWords env [] t = t) := by
  have hall := iterate_pc_downcount env s n a ha hpc hd hnd
  have hruns := FastRunLoop_runs env n s fuel hd hfuel hnd
  refine ⟨hruns, ?_, (hall n le_rfl).1, ?_, ?_, fun _ _ => rfl, ?_, ?_, ?_⟩
  · rw [(hall n le_rfl).2]
    omega
  · intro hlt
    rw [(hall n le_rfl).1, Nat.mod_eq_of_lt hlt]
  · intro i hi
    refine ⟨(hall i (le_of_lt hi)).1, (hall i (le_of_lt hi)).2,
      Function.iterate_succ_apply' _ _ _, ?_⟩
    rw [Function.iterate_succ_apply', ← (hall i (le_of_lt hi)).1]
    rfl
  · rw [hruns, iterate_eq_runWords_fetched env s a n (fun i hi => (hall i (le_of_lt hi)).1)]
  · intro ws hlen hnt hmem
    obtain ⟨h1, h2⟩ := iterate_eq_runWords env s n a ws hlen (fun i hi => (hall i hi).1) hnt
      hmem n le_rfl
    rw [← hlen, List.take_length] at h1
    rw [hlen] at h1
    rw [hruns, h1]
    refine ⟨rfl, ?_⟩
    rw [← h1]
    exact h2
  · intro t f ht
    exact ⟨FastRunLoop_stops env f t ht, rfl⟩

set_option maxRecDepth 100000 in
/-- Witness for C5: two iterations over the stream `(FOGCOLOR, 0x112233)`,
`(FOG1, 0x000001)` stored at `0x08000000`: the loop returns the result of processing these
two words in order, which has both words in their mirror slots and made two flushes. -/
theorem FastRunLoop_progress_witness :
    FastRunLoop Env.sample 2 GPU.sampleStream =
      some (runWords Env.sample [0xCF112233, 0xCD000001] GPU.sampleStream) ∧
    (runWords Env.sample [0xCF112233, 0xCD000001] GPU.sampleStream).gstate.cmdmem
      GE_CMD_FOGCOLOR = 0xCF112233 ∧
    (runWords Env.sample [0xCF112233, 0xCD000001] GPU.sampleStream).gstate.cmdmem
      GE_CMD_FOG1 = 0xCD000001 ∧
    flushCount (runWords Env.sample [0xCF112233, 0xCD000001] GPU.sampleStream).calls = 2 ∧
    (runWords Env.sample [0xCF112233, 0xCD000001] GPU.sampleStream).list.pc = 0x08000008 :=
  have h := FastRunLoop_progress Env.sample GPU.sampleStream 2 2 0x08000000
    (by decide) rfl rfl (by decide) (by decide!)
  ⟨(h.2.2.2.2.2.2.2.1 [0xCF112233, 0xCD000001] rfl (by decide) (by decide)).1,
    by decide!, by decide!, by decide!, by decide!⟩

/-! ## Scenario B: three `FOGCOLOR` commands -/

set_option maxRecDepth 100000 in
theorem constructed_fogcolor (a b g : Bool) :
    commandFlagsOf a b g GE_CMD_FOGCOLOR = FLAG_FLUSHBEFOREONCHANGE ||| FLAG_EXECUTEONCHANGE := by
  cases a <;> cases b <;> cases g <;> decide!

theorem selectCase_fogcolor (g : Bool) :
    selectCase g GE_CMD_FOGCOLOR = OpCase.dirty DirtyGroup.FOGCOLOR := by
  cases g <;> decide

theorem processOp_fogcolor (env : Env) (s : GPU) (p : Nat) (hp : p < 2 ^ 24)
    (hT : s.commandFlags_ = commandFlagsOf env.bPrescaleUV env.bSoftwareSkinning env.usingGLES2) :
    processOp env ((GE_CMD_FOGCOLOR <<< 24) ||| p) s =
      if (GE_CMD_FOGCOLOR <<< 24) ||| p = s.gstate.cmdmem GE_CMD_FOGCOLOR then s
      else ((s.Flush).setCmd GE_CMD_FOGCOLOR ((GE_CMD_FOGCOLOR <<< 24) ||| p)).DirtyUniform
        DirtyGroup.FOGCOLOR := by
  have hcmd : ((GE_CMD_FOGCOLOR <<< 24) ||| p) >>> 24 = GE_CMD_FOGCOLOR :=
    word_shiftRight GE_CMD_FOGCOLOR p hp
  have hfl : s.commandFlags_ GE_CMD_FOGCOLOR = 10 := by
    rw [hT]
    exact constructed_fogcolor _ _ _
  simp only [processOp, hcmd, hfl, ExecuteOpInternal, selectCase_fogcolor, runCase,
    dirtyOnChange]
  by_cases h : (GE_CMD_FOGCOLOR <<< 24) ||| p = s.gstate.cmdmem GE_CMD_FOGCOLOR
  · have hx : ((GE_CMD_FOGCOLOR <<< 24) ||| p) ^^^ s.gstate.cmdmem GE_CMD_FOGCOLOR = 0 :=
      Nat.xor_eq_zero.mpr h
    rw [if_pos h, hx]
    simp only [ne_eq, not_true_eq_false, false_and, or_false, if_false]
    rw [h]
    simp [setCmd_self]
  · have hx : ((GE_CMD_FOGCOLOR <<< 24) ||| p) ^^^ s.gstate.cmdmem GE_CMD_FOGCOLOR ≠ 0 :=
      Nat.xor_ne_zero.mpr h
    rw [if_neg h]
    simp [hx]

/-- C9 (as stated) fails: on a freshly constructed core, whose `FOGCOLOR` slot (0) differs
from the first word, the three commands flush the transform engine twice, not once: the
first command also changes the register.  `DirtyUniform(FOGCOLOR)` is called twice. -/
theorem scenario_B_flushes_twice :
    GPU.sample.gstate.cmdmem GE_CMD_FOGCOLOR ≠ (GE_CMD_FOGCOLOR <<< 24) ||| 0x112233 ∧
    flushCount (processOp Env.sample ((GE_CMD_FOGCOLOR <<< 24) ||| 0x445566)
      (processOp Env.sample ((GE_CMD_FOGCOLOR <<< 24) ||| 0x112233)
        (processOp Env.sample ((GE_CMD_FOGCOLOR <<< 24) ||| 0x112233) GPU.sample))).calls = 2 ∧
    flushCount (processOp Env.sample ((GE_CMD_FOGCOLOR <<< 24) ||| 0x112233)
      GPU.sample).calls = 1 ∧
    dirtyCount DirtyGroup.FOGCOLOR (processOp Env.sample ((GE_CMD_FOGCOLOR <<< 24) ||| 0x445566)
      (processOp Env.sample ((GE_CMD_FOGCOLOR <<< 24) ||| 0x112233)
        (processOp Env.sample ((GE_CMD_FOGCOLOR <<< 24) ||| 0x112233) GPU.sample))).calls = 2 := by
  decide!

/-- C9 (amended). Scenario B on a core with the constructed flag table, starting from a
mirror whose `FOGCOLOR` slot differs from the first word: the three commands make exactly
four calls, in this order: a flush before the first command (under the old registers),
`DirtyUniform(FOGCOLOR)`, a flush before the third command (under registers holding the
first word), `DirtyUniform(FOGCOLOR)`.  So `DirtyUniform(FOGCOLOR)` is called exactly twice
(first and third command) and the transform engine is flushed exactly twice (before the
first and before the third); the second command does nothing. -/
theorem scenario_B (env : Env) (s : GPU)
    (hT : s.commandFlags_ = commandFlagsOf env.bPrescaleUV env.bSoftwareSkinning env.usingGLES2)
    (h0 : s.gstate.cmdmem GE_CMD_FOGCOLOR ≠ (GE_CMD_FOGCOLOR <<< 24) ||| 0x112233) :
    (processOp env ((GE_CMD_FOGCOLOR <<< 24) ||| 0x445566)
      (processOp env ((GE_CMD_FOGCOLOR <<< 24) ||| 0x112233)
        (processOp env ((GE_CMD_FOGCOLOR <<< 24) ||| 0x112233) s))).calls =
      s.calls ++ [Call.Flush s.gstate, Call.DirtyUniform DirtyGroup.FOGCOLOR,
        Call.Flush (s.setCmd GE_CMD_FOGCOLOR ((GE_CMD_FOGCOLOR <<< 24) ||| 0x112233)).gstate,
        Call.DirtyUniform DirtyGroup.FOGCOLOR] ∧
    processOp env ((GE_CMD_FOGCOLOR <<< 24) ||| 0x112233)
        (processOp env ((GE_CMD_FOGCOLOR <<< 24) ||| 0x112233) s) =
      processOp env ((GE_CMD_FOGCOLOR <<< 24) ||| 0x112233) s := by
  have hT1 := (processOp_commandFlags env ((GE_CMD_FOGCOLOR <<< 24) ||| 0x112233) s).trans hT
  have e1 := processOp_fogcolor env s 0x112233 (by norm_num) hT
  rw [if_neg (Ne.symm h0)] at e1
  have hm1 : (processOp env ((GE_CMD_FOGCOLOR <<< 24) ||| 0x112233) s).gstate.cmdmem
      GE_CMD_FOGCOLOR = (GE_CMD_FOGCOLOR <<< 24) ||| 0x112233 := by
    rw [e1]
    simp [GPU.DirtyUniform, GPU.call, GPU.setCmd]
  have e2 := processOp_fogcolor env _ 0x112233 (by norm_num) hT1
  rw [if_pos hm1.symm] at e2
  have e3 := processOp_fogcolor env _ 0x445566 (by norm_num) hT1
  rw [hm1, if_neg (by decide)] at e3
  refine ⟨?_, e2⟩
  rw [e2, e3, e1]
  simp [GPU.DirtyUniform, GPU.call, GPU.setCmd, GPU.Flush]

set_option maxRecDepth 100000 in
/-- Witness for C9 (amended): scenario B on a freshly constructed core. -/
theorem scenario_B_witness :
    (processOp Env.sample ((GE_CMD_FOGCOLOR <<< 24) ||| 0x445566)
      (processOp Env.sample ((GE_CMD_FOGCOLOR <<< 24) ||| 0x112233)
        (processOp Env.sample ((GE_CMD_FOGCOLOR <<< 24) ||| 0x112233) GPU.sample))).calls =
      GPU.sample.calls ++ [Call.Flush GPU.sample.gstate, Call.DirtyUniform DirtyGroup.FOGCOLOR,
        Call.Flush (GPU.sample.setCmd GE_CMD_FOGCOLOR
          ((GE_CMD_FOGCOLOR <<< 24) ||| 0x112233)).gstate,
        Call.DirtyUniform DirtyGroup.FOGCOLOR] :=
  (scenario_B Env.sample GPU.sample rfl (by decide)).1

/-! ## Address advance after a submitted `PRIM` -/

theorem selectCase_prim (g : Bool) : selectCase g GE_CMD_PRIM = OpCase.PRIM := by
  cases g <;> decide

/-- C10. `PRIM` address advance: whenever the executor, run on a `PRIM` command, calls
`SubmitPrim`, then for a non-indexed vertex type `vertexAddr` afterwards is `vertexAddr`
before plus the `bytesRead` that `SubmitPrim` returned (32-bit arithmetic) and `indexAddr`
is unchanged; for an indexed vertex type `indexAddr` afterwards is `indexAddr` before plus
`count * indexSize` and `vertexAddr` is unchanged, where `indexSize` is 2 for 16-bit
indices and 1 for 8-bit indices. -/
theorem prim_address_advance (env : Env) (s : GPU) (op diff : Nat)
    (hcmd : op >>> 24 = GE_CMD_PRIM)
    (hsub : ((ExecuteOpInternal env op diff s).calls.drop s.calls.length).any
      Call.isSubmitPrim = true) :
    (isIndexed s.gstate = false →
      (ExecuteOpInternal env op diff s).gstate_c.vertexAddr =
        (s.gstate_c.vertexAddr +
          env.SubmitPrim_bytesRead s.memory s.gstate_c.vertexAddr none
            ((op &&& 0xFFFFFF) >>> 16) ((op &&& 0xFFFFFF) &&& 0xFFFF)
            (s.gstate.cmdmem GE_CMD_VERTEXTYPE)) % 2 ^ 32 ∧
      (ExecuteOpInternal env op diff s).gstate_c.indexAddr = s.gstate_c.indexAddr) ∧
    (isIndexed s.gstate = true →
      (ExecuteOpInternal env op diff s).gstate_c.indexAddr =
        (s.gstate_c.indexAddr + ((op &&& 0xFFFFFF) &&& 0xFFFF) * indexSize s.gstate) % 2 ^ 32 ∧
      (ExecuteOpInternal env op diff s).gstate_c.vertexAddr = s.gstate_c.vertexAddr) ∧
    (s.gstate.cmdmem GE_CMD_VERTEXTYPE &&& GE_VTYPE_IDX_MASK = GE_VTYPE_IDX_16BIT →
      indexSize s.gstate = 2) ∧
    (s.gstate.cmdmem GE_CMD_VERTEXTYPE &&& GE_VTYPE_IDX_MASK = GE_VTYPE_IDX_8BIT →
      indexSize s.gstate = 1) := by
  refine ⟨?_, ?_, ?_, ?_⟩
  · intro hidx
    revert hsub
    simp only [ExecuteOpInternal, hcmd, selectCase_prim, runCase, execPRIM, GPU.call, hidx]
    split_ifs <;> first | contradiction | simp [Call.isSubmitPrim]
  · intro hidx
    revert hsub
    simp only [ExecuteOpInternal, hcmd, selectCase_prim, runCase, execPRIM, GPU.call, hidx]
    split_ifs <;> first | contradiction | simp [Call.isSubmitPrim]
  · intro h
    simp [indexSize, h]
  · intro h
    have hne : ¬ GE_VTYPE_IDX_8BIT = GE_VTYPE_IDX_16BIT := by decide
    simp [indexSize, h, hne]

/-- Witness for C10: three non-indexed vertices of stride 16 advance `vertexAddr` by 48. -/
theorem prim_address_advance_witness :
    (ExecuteOpInternal Env.sample ((GE_CMD_PRIM <<< 24) ||| (GE_PRIM_TRIANGLES <<< 16) ||| 3) 0
        GPU.sample).gstate_c.vertexAddr = (0 + 16 * 3) % 2 ^ 32 ∧
    (ExecuteOpInternal Env.sample ((GE_CMD_PRIM <<< 24) ||| (GE_PRIM_TRIANGLES <<< 16) ||| 3) 0
        GPU.sample).gstate_c.indexAddr = 0 :=
  (prim_address_advance Env.sample GPU.sample
    ((GE_CMD_PRIM <<< 24) ||| (GE_PRIM_TRIANGLES <<< 16) ||| 3) 0 (by decide) (by decide)).1
    (by decide)


/-! ## The `PRIM` command -/

theorem or_eq_zero_iff' (a b : Nat) : a ||| b = 0 ↔ a = 0 ∧ b = 0 := by
  constructor
  · intro h
    have hb : ∀ i, a.testBit i = false ∧ b.testBit i = false := by
      intro i
      have := congrArg (fun x => Nat.testBit x i) h
      simpa [Nat.testBit_or] using this
    exact ⟨Nat.eq_of_testBit_eq (fun i => by simp [(hb i).1]),
      Nat.eq_of_testBit_eq (fun i => by simp [(hb i).2])⟩
  · rintro ⟨rfl, rfl⟩
    rfl

theorem skipDraw_iff (c : GPUStateCache) : skipDraw c = true ↔ skipDrawFlagSet c := by
  simp only [skipDraw, skipDrawFlagSet, decide_eq_true_eq, Nat.and_or_distrib_left, ne_eq,
    or_eq_zero_iff']
  tauto

theorem discardAALine_iff (env : Env) (g : GPUgstate) (prim : Nat) :
    discardAALine env g prim = true ↔ aaLineDiscardApplies env g prim := by
  simp [discardAALine, aaLineDiscardApplies]

theorem isIndexed_iff (g : GPUgstate) :
    isIndexed g = true ↔ g.cmdmem GE_CMD_VERTEXTYPE &&& GE_VTYPE_IDX_MASK ≠ GE_VTYPE_IDX_NONE := by
  simp [isIndexed]

theorem ExecuteOpInternal_prim (env : Env) (s : GPU) (op diff : Nat)
    (hcmd : op >>> 24 = GE_CMD_PRIM) :
    ExecuteOpInternal env op diff s = execPRIM env (op &&& 0xFFFFFF) s := by
  simp only [ExecuteOpInternal, hcmd, selectCase_prim, runCase]

/-- C11. `PRIM` submission condition: for every `PRIM` command and state, if the count is
non-zero, the anti-aliased line discard does not apply, no skip-draw flag is set, the vertex
address is valid and (for an indexed vertex type) the index address is valid, then the
executor binds the render target and calls `SubmitPrim` exactly once; in every other case
`SubmitPrim` is not called and `vertexAddr` and `indexAddr` are unchanged; and with a zero
count the command makes no call at all (the state is unchanged). -/
theorem prim_submission (env : Env) (s : GPU) (op diff : Nat)
    (hcmd : op >>> 24 = GE_CMD_PRIM) :
    (primSubmitCondition env s (op &&& 0xFFFFFF) →
      (ExecuteOpInternal env op diff s).calls =
        s.calls ++ [Call.SetRenderFrameBuffer,
          Call.SubmitPrim s.gstate_c.vertexAddr
            (if isIndexed s.gstate then some s.gstate_c.indexAddr else none)
            ((op &&& 0xFFFFFF) >>> 16) ((op &&& 0xFFFFFF) &&& 0xFFFF)
            (s.gstate.cmdmem GE_CMD_VERTEXTYPE)] ∧
      submitPrimCount (ExecuteOpInternal env op diff s).calls = submitPrimCount s.calls + 1) ∧
    (¬ primSubmitCondition env s (op &&& 0xFFFFFF) →
      submitPrimCount (ExecuteOpInternal env op diff s).calls = submitPrimCount s.calls ∧
      (ExecuteOpInternal env op diff s).gstate_c.vertexAddr = s.gstate_c.vertexAddr ∧
      (ExecuteOpInternal env op diff s).gstate_c.indexAddr = s.gstate_c.indexAddr) ∧
    ((op &&& 0xFFFFFF) &&& 0xFFFF = 0 → ExecuteOpInternal env op diff s = s) := by
  rw [ExecuteOpInternal_prim env s op diff hcmd]
  have hsk := skipDraw_iff s.gstate_c
  have haa := discardAALine_iff env s.gstate ((op &&& 0xFFFFFF) >>> 16)
  have hix := isIndexed_iff s.gstate
  refine ⟨?_, ?_, ?_⟩
  · rintro ⟨hcount, hnaa, hnsk, hv, hi⟩
    have h1 : ¬ discardAALine env s.gstate ((op &&& 0xFFFFFF) >>> 16) = true :=
      fun h => hnaa (haa.mp h)
    have h2 : ¬ skipDraw s.gstate_c = true := fun h => hnsk (hsk.mp h)
    have h3 : ¬ (isIndexed s.gstate = true ∧ ¬ env.IsValidAddress s.gstate_c.indexAddr = true) :=
      fun h => h.2 (hi (hix.mp h.1))
    simp only [execPRIM, GPU.call, if_neg hcount, if_neg h1, if_neg h2, hv, not_true_eq_false,
      if_false, if_neg h3, submitPrimCount]
    cases hidx : isIndexed s.gstate <;>
      simp [List.countP_append, List.countP_cons, Call.isSubmitPrim]
  · intro hnot
    by_cases hc : (op &&& 0xFFFFFF) &&& 0xFFFF = 0
    · simp only [execPRIM, if_pos hc, and_self]
    by_cases ha : discardAALine env s.gstate ((op &&& 0xFFFFFF) >>> 16) = true
    · simp only [execPRIM, if_neg hc, if_pos ha, and_self]
    by_cases hs : skipDraw s.gstate_c = true
    · simp [execPRIM, GPU.call, if_neg hc, if_neg ha, hs, submitPrimCount, List.countP_append,
        Call.isSubmitPrim]
    by_cases hv : env.IsValidAddress s.gstate_c.vertexAddr = true
    · by_cases hi : isIndexed s.gstate = true ∧ ¬ env.IsValidAddress s.gstate_c.indexAddr = true
      · simp [execPRIM, GPU.call, if_neg hc, if_neg ha, hs, hv, hi, submitPrimCount,
          List.countP_append, Call.isSubmitPrim]
      · exfalso
        apply hnot
        refine ⟨hc, fun h => ha (haa.mpr h), fun h => hs (hsk.mpr h), hv, ?_⟩
        intro hidx
        by_contra hinv
        exact hi ⟨hix.mpr hidx, hinv⟩
    · simp [execPRIM, GPU.call, if_neg hc, if_neg ha, hs, hv, submitPrimCount,
        List.countP_append, Call.isSubmitPrim]
  · intro h0
    simp only [execPRIM, if_pos h0]

/-- Witness for C11: three non-indexed triangles' vertices on a freshly constructed core are
submitted. -/
theorem prim_submission_witness :
    submitPrimCount (ExecuteOpInternal Env.sample
        ((GE_CMD_PRIM <<< 24) ||| (GE_PRIM_TRIANGLES <<< 16) ||| 3) 0 GPU.sample).calls =
      submitPrimCount GPU.sample.calls + 1 :=
  ((prim_submission Env.sample GPU.sample
    ((GE_CMD_PRIM <<< 24) ||| (GE_PRIM_TRIANGLES <<< 16) ||| 3) 0 (by decide)).1
    (by unfold primSubmitCondition aaLineDiscardApplies skipDrawFlagSet; decide)).2

theorem toS32_of_range (x : Int) (hlo : -(2 ^ 31) ≤ x) (hhi : x < 2 ^ 31) : toS32 x = x := by
  unfold toS32
  rw [Int.emod_eq_of_lt (by omega) (by omega)]
  omega

/-- C12 (as stated) fails: with `cyclesExecuted = 2147483632`, a `PRIM` command of 3
vertices at a per-vertex cost of 20 under `SKIPFRAME` does not increase `cyclesExecuted` by
60: the 32-bit accumulator wraps to `-2147483604`. -/
theorem prim_skip_draw_cycles_wrap :
    (((GE_CMD_PRIM <<< 24) ||| (GE_PRIM_TRIANGLES <<< 16) ||| 3) &&& 0xFFFFFF) &&& 0xFFFF = 3 ∧
    skipDrawFlagSet GPU.sampleSkipFull.gstate_c ∧
    ¬ aaLineDiscardApplies Env.strict GPU.sampleSkipFull.gstate
      ((((GE_CMD_PRIM <<< 24) ||| (GE_PRIM_TRIANGLES <<< 16) ||| 3) &&& 0xFFFFFF) >>> 16) ∧
    Env.strict.EstimatePerVertexCost GPU.sampleSkipFull.gstate = 20 ∧
    GPU.sampleSkipFull.cyclesExecuted = 2147483632 ∧
    (ExecuteOpInternal Env.strict ((GE_CMD_PRIM <<< 24) ||| (GE_PRIM_TRIANGLES <<< 16) ||| 3) 0
      GPU.sampleSkipFull).cyclesExecuted = -2147483604 ∧
    (ExecuteOpInternal Env.strict ((GE_CMD_PRIM <<< 24) ||| (GE_PRIM_TRIANGLES <<< 16) ||| 3) 0
      GPU.sampleSkipFull).cyclesExecuted ≠ GPU.sampleSkipFull.cyclesExecuted + 20 * 3 := by
  refine ⟨by decide, ?_, ?_, rfl, rfl, by decide, by decide⟩
  · unfold skipDrawFlagSet
    decide
  · unfold aaLineDiscardApplies
    decide

/-- C12 (amended). `PRIM` under skip-draw: when the count is non-zero, the anti-aliased line
discard does not apply and a skip-draw flag is set, the command binds the render target,
sets up the vertex decoder for the current vertex type, replaces `cyclesExecuted` by
`cyclesExecuted + EstimatePerVertexCost() * count` reduced modulo `2^32` into the signed
32-bit range (an increase by exactly `EstimatePerVertexCost() * count` whenever that sum
lies in `[-2^31, 2^31)`), and changes nothing else (no `SubmitPrim`; `vertexAddr`,
`indexAddr` and the vertex GPU-cycle statistic unchanged), whatever the validity of the
vertex address. -/
theorem prim_skip_draw (env : Env) (s : GPU) (op diff : Nat)
    (hcmd : op >>> 24 = GE_CMD_PRIM)
    (hcount : (op &&& 0xFFFFFF) &&& 0xFFFF ≠ 0)
    (hnaa : ¬ aaLineDiscardApplies env s.gstate ((op &&& 0xFFFFFF) >>> 16))
    (hskip : skipDrawFlagSet s.gstate_c) :
    ExecuteOpInternal env op diff s =
      { s with
        calls := s.calls ++ [Call.SetRenderFrameBuffer,
          Call.SetupVertexDecoder (s.gstate.cmdmem GE_CMD_VERTEXTYPE)],
        cyclesExecuted := toS32 (s.cyclesExecuted +
          env.EstimatePerVertexCost s.gstate * (((op &&& 0xFFFFFF) &&& 0xFFFF : Nat) : Int)) } ∧
    (-(2 ^ 31) ≤ s.cyclesExecuted +
        env.EstimatePerVertexCost s.gstate * (((op &&& 0xFFFFFF) &&& 0xFFFF : Nat) : Int) →
      s.cyclesExecuted +
        env.EstimatePerVertexCost s.gstate * (((op &&& 0xFFFFFF) &&& 0xFFFF : Nat) : Int) <
          2 ^ 31 →
      (ExecuteOpInternal env op diff s).cyclesExecuted =
        s.cyclesExecuted +
          env.EstimatePerVertexCost s.gstate * (((op &&& 0xFFFFFF) &&& 0xFFFF : Nat) : Int)) ∧
    (ExecuteOpInternal env op diff s).cyclesExecuted =
      (s.cyclesExecuted +
        env.EstimatePerVertexCost s.gstate * (((op &&& 0xFFFFFF) &&& 0xFFFF : Nat) : Int) +
          2 ^ 31) % 2 ^ 32 - 2 ^ 31 ∧
    submitPrimCount (ExecuteOpInternal env op diff s).calls = submitPrimCount s.calls ∧
    (ExecuteOpInternal env op diff s).gstate_c.vertexAddr = s.gstate_c.vertexAddr ∧
    (ExecuteOpInternal env op diff s).gstate_c.indexAddr = s.gstate_c.indexAddr ∧
    (ExecuteOpInternal env op diff s).vertexGPUCycles = s.vertexGPUCycles := by
  have h1 : ¬ discardAALine env s.gstate ((op &&& 0xFFFFFF) >>> 16) = true :=
    fun h => hnaa ((discardAALine_iff env s.gstate _).mp h)
  have h2 : skipDraw s.gstate_c = true := (skipDraw_iff s.gstate_c).mpr hskip
  have key : ExecuteOpInternal env op diff s =
      { s with
        calls := s.calls ++ [Call.SetRenderFrameBuffer,
          Call.SetupVertexDecoder (s.gstate.cmdmem GE_CMD_VERTEXTYPE)],
        cyclesExecuted := toS32 (s.cyclesExecuted +
          env.EstimatePerVertexCost s.gstate *
            (((op &&& 0xFFFFFF) &&& 0xFFFF : Nat) : Int)) } := by
    rw [ExecuteOpInternal_prim env s op diff hcmd]
    simp only [execPRIM, GPU.call, if_neg hcount, if_neg h1, h2, if_true, List.append_assoc,
      List.singleton_append]
  refine ⟨key, ?_, ?_, ?_, ?_, ?_, ?_⟩
  · intro hlo hhi
    rw [key]
    exact toS32_of_range _ hlo hhi
  · rw [key]
    rfl
  · rw [key]
    simp [submitPrimCount, List.countP_append, List.countP_cons, Call.isSubmitPrim]
  · rw [key]
  · rw [key]
  · rw [key]

/-- Witness for C12 (amended): a `PRIM` of 3 vertices on a core with `SKIPFRAME` set, an
invalid vertex address and a zero cycle count adds `20 * 3` cycles. -/
theorem prim_skip_draw_witness :
    (ExecuteOpInternal Env.strict ((GE_CMD_PRIM <<< 24) ||| (GE_PRIM_TRIANGLES <<< 16) ||| 3) 0
        GPU.sampleSkip).cyclesExecuted =
      GPU.sampleSkip.cyclesExecuted + Env.strict.EstimatePerVertexCost GPU.sampleSkip.gstate *
        ((((((GE_CMD_PRIM <<< 24) ||| (GE_PRIM_TRIANGLES <<< 16) ||| 3) &&& 0xFFFFFF) &&&
          0xFFFF : Nat)) : Int) :=
  (prim_skip_draw Env.strict GPU.sampleSkip
    ((GE_CMD_PRIM <<< 24) ||| (GE_PRIM_TRIANGLES <<< 16) ||| 3) 0 (by decide) (by decide)
    (by unfold aaLineDiscardApplies; decide) (by unfold skipDrawFlagSet; decide)).2.1
    (by decide) (by decide)

/-! ## The `BOUNDINGBOX` command -/

theorem selectCase_boundingbox (g : Bool) :
    selectCase g GE_CMD_BOUNDINGBOX = OpCase.BOUNDINGBOX := by
  cases g <;> decide

theorem and_seven_eq_mod (p : Nat) : p &&& 7 = p % 8 :=
  Nat.and_pow_two_sub_one_eq_mod p 3

/-- C13. Bounding box is fail-open: after a `BOUNDINGBOX` command with payload `p`, if `p`
is non-zero, a multiple of 8, at most 64 and the vertex type is non-indexed, then
`TestBoundingBox` is called once over `p` control points and `bboxResult` is the value it
returned; in every other case `bboxResult` is `true` and no call is made.  Hence
`bboxResult` is `false` only if `TestBoundingBox` was called and returned `false`. -/
theorem bounding_box_fail_open (env : Env) (s : GPU) (op diff : Nat)
    (hcmd : op >>> 24 = GE_CMD_BOUNDINGBOX) :
    (bboxTestCondition s.gstate (op &&& 0xFFFFFF) →
      (ExecuteOpInternal env op diff s).list.bboxResult =
        env.TestBoundingBox s.gstate s.memory s.gstate_c.vertexAddr (op &&& 0xFFFFFF)
          (s.gstate.cmdmem GE_CMD_VERTEXTYPE) ∧
      (ExecuteOpInternal env op diff s).calls =
        s.calls ++ [Call.TestBoundingBox s.gstate_c.vertexAddr (op &&& 0xFFFFFF)
          (s.gstate.cmdmem GE_CMD_VERTEXTYPE)]) ∧
    (¬ bboxTestCondition s.gstate (op &&& 0xFFFFFF) →
      (ExecuteOpInternal env op diff s).list.bboxResult = true ∧
      (ExecuteOpInternal env op diff s).calls = s.calls) ∧
    ((ExecuteOpInternal env op diff s).list.bboxResult = false →
      bboxTestCondition s.gstate (op &&& 0xFFFFFF) ∧
      env.TestBoundingBox s.gstate s.memory s.gstate_c.vertexAddr (op &&& 0xFFFFFF)
        (s.gstate.cmdmem GE_CMD_VERTEXTYPE) = false) := by
  have hE : ExecuteOpInternal env op diff s = execBOUNDINGBOX env (op &&& 0xFFFFFF) s := by
    simp only [ExecuteOpInternal, hcmd, selectCase_boundingbox, runCase]
  rw [hE]
  have hpos : bboxTestCondition s.gstate (op &&& 0xFFFFFF) →
      (execBOUNDINGBOX env (op &&& 0xFFFFFF) s).list.bboxResult =
        env.TestBoundingBox s.gstate s.memory s.gstate_c.vertexAddr (op &&& 0xFFFFFF)
          (s.gstate.cmdmem GE_CMD_VERTEXTYPE) ∧
      (execBOUNDINGBOX env (op &&& 0xFFFFFF) s).calls =
        s.calls ++ [Call.TestBoundingBox s.gstate_c.vertexAddr (op &&& 0xFFFFFF)
          (s.gstate.cmdmem GE_CMD_VERTEXTYPE)] := by
    rintro ⟨h0, h8, h64, hidx⟩
    have h7 : (op &&& 0xFFFFFF) &&& 7 = 0 := by rw [and_seven_eq_mod]; exact h8
    have hidx0 : s.gstate.cmdmem GE_CMD_VERTEXTYPE &&& GE_VTYPE_IDX_MASK = 0 := hidx
    simp [execBOUNDINGBOX, GPU.call, GPU.setBboxResult, h0, h7, h64, hidx0]
  have hneg : ¬ bboxTestCondition s.gstate (op &&& 0xFFFFFF) →
      (execBOUNDINGBOX env (op &&& 0xFFFFFF) s).list.bboxResult = true ∧
      (execBOUNDINGBOX env (op &&& 0xFFFFFF) s).calls = s.calls := by
    intro hnot
    by_cases h0 : op &&& 0xFFFFFF = 0
    · simp [execBOUNDINGBOX, GPU.setBboxResult, h0]
    by_cases h7 : (op &&& 0xFFFFFF) &&& 7 = 0 ∧ op &&& 0xFFFFFF ≤ 64
    · by_cases hidx : s.gstate.cmdmem GE_CMD_VERTEXTYPE &&& GE_VTYPE_IDX_MASK ≠ 0
      · simp [execBOUNDINGBOX, GPU.setBboxResult, h0, h7, hidx]
      · exfalso
        apply hnot
        refine ⟨h0, ?_, h7.2, ?_⟩
        · rw [← and_seven_eq_mod]
          exact h7.1
        · exact not_not.mp hidx
    · simp [execBOUNDINGBOX, GPU.setBboxResult, h0, h7]
  refine ⟨hpos, hneg, ?_⟩
  intro hfalse
  by_cases hc : bboxTestCondition s.gstate (op &&& 0xFFFFFF)
  · refine ⟨hc, ?_⟩
    rw [← (hpos hc).1]
    exact hfalse
  · rw [(hneg hc).1] at hfalse
    exact absurd hfalse (by decide)

/-- Witness for C13: payload 8 with a non-indexed vertex type runs the test; payload 9 does
not and leaves `bboxResult` true. -/
theorem bounding_box_fail_open_witness :
    (ExecuteOpInternal Env.sample ((GE_CMD_BOUNDINGBOX <<< 24) ||| 8) 0 GPU.sample).calls =
      GPU.sample.calls ++ [Call.TestBoundingBox 0 (((GE_CMD_BOUNDINGBOX <<< 24) ||| 8) &&& 0xFFFFFF)
        (GPU.sample.gstate.cmdmem GE_CMD_VERTEXTYPE)] ∧
    (ExecuteOpInternal Env.sample ((GE_CMD_BOUNDINGBOX <<< 24) ||| 9) 0
      GPU.sample).list.bboxResult = true :=
  ⟨((bounding_box_fail_open Env.sample GPU.sample ((GE_CMD_BOUNDINGBOX <<< 24) ||| 8) 0
      (by decide)).1 (by unfold bboxTestCondition; decide)).2,
   ((bounding_box_fail_open Env.sample GPU.sample ((GE_CMD_BOUNDINGBOX <<< 24) ||| 9) 0
      (by decide)).2.1 (by unfold bboxTestCondition; decide)).1⟩

/-! ## Matrix uploads: one `*DATA` command -/

theorem selectCase_matrixData (g : Bool) (f : MatrixFamily) :
    selectCase g f.dataOp =
      match f with
      | MatrixFamily.world => OpCase.WORLDMATRIXDATA
      | MatrixFamily.view => OpCase.VIEWMATRIXDATA
      | MatrixFamily.proj => OpCase.PROJMATRIXDATA
      | MatrixFamily.tgen => OpCase.TGENMATRIXDATA
      | MatrixFamily.bone => OpCase.BONEMATRIXDATA := by
  cases g <;> cases f <;> decide

theorem index_lt (f : MatrixFamily) (g : GPUgstate) : f.index g < f.indexMask + 1 := by
  cases f <;> simp only [MatrixFamily.index, MatrixFamily.indexMask] <;>
    exact Nat.lt_succ_of_le Nat.and_le_right

theorem proj_index_lt (g : GPUgstate) : g.cmdmem GE_CMD_PROJMATRIXNUMBER &&& 0xF < 16 :=
  Nat.lt_succ_of_le Nat.and_le_right

/-- What the body of a `*DATA` case does, family by family: the matrices, the mirror, the
calls and the flag table. -/
theorem exec_matrixData (env : Env) (s : GPU) (f : MatrixFamily) (op diff : Nat)
    (hcmd : op >>> 24 = f.dataOp) :
    (∀ f' j, f'.matrix (ExecuteOpInternal env op diff s).gstate j =
      if f' = f ∧ j = f.index s.gstate ∧ f.index s.gstate < f.size then (op &&& 0xFFFFFF) <<< 8
      else f'.matrix s.gstate j) ∧
    (∀ c, (ExecuteOpInternal env op diff s).gstate.cmdmem c =
      if c = f.numberOp then (f.numberOp <<< 24) ||| ((f.index s.gstate + 1) &&& f.indexMask)
      else s.gstate.cmdmem c) ∧
    (ExecuteOpInternal env op diff s).calls =
      s.calls ++
        (if f.index s.gstate < f.size ∧
            (op &&& 0xFFFFFF) <<< 8 ≠ f.matrix s.gstate (f.index s.gstate) ∧
            ¬ (f = MatrixFamily.bone ∧ env.bSoftwareSkinning = true) then
          [Call.Flush s.gstate, Call.DirtyUniform (f.dirtyGroup (f.index s.gstate))]
        else []) ∧
    (ExecuteOpInternal env op diff s).commandFlags_ = s.commandFlags_ := by
  have hsel := selectCase_matrixData env.usingGLES2 f
  have hp := proj_index_lt s.gstate
  cases f
  all_goals
    simp only [MatrixFamily.dataOp] at hcmd
    simp only [MatrixFamily.index, MatrixFamily.numberOp, MatrixFamily.indexMask,
      MatrixFamily.size, MatrixFamily.dirtyGroup, MatrixFamily.dataOp, MatrixFamily.matrix]
      at hsel ⊢
    simp only [ExecuteOpInternal, hcmd, hsel, runCase, execWORLDMATRIXDATA, execVIEWMATRIXDATA,
      execPROJMATRIXDATA, execTGENMATRIXDATA, execBONEMATRIXDATA]
    generalize hi : s.gstate.cmdmem _ &&& _ = i at hp ⊢
    generalize (op &&& 0xFFFFFF) <<< 8 = v
    refine ⟨?_, ?_, ?_, ?_⟩
    · intro f' j
      cases f' <;>
        simp only [MatrixFamily.matrix, GPU.setCmd, GPU.Flush, GPU.DirtyUniform, GPU.call,
          reduceCtorEq, false_and, if_false, true_and, ne_eq] <;>
        split_ifs <;> simp_all [Function.update_apply]
    · intro c
      simp only [GPU.setCmd, GPU.Flush, GPU.DirtyUniform, GPU.call, Function.update_apply]
      split_ifs <;> rfl
    · simp only [GPU.setCmd, GPU.Flush, GPU.DirtyUniform, GPU.call, ne_eq, reduceCtorEq,
        false_and, not_false_eq_true, and_true, true_and]
      split_ifs <;> simp_all
    · simp only [GPU.setCmd, GPU.Flush, GPU.DirtyUniform, GPU.call]
      split_ifs <;> rfl

theorem cmdWord_shiftRight (c p : Nat) (hp : p < 2 ^ 24) : cmdWord c p >>> 24 = c :=
  word_shiftRight c p hp

theorem or_and_lowMask (c y n : Nat) (hn : n ≤ 24) (hy : y < 2 ^ n) :
    ((c <<< 24) ||| y) &&& (2 ^ n - 1) = y := by
  apply Nat.eq_of_testBit_eq
  intro i
  rw [Nat.testBit_and, Nat.testBit_or, testBit_lowMask, Nat.testBit_shiftLeft]
  by_cases h1 : i < n
  · have : ¬ 24 ≤ i := by omega
    simp [h1, this]
  · have hyi : y.testBit i = false := testBit_of_lt_of_le hy (by omega)
    simp [h1, hyi]

theorem cmdWord_payload (c p : Nat) (hp : p < 2 ^ 24) : cmdWord c p &&& 0xFFFFFF = p :=
  or_and_lowMask c p 24 (le_refl _) hp

theorem index_of_word4 (c x : Nat) : ((c <<< 24) ||| (x &&& 0xF)) &&& 0xF = x % 16 := by
  have hx : x &&& 0xF = x % 16 := Nat.and_pow_two_sub_one_eq_mod x 4
  rw [hx]
  exact or_and_lowMask c (x % 16) 4 (by norm_num) (Nat.mod_lt _ (by norm_num))

theorem index_of_word7 (c x : Nat) : ((c <<< 24) ||| (x &&& 0x7F)) &&& 0x7F = x % 128 := by
  have hx : x &&& 0x7F = x % 128 := Nat.and_pow_two_sub_one_eq_mod x 7
  rw [hx]
  exact or_and_lowMask c (x % 128) 7 (by norm_num) (Nat.mod_lt _ (by norm_num))

set_option maxRecDepth 100000 in
theorem seeded_matrixData (usingGLES2 : Bool) :
    ∀ cmd ∈ [GE_CMD_WORLDMATRIXDATA, GE_CMD_VIEWMATRIXDATA, GE_CMD_PROJMATRIXDATA,
        GE_CMD_TGENMATRIXDATA, GE_CMD_BONEMATRIXDATA],
      (seedTable (commandTable usingGLES2)).commandFlags_ cmd = FLAG_EXECUTE := by
  cases usingGLES2 <;> decide!

theorem constructed_matrixData (a b g : Bool) (f : MatrixFamily) :
    commandFlagsOf a b g f.dataOp = FLAG_EXECUTE := by
  have h : f.dataOp ∈ [GE_CMD_WORLDMATRIXDATA, GE_CMD_VIEWMATRIXDATA, GE_CMD_PROJMATRIXDATA,
      GE_CMD_TGENMATRIXDATA, GE_CMD_BONEMATRIXDATA] := by
    cases f <;> simp [MatrixFamily.dataOp]
  rw [commandFlagsOf, constructFlags, applyConfig_apply, seeded_matrixData g _ h]
  split_ifs <;> rfl

theorem constructed_familyNumber (a b g : Bool) (f : MatrixFamily) :
    commandFlagsOf a b g f.numberOp = FLAG_EXECUTE := by
  apply constructed_matrixNumber
  cases f <;> simp [MatrixFamily.numberOp]

/-- A command whose table entry is exactly `FLAG_EXECUTE` is processed by the loop body as
the mirror write followed by the executor, with no flush by the loop. -/
theorem processOp_execute_only (env : Env) (op : Nat) (s : GPU)
    (h : s.commandFlags_ (op >>> 24) = FLAG_EXECUTE) :
    processOp env op s =
      ExecuteOpInternal env op (op ^^^ s.gstate.cmdmem (op >>> 24)) (s.setCmd (op >>> 24) op) := by
  have h1 : FLAG_EXECUTE &&& FLAG_FLUSHBEFORE = 0 := by decide
  have h2 : FLAG_EXECUTE &&& FLAG_FLUSHBEFOREONCHANGE = 0 := by decide
  have h3 : FLAG_EXECUTE &&& FLAG_ANY_EXECUTE ≠ 0 := by decide
  simp only [processOp, h, h1, h2, ne_eq, not_true_eq_false, and_false, or_false, if_false]
  rw [if_pos h3]

theorem numberOp_ne_dataOp (f f' : MatrixFamily) : f'.numberOp ≠ f.dataOp := by
  cases f <;> cases f' <;> decide

theorem numberOp_inj (f f' : MatrixFamily) : f'.numberOp = f.numberOp ↔ f' = f := by
  cases f <;> cases f' <;> decide

theorem setCmd_data_index (s : GPU) (f f' : MatrixFamily) (v : Nat) :
    f'.index (s.setCmd f.dataOp v).gstate = f'.index s.gstate := by
  simp [MatrixFamily.index, GPU.setCmd, Function.update_apply, numberOp_ne_dataOp]

theorem setCmd_matrix (s : GPU) (f' : MatrixFamily) (c v : Nat) :
    f'.matrix (s.setCmd c v).gstate = f'.matrix s.gstate := by
  cases f' <;> rfl

theorem index_of_word (f : MatrixFamily) (x : Nat) :
    ((f.numberOp <<< 24) ||| (x &&& f.indexMask)) &&& f.indexMask = x % (f.indexMask + 1) := by
  cases f
  · exact index_of_word4 _ x
  · exact index_of_word4 _ x
  · exact index_of_word4 _ x
  · exact index_of_word4 _ x
  · exact index_of_word7 _ x

/-- One `*DATA` command processed by the loop body of a freshly constructed core: the
matrices, the index registers, the calls and the flag table. -/
theorem processOp_matrixData (env : Env) (s : GPU) (f : MatrixFamily) (p : Nat)
    (hp : p < 2 ^ 24)
    (hT : s.commandFlags_ = commandFlagsOf env.bPrescaleUV env.bSoftwareSkinning env.usingGLES2) :
    (∀ f' j, f'.matrix (processOp env (cmdWord f.dataOp p) s).gstate j =
      if f' = f ∧ j = f.index s.gstate ∧ f.index s.gstate < f.size then p <<< 8
      else f'.matrix s.gstate j) ∧
    (∀ f', f'.index (processOp env (cmdWord f.dataOp p) s).gstate =
      if f' = f then (f.index s.gstate + 1) % (f.indexMask + 1) else f'.index s.gstate) ∧
    (processOp env (cmdWord f.dataOp p) s).calls =
      s.calls ++
        (if f.index s.gstate < f.size ∧ p <<< 8 ≠ f.matrix s.gstate (f.index s.gstate) ∧
            ¬ (f = MatrixFamily.bone ∧ env.bSoftwareSkinning = true) then
          [Call.Flush (s.setCmd f.dataOp (cmdWord f.dataOp p)).gstate,
            Call.DirtyUniform (f.dirtyGroup (f.index s.gstate))]
        else []) ∧
    (processOp env (cmdWord f.dataOp p) s).commandFlags_ = s.commandFlags_ := by
  have hcmd := cmdWord_shiftRight f.dataOp p hp
  have hflag : s.commandFlags_ (cmdWord f.dataOp p >>> 24) = FLAG_EXECUTE := by
    rw [hcmd, hT]
    exact constructed_matrixData _ _ _ f
  rw [processOp_execute_only env _ s hflag, hcmd]
  obtain ⟨hm, hc, hcalls, hfl⟩ := exec_matrixData env (s.setCmd f.dataOp (cmdWord f.dataOp p)) f
    (cmdWord f.dataOp p) (cmdWord f.dataOp p ^^^ s.gstate.cmdmem f.dataOp) hcmd
  simp only [cmdWord_payload _ _ hp, setCmd_data_index, setCmd_matrix] at hm hc hcalls
  refine ⟨hm, ?_, ?_, ?_⟩
  · intro f'
    rw [MatrixFamily.index, hc]
    by_cases hff : f' = f
    · subst hff
      rw [if_pos rfl, if_pos rfl]
      exact index_of_word f' _
    · rw [if_neg hff, if_neg (fun h => hff ((numberOp_inj f f').mp h))]
      exact setCmd_data_index s f f' _
  · rw [hcalls]
    rfl
  · rw [hfl]
    rfl

theorem size_le_indexMask (f : MatrixFamily) : f.size ≤ f.indexMask + 1 := by
  cases f <;> decide

theorem familyNumber_lt (f : MatrixFamily) : f.numberOp < 256 := by
  cases f <;> decide

theorem selectCase_familyNumber (g : Bool) (f : MatrixFamily) :
    selectCase g f.numberOp =
      OpCase.matrixNumber f.numberOp (0xFF000000 ||| f.indexMask) := by
  cases g <;> cases f <;> decide

theorem word_and_familyMask (f : MatrixFamily) (k : Nat) (hk : k < 2 ^ 24) :
    (cmdWord f.numberOp k &&& (0xFF000000 ||| f.indexMask)) &&& f.indexMask =
      k % (f.indexMask + 1) := by
  unfold cmdWord
  cases f
  · exact (congrArg (· &&& 0xF) (word_and_mask4 _ k (by decide) hk)).trans (index_of_word4 _ k)
  · exact (congrArg (· &&& 0xF) (word_and_mask4 _ k (by decide) hk)).trans (index_of_word4 _ k)
  · exact (congrArg (· &&& 0xF) (word_and_mask4 _ k (by decide) hk)).trans (index_of_word4 _ k)
  · exact (congrArg (· &&& 0xF) (word_and_mask4 _ k (by decide) hk)).trans (index_of_word4 _ k)
  · exact (congrArg (· &&& 0x7F) (word_and_mask7 _ k (by decide) hk)).trans (index_of_word7 _ k)

/-- One `*NUMBER` command processed by the loop body of a freshly constructed core: the
family's index becomes the payload under the index mask, and nothing else of the matrix
state changes; no call is made. -/
theorem processOp_matrixNumber (env : Env) (s : GPU) (f : MatrixFamily) (k : Nat)
    (hk : k < 2 ^ 24)
    (hT : s.commandFlags_ = commandFlagsOf env.bPrescaleUV env.bSoftwareSkinning env.usingGLES2) :
    (∀ f' : MatrixFamily, f'.matrix (processOp env (cmdWord f.numberOp k) s).gstate = f'.matrix s.gstate) ∧
    (∀ f', f'.index (processOp env (cmdWord f.numberOp k) s).gstate =
      if f' = f then k % (f.indexMask + 1) else f'.index s.gstate) ∧
    (processOp env (cmdWord f.numberOp k) s).calls = s.calls ∧
    (processOp env (cmdWord f.numberOp k) s).commandFlags_ = s.commandFlags_ := by
  have hcmd := cmdWord_shiftRight f.numberOp k hk
  have hflag : s.commandFlags_ (cmdWord f.numberOp k >>> 24) = FLAG_EXECUTE := by
    rw [hcmd, hT]
    exact constructed_familyNumber _ _ _ f
  rw [processOp_execute_only env _ s hflag, hcmd]
  simp only [ExecuteOpInternal, hcmd, selectCase_familyNumber, runCase, execMatrixNumber]
  refine ⟨?_, ?_, rfl, rfl⟩
  · intro f'
    cases f' <;> rfl
  · intro f'
    by_cases hff : f' = f
    · subst hff
      rw [if_pos rfl]
      simp only [MatrixFamily.index, GPU.setCmd, Function.update_same]
      exact word_and_familyMask f' k hk
    · rw [if_neg hff]
      have hne : f'.numberOp ≠ f.numberOp := fun h => hff ((numberOp_inj f f').mp h)
      simp [MatrixFamily.index, GPU.setCmd, Function.update_apply, hne]

theorem processOps_nil (env : Env) (s : GPU) : processOps env [] s = s := rfl

theorem processOps_cons (env : Env) (op : Nat) (ops : List Nat) (s : GPU) :
    processOps env (op :: ops) s = processOps env ops (processOp env op s) := rfl

theorem processOps_append (env : Env) (ops ops2 : List Nat) (s : GPU) :
    processOps env (ops ++ ops2) s = processOps env ops2 (processOps env ops s) := by
  simp [processOps, List.foldl_append]

theorem processOps_commandFlags (env : Env) (ops : List Nat) (s : GPU) :
    (processOps env ops s).commandFlags_ = s.commandFlags_ := by
  induction ops generalizing s with
  | nil => rfl
  | cons op ops ih => rw [processOps_cons, ih, processOp_commandFlags]

/-- A run of `*DATA` commands of one family that fits in the matrix from the current index
on: slot `index + j` receives the `j`-th payload, nothing else of the matrices changes, and
the index advances by the length of the run. -/
theorem processOps_data (env : Env) (f : MatrixFamily) (vs : List Nat) :
    ∀ s : GPU, (∀ v ∈ vs, v < 2 ^ 24) →
      s.commandFlags_ = commandFlagsOf env.bPrescaleUV env.bSoftwareSkinning env.usingGLES2 →
      f.index s.gstate + vs.length ≤ f.size →
      (∀ j, j < vs.length →
        f.matrix (processOps env (vs.map (cmdWord f.dataOp)) s).gstate (f.index s.gstate + j) =
          vs.getD j 0 <<< 8) ∧
      (∀ j, (j < f.index s.gstate ∨ f.index s.gstate + vs.length ≤ j) →
        f.matrix (processOps env (vs.map (cmdWord f.dataOp)) s).gstate j =
          f.matrix s.gstate j) ∧
      (∀ f', f' ≠ f →
        f'.matrix (processOps env (vs.map (cmdWord f.dataOp)) s).gstate = f'.matrix s.gstate) ∧
      (∀ f', f'.index (processOps env (vs.map (cmdWord f.dataOp)) s).gstate =
        if f' = f then (f.index s.gstate + vs.length) % (f.indexMask + 1)
        else f'.index s.gstate) := by
  induction vs with
  | nil =>
    intro s _ _ _
    refine ⟨fun j hj => absurd hj (Nat.not_lt_zero j), fun _ _ => rfl, fun _ _ => rfl, ?_⟩
    intro f'
    by_cases hff : f' = f
    · subst hff
      rw [if_pos rfl]
      exact (Nat.mod_eq_of_lt (index_lt f' s.gstate)).symm
    · rw [if_neg hff]
      rfl
  | cons v rest ih =>
    intro s hvs hT hfit
    have hv : v < 2 ^ 24 := hvs v (List.mem_cons_self _ _)
    have hrest : ∀ w ∈ rest, w < 2 ^ 24 := fun w hw => hvs w (List.mem_cons_of_mem _ hw)
    obtain ⟨hm, hi, _, hfl⟩ := processOp_matrixData env s f v hv hT
    simp only [List.length_cons] at hfit ⊢
    have hlt : f.index s.gstate < f.size := by omega
    have hi1 := hi f
    rw [if_pos rfl] at hi1
    simp only [List.map_cons, processOps_cons]
    by_cases hr : rest = []
    · subst hr
      simp only [List.map_nil, processOps_nil, List.length_nil, Nat.zero_add]
      refine ⟨?_, ?_, ?_, hi⟩
      · intro j hj
        have hj0 : j = 0 := by omega
        subst hj0
        rw [hm]
        simp [hlt]
      · intro j hj
        rw [hm]
        have : j ≠ f.index s.gstate := by omega
        simp [this]
      · intro f' hff
        funext j
        rw [hm]
        simp [hff]
    · have hpos : 0 < rest.length := List.length_pos.mpr hr
      have hsz := size_le_indexMask f
      have hidx : f.index (processOp env (cmdWord f.dataOp v) s).gstate = f.index s.gstate + 1 := by
        rw [hi1]
        exact Nat.mod_eq_of_lt (by omega)
      obtain ⟨ih1, ih2, ih3, ih4⟩ := ih (processOp env (cmdWord f.dataOp v) s) hrest
        (hfl.trans hT) (by rw [hidx]; omega)
      rw [hidx] at ih1 ih2 ih4
      refine ⟨?_, ?_, ?_, ?_⟩
      · intro j hj
        cases j with
        | zero =>
          rw [ih2 _ (Or.inl (by omega)), hm]
          simp [hlt]
        | succ j =>
          have := ih1 j (by omega)
          rw [show f.index s.gstate + (j + 1) = f.index s.gstate + 1 + j by omega, this]
          simp
      · intro j hj
        rw [ih2 j (by omega), hm]
        have : j ≠ f.index s.gstate := by omega
        simp [this]
      · intro f' hff
        rw [ih3 f' hff]
        funext j
        rw [hm]
        simp [hff]
      · intro f'
        rw [ih4 f']
        by_cases hff : f' = f
        · subst hff
          rw [if_pos rfl, if_pos rfl]
          congr 1
          omega
        · rw [if_neg hff, if_neg hff, hi f', if_neg hff]

theorem flushCount_append (l1 l2 : List Call) :
    flushCount (l1 ++ l2) = flushCount l1 + flushCount l2 := by
  simp [flushCount, List.countP_append]

theorem dirtyCount_append (w : DirtyGroup) (l1 l2 : List Call) :
    dirtyCount w (l1 ++ l2) = dirtyCount w l1 + dirtyCount w l2 := by
  simp [dirtyCount, List.countP_append]

theorem countP_range_succ_shift (p : Nat → Bool) (n : Nat) :
    (List.range (n + 1)).countP p =
      (if p 0 = true then 1 else 0) + (List.range n).countP (fun j => p (j + 1)) := by
  rw [List.range_succ_eq_map, List.countP_cons, List.countP_map, Nat.add_comm]
  rfl

/-- The calls of a run of `*DATA` commands every one of which lands in range on a slot
holding another value: one flush and one `DirtyUniform` for each command (none at all for
bone uploads under software skinning). -/
theorem processOps_data_counts (env : Env) (f : MatrixFamily) (vs : List Nat) :
    ∀ s : GPU, (∀ v ∈ vs, v < 2 ^ 24) →
      s.commandFlags_ = commandFlagsOf env.bPrescaleUV env.bSoftwareSkinning env.usingGLES2 →
      f.index s.gstate + vs.length ≤ f.size →
      (∀ j, j < vs.length → vs.getD j 0 <<< 8 ≠ f.matrix s.gstate (f.index s.gstate + j)) →
      flushCount (processOps env (vs.map (cmdWord f.dataOp)) s).calls =
        flushCount s.calls +
          (if f = MatrixFamily.bone ∧ env.bSoftwareSkinning = true then 0 else vs.length) ∧
      (∀ w, dirtyCount w (processOps env (vs.map (cmdWord f.dataOp)) s).calls =
        dirtyCount w s.calls +
          (if f = MatrixFamily.bone ∧ env.bSoftwareSkinning = true then 0
           else (List.range vs.length).countP
             (fun j => decide (f.dirtyGroup (f.index s.gstate + j) = w)))) := by
  induction vs with
  | nil =>
    intro s _ _ _ _
    simp [processOps_nil]
  | cons v rest ih =>
    intro s hvs hT hfit hdiff
    have hv : v < 2 ^ 24 := hvs v (List.mem_cons_self _ _)
    have hrest : ∀ w ∈ rest, w < 2 ^ 24 := fun w hw => hvs w (List.mem_cons_of_mem _ hw)
    obtain ⟨hm, hi, hcalls, hfl⟩ := processOp_matrixData env s f v hv hT
    simp only [List.length_cons] at hfit hdiff ⊢
    have hlt : f.index s.gstate < f.size := by omega
    have hd0 : v <<< 8 ≠ f.matrix s.gstate (f.index s.gstate) := by
      have := hdiff 0 (by omega)
      simpa using this
    have hi1 := hi f
    rw [if_pos rfl] at hi1
    have hF1 : flushCount (processOp env (cmdWord f.dataOp v) s).calls =
        flushCount s.calls +
          (if f = MatrixFamily.bone ∧ env.bSoftwareSkinning = true then 0 else 1) := by
      rw [hcalls, flushCount_append]
      by_cases hb : f = MatrixFamily.bone ∧ env.bSoftwareSkinning = true
      · simp [hb, flushCount]
      · simp [hb, hlt, hd0, flushCount, Call.isFlush]
    have hD1 : ∀ w, dirtyCount w (processOp env (cmdWord f.dataOp v) s).calls =
        dirtyCount w s.calls +
          (if f = MatrixFamily.bone ∧ env.bSoftwareSkinning = true then 0
           else if decide (f.dirtyGroup (f.index s.gstate + 0) = w) = true then 1 else 0) := by
      intro w
      rw [hcalls, dirtyCount_append]
      by_cases hb : f = MatrixFamily.bone ∧ env.bSoftwareSkinning = true
      · simp [hb, dirtyCount]
      · by_cases hw : f.dirtyGroup (f.index s.gstate) = w
        · simp [hb, hlt, hd0, dirtyCount, Call.isDirty, hw]
        · simp [hb, hlt, hd0, dirtyCount, Call.isDirty, hw]
    simp only [List.map_cons, processOps_cons]
    by_cases hr : rest = []
    · subst hr
      simp only [List.map_nil, processOps_nil, List.length_nil, Nat.zero_add]
      refine ⟨hF1, ?_⟩
      intro w
      rw [hD1 w]
      by_cases hb : f = MatrixFamily.bone ∧ env.bSoftwareSkinning = true
      · rw [if_pos hb, if_pos hb]
      · rw [if_neg hb, if_neg hb]
        simp [List.range_succ, List.countP_cons]
    · have hpos : 0 < rest.length := List.length_pos.mpr hr
      have hsz := size_le_indexMask f
      have hidx : f.index (processOp env (cmdWord f.dataOp v) s).gstate = f.index s.gstate + 1 := by
        rw [hi1]
        exact Nat.mod_eq_of_lt (by omega)
      have hdiff1 : ∀ j, j < rest.length → rest.getD j 0 <<< 8 ≠
          f.matrix (processOp env (cmdWord f.dataOp v) s).gstate
            (f.index (processOp env (cmdWord f.dataOp v) s).gstate + j) := by
        intro j hj
        have := hdiff (j + 1) (by omega)
        rw [hidx, hm]
        have hne : f.index s.gstate + 1 + j ≠ f.index s.gstate := by omega
        simp only [hne, false_and, and_false, if_false]
        rw [show f.index s.gstate + 1 + j = f.index s.gstate + (j + 1) by omega]
        simpa using this
      obtain ⟨ihF, ihD⟩ := ih (processOp env (cmdWord f.dataOp v) s) hrest
        (hfl.trans hT) (by rw [hidx]; omega) hdiff1
      refine ⟨?_, ?_⟩
      · rw [ihF, hF1]
        by_cases hb : f = MatrixFamily.bone ∧ env.bSoftwareSkinning = true
        · simp [hb]
        · simp only [hb, if_false]
          omega
      · intro w
        rw [ihD w, hD1 w, hidx]
        by_cases hb : f = MatrixFamily.bone ∧ env.bSoftwareSkinning = true
        · simp [hb]
        · simp only [hb, if_false]
          rw [countP_range_succ_shift, Nat.add_assoc]
          congr 2
          congr 1
          funext j
          rw [show f.index s.gstate + 1 + j = f.index s.gstate + (j + 1) by omega]

/-- A run of `*DATA` commands arriving while the index is past the matrix size (and until
the index wraps) changes no matrix and makes no call; only the index advances. -/
theorem processOps_data_out_of_range (env : Env) (f : MatrixFamily) (ws : List Nat) :
    ∀ s : GPU, (∀ w ∈ ws, w < 2 ^ 24) →
      s.commandFlags_ = commandFlagsOf env.bPrescaleUV env.bSoftwareSkinning env.usingGLES2 →
      f.size ≤ f.index s.gstate →
      f.index s.gstate + ws.length ≤ f.indexMask + 1 →
      (∀ f' : MatrixFamily,
        f'.matrix (processOps env (ws.map (cmdWord f.dataOp)) s).gstate = f'.matrix s.gstate) ∧
      (processOps env (ws.map (cmdWord f.dataOp)) s).calls = s.calls ∧
      f.index (processOps env (ws.map (cmdWord f.dataOp)) s).gstate =
        (f.index s.gstate + ws.length) % (f.indexMask + 1) := by
  induction ws with
  | nil =>
    intro s _ _ _ _
    exact ⟨fun _ => rfl, rfl, (Nat.mod_eq_of_lt (index_lt f s.gstate)).symm⟩
  | cons v rest ih =>
    intro s hws hT hout hfit
    have hv : v < 2 ^ 24 := hws v (List.mem_cons_self _ _)
    have hrest : ∀ w ∈ rest, w < 2 ^ 24 := fun w hw => hws w (List.mem_cons_of_mem _ hw)
    obtain ⟨hm, hi, hcalls, hfl⟩ := processOp_matrixData env s f v hv hT
    simp only [List.length_cons] at hfit ⊢
    have hnlt : ¬ f.index s.gstate < f.size := by omega
    have hi1 := hi f
    rw [if_pos rfl] at hi1
    have hm1 : ∀ f' : MatrixFamily,
        f'.matrix (processOp env (cmdWord f.dataOp v) s).gstate = f'.matrix s.gstate := by
      intro f'
      funext j
      rw [hm]
      simp [hnlt]
    have hc1 : (processOp env (cmdWord f.dataOp v) s).calls = s.calls := by
      rw [hcalls]
      simp [hnlt]
    simp only [List.map_cons, processOps_cons]
    by_cases hr : rest = []
    · subst hr
      exact ⟨hm1, hc1, hi1⟩
    · have hpos : 0 < rest.length := List.length_pos.mpr hr
      have hidx : f.index (processOp env (cmdWord f.dataOp v) s).gstate = f.index s.gstate + 1 := by
        rw [hi1]
        exact Nat.mod_eq_of_lt (by omega)
      obtain ⟨ih1, ih2, ih3⟩ := ih (processOp env (cmdWord f.dataOp v) s) hrest
        (hfl.trans hT) (by rw [hidx]; omega) (by rw [hidx]; omega)
      refine ⟨fun f' => (ih1 f').trans (hm1 f'), ih2.trans hc1, ?_⟩
      rw [ih3, hidx]
      congr 1
      omega

/-! ## Matrix uploads: the claims -/

/-- C14. Matrix data write (world, view, projection, texture-gen): on a core with the
constructed flag table, a `*DATA` command with 24-bit payload `p` arriving when the
family's index register holds `i` less than the matrix size leaves slot `i` holding the
32-bit value `p << 8` and every other slot of every matrix unchanged; if the slot already
held `p << 8` no call is made (no flush, no `DirtyUniform`), otherwise exactly two calls
are made: one flush, recorded under registers whose slot `i` is still the old value, then
one `DirtyUniform` of the family's matrix group. -/
theorem matrix_data_write (env : Env) (s : GPU) (f : MatrixFamily) (p : Nat)
    (hf : f ≠ MatrixFamily.bone) (hp : p < 2 ^ 24)
    (hT : s.commandFlags_ = commandFlagsOf env.bPrescaleUV env.bSoftwareSkinning env.usingGLES2)
    (hi : f.index s.gstate < f.size) :
    f.matrix (processOp env (cmdWord f.dataOp p) s).gstate (f.index s.gstate) = p <<< 8 ∧
    p <<< 8 < 2 ^ 32 ∧
    (∀ (f' : MatrixFamily) (j : Nat), (f' ≠ f ∨ j ≠ f.index s.gstate) →
      f'.matrix (processOp env (cmdWord f.dataOp p) s).gstate j = f'.matrix s.gstate j) ∧
    (f.matrix s.gstate (f.index s.gstate) = p <<< 8 →
      (processOp env (cmdWord f.dataOp p) s).calls = s.calls) ∧
    (f.matrix s.gstate (f.index s.gstate) ≠ p <<< 8 →
      (processOp env (cmdWord f.dataOp p) s).calls =
        s.calls ++ [Call.Flush (s.setCmd f.dataOp (cmdWord f.dataOp p)).gstate,
          Call.DirtyUniform (f.dirtyGroup (f.index s.gstate))] ∧
      f.matrix (s.setCmd f.dataOp (cmdWord f.dataOp p)).gstate = f.matrix s.gstate) := by
  obtain ⟨hm, _, hcalls, _⟩ := processOp_matrixData env s f p hp hT
  refine ⟨?_, ?_, ?_, ?_, ?_⟩
  · rw [hm]
    simp [hi]
  · rw [Nat.shiftLeft_eq]
    omega
  · intro f' j hne
    rw [hm]
    rcases hne with h | h
    · simp [h]
    · simp [h]
  · intro heq
    rw [hcalls]
    simp [heq]
  · intro hne
    refine ⟨?_, setCmd_matrix s f _ _⟩
    rw [hcalls]
    simp [hi, Ne.symm hne, hf]

set_option maxRecDepth 100000 in
/-- Witness for C14: the first `WORLDMATRIXDATA` command on a freshly constructed core. -/
theorem matrix_data_write_witness :
    MatrixFamily.world.matrix
        (processOp Env.sample (cmdWord MatrixFamily.world.dataOp 0xAAAAAA) GPU.sample).gstate
        (MatrixFamily.world.index GPU.sample.gstate) = 0xAAAAAA <<< 8 :=
  (matrix_data_write Env.sample GPU.sample MatrixFamily.world 0xAAAAAA (by decide) (by decide)
    rfl (by decide)).1

set_option maxRecDepth 100000 in
/-- C15 (as stated) fails: with the world index at 11, a `WORLDMATRIXDATA` command leaves
the index register at 12, whereas `(11 + 1)` modulo the matrix size 12 is 0. -/
theorem world_index_not_modulo_size :
    MatrixFamily.world.index
        (processOps Env.sample [cmdWord GE_CMD_WORLDMATRIXNUMBER 11] GPU.sample).gstate = 11 ∧
    MatrixFamily.world.index
        (processOps Env.sample [cmdWord GE_CMD_WORLDMATRIXNUMBER 11,
          cmdWord GE_CMD_WORLDMATRIXDATA 0x3F8000] GPU.sample).gstate = 12 ∧
    (11 + 1) % MatrixFamily.world.size = 0 := by
  decide!

/-- C15 (amended). Matrix index arithmetic: on a core with the constructed flag table,
after each `*DATA` command the family's index equals (old index + 1) modulo 16 for world,
view, projection and texture-gen, and modulo 128 for bone; the index registers of the
other families are unchanged.  The modulus is the matrix size only for projection. -/
theorem matrix_index_advance (env : Env) (s : GPU) (f : MatrixFamily) (p : Nat)
    (hp : p < 2 ^ 24)
    (hT : s.commandFlags_ = commandFlagsOf env.bPrescaleUV env.bSoftwareSkinning env.usingGLES2) :
    f.index (processOp env (cmdWord f.dataOp p) s).gstate =
      (f.index s.gstate + 1) % (if f = MatrixFamily.bone then 128 else 16) ∧
    (∀ f' : MatrixFamily, f' ≠ f →
      f'.index (processOp env (cmdWord f.dataOp p) s).gstate = f'.index s.gstate) ∧
    ((if f = MatrixFamily.bone then 128 else 16) = f.size ↔ f = MatrixFamily.proj) := by
  obtain ⟨_, hi, _, _⟩ := processOp_matrixData env s f p hp hT
  refine ⟨?_, ?_, ?_⟩
  · rw [hi f, if_pos rfl]
    cases f <;> rfl
  · intro f' hff
    rw [hi f', if_neg hff]
  · cases f <;> decide

set_option maxRecDepth 100000 in
/-- Witness for C15 (amended): a `BONEMATRIXDATA` command on a freshly constructed core. -/
theorem matrix_index_advance_witness :
    MatrixFamily.bone.index
        (processOp Env.sample (cmdWord MatrixFamily.bone.dataOp 0x3F8000) GPU.sample).gstate =
      (MatrixFamily.bone.index GPU.sample.gstate + 1) %
        (if MatrixFamily.bone = MatrixFamily.bone then 128 else 16) :=
  (matrix_index_advance Env.sample GPU.sample MatrixFamily.bone 0x3F8000 (by decide) rfl).1

set_option maxRecDepth 100000 in
/-- C16 (as stated) fails: on a freshly constructed core, after `WORLDMATRIXNUMBER = 0` and
12 `WORLDMATRIXDATA` commands the 13th leaves the index at 13, not 12; and after four
ignored commands the index has wrapped to 0, so that the 17th `WORLDMATRIXDATA` command
overwrites slot 0 and flushes. -/
theorem world_index_does_not_saturate :
    MatrixFamily.world.index
        (processOps Env.sample
          (cmdWord GE_CMD_WORLDMATRIXNUMBER 0 ::
            List.replicate 13 (cmdWord GE_CMD_WORLDMATRIXDATA 0xAAAAAA)) GPU.sample).gstate
      = 13 ∧
    (processOps Env.sample
        (cmdWord GE_CMD_WORLDMATRIXNUMBER 0 ::
          List.replicate 16 (cmdWord GE_CMD_WORLDMATRIXDATA 0xAAAAAA)) GPU.sample).gstate.worldMatrix
        0 = 0xAAAAAA00 ∧
    (processOps Env.sample
        (cmdWord GE_CMD_WORLDMATRIXNUMBER 0 ::
          (List.replicate 16 (cmdWord GE_CMD_WORLDMATRIXDATA 0xAAAAAA) ++
            [cmdWord GE_CMD_WORLDMATRIXDATA 0xBBBBBB])) GPU.sample).gstate.worldMatrix
        0 = 0xBBBBBB00 ∧
    flushCount (processOps Env.sample
        (cmdWord GE_CMD_WORLDMATRIXNUMBER 0 ::
          List.replicate 16 (cmdWord GE_CMD_WORLDMATRIXDATA 0xAAAAAA)) GPU.sample).calls = 12 ∧
    flushCount (processOps Env.sample
        (cmdWord GE_CMD_WORLDMATRIXNUMBER 0 ::
          (List.replicate 16 (cmdWord GE_CMD_WORLDMATRIXDATA 0xAAAAAA) ++
            [cmdWord GE_CMD_WORLDMATRIXDATA 0xBBBBBB])) GPU.sample).calls = 13 := by
  decide!

/-- C16 (amended). Scenario E on a core with the constructed flag table: after
`WORLDMATRIXNUMBER = 0` and the first `n ≤ 12` of twelve `WORLDMATRIXDATA` commands, slots
`j < n` hold the `j`-th payload shifted left by 8, the slots from `n` on are untouched and
the index is `n` (so slots 0..11 are updated in order).  The next up to four
`WORLDMATRIXDATA` commands, whatever their payloads, change no matrix slot and make no call
(no flush, no `DirtyUniform`), but the index keeps advancing, 13, 14, 15 and then 0; after
four of them a further `WORLDMATRIXDATA` command writes slot 0 again. -/
theorem scenario_E (env : Env) (s : GPU) (vs ws : List Nat) (u : Nat)
    (hT : s.commandFlags_ = commandFlagsOf env.bPrescaleUV env.bSoftwareSkinning env.usingGLES2)
    (hvs : ∀ v ∈ vs, v < 2 ^ 24) (hlen : vs.length = 12)
    (hws : ∀ w ∈ ws, w < 2 ^ 24) (hwlen : ws.length ≤ 4) (hu : u < 2 ^ 24) :
    (∀ n, n ≤ 12 →
      (∀ j, j < n →
        (processOps env (cmdWord GE_CMD_WORLDMATRIXNUMBER 0 ::
          (vs.take n).map (cmdWord GE_CMD_WORLDMATRIXDATA)) s).gstate.worldMatrix j =
            vs.getD j 0 <<< 8) ∧
      (∀ j, n ≤ j →
        (processOps env (cmdWord GE_CMD_WORLDMATRIXNUMBER 0 ::
          (vs.take n).map (cmdWord GE_CMD_WORLDMATRIXDATA)) s).gstate.worldMatrix j =
            s.gstate.worldMatrix j) ∧
      MatrixFamily.world.index (processOps env (cmdWord GE_CMD_WORLDMATRIXNUMBER 0 ::
          (vs.take n).map (cmdWord GE_CMD_WORLDMATRIXDATA)) s).gstate = n) ∧
    (∀ f' : MatrixFamily,
      f'.matrix (processOps env (ws.map (cmdWord GE_CMD_WORLDMATRIXDATA))
        (processOps env (cmdWord GE_CMD_WORLDMATRIXNUMBER 0 ::
          vs.map (cmdWord GE_CMD_WORLDMATRIXDATA)) s)).gstate =
      f'.matrix (processOps env (cmdWord GE_CMD_WORLDMATRIXNUMBER 0 ::
          vs.map (cmdWord GE_CMD_WORLDMATRIXDATA)) s).gstate) ∧
    (processOps env (ws.map (cmdWord GE_CMD_WORLDMATRIXDATA))
        (processOps env (cmdWord GE_CMD_WORLDMATRIXNUMBER 0 ::
          vs.map (cmdWord GE_CMD_WORLDMATRIXDATA)) s)).calls =
      (processOps env (cmdWord GE_CMD_WORLDMATRIXNUMBER 0 ::
          vs.map (cmdWord GE_CMD_WORLDMATRIXDATA)) s).calls ∧
    MatrixFamily.world.index (processOps env (ws.map (cmdWord GE_CMD_WORLDMATRIXDATA))
        (processOps env (cmdWord GE_CMD_WORLDMATRIXNUMBER 0 ::
          vs.map (cmdWord GE_CMD_WORLDMATRIXDATA)) s)).gstate = (12 + ws.length) % 16 ∧
    (ws.length = 4 →
      (processOp env (cmdWord GE_CMD_WORLDMATRIXDATA u)
        (processOps env (ws.map (cmdWord GE_CMD_WORLDMATRIXDATA))
          (processOps env (cmdWord GE_CMD_WORLDMATRIXNUMBER 0 ::
            vs.map (cmdWord GE_CMD_WORLDMATRIXDATA)) s))).gstate.worldMatrix 0 = u <<< 8) := by
  obtain ⟨hm0, hi0, _, hfl0⟩ :=
    processOp_matrixNumber env s MatrixFamily.world 0 (by norm_num) hT
  have hT0 := hfl0.trans hT
  have hidx0 : MatrixFamily.world.index
      (processOp env (cmdWord GE_CMD_WORLDMATRIXNUMBER 0) s).gstate = 0 := by
    have := hi0 MatrixFamily.world
    rw [if_pos rfl] at this
    exact this
  have hmat0 : (processOp env (cmdWord GE_CMD_WORLDMATRIXNUMBER 0) s).gstate.worldMatrix =
      s.gstate.worldMatrix := hm0 MatrixFamily.world
  have key : ∀ n, n ≤ 12 →
      (∀ j, j < n →
        (processOps env (cmdWord GE_CMD_WORLDMATRIXNUMBER 0 ::
          (vs.take n).map (cmdWord GE_CMD_WORLDMATRIXDATA)) s).gstate.worldMatrix j =
            vs.getD j 0 <<< 8) ∧
      (∀ j, n ≤ j →
        (processOps env (cmdWord GE_CMD_WORLDMATRIXNUMBER 0 ::
          (vs.take n).map (cmdWord GE_CMD_WORLDMATRIXDATA)) s).gstate.worldMatrix j =
            s.gstate.worldMatrix j) ∧
      MatrixFamily.world.index (processOps env (cmdWord GE_CMD_WORLDMATRIXNUMBER 0 ::
          (vs.take n).map (cmdWord GE_CMD_WORLDMATRIXDATA)) s).gstate = n := by
    intro n hn
    have hlenn : (vs.take n).length = n := by
      rw [List.length_take, hlen]
      omega
    obtain ⟨h1, h2, _, h4⟩ := processOps_data env MatrixFamily.world (vs.take n)
      (processOp env (cmdWord GE_CMD_WORLDMATRIXNUMBER 0) s)
      (fun v hv => hvs v (List.mem_of_mem_take hv)) hT0
      (by rw [hidx0, hlenn]; exact (Nat.zero_add n).le.trans hn)
    rw [hidx0, hlenn] at h1 h2 h4
    simp only [MatrixFamily.dataOp] at h1 h2 h4
    rw [processOps_cons]
    refine ⟨?_, ?_, ?_⟩
    · intro j hj
      have := h1 j hj
      rw [Nat.zero_add] at this
      refine this.trans ?_
      congr 1
      simp [List.getD_eq_getElem?_getD, List.getElem?_take, hj]
    · intro j hj
      have := h2 j (Or.inr (by omega))
      exact this.trans (congrFun hmat0 j)
    · have := h4 MatrixFamily.world
      rw [if_pos rfl, Nat.zero_add] at this
      rw [this]
      exact Nat.mod_eq_of_lt (by
        show n < 16
        omega)
  have h12 := (key 12 (le_refl _)).2.2
  have htake : vs.take 12 = vs := by
    rw [← hlen]
    exact List.take_length vs
  rw [htake] at h12
  have hT12 : (processOps env (cmdWord GE_CMD_WORLDMATRIXNUMBER 0 ::
      vs.map (cmdWord GE_CMD_WORLDMATRIXDATA)) s).commandFlags_ =
      commandFlagsOf env.bPrescaleUV env.bSoftwareSkinning env.usingGLES2 :=
    (processOps_commandFlags env _ s).trans hT
  obtain ⟨o1, o2, o3⟩ := processOps_data_out_of_range env MatrixFamily.world ws
    (processOps env (cmdWord GE_CMD_WORLDMATRIXNUMBER 0 ::
      vs.map (cmdWord GE_CMD_WORLDMATRIXDATA)) s) hws hT12
    (by rw [h12]; exact le_refl _)
    (by
      rw [h12]
      show 12 + ws.length ≤ 16
      omega)
  rw [h12] at o3
  simp only [MatrixFamily.dataOp] at o1 o2 o3
  refine ⟨key, o1, o2, o3, ?_⟩
  intro h4
  have hTw : (processOps env (ws.map (cmdWord GE_CMD_WORLDMATRIXDATA))
      (processOps env (cmdWord GE_CMD_WORLDMATRIXNUMBER 0 ::
        vs.map (cmdWord GE_CMD_WORLDMATRIXDATA)) s)).commandFlags_ =
      commandFlagsOf env.bPrescaleUV env.bSoftwareSkinning env.usingGLES2 :=
    (processOps_commandFlags env _ _).trans hT12
  have hidx : MatrixFamily.world.index (processOps env (ws.map (cmdWord GE_CMD_WORLDMATRIXDATA))
      (processOps env (cmdWord GE_CMD_WORLDMATRIXNUMBER 0 ::
        vs.map (cmdWord GE_CMD_WORLDMATRIXDATA)) s)).gstate = 0 := by
    rw [o3, h4]
    rfl
  obtain ⟨hm, _, _, _⟩ := processOp_matrixData env _ MatrixFamily.world u hu hTw
  have := hm MatrixFamily.world 0
  simp only [MatrixFamily.dataOp] at this
  rw [hidx] at this
  refine this.trans ?_
  simp [MatrixFamily.size]

set_option maxRecDepth 100000 in
/-- Witness for C16 (amended): twelve payloads, then four more, then one, on a freshly
constructed core. -/
theorem scenario_E_witness :
    MatrixFamily.world.index (processOps Env.sample
        ([1, 2, 3, 4].map (cmdWord GE_CMD_WORLDMATRIXDATA))
        (processOps Env.sample (cmdWord GE_CMD_WORLDMATRIXNUMBER 0 ::
          [1, 2, 3, 4, 5, 6, 7, 8, 9, 10, 11, 12].map (cmdWord GE_CMD_WORLDMATRIXDATA))
          GPU.sample)).gstate = (12 + [1, 2, 3, 4].length) % 16 :=
  (scenario_E Env.sample GPU.sample [1, 2, 3, 4, 5, 6, 7, 8, 9, 10, 11, 12] [1, 2, 3, 4] 7 rfl
    (by decide) rfl (by decide) (by decide) (by decide)).2.2.2.1

set_option maxRecDepth 100000 in
/-- C17 (as stated) fails: on a freshly constructed core, `WORLDMATRIXNUMBER = 0` followed
by two `WORLDMATRIXDATA` commands landing on slots 0 and 1, both differing from the stored
value 0, flushes twice (once before each slot write) and calls
`DirtyUniform(WORLDMATRIX)` twice. -/
theorem matrix_upload_flushes_per_write :
    GPU.sample.gstate.worldMatrix 0 ≠ 0x3F8000 <<< 8 ∧
    GPU.sample.gstate.worldMatrix 1 ≠ 0x400000 <<< 8 ∧
    flushCount (processOps Env.sample [cmdWord GE_CMD_WORLDMATRIXNUMBER 0,
      cmdWord GE_CMD_WORLDMATRIXDATA 0x3F8000] GPU.sample).calls = 1 ∧
    flushCount (processOps Env.sample [cmdWord GE_CMD_WORLDMATRIXNUMBER 0,
      cmdWord GE_CMD_WORLDMATRIXDATA 0x3F8000,
      cmdWord GE_CMD_WORLDMATRIXDATA 0x400000] GPU.sample).calls = 2 ∧
    dirtyCount DirtyGroup.WORLDMATRIX (processOps Env.sample [cmdWord GE_CMD_WORLDMATRIXNUMBER 0,
      cmdWord GE_CMD_WORLDMATRIXDATA 0x3F8000,
      cmdWord GE_CMD_WORLDMATRIXDATA 0x400000] GPU.sample).calls = 2 := by
  decide!

/-- The state reached after `*NUMBER = k` and the first `j` `*DATA` commands of an upload
that fits in the matrix: the next command is processed from it with the index at `k + j`,
slot `k + j` still holding its old value and the slots before it their new ones. -/
theorem matrix_upload_upto (env : Env) (s : GPU) (f : MatrixFamily) (k : Nat)
    (vs : List Nat)
    (hT : s.commandFlags_ = commandFlagsOf env.bPrescaleUV env.bSoftwareSkinning env.usingGLES2)
    (hvs : ∀ v ∈ vs, v < 2 ^ 24) (hfit : k + vs.length ≤ f.size)
    (j : Nat) (hj : j < vs.length) :
    processOps env (cmdWord f.numberOp k :: (vs.take (j + 1)).map (cmdWord f.dataOp)) s =
      processOp env (cmdWord f.dataOp (vs.getD j 0))
        (processOps env (cmdWord f.numberOp k :: (vs.take j).map (cmdWord f.dataOp)) s) ∧
    (processOps env (cmdWord f.numberOp k :: (vs.take j).map (cmdWord f.dataOp)) s).commandFlags_ =
      commandFlagsOf env.bPrescaleUV env.bSoftwareSkinning env.usingGLES2 ∧
    f.index (processOps env (cmdWord f.numberOp k ::
      (vs.take j).map (cmdWord f.dataOp)) s).gstate = k + j ∧
    f.matrix (processOps env (cmdWord f.numberOp k ::
      (vs.take j).map (cmdWord f.dataOp)) s).gstate (k + j) = f.matrix s.gstate (k + j) ∧
    (∀ i, i < j → f.matrix (processOps env (cmdWord f.numberOp k ::
      (vs.take j).map (cmdWord f.dataOp)) s).gstate (k + i) = vs.getD i 0 <<< 8) := by
  have hsz : f.size ≤ 96 := by cases f <;> decide
  have hszm := size_le_indexMask f
  have hk : k < 2 ^ 24 := by
    have : k ≤ 96 := by omega
    exact lt_of_le_of_lt this (by norm_num)
  obtain ⟨hm0, hi0, _, hfl0⟩ := processOp_matrixNumber env s f k hk hT
  have hT0 := hfl0.trans hT
  have hidx0 : f.index (processOp env (cmdWord f.numberOp k) s).gstate = k := by
    have := hi0 f
    rw [if_pos rfl] at this
    rw [this]
    exact Nat.mod_eq_of_lt (by omega)
  have hlen : (vs.take j).length = j := by
    rw [List.length_take]
    omega
  have hvs2 : ∀ v ∈ vs.take j, v < 2 ^ 24 := fun v hv => hvs v (List.mem_of_mem_take hv)
  obtain ⟨h1, h2, _, h4⟩ := processOps_data env f (vs.take j)
    (processOp env (cmdWord f.numberOp k) s) hvs2 hT0 (by rw [hidx0, hlen]; omega)
  rw [hidx0, hlen] at h1 h2 h4
  have hget : vs[j]? = some (vs.getD j 0) := by
    rw [List.getD_eq_getElem?_getD, List.getElem?_eq_getElem hj]
    rfl
  have htake : vs.take (j + 1) = vs.take j ++ [vs.getD j 0] := by
    rw [List.take_succ, hget]
    rfl
  refine ⟨?_, ?_, ?_, ?_, ?_⟩
  · rw [htake, List.map_append, ← List.cons_append, processOps_append]
    rfl
  · rw [processOps_commandFlags]
    exact hT
  · rw [processOps_cons]
    have := h4 f
    rw [if_pos rfl] at this
    rw [this]
    exact Nat.mod_eq_of_lt (by omega)
  · rw [processOps_cons, h2 (k + j) (Or.inr (le_refl _)), hm0 f]
  · intro i hi
    rw [processOps_cons, h1 i hi]
    have : (vs.take j)[i]? = vs[i]? := by
      rw [List.getElem?_take, if_pos hi]
    rw [List.getD_eq_getElem?_getD, List.getD_eq_getElem?_getD, this]

/-- C17 (amended). Matrix upload batching: on a core with the constructed flag table,
`*NUMBER = k` followed by `*DATA v0..vN` landing on the in-range slots `k..k+N`, each of
which differs from the value stored there, writes slot `k + j` with `vj << 8`, and every one
of the `N + 1` slot writes has its own flush of the transform engine and its own
`DirtyUniform` call for the group of the written slot.  The `*NUMBER` command makes no call,
and the `j`-th `*DATA` command adds exactly the two calls `Flush`, `DirtyUniform`, in this
order; that flush is issued while slot `k + j` still holds its old value and the slots
`k..k+j-1` already hold their new values (it precedes the `j`-th write and follows the
earlier ones), and the slot holds `vj << 8` once the command is done.  So there are `N + 1`
flushes and `N + 1` `DirtyUniform` calls in all; for world, view, projection and texture-gen
all of them are for the family's group and none for any other group.  Bone uploads under
software skinning flush and mark nothing. -/
theorem matrix_upload_batching (env : Env) (s : GPU) (f : MatrixFamily) (k : Nat)
    (vs : List Nat)
    (hT : s.commandFlags_ = commandFlagsOf env.bPrescaleUV env.bSoftwareSkinning env.usingGLES2)
    (hvs : ∀ v ∈ vs, v < 2 ^ 24) (hfit : k + vs.length ≤ f.size)
    (hdiff : ∀ j, j < vs.length → vs.getD j 0 <<< 8 ≠ f.matrix s.gstate (k + j)) :
    (∀ j, j < vs.length →
      f.matrix (processOps env (cmdWord f.numberOp k :: vs.map (cmdWord f.dataOp)) s).gstate
        (k + j) = vs.getD j 0 <<< 8) ∧
    flushCount (processOps env (cmdWord f.numberOp k :: vs.map (cmdWord f.dataOp)) s).calls =
      flushCount s.calls +
        (if f = MatrixFamily.bone ∧ env.bSoftwareSkinning = true then 0 else vs.length) ∧
    (∀ w, dirtyCount w
        (processOps env (cmdWord f.numberOp k :: vs.map (cmdWord f.dataOp)) s).calls =
      dirtyCount w s.calls +
        (if f = MatrixFamily.bone ∧ env.bSoftwareSkinning = true then 0
         else (List.range vs.length).countP (fun j => decide (f.dirtyGroup (k + j) = w)))) ∧
    (f ≠ MatrixFamily.bone → ∀ w, dirtyCount w
        (processOps env (cmdWord f.numberOp k :: vs.map (cmdWord f.dataOp)) s).calls =
      dirtyCount w s.calls + (if w = f.dirtyGroup k then vs.length else 0)) ∧
    (processOps env [cmdWord f.numberOp k] s).calls = s.calls ∧
    (∀ j, j < vs.length →
      (processOps env (cmdWord f.numberOp k ::
          (vs.take (j + 1)).map (cmdWord f.dataOp)) s).calls =
        (processOps env (cmdWord f.numberOp k ::
          (vs.take j).map (cmdWord f.dataOp)) s).calls ++
          (if f = MatrixFamily.bone ∧ env.bSoftwareSkinning = true then []
           else
            [Call.Flush ((processOps env (cmdWord f.numberOp k ::
                (vs.take j).map (cmdWord f.dataOp)) s).setCmd f.dataOp
                  (cmdWord f.dataOp (vs.getD j 0))).gstate,
              Call.DirtyUniform (f.dirtyGroup (k + j))]) ∧
      f.matrix ((processOps env (cmdWord f.numberOp k ::
          (vs.take j).map (cmdWord f.dataOp)) s).setCmd f.dataOp
            (cmdWord f.dataOp (vs.getD j 0))).gstate (k + j) = f.matrix s.gstate (k + j) ∧
      (∀ i, i < j →
        f.matrix ((processOps env (cmdWord f.numberOp k ::
          (vs.take j).map (cmdWord f.dataOp)) s).setCmd f.dataOp
            (cmdWord f.dataOp (vs.getD j 0))).gstate (k + i) = vs.getD i 0 <<< 8) ∧
      f.matrix (processOps env (cmdWord f.numberOp k ::
          (vs.take (j + 1)).map (cmdWord f.dataOp)) s).gstate (k + j) = vs.getD j 0 <<< 8) := by
  have hsz : f.size ≤ 96 := by cases f <;> decide
  have hszm := size_le_indexMask f
  have hk : k < 2 ^ 24 := by
    have : k ≤ 96 := by omega
    exact lt_of_le_of_lt this (by norm_num)
  obtain ⟨hm0, hi0, hc0, hfl0⟩ := processOp_matrixNumber env s f k hk hT
  have hT0 := hfl0.trans hT
  have hsteps : ∀ j, j < vs.length →
      (processOps env (cmdWord f.numberOp k ::
          (vs.take (j + 1)).map (cmdWord f.dataOp)) s).calls =
        (processOps env (cmdWord f.numberOp k ::
          (vs.take j).map (cmdWord f.dataOp)) s).calls ++
          (if f = MatrixFamily.bone ∧ env.bSoftwareSkinning = true then []
           else
            [Call.Flush ((processOps env (cmdWord f.numberOp k ::
                (vs.take j).map (cmdWord f.dataOp)) s).setCmd f.dataOp
                  (cmdWord f.dataOp (vs.getD j 0))).gstate,
              Call.DirtyUniform (f.dirtyGroup (k + j))]) ∧
      f.matrix ((processOps env (cmdWord f.numberOp k ::
          (vs.take j).map (cmdWord f.dataOp)) s).setCmd f.dataOp
            (cmdWord f.dataOp (vs.getD j 0))).gstate (k + j) = f.matrix s.gstate (k + j) ∧
      (∀ i, i < j →
        f.matrix ((processOps env (cmdWord f.numberOp k ::
          (vs.take j).map (cmdWord f.dataOp)) s).setCmd f.dataOp
            (cmdWord f.dataOp (vs.getD j 0))).gstate (k + i) = vs.getD i 0 <<< 8) ∧
      f.matrix (processOps env (cmdWord f.numberOp k ::
          (vs.take (j + 1)).map (cmdWord f.dataOp)) s).gstate (k + j) = vs.getD j 0 <<< 8 := by
    intro j hj
    obtain ⟨p1, p2, p3, p4, p5⟩ := matrix_upload_upto env s f k vs hT hvs hfit j hj
    have hvj : vs.getD j 0 < 2 ^ 24 := by
      apply hvs
      rw [List.getD_eq_getElem?_getD, List.getElem?_eq_getElem hj]
      exact List.getElem_mem _
    obtain ⟨q1, _, q3, _⟩ := processOp_matrixData env
      (processOps env (cmdWord f.numberOp k :: (vs.take j).map (cmdWord f.dataOp)) s) f
      (vs.getD j 0) hvj p2
    have hlt : k + j < f.size := by omega
    have hne : vs.getD j 0 <<< 8 ≠ f.matrix s.gstate (k + j) := hdiff j hj
    rw [p3, p4] at q3
    rw [p3] at q1
    refine ⟨?_, ?_, ?_, ?_⟩
    · rw [p1, q3]
      by_cases hb : f = MatrixFamily.bone ∧ env.bSoftwareSkinning = true
      · rw [if_pos hb, if_neg (fun h => h.2.2 hb)]
      · rw [if_neg hb, if_pos ⟨hlt, hne, hb⟩]
    · rw [setCmd_matrix]
      exact p4
    · intro i hi
      rw [setCmd_matrix]
      exact p5 i hi
    · rw [p1, q1 f (k + j), if_pos ⟨rfl, rfl, hlt⟩]
  by_cases hnil : vs = []
  · subst hnil
    simp only [List.map_nil, processOps_cons, processOps_nil, hc0, List.length_nil,
      List.range_zero, List.countP_nil, ite_self, Nat.add_zero]
    exact ⟨fun j hj => absurd hj (Nat.not_lt_zero j), trivial, fun _ => trivial,
      fun _ _ => trivial, trivial, fun j hj => absurd hj (Nat.not_lt_zero j)⟩
  have hpos : 0 < vs.length := List.length_pos.mpr hnil
  have hidx0 : f.index (processOp env (cmdWord f.numberOp k) s).gstate = k := by
    have := hi0 f
    rw [if_pos rfl] at this
    rw [this]
    exact Nat.mod_eq_of_lt (by omega)
  obtain ⟨h1, _, _, _⟩ := processOps_data env f vs (processOp env (cmdWord f.numberOp k) s)
    hvs hT0 (by rw [hidx0]; exact hfit)
  obtain ⟨c1, c2⟩ := processOps_data_counts env f vs (processOp env (cmdWord f.numberOp k) s)
    hvs hT0 (by rw [hidx0]; exact hfit)
    (by
      intro j hj
      rw [hidx0, hm0 f]
      exact hdiff j hj)
  rw [hidx0] at h1 c2
  rw [hc0] at c1 c2
  refine ⟨?_, ?_, ?_, ?_, ?_, hsteps⟩
  · rw [processOps_cons]
    exact h1
  · rw [processOps_cons]
    exact c1
  · rw [processOps_cons]
    exact c2
  · rw [processOps_cons]
    intro hf w
    rw [c2 w, if_neg (fun h => hf h.1)]
    congr 1
    have hconst : ∀ j, f.dirtyGroup (k + j) = f.dirtyGroup k := by
      intro j
      cases f <;> first | rfl | exact absurd rfl hf
    simp only [hconst]
    by_cases hw : w = f.dirtyGroup k
    · subst hw
      simp [List.countP_eq_length]
    · have hw2 : ¬ f.dirtyGroup k = w := fun h => hw h.symm
      simp [hw, hw2]
  · rw [processOps_cons, processOps_nil]
    exact hc0

set_option maxRecDepth 100000 in
/-- Witness for C17 (amended): two `VIEWMATRIXDATA` commands from slot 3 on a freshly
constructed core; the second adds its own flush, issued while slot 4 still holds its old
value, and its own `DirtyUniform(VIEWMATRIX)`. -/
theorem matrix_upload_batching_witness :
    (processOps Env.sample (cmdWord MatrixFamily.view.numberOp 3 ::
        ([0x3F8000, 0x400000].take (1 + 1)).map (cmdWord MatrixFamily.view.dataOp))
        GPU.sample).calls =
      (processOps Env.sample (cmdWord MatrixFamily.view.numberOp 3 ::
        ([0x3F8000, 0x400000].take 1).map (cmdWord MatrixFamily.view.dataOp))
        GPU.sample).calls ++
        (if MatrixFamily.view = MatrixFamily.bone ∧ Env.sample.bSoftwareSkinning = true then []
         else
          [Call.Flush ((processOps Env.sample (cmdWord MatrixFamily.view.numberOp 3 ::
              ([0x3F8000, 0x400000].take 1).map (cmdWord MatrixFamily.view.dataOp))
              GPU.sample).setCmd MatrixFamily.view.dataOp
                (cmdWord MatrixFamily.view.dataOp ([0x3F8000, 0x400000].getD 1 0))).gstate,
            Call.DirtyUniform (MatrixFamily.view.dirtyGroup (3 + 1))]) :=
  ((matrix_upload_batching Env.sample GPU.sample MatrixFamily.view 3 [0x3F8000, 0x400000] rfl
    (by decide) (by decide) (by decide)).2.2.2.2.2 1 (by decide)).1

set_option maxRecDepth 100000 in
/-- C18 (as stated) fails: on a core constructed with software skinning enabled, a
`BONEMATRIXDATA` command whose payload differs from slot 0 writes the slot but makes no
call at all: no flush, and no `DirtyUniform` for bone group 0 either. -/
theorem bone_upload_software_skinning_marks_nothing :
    Env.skinning.bSoftwareSkinning = true ∧
    GPU.sampleSkinning.commandFlags_ =
      commandFlagsOf Env.skinning.bPrescaleUV Env.skinning.bSoftwareSkinning
        Env.skinning.usingGLES2 ∧
    GPU.sampleSkinning.gstate.boneMatrix 0 ≠ 0x3F8000 <<< 8 ∧
    (processOp Env.skinning (cmdWord GE_CMD_BONEMATRIXDATA 0x3F8000)
      GPU.sampleSkinning).gstate.boneMatrix 0 = 0x3F8000 <<< 8 ∧
    (processOp Env.skinning (cmdWord GE_CMD_BONEMATRIXDATA 0x3F8000)
      GPU.sampleSkinning).calls.length = 0 ∧
    dirtyCount (DirtyGroup.BONEMATRIX 0)
      (processOp Env.skinning (cmdWord GE_CMD_BONEMATRIXDATA 0x3F8000)
        GPU.sampleSkinning).calls = 0 :=
  ⟨rfl, rfl, by decide!, by decide!, by decide!, by decide!⟩

/-- C18 (amended). Bone matrix upload: on a core with the constructed flag table, a
`BONEMATRIXDATA` command with 24-bit payload `p` arriving at index `i < 96` whose slot
differs from `p << 8` writes the slot with `p << 8` in both skinning modes.  With software
skinning disabled it makes exactly two calls, a flush (under registers whose slot is still
the old value) followed by `DirtyUniform` of bone group `i / 12` (one of 0..7), and marks
no other group; with software skinning enabled it makes no call at all: no flush and no
`DirtyUniform`. -/
theorem bone_matrix_upload (env : Env) (s : GPU) (p : Nat) (hp : p < 2 ^ 24)
    (hT : s.commandFlags_ = commandFlagsOf env.bPrescaleUV env.bSoftwareSkinning env.usingGLES2)
    (hi : MatrixFamily.bone.index s.gstate < 96)
    (hd : s.gstate.boneMatrix (MatrixFamily.bone.index s.gstate) ≠ p <<< 8) :
    (processOp env (cmdWord GE_CMD_BONEMATRIXDATA p) s).gstate.boneMatrix
      (MatrixFamily.bone.index s.gstate) = p <<< 8 ∧
    (∀ j, j ≠ MatrixFamily.bone.index s.gstate →
      (processOp env (cmdWord GE_CMD_BONEMATRIXDATA p) s).gstate.boneMatrix j =
        s.gstate.boneMatrix j) ∧
    MatrixFamily.bone.index s.gstate / 12 < 8 ∧
    (env.bSoftwareSkinning = false →
      (processOp env (cmdWord GE_CMD_BONEMATRIXDATA p) s).calls =
        s.calls ++ [Call.Flush (s.setCmd GE_CMD_BONEMATRIXDATA
            (cmdWord GE_CMD_BONEMATRIXDATA p)).gstate,
          Call.DirtyUniform (DirtyGroup.BONEMATRIX (MatrixFamily.bone.index s.gstate / 12))] ∧
      (s.setCmd GE_CMD_BONEMATRIXDATA (cmdWord GE_CMD_BONEMATRIXDATA p)).gstate.boneMatrix =
        s.gstate.boneMatrix) ∧
    (env.bSoftwareSkinning = true →
      (processOp env (cmdWord GE_CMD_BONEMATRIXDATA p) s).calls = s.calls) := by
  obtain ⟨hm, _, hcalls, _⟩ := processOp_matrixData env s MatrixFamily.bone p hp hT
  have hi2 : MatrixFamily.bone.index s.gstate < MatrixFamily.bone.size := hi
  have hd2 : p <<< 8 ≠ MatrixFamily.bone.matrix s.gstate (MatrixFamily.bone.index s.gstate) :=
    Ne.symm hd
  refine ⟨?_, ?_, by omega, ?_, ?_⟩
  · have := hm MatrixFamily.bone (MatrixFamily.bone.index s.gstate)
    refine this.trans ?_
    simp [hi2]
  · intro j hj
    have := hm MatrixFamily.bone j
    refine this.trans ?_
    simp [hj]
    rfl
  · intro hsw
    refine ⟨?_, rfl⟩
    refine hcalls.trans ?_
    simp [hi2, hd2, hsw]
    exact ⟨rfl, rfl⟩
  · intro hsw
    refine hcalls.trans ?_
    simp [hsw]

set_option maxRecDepth 100000 in
/-- Witness for C18 (amended): the first `BONEMATRIXDATA` command on a freshly constructed
core, software skinning disabled. -/
theorem bone_matrix_upload_witness :
    (processOp Env.sample (cmdWord GE_CMD_BONEMATRIXDATA 0x3F8000) GPU.sample).gstate.boneMatrix
      (MatrixFamily.bone.index GPU.sample.gstate) = 0x3F8000 <<< 8 :=
  (bone_matrix_upload Env.sample GPU.sample 0x3F8000 (by decide) rfl (by decide)
    (by decide)).1

/-! ## Block transfer -/

theorem DoBlockTransfer_invalid (env : Env) (s : GPU)
    (h : transferValid env (readTransferRegs env s.gstate) = false) :
    DoBlockTransfer env s = s := by
  simp only [transferValid, Bool.and_eq_false_iff] at h
  unfold DoBlockTransfer
  simp only []
  by_cases h1 : env.IsValidAddress (readTransferRegs env s.gstate).srcBasePtr = true
  · by_cases h2 : env.IsValidAddress (readTransferRegs env s.gstate).dstBasePtr = true
    · by_cases h3 : env.IsValidAddress (srcLastAddr (readTransferRegs env s.gstate)) = true
      · by_cases h4 : env.IsValidAddress (dstLastAddr (readTransferRegs env s.gstate)) = true
        · simp [h1, h2, h3, h4] at h
        · simp [h1, h2, h3, h4]
      · simp [h1, h2, h3]
    · simp [h1, h2]
  · simp [h1]

theorem copyRows_spec (r : TransferRegs) (memory : Nat → Nat)
    (hsd : srcDstDisjoint r) (hdd : dstRowsDisjoint r) :
    ∀ n, n ≤ r.height →
      (∀ a, (∀ y, y < n → ¬ inDstRow r y a) →
        (List.range n).foldl
          (fun m y => memcpy m (dstLineStartAddr r y) (srcLineStartAddr r y) (r.width * r.bpp))
          memory a = memory a) ∧
      (∀ y, y < n → ∀ b, b < rowBytes r →
        (List.range n).foldl
          (fun m y => memcpy m (dstLineStartAddr r y) (srcLineStartAddr r y) (r.width * r.bpp))
          memory (dstLineStartAddr r y + b) = memory (srcLineStartAddr r y + b)) := by
  intro n
  induction n with
  | zero =>
    intro _
    exact ⟨fun _ _ => rfl, fun y hy => absurd hy (Nat.not_lt_zero y)⟩
  | succ n ih =>
    intro hn
    obtain ⟨ih1, ih2⟩ := ih (by omega)
    have hsrc : ∀ b, b < rowBytes r →
        (List.range n).foldl
          (fun m y => memcpy m (dstLineStartAddr r y) (srcLineStartAddr r y) (r.width * r.bpp))
          memory (srcLineStartAddr r n + b) = memory (srcLineStartAddr r n + b) := by
      intro b hb
      apply ih1
      intro y hy hin
      obtain ⟨h1, h2⟩ := hin
      have := hsd y (by omega) n (by omega) (srcLineStartAddr r n + b - dstLineStartAddr r y)
        (by omega) b hb
      omega
    rw [List.range_succ, List.foldl_append]
    simp only [List.foldl_cons, List.foldl_nil]
    refine ⟨?_, ?_⟩
    · intro a ha
      have hn' : ¬ inDstRow r n a := ha n (by omega)
      unfold inDstRow rowBytes at hn'
      unfold memcpy
      rw [if_neg hn']
      exact ih1 a (fun y hy => ha y (by omega))
    · intro y hy b hb
      by_cases hyn : y = n
      · subst hyn
        unfold memcpy
        have hin : dstLineStartAddr r y ≤ dstLineStartAddr r y + b ∧
            dstLineStartAddr r y + b < dstLineStartAddr r y + r.width * r.bpp := by
          unfold rowBytes at hb
          omega
        rw [if_pos hin, Nat.add_sub_cancel_left]
        exact hsrc b hb
      · have hylt : y < n := by omega
        have hout : ¬ (dstLineStartAddr r n ≤ dstLineStartAddr r y + b ∧
            dstLineStartAddr r y + b < dstLineStartAddr r n + r.width * r.bpp) := by
          intro hin
          have := hdd y (by omega) n (by omega) hyn b hb
            (dstLineStartAddr r y + b - dstLineStartAddr r n) (by unfold rowBytes; omega)
          omega
        unfold memcpy
        rw [if_neg hout]
        exact ih2 y hylt b hb

theorem DoBlockTransfer_memory (env : Env) (s : GPU)
    (h : transferValid env (readTransferRegs env s.gstate) = true) :
    (DoBlockTransfer env s).memory = copyRows (readTransferRegs env s.gstate) s.memory := by
  simp only [transferValid, Bool.and_eq_true] at h
  obtain ⟨⟨⟨h1, h2⟩, h3⟩, h4⟩ := h
  unfold DoBlockTransfer
  simp only [h1, h2, h3, h4, not_true_eq_false, if_false, GPU.call]
  split_ifs <;> rfl

set_option maxRecDepth 100000 in
/-- C20 (as stated) fails: a transfer of 9 x 2 pixels of 2 bytes whose destination stride
is 8 pixels passes validation and its source and destination rectangles do not overlap,
yet byte 16 of destination row 0 does not end up holding byte 16 of source row 0 (value
16): the copy of row 1 has overwritten it with byte 0 of source row 1 (value 32). -/
theorem block_transfer_rows_overlap :
    transferValid Env.transferNarrow
        (readTransferRegs Env.transferNarrow GPU.sampleMemory.gstate) = true ∧
    srcDstDisjoint (readTransferRegs Env.transferNarrow GPU.sampleMemory.gstate) ∧
    dstLineStartAddr (readTransferRegs Env.transferNarrow GPU.sampleMemory.gstate) 0 + 16 =
      0x08900010 ∧
    srcLineStartAddr (readTransferRegs Env.transferNarrow GPU.sampleMemory.gstate) 0 + 16 =
      0x08800010 ∧
    GPU.sampleMemory.memory 0x08800010 = 16 ∧
    (DoBlockTransfer Env.transferNarrow GPU.sampleMemory).memory 0x08900010 = 32 := by
  refine ⟨by decide, ?_, by decide, by decide, by decide, by decide!⟩
  intro y hy y2 hy2 b hb b2 hb2
  have h1 : rowBytes (readTransferRegs Env.transferNarrow GPU.sampleMemory.gstate) = 18 := rfl
  have h2 : (readTransferRegs Env.transferNarrow GPU.sampleMemory.gstate).height = 2 := rfl
  rw [h1] at hb hb2
  rw [h2] at hy hy2
  have d0 : dstLineStartAddr (readTransferRegs Env.transferNarrow GPU.sampleMemory.gstate) 0 =
      0x08900000 := by decide
  have d1 : dstLineStartAddr (readTransferRegs Env.transferNarrow GPU.sampleMemory.gstate) 1 =
      0x08900010 := by decide
  have s0 : srcLineStartAddr (readTransferRegs Env.transferNarrow GPU.sampleMemory.gstate) 0 =
      0x08800000 := by decide
  have s1 : srcLineStartAddr (readTransferRegs Env.transferNarrow GPU.sampleMemory.gstate) 1 =
      0x08800020 := by decide
  interval_cases y <;> interval_cases y2 <;> simp only [d0, d1, s0, s1] <;> omega

/-- C20 (amended). Block transfer copy: for a transfer that passes validation, whose source
and destination rectangles do not overlap and whose destination rows do not overlap one
another, afterwards for every row `y < height` and every byte offset `b < width * bpp` the
destination byte at `dstLineStartAddr y + b` equals the source byte that was at
`srcLineStartAddr y + b` (the line starts being the 32-bit values
`dstBase + ((y + dstY) * dstStride + dstX) * bpp` and
`srcBase + ((y + srcY) * srcStride + srcX) * bpp`), and every byte of memory outside the
destination rows is unchanged. -/
theorem block_transfer_copy (env : Env) (s : GPU)
    (hv : transferValid env (readTransferRegs env s.gstate) = true)
    (hsd : srcDstDisjoint (readTransferRegs env s.gstate))
    (hdd : dstRowsDisjoint (readTransferRegs env s.gstate)) :
    (∀ y, y < (readTransferRegs env s.gstate).height →
      ∀ b, b < (readTransferRegs env s.gstate).width * (readTransferRegs env s.gstate).bpp →
        (DoBlockTransfer env s).memory (dstLineStartAddr (readTransferRegs env s.gstate) y + b) =
          s.memory (srcLineStartAddr (readTransferRegs env s.gstate) y + b)) ∧
    (∀ a, (∀ y, y < (readTransferRegs env s.gstate).height →
        ¬ inDstRow (readTransferRegs env s.gstate) y a) →
      (DoBlockTransfer env s).memory a = s.memory a) ∧
    (∀ y, dstLineStartAddr (readTransferRegs env s.gstate) y =
      ((readTransferRegs env s.gstate).dstBasePtr +
        ((y + (readTransferRegs env s.gstate).dstY) * (readTransferRegs env s.gstate).dstStride +
          (readTransferRegs env s.gstate).dstX) * (readTransferRegs env s.gstate).bpp) % 2 ^ 32 ∧
      srcLineStartAddr (readTransferRegs env s.gstate) y =
      ((readTransferRegs env s.gstate).srcBasePtr +
        ((y + (readTransferRegs env s.gstate).srcY) * (readTransferRegs env s.gstate).srcStride +
          (readTransferRegs env s.gstate).srcX) * (readTransferRegs env s.gstate).bpp) % 2 ^ 32) := by
  obtain ⟨c1, c2⟩ := copyRows_spec (readTransferRegs env s.gstate) s.memory hsd hdd
    (readTransferRegs env s.gstate).height (le_refl _)
  rw [DoBlockTransfer_memory env s hv]
  exact ⟨fun y hy b hb => c2 y hy b hb, fun a ha => c1 a ha, fun y => ⟨rfl, rfl⟩⟩

set_option maxRecDepth 100000 in
/-- Witness for C20 (amended): a transfer of 2 x 2 pixels between disjoint rectangles in
RAM with stride 16. -/
theorem block_transfer_copy_witness :
    (DoBlockTransfer Env.transfer GPU.sampleMemory).memory
        (dstLineStartAddr (readTransferRegs Env.transfer GPU.sampleMemory.gstate) 1 + 3) =
      GPU.sampleMemory.memory
        (srcLineStartAddr (readTransferRegs Env.transfer GPU.sampleMemory.gstate) 1 + 3) :=
  (block_transfer_copy Env.transfer GPU.sampleMemory (by decide)
    (by unfold srcDstDisjoint; decide) (by unfold dstRowsDisjoint; decide)).1 1 (by decide) 3
    (by decide)

/-! ## The loop body, by the flags of the opcode -/

/-- Flags 0: the loop body only stores the word. -/
theorem processOp_flags_none (env : Env) (op : Nat) (s : GPU)
    (h : s.commandFlags_ (op >>> 24) = 0) :
    processOp env op s = s.setCmd (op >>> 24) op := by
  simp [processOp, h]

/-- Flags `FLUSHBEFOREONCHANGE` alone: flush when the word differs, then store it. -/
theorem processOp_flags_flushOnChange (env : Env) (op : Nat) (s : GPU)
    (h : s.commandFlags_ (op >>> 24) = FLAG_FLUSHBEFOREONCHANGE) :
    processOp env op s =
      (if op = s.gstate.cmdmem (op >>> 24) then s else s.Flush).setCmd (op >>> 24) op := by
  have h1 : FLAG_FLUSHBEFOREONCHANGE &&& FLAG_FLUSHBEFORE = 0 := by decide
  have h2 : FLAG_FLUSHBEFOREONCHANGE &&& FLAG_FLUSHBEFOREONCHANGE ≠ 0 := by decide
  have h3 : FLAG_FLUSHBEFOREONCHANGE &&& FLAG_ANY_EXECUTE = 0 := by decide
  simp only [processOp, h, h1, h2, h3, ne_eq, not_true_eq_false, false_or, if_false,
    not_false_eq_true, and_true]
  by_cases hx : op = s.gstate.cmdmem (op >>> 24)
  · rw [if_pos hx, if_neg (not_not.mpr (Nat.xor_eq_zero.mpr hx))]
  · rw [if_neg hx, if_pos (Nat.xor_ne_zero.mpr hx)]

/-- Flags `FLUSHBEFOREONCHANGE` with `EXECUTE` or `EXECUTEONCHANGE`: flush when the word
differs, store it, run the executor. -/
theorem processOp_flags_flushOnChange_execute (env : Env) (op : Nat) (s : GPU)
    (h : s.commandFlags_ (op >>> 24) = FLAG_FLUSHBEFOREONCHANGE ||| FLAG_EXECUTE ∨
      s.commandFlags_ (op >>> 24) = FLAG_FLUSHBEFOREONCHANGE ||| FLAG_EXECUTEONCHANGE) :
    processOp env op s =
      ExecuteOpInternal env op (op ^^^ s.gstate.cmdmem (op >>> 24))
        ((if op = s.gstate.cmdmem (op >>> 24) then s else s.Flush).setCmd (op >>> 24) op) := by
  have e : (if (op ^^^ s.gstate.cmdmem (op >>> 24)) ≠ 0 then s.Flush else s) =
      (if op = s.gstate.cmdmem (op >>> 24) then s else s.Flush) := by
    by_cases hx : op = s.gstate.cmdmem (op >>> 24)
    · rw [if_pos hx, if_neg (not_not.mpr (Nat.xor_eq_zero.mpr hx))]
    · rw [if_neg hx, if_pos (Nat.xor_ne_zero.mpr hx)]
  rcases h with h | h
  · have h1 : (FLAG_FLUSHBEFOREONCHANGE ||| FLAG_EXECUTE) &&& FLAG_FLUSHBEFORE = 0 := by decide
    have h2 : (FLAG_FLUSHBEFOREONCHANGE ||| FLAG_EXECUTE) &&& FLAG_FLUSHBEFOREONCHANGE ≠ 0 := by
      decide
    have h3 : (FLAG_FLUSHBEFOREONCHANGE ||| FLAG_EXECUTE) &&& FLAG_ANY_EXECUTE ≠ 0 := by decide
    simp only [processOp, h, h1, h2, ne_eq, not_true_eq_false, false_or, not_false_eq_true,
      and_true]
    rw [if_pos h3]
    simp only [ne_eq] at e
    rw [e]
  · have h1 : (FLAG_FLUSHBEFOREONCHANGE ||| FLAG_EXECUTEONCHANGE) &&& FLAG_FLUSHBEFORE = 0 := by
      decide
    have h2 : (FLAG_FLUSHBEFOREONCHANGE ||| FLAG_EXECUTEONCHANGE) &&&
        FLAG_FLUSHBEFOREONCHANGE ≠ 0 := by decide
    have h3 : (FLAG_FLUSHBEFOREONCHANGE ||| FLAG_EXECUTEONCHANGE) &&& FLAG_ANY_EXECUTE ≠ 0 := by
      decide
    simp only [processOp, h, h1, h2, ne_eq, not_true_eq_false, false_or, not_false_eq_true,
      and_true]
    rw [if_pos h3]
    simp only [ne_eq] at e
    rw [e]

/-- Flags `EXECUTEONCHANGE` alone: store the word and run the executor; no flush by the
loop. -/
theorem processOp_flags_executeOnChange (env : Env) (op : Nat) (s : GPU)
    (h : s.commandFlags_ (op >>> 24) = FLAG_EXECUTEONCHANGE) :
    processOp env op s =
      ExecuteOpInternal env op (op ^^^ s.gstate.cmdmem (op >>> 24))
        (s.setCmd (op >>> 24) op) := by
  have h1 : FLAG_EXECUTEONCHANGE &&& FLAG_FLUSHBEFORE = 0 := by decide
  have h2 : FLAG_EXECUTEONCHANGE &&& FLAG_FLUSHBEFOREONCHANGE = 0 := by decide
  have h3 : FLAG_EXECUTEONCHANGE &&& FLAG_ANY_EXECUTE ≠ 0 := by decide
  simp only [processOp, h, h1, h2, ne_eq, not_true_eq_false, and_false, or_false, if_false]
  rw [if_pos h3]

/-- Outside the five opcodes the configuration switches act on, the constructed table is
the seeded table. -/
theorem constructed_of_seeded (a b g : Bool) (c v : Nat)
    (hs : (seedTable (commandTable g)).commandFlags_ c = v)
    (hn : c ∉ [GE_CMD_TEXSCALEU, GE_CMD_TEXSCALEV, GE_CMD_TEXOFFSETU, GE_CMD_TEXOFFSETV,
      GE_CMD_VERTEXTYPE]) :
    commandFlagsOf a b g c = v := by
  have hc : flushOnChangeCleared a b c = false := by
    simp only [List.mem_cons, List.mem_singleton, List.not_mem_nil, or_false, not_or] at hn
    simp [flushOnChangeCleared, hn]
  rw [commandFlagsOf, constructFlags, applyConfig_apply, hc]
  simpa using hs

/-! ## Direct draw of a transferred frame -/

/-- C21. Direct draw of a transferred frame: in a transfer that passes validation, among
the calls the transfer makes there is exactly one `DrawPixels` if the destination base is
the non-zero previously displayed or the non-zero current display framebuffer address, the
destination stride is 512 and the height is 272, and it is the last call, given the
destination base, format 8888 and stride 512 (the bytes per pixel of the transfer do not
enter); otherwise the transfer calls no `DrawPixels`. -/
theorem direct_draw (env : Env) (s : GPU)
    (hv : transferValid env (readTransferRegs env s.gstate) = true) :
    (directDrawCondition env (readTransferRegs env s.gstate) →
      ((DoBlockTransfer env s).calls.drop s.calls.length).filter Call.isDrawPixels =
        [Call.DrawPixels (readTransferRegs env s.gstate).dstBasePtr GE_FORMAT_8888 512] ∧
      (DoBlockTransfer env s).calls.getLast? =
        some (Call.DrawPixels (readTransferRegs env s.gstate).dstBasePtr GE_FORMAT_8888 512)) ∧
    (¬ directDrawCondition env (readTransferRegs env s.gstate) →
      ((DoBlockTransfer env s).calls.drop s.calls.length).filter Call.isDrawPixels = []) ∧
    (∃ rest, (DoBlockTransfer env s).calls = s.calls ++ rest) := by
  simp only [transferValid, Bool.and_eq_true] at hv
  obtain ⟨⟨⟨h1, h2⟩, h3⟩, h4⟩ := hv
  unfold DoBlockTransfer directDrawCondition
  simp only [h1, h2, h3, h4, not_true_eq_false, if_false, GPU.call]
  refine ⟨?_, ?_, ?_⟩
  · intro hc
    rw [if_pos hc]
    split_ifs <;>
      simp [List.append_assoc, List.filter_cons, Call.isDrawPixels, List.getLast?_append]
  · intro hc
    rw [if_neg hc]
    split_ifs <;> simp [List.append_assoc, List.filter_cons, Call.isDrawPixels]
  · split_ifs <;> exact ⟨_, by simp only [List.append_assoc]; rfl⟩

set_option maxRecDepth 100000 in
/-- Witness for C21: a 480 x 272 frame of 4-byte pixels transferred with stride 512 onto
the current display framebuffer is drawn once, as format 8888. -/
theorem direct_draw_witness :
    ((DoBlockTransfer Env.video GPU.sample).calls.drop GPU.sample.calls.length).filter
        Call.isDrawPixels =
      [Call.DrawPixels (readTransferRegs Env.video GPU.sample.gstate).dstBasePtr
        GE_FORMAT_8888 512] :=
  ((direct_draw Env.video GPU.sample (by decide)).1
    (by unfold directDrawCondition; decide)).1

/-! ## Registers that mark derived state -/

set_option maxRecDepth 100000 in
theorem seeded_texsize0 (g : Bool) :
    (seedTable (commandTable g)).commandFlags_ GE_CMD_TEXSIZE0 =
      FLAG_FLUSHBEFOREONCHANGE ||| FLAG_EXECUTEONCHANGE := by
  cases g <;> decide!

theorem selectCase_texsize0 (g : Bool) : selectCase g GE_CMD_TEXSIZE0 = OpCase.TEXSIZE0 := by
  cases g <;> decide

theorem flush_setCmd_gstate (s : GPU) (c v : Nat) :
    (s.Flush.setCmd c v).gstate = (s.setCmd c v).gstate := rfl

/-- C22. `TEXSIZE0`: on a core with the constructed flag table, a `TEXSIZE0` command whose
word equals the mirrored word, arriving while `textureChanged` is false, leaves the whole
derived state (so `curTextureWidth`, `curTextureHeight` and `textureChanged`) unchanged and
makes no call; if the word differs or `textureChanged` is already true, `curTextureWidth`
and `curTextureHeight` become the width and height that the mirror, now holding the new
`TEXSIZE0` word, encodes for level 0, `textureChanged` is true afterwards, and
`UVSCALEOFFSET` is the one uniform group marked dirty. -/
theorem texsize0_recompute (env : Env) (s : GPU) (p : Nat) (hp : p < 2 ^ 24)
    (hT : s.commandFlags_ = commandFlagsOf env.bPrescaleUV env.bSoftwareSkinning env.usingGLES2) :
    (cmdWord GE_CMD_TEXSIZE0 p = s.gstate.cmdmem GE_CMD_TEXSIZE0 →
      s.gstate_c.textureChanged = false →
      (processOp env (cmdWord GE_CMD_TEXSIZE0 p) s).gstate_c = s.gstate_c ∧
      (processOp env (cmdWord GE_CMD_TEXSIZE0 p) s).calls = s.calls) ∧
    (cmdWord GE_CMD_TEXSIZE0 p ≠ s.gstate.cmdmem GE_CMD_TEXSIZE0 ∨
        s.gstate_c.textureChanged = true →
      (processOp env (cmdWord GE_CMD_TEXSIZE0 p) s).gstate_c.curTextureWidth =
        env.getTextureWidth (s.setCmd GE_CMD_TEXSIZE0 (cmdWord GE_CMD_TEXSIZE0 p)).gstate 0 ∧
      (processOp env (cmdWord GE_CMD_TEXSIZE0 p) s).gstate_c.curTextureHeight =
        env.getTextureHeight (s.setCmd GE_CMD_TEXSIZE0 (cmdWord GE_CMD_TEXSIZE0 p)).gstate 0 ∧
      (processOp env (cmdWord GE_CMD_TEXSIZE0 p) s).gstate_c.textureChanged = true ∧
      dirtyCount DirtyGroup.UVSCALEOFFSET (processOp env (cmdWord GE_CMD_TEXSIZE0 p) s).calls =
        dirtyCount DirtyGroup.UVSCALEOFFSET s.calls + 1 ∧
      dirtyUniformCount (processOp env (cmdWord GE_CMD_TEXSIZE0 p) s).calls =
        dirtyUniformCount s.calls + 1) ∧
    (s.setCmd GE_CMD_TEXSIZE0 (cmdWord GE_CMD_TEXSIZE0 p)).gstate.cmdmem GE_CMD_TEXSIZE0 =
      cmdWord GE_CMD_TEXSIZE0 p := by
  have hcmd := cmdWord_shiftRight GE_CMD_TEXSIZE0 p hp
  have hfl : s.commandFlags_ (cmdWord GE_CMD_TEXSIZE0 p >>> 24) =
      FLAG_FLUSHBEFOREONCHANGE ||| FLAG_EXECUTEONCHANGE := by
    rw [hcmd, hT]
    exact constructed_of_seeded _ _ _ _ _ (seeded_texsize0 _) (by decide)
  rw [processOp_flags_flushOnChange_execute env _ s (Or.inr hfl), hcmd]
  simp only [ExecuteOpInternal, hcmd, selectCase_texsize0, runCase, execTEXSIZE0]
  refine ⟨?_, ?_, ?_⟩
  · intro heq htc
    have hx : cmdWord GE_CMD_TEXSIZE0 p ^^^ s.gstate.cmdmem GE_CMD_TEXSIZE0 = 0 :=
      Nat.xor_eq_zero.mpr heq
    simp [hx, heq, GPU.setCmd, htc]
  · intro h
    by_cases heq : cmdWord GE_CMD_TEXSIZE0 p = s.gstate.cmdmem GE_CMD_TEXSIZE0
    · have htc : s.gstate_c.textureChanged = true := by
        rcases h with h | h
        · exact absurd heq h
        · exact h
      have hx : cmdWord GE_CMD_TEXSIZE0 p ^^^ s.gstate.cmdmem GE_CMD_TEXSIZE0 = 0 :=
        Nat.xor_eq_zero.mpr heq
      simp [hx, heq, GPU.setCmd, htc, GPU.setTextureChanged, GPU.DirtyUniform, GPU.call,
        dirtyCount, dirtyUniformCount, List.countP_append, Call.isDirty, Call.isDirtyUniform]
    · have hx : cmdWord GE_CMD_TEXSIZE0 p ^^^ s.gstate.cmdmem GE_CMD_TEXSIZE0 ≠ 0 :=
        Nat.xor_ne_zero.mpr heq
      simp [hx, heq, GPU.setCmd, GPU.setTextureChanged, GPU.DirtyUniform, GPU.call, GPU.Flush,
        dirtyCount, dirtyUniformCount, List.countP_append, Call.isDirty, Call.isDirtyUniform]
  · simp [GPU.setCmd]

set_option maxRecDepth 100000 in
/-- Witness for C22: a `TEXSIZE0` command on a freshly constructed core, whose slot holds
another word. -/
theorem texsize0_recompute_witness :
    (processOp Env.sample (cmdWord GE_CMD_TEXSIZE0 0x000908) GPU.sample).gstate_c.textureChanged
      = true :=
  ((texsize0_recompute Env.sample GPU.sample 0x000908 (by decide) rfl).2.1
    (Or.inl (by decide))).2.2.1

set_option maxRecDepth 100000 in
theorem seeded_framebufRegisters (g : Bool) :
    ∀ c ∈ framebufRegisters,
      ((seedTable (commandTable g)).commandFlags_ c =
          FLAG_FLUSHBEFOREONCHANGE ||| FLAG_EXECUTE ∨
        (seedTable (commandTable g)).commandFlags_ c =
          FLAG_FLUSHBEFOREONCHANGE ||| FLAG_EXECUTEONCHANGE) ∧
      selectCase g c = OpCase.framebufChanged ∧
      c ∉ [GE_CMD_TEXSCALEU, GE_CMD_TEXSCALEV, GE_CMD_TEXOFFSETU, GE_CMD_TEXOFFSETV,
        GE_CMD_VERTEXTYPE] := by
  cases g <;> decide!

/-- C23. Framebuffer-affecting registers: on a core with the constructed flag table, for
each of `FRAMEBUFPTR`, `FRAMEBUFWIDTH`, `FRAMEBUFPIXFORMAT`, `REGION1`, `REGION2`,
`SCISSOR1`, `SCISSOR2` and the six `VIEWPORT` registers, a command whose word differs from
the mirror sets both `framebufChanged` and `textureChanged`, and one whose word equals the
mirror leaves the state as it is (both flags unchanged). -/
theorem framebuf_registers_mark (env : Env) (s : GPU) (c p : Nat)
    (hc : c ∈ framebufRegisters) (hp : p < 2 ^ 24)
    (hT : s.commandFlags_ = commandFlagsOf env.bPrescaleUV env.bSoftwareSkinning env.usingGLES2) :
    (cmdWord c p ≠ s.gstate.cmdmem c →
      (processOp env (cmdWord c p) s).gstate_c.framebufChanged = true ∧
      (processOp env (cmdWord c p) s).gstate_c.textureChanged = true) ∧
    (cmdWord c p = s.gstate.cmdmem c →
      processOp env (cmdWord c p) s = s ∧
      (processOp env (cmdWord c p) s).gstate_c.framebufChanged = s.gstate_c.framebufChanged ∧
      (processOp env (cmdWord c p) s).gstate_c.textureChanged = s.gstate_c.textureChanged) := by
  have hcmd := cmdWord_shiftRight c p hp
  obtain ⟨hs, hsel, hn⟩ := seeded_framebufRegisters env.usingGLES2 c hc
  have hfl : s.commandFlags_ (cmdWord c p >>> 24) = FLAG_FLUSHBEFOREONCHANGE ||| FLAG_EXECUTE ∨
      s.commandFlags_ (cmdWord c p >>> 24) =
        FLAG_FLUSHBEFOREONCHANGE ||| FLAG_EXECUTEONCHANGE := by
    rw [hcmd, hT]
    rcases hs with hs | hs
    · exact Or.inl (constructed_of_seeded _ _ _ _ _ hs hn)
    · exact Or.inr (constructed_of_seeded _ _ _ _ _ hs hn)
  rw [processOp_flags_flushOnChange_execute env _ s hfl, hcmd]
  simp only [ExecuteOpInternal, hcmd, hsel, runCase, framebufChangedOnChange]
  refine ⟨?_, ?_⟩
  · intro hne
    have hx : cmdWord c p ^^^ s.gstate.cmdmem c ≠ 0 := Nat.xor_ne_zero.mpr hne
    simp [hx, GPU.setFramebufChanged]
  · intro heq
    have hx : cmdWord c p ^^^ s.gstate.cmdmem c = 0 := Nat.xor_eq_zero.mpr heq
    have hself : s.setCmd c (cmdWord c p) = s := by
      rw [heq]
      exact setCmd_self s c
    simp [hx, heq, hself]
    rw [← heq, hself]
    simp

set_option maxRecDepth 100000 in
/-- Witness for C23: a `SCISSOR1` command on a freshly constructed core, whose slot holds
another word. -/
theorem framebuf_registers_mark_witness :
    (processOp Env.sample (cmdWord GE_CMD_SCISSOR1 0x000001) GPU.sample).gstate_c.framebufChanged
        = true ∧
      (processOp Env.sample (cmdWord GE_CMD_SCISSOR1 0x000001) GPU.sample).gstate_c.textureChanged
        = true :=
  (framebuf_registers_mark Env.sample GPU.sample GE_CMD_SCISSOR1 0x000001 (by decide)
    (by decide) rfl).1 (by decide)

/-! ## Texture address and CLUT registers -/

set_option maxRecDepth 100000 in
theorem seeded_texAddrRegisters (g : Bool) :
    ∀ c ∈ texAddrRegisters,
      (seedTable (commandTable g)).commandFlags_ c =
          FLAG_FLUSHBEFOREONCHANGE ||| FLAG_EXECUTEONCHANGE ∧
      selectCase g c = OpCase.TEXADDR ∧
      c ∉ [GE_CMD_TEXSCALEU, GE_CMD_TEXSCALEV, GE_CMD_TEXOFFSETU, GE_CMD_TEXOFFSETV,
        GE_CMD_VERTEXTYPE] := by
  cases g <;> decide!

set_option maxRecDepth 100000 in
theorem seeded_clutRegisters (g : Bool) :
    ∀ c ∈ [GE_CMD_CLUTADDR, GE_CMD_CLUTADDRUPPER, GE_CMD_CLUTFORMAT],
      (seedTable (commandTable g)).commandFlags_ c =
          FLAG_FLUSHBEFOREONCHANGE ||| FLAG_EXECUTE ∧
      selectCase g c = (if c = GE_CMD_CLUTFORMAT then OpCase.textureChanged else OpCase.nop) ∧
      c ∉ [GE_CMD_TEXSCALEU, GE_CMD_TEXSCALEV, GE_CMD_TEXOFFSETU, GE_CMD_TEXOFFSETV,
        GE_CMD_VERTEXTYPE] := by
  cases g <;> decide!

set_option maxRecDepth 100000 in
/-- C24 (as stated) fails: on a freshly constructed core, whose `CLUTADDR` and
`CLUTADDRUPPER` slots hold another word, a `CLUTADDR` or `CLUTADDRUPPER` command changes
the register (the loop flushes) but `textureChanged` stays false. -/
theorem clutaddr_leaves_textureChanged :
    GPU.sample.gstate.cmdmem GE_CMD_CLUTADDR ≠ cmdWord GE_CMD_CLUTADDR 0x001000 ∧
    (processOp Env.sample (cmdWord GE_CMD_CLUTADDR 0x001000) GPU.sample).gstate.cmdmem
      GE_CMD_CLUTADDR = cmdWord GE_CMD_CLUTADDR 0x001000 ∧
    (processOp Env.sample (cmdWord GE_CMD_CLUTADDR 0x001000) GPU.sample).gstate_c.textureChanged
      = false ∧
    GPU.sample.gstate.cmdmem GE_CMD_CLUTADDRUPPER ≠ cmdWord GE_CMD_CLUTADDRUPPER 0x040000 ∧
    (processOp Env.sample (cmdWord GE_CMD_CLUTADDRUPPER 0x040000)
      GPU.sample).gstate_c.textureChanged = false := by
  decide!

/-- C24 (amended). Texture address and CLUT registers: on a core with the constructed flag
table, a command that changes any `TEXADDR0..7` register sets `textureChanged` and marks
`UVSCALEOFFSET` (and no other group) dirty; a command that changes `CLUTFORMAT` sets
`textureChanged`; a command that changes `CLUTADDR` or `CLUTADDRUPPER` leaves the derived
state, `textureChanged` included, as it is and marks nothing dirty (the loop flushes and
stores the word). -/
theorem texaddr_clut_registers (env : Env) (s : GPU) (c p : Nat) (hp : p < 2 ^ 24)
    (hT : s.commandFlags_ = commandFlagsOf env.bPrescaleUV env.bSoftwareSkinning env.usingGLES2)
    (hne : cmdWord c p ≠ s.gstate.cmdmem c) :
    (c ∈ texAddrRegisters →
      (processOp env (cmdWord c p) s).gstate_c.textureChanged = true ∧
      (processOp env (cmdWord c p) s).calls =
        s.calls ++ [Call.Flush s.gstate, Call.DirtyUniform DirtyGroup.UVSCALEOFFSET]) ∧
    (c = GE_CMD_CLUTFORMAT →
      (processOp env (cmdWord c p) s).gstate_c.textureChanged = true ∧
      (processOp env (cmdWord c p) s).calls = s.calls ++ [Call.Flush s.gstate]) ∧
    (c = GE_CMD_CLUTADDR ∨ c = GE_CMD_CLUTADDRUPPER →
      (processOp env (cmdWord c p) s).gstate_c = s.gstate_c ∧
      (processOp env (cmdWord c p) s).calls = s.calls ++ [Call.Flush s.gstate]) := by
  have hcmd := cmdWord_shiftRight c p hp
  have hx : cmdWord c p ^^^ s.gstate.cmdmem c ≠ 0 := Nat.xor_ne_zero.mpr hne
  refine ⟨?_, ?_, ?_⟩
  · intro hc
    obtain ⟨hs, hsel, hn⟩ := seeded_texAddrRegisters env.usingGLES2 c hc
    have hfl : s.commandFlags_ (cmdWord c p >>> 24) =
        FLAG_FLUSHBEFOREONCHANGE ||| FLAG_EXECUTEONCHANGE := by
      rw [hcmd, hT]
      exact constructed_of_seeded _ _ _ _ _ hs hn
    rw [processOp_flags_flushOnChange_execute env _ s (Or.inr hfl), hcmd]
    simp [ExecuteOpInternal, hcmd, hsel, runCase, hx, hne, GPU.setTextureChanged,
      GPU.DirtyUniform, GPU.call, GPU.Flush, GPU.setCmd]
  · intro hc
    obtain ⟨hs, hsel, hn⟩ := seeded_clutRegisters env.usingGLES2 c (by simp [hc])
    rw [if_pos hc] at hsel
    have hfl : s.commandFlags_ (cmdWord c p >>> 24) =
        FLAG_FLUSHBEFOREONCHANGE ||| FLAG_EXECUTE := by
      rw [hcmd, hT]
      exact constructed_of_seeded _ _ _ _ _ hs hn
    rw [processOp_flags_flushOnChange_execute env _ s (Or.inl hfl), hcmd]
    simp [ExecuteOpInternal, hcmd, hsel, runCase, hx, hne, textureChangedOnChange,
      GPU.setTextureChanged, GPU.call, GPU.Flush, GPU.setCmd]
  · intro hc
    obtain ⟨hs, hsel, hn⟩ := seeded_clutRegisters env.usingGLES2 c (by
      rcases hc with h | h <;> simp [h])
    have hnf : c ≠ GE_CMD_CLUTFORMAT := by
      rcases hc with h | h <;> rw [h] <;> decide
    rw [if_neg hnf] at hsel
    have hfl : s.commandFlags_ (cmdWord c p >>> 24) =
        FLAG_FLUSHBEFOREONCHANGE ||| FLAG_EXECUTE := by
      rw [hcmd, hT]
      exact constructed_of_seeded _ _ _ _ _ hs hn
    rw [processOp_flags_flushOnChange_execute env _ s (Or.inl hfl), hcmd]
    simp [ExecuteOpInternal, hcmd, hsel, runCase, hne, GPU.call, GPU.Flush, GPU.setCmd]

set_option maxRecDepth 100000 in
/-- Witness for C24 (amended): a `TEXADDR3` command on a freshly constructed core. -/
theorem texaddr_clut_registers_witness :
    (processOp Env.sample (cmdWord GE_CMD_TEXADDR3 0x001000) GPU.sample).gstate_c.textureChanged
      = true :=
  ((texaddr_clut_registers Env.sample GPU.sample GE_CMD_TEXADDR3 0x001000 (by decide) rfl
    (by decide)).1 (by decide)).1

/-! ## Colour test -/

set_option maxRecDepth 100000 in
/-- C25. On a freshly constructed core, whose `COLORTESTMASK` and `COLORTEST` slots hold
another word, the loop body processes a `COLORTESTMASK` (or `COLORTEST`) command by
flushing and storing the word only: the table flags of both opcodes are
`FLUSHBEFOREONCHANGE` alone, so the executor is not run and no `DirtyUniform` call is
made, although the executor, run on the same command and state, calls
`DirtyUniform(COLORMASK)` once. -/
theorem colortest_executor_not_reached :
    GPU.sample.gstate.cmdmem GE_CMD_COLORTESTMASK ≠ cmdWord GE_CMD_COLORTESTMASK 0x00FF00 ∧
    GPU.sample.commandFlags_ GE_CMD_COLORTESTMASK = FLAG_FLUSHBEFOREONCHANGE ∧
    GPU.sample.commandFlags_ GE_CMD_COLORTEST = FLAG_FLUSHBEFOREONCHANGE ∧
    dirtyCount DirtyGroup.COLORMASK
      (processOp Env.sample (cmdWord GE_CMD_COLORTESTMASK 0x00FF00) GPU.sample).calls = 0 ∧
    dirtyUniformCount
      (processOp Env.sample (cmdWord GE_CMD_COLORTESTMASK 0x00FF00) GPU.sample).calls = 0 ∧
    flushCount
      (processOp Env.sample (cmdWord GE_CMD_COLORTESTMASK 0x00FF00) GPU.sample).calls = 1 ∧
    dirtyCount DirtyGroup.COLORMASK
      (processOp Env.sample (cmdWord GE_CMD_COLORTEST 0x000003) GPU.sample).calls = 0 ∧
    dirtyCount DirtyGroup.COLORMASK
      (ExecuteOpInternal Env.sample (cmdWord GE_CMD_COLORTESTMASK 0x00FF00)
        (cmdWord GE_CMD_COLORTESTMASK 0x00FF00 ^^^ GPU.sample.gstate.cmdmem GE_CMD_COLORTESTMASK)
        (GPU.sample.setCmd GE_CMD_COLORTESTMASK
          (cmdWord GE_CMD_COLORTESTMASK 0x00FF00))).calls = 1 := by
  decide!

/-! ## Ignored families -/

set_option maxRecDepth 100000 in
theorem constructed_ignored (a b g : Bool) :
    (∀ c ∈ ignoredUnflagged, commandFlagsOf a b g c = 0) ∧
    (∀ c ∈ ignoredFlushing, commandFlagsOf a b g c = FLAG_FLUSHBEFOREONCHANGE) := by
  have h0 : ∀ c ∈ ignoredUnflagged, (seedTable (commandTable g)).commandFlags_ c = 0 ∧
      c ∉ [GE_CMD_TEXSCALEU, GE_CMD_TEXSCALEV, GE_CMD_TEXOFFSETU, GE_CMD_TEXOFFSETV,
        GE_CMD_VERTEXTYPE] := by
    cases g <;> decide!
  have h2 : ∀ c ∈ ignoredFlushing,
      (seedTable (commandTable g)).commandFlags_ c = FLAG_FLUSHBEFOREONCHANGE ∧
      c ∉ [GE_CMD_TEXSCALEU, GE_CMD_TEXSCALEV, GE_CMD_TEXOFFSETU, GE_CMD_TEXOFFSETV,
        GE_CMD_VERTEXTYPE] := by
    cases g <;> decide!
  exact ⟨fun c hc => constructed_of_seeded _ _ _ _ _ (h0 c hc).1 (h0 c hc).2,
    fun c hc => constructed_of_seeded _ _ _ _ _ (h2 c hc).1 (h2 c hc).2⟩

set_option maxRecDepth 100000 in
/-- C26 (as stated) fails: on a freshly constructed core, whose `DITHERENABLE` and
`ANTIALIASENABLE` slots hold another word, a `DITHERENABLE` command and an
`ANTIALIASENABLE` command each cause a flush. -/
theorem ditherenable_flushes :
    GPU.sample.gstate.cmdmem GE_CMD_DITHERENABLE ≠ cmdWord GE_CMD_DITHERENABLE 1 ∧
    flushCount (processOp Env.sample (cmdWord GE_CMD_DITHERENABLE 1) GPU.sample).calls = 1 ∧
    GPU.sample.gstate.cmdmem GE_CMD_ANTIALIASENABLE ≠ cmdWord GE_CMD_ANTIALIASENABLE 1 ∧
    flushCount (processOp Env.sample (cmdWord GE_CMD_ANTIALIASENABLE 1) GPU.sample).calls = 1 := by
  decide!

/-- C26 (amended). Ignored families: on a core with the constructed flag table, for every
command whose opcode is `DITH0..3`, `CLIPENABLE`, `TEXFLUSH`, `TEXSYNC`, `NOP` or `BASE`,
with any payload and any prior mirror, the loop body stores the word in the mirror slot
and has no other effect; for `DITHERENABLE` and `ANTIALIASENABLE` it does the same when the
word equals the mirrored word, and when the word differs it first asks the transform
engine to flush (under the old registers) and then stores the word, with no other
effect. -/
theorem ignored_families (env : Env) (s : GPU) (c p : Nat) (hp : p < 2 ^ 24)
    (hT : s.commandFlags_ = commandFlagsOf env.bPrescaleUV env.bSoftwareSkinning env.usingGLES2) :
    (c ∈ ignoredUnflagged → processOp env (cmdWord c p) s = s.setCmd c (cmdWord c p)) ∧
    (c ∈ ignoredFlushing →
      (cmdWord c p = s.gstate.cmdmem c → processOp env (cmdWord c p) s = s) ∧
      (cmdWord c p ≠ s.gstate.cmdmem c →
        processOp env (cmdWord c p) s =
          { s.setCmd c (cmdWord c p) with calls := s.calls ++ [Call.Flush s.gstate] })) := by
  have hcmd := cmdWord_shiftRight c p hp
  obtain ⟨h0, h2⟩ := constructed_ignored env.bPrescaleUV env.bSoftwareSkinning env.usingGLES2
  refine ⟨?_, ?_⟩
  · intro hc
    have hfl : s.commandFlags_ (cmdWord c p >>> 24) = 0 := by
      rw [hcmd, hT]
      exact h0 c hc
    rw [processOp_flags_none env _ s hfl, hcmd]
  · intro hc
    have hfl : s.commandFlags_ (cmdWord c p >>> 24) = FLAG_FLUSHBEFOREONCHANGE := by
      rw [hcmd, hT]
      exact h2 c hc
    rw [processOp_flags_flushOnChange env _ s hfl, hcmd]
    refine ⟨?_, ?_⟩
    · intro heq
      rw [if_pos heq, heq]
      exact setCmd_self s c
    · intro hne
      rw [if_neg hne]
      rfl

set_option maxRecDepth 100000 in
/-- Witness for C26 (amended): a `NOP` command and a `DITHERENABLE` command on a freshly
constructed core. -/
theorem ignored_families_witness :
    processOp Env.sample (cmdWord GE_CMD_NOP 0x123456) GPU.sample =
      GPU.sample.setCmd GE_CMD_NOP (cmdWord GE_CMD_NOP 0x123456) ∧
    processOp Env.sample (cmdWord GE_CMD_DITHERENABLE 1) GPU.sample =
      { GPU.sample.setCmd GE_CMD_DITHERENABLE (cmdWord GE_CMD_DITHERENABLE 1) with
        calls := GPU.sample.calls ++ [Call.Flush GPU.sample.gstate] } :=
  ⟨(ignored_families Env.sample GPU.sample GE_CMD_NOP 0x123456 (by decide) rfl).1 (by decide),
   ((ignored_families Env.sample GPU.sample GE_CMD_DITHERENABLE 1 (by decide) rfl).2
      (by decide)).2 (by decide)⟩

/-! ## The `VERTEXTYPE` command -/

theorem selectCase_vertextype (g : Bool) : selectCase g GE_CMD_VERTEXTYPE = OpCase.VERTEXTYPE := by
  cases g <;> decide

theorem constructed_vertexType_noskinning (a g : Bool) :
    commandFlagsOf a false g GE_CMD_VERTEXTYPE =
      FLAG_FLUSHBEFOREONCHANGE ||| FLAG_EXECUTEONCHANGE := by
  rw [commandFlagsOf, constructFlags, applyConfig_apply,
    seeded_flags_switch_opcodes g GE_CMD_VERTEXTYPE (by simp)]
  cases a <;> rfl

theorem xor_cancel_left (a b : Nat) : a ^^^ (a ^^^ b) = b := by
  rw [← Nat.xor_assoc, Nat.xor_self, Nat.zero_xor]

theorem xor_cancel_right (a b : Nat) : b ^^^ (a ^^^ b) = a := by
  rw [Nat.xor_comm a b, xor_cancel_left]

theorem texCoordThrough_outside_weightCount (diff : Nat)
    (h : diff &&& (GE_VTYPE_TC_MASK ||| GE_VTYPE_THROUGH_MASK) ≠ 0) :
    diff &&& (0xFFFFFFFF ^^^ GE_VTYPE_WEIGHTCOUNT_MASK) ≠ 0 := by
  intro h0
  apply h
  have hm : (0xFFFFFFFF ^^^ GE_VTYPE_WEIGHTCOUNT_MASK) &&&
      (GE_VTYPE_TC_MASK ||| GE_VTYPE_THROUGH_MASK) =
      GE_VTYPE_TC_MASK ||| GE_VTYPE_THROUGH_MASK := by decide
  rw [← hm, ← Nat.and_assoc, h0, Nat.zero_and]

/-- The loop body on a `VERTEXTYPE` command, software skinning disabled. -/
theorem processOp_vertextype_noskin (env : Env) (s : GPU) (p : Nat) (hp : p < 2 ^ 24)
    (hT : s.commandFlags_ = commandFlagsOf env.bPrescaleUV env.bSoftwareSkinning env.usingGLES2)
    (hsw : env.bSoftwareSkinning = false) :
    processOp env (cmdWord GE_CMD_VERTEXTYPE p) s =
      if (cmdWord GE_CMD_VERTEXTYPE p ^^^ s.gstate.cmdmem GE_CMD_VERTEXTYPE) &&&
          (GE_VTYPE_TC_MASK ||| GE_VTYPE_THROUGH_MASK) ≠ 0 then
        ((s.Flush).setCmd GE_CMD_VERTEXTYPE (cmdWord GE_CMD_VERTEXTYPE p)).DirtyUniform
          DirtyGroup.UVSCALEOFFSET
      else
        (if cmdWord GE_CMD_VERTEXTYPE p = s.gstate.cmdmem GE_CMD_VERTEXTYPE then s
          else s.Flush).setCmd GE_CMD_VERTEXTYPE (cmdWord GE_CMD_VERTEXTYPE p) := by
  have hcmd := cmdWord_shiftRight GE_CMD_VERTEXTYPE p hp
  have hfl : s.commandFlags_ (cmdWord GE_CMD_VERTEXTYPE p >>> 24) =
      FLAG_FLUSHBEFOREONCHANGE ||| FLAG_EXECUTEONCHANGE := by
    rw [hcmd, hT, hsw]
    exact constructed_vertexType_noskinning _ _
  rw [processOp_flags_flushOnChange_execute env _ s (Or.inr hfl), hcmd]
  simp only [ExecuteOpInternal, hcmd, selectCase_vertextype, runCase, execVERTEXTYPE, hsw]
  by_cases heq : cmdWord GE_CMD_VERTEXTYPE p = s.gstate.cmdmem GE_CMD_VERTEXTYPE
  · have hx : cmdWord GE_CMD_VERTEXTYPE p ^^^ s.gstate.cmdmem GE_CMD_VERTEXTYPE = 0 :=
      Nat.xor_eq_zero.mpr heq
    simp [hx, heq]
  · have hx : cmdWord GE_CMD_VERTEXTYPE p ^^^ s.gstate.cmdmem GE_CMD_VERTEXTYPE ≠ 0 :=
      Nat.xor_ne_zero.mpr heq
    simp [hx, heq]

/-- The loop body on a `VERTEXTYPE` command, software skinning enabled. -/
theorem processOp_vertextype_skin (env : Env) (s : GPU) (p : Nat) (hp : p < 2 ^ 24)
    (hT : s.commandFlags_ = commandFlagsOf env.bPrescaleUV env.bSoftwareSkinning env.usingGLES2)
    (hsw : env.bSoftwareSkinning = true) :
    processOp env (cmdWord GE_CMD_VERTEXTYPE p) s =
      if (cmdWord GE_CMD_VERTEXTYPE p ^^^ s.gstate.cmdmem GE_CMD_VERTEXTYPE) &&&
          (0xFFFFFFFF ^^^ GE_VTYPE_WEIGHTCOUNT_MASK) ≠ 0 then
        { s.setCmd GE_CMD_VERTEXTYPE (cmdWord GE_CMD_VERTEXTYPE p) with
          calls := s.calls ++ Call.Flush s.gstate ::
            (if (cmdWord GE_CMD_VERTEXTYPE p ^^^ s.gstate.cmdmem GE_CMD_VERTEXTYPE) &&&
                (GE_VTYPE_TC_MASK ||| GE_VTYPE_THROUGH_MASK) ≠ 0 then
              [Call.DirtyUniform DirtyGroup.UVSCALEOFFSET]
            else []) }
      else s.setCmd GE_CMD_VERTEXTYPE (cmdWord GE_CMD_VERTEXTYPE p) := by
  have hcmd := cmdWord_shiftRight GE_CMD_VERTEXTYPE p hp
  have hfl : s.commandFlags_ (cmdWord GE_CMD_VERTEXTYPE p >>> 24) = FLAG_EXECUTEONCHANGE := by
    rw [hcmd, hT, hsw]
    exact constructed_vertexType_skinning _ _
  rw [processOp_flags_executeOnChange env _ s hfl, hcmd]
  simp only [ExecuteOpInternal, hcmd, selectCase_vertextype, runCase, execVERTEXTYPE, hsw]
  by_cases hout : (cmdWord GE_CMD_VERTEXTYPE p ^^^ s.gstate.cmdmem GE_CMD_VERTEXTYPE) &&&
      (0xFFFFFFFF ^^^ GE_VTYPE_WEIGHTCOUNT_MASK) ≠ 0
  · have hx : cmdWord GE_CMD_VERTEXTYPE p ^^^ s.gstate.cmdmem GE_CMD_VERTEXTYPE ≠ 0 := by
      intro h0
      rw [h0, Nat.zero_and] at hout
      exact hout rfl
    have hg : ((s.setCmd GE_CMD_VERTEXTYPE (cmdWord GE_CMD_VERTEXTYPE p)).setCmd
        GE_CMD_VERTEXTYPE
        ((s.setCmd GE_CMD_VERTEXTYPE (cmdWord GE_CMD_VERTEXTYPE p)).gstate.cmdmem
            GE_CMD_VERTEXTYPE ^^^
          (cmdWord GE_CMD_VERTEXTYPE p ^^^ s.gstate.cmdmem GE_CMD_VERTEXTYPE))) = s := by
      simp only [GPU.setCmd, Function.update_same, xor_cancel_left, Function.update_idem,
        Function.update_eq_self]
    rw [if_pos hx, if_pos hout, if_pos hout, hg]
    simp only [Bool.not_eq_true, Bool.true_eq_false, not_false_eq_true, if_false, if_true,
      GPU.Flush, GPU.call, GPU.setCmd, Function.update_same, xor_cancel_right, GPU.DirtyUniform]
    simp only [not_true_eq_false, if_false]
    split_ifs <;> simp
  · by_cases hx : cmdWord GE_CMD_VERTEXTYPE p ^^^ s.gstate.cmdmem GE_CMD_VERTEXTYPE ≠ 0
    · rw [if_pos hx, if_neg hout, if_neg hout]
      simp
    · rw [if_neg hx, if_neg hout]

/-- C27. Vertex type under software skinning: on a core constructed with software skinning
enabled, a `VERTEXTYPE` command whose changed bits all lie inside the weight-count field
only stores the word (no flush, nothing marked dirty); a command that changes any bit
outside the weight-count field causes exactly one flush, recorded under the registers as
they were before the command (the vertex-type slot holding the previous word), after which
the slot holds the new word. -/
theorem vertextype_software_skinning (env : Env) (s : GPU) (p : Nat) (hp : p < 2 ^ 24)
    (hT : s.commandFlags_ = commandFlagsOf env.bPrescaleUV env.bSoftwareSkinning env.usingGLES2)
    (hsw : env.bSoftwareSkinning = true) :
    (¬ changesOutsideWeightCount
        (cmdWord GE_CMD_VERTEXTYPE p ^^^ s.gstate.cmdmem GE_CMD_VERTEXTYPE) →
      processOp env (cmdWord GE_CMD_VERTEXTYPE p) s =
        s.setCmd GE_CMD_VERTEXTYPE (cmdWord GE_CMD_VERTEXTYPE p) ∧
      (processOp env (cmdWord GE_CMD_VERTEXTYPE p) s).calls = s.calls) ∧
    (changesOutsideWeightCount
        (cmdWord GE_CMD_VERTEXTYPE p ^^^ s.gstate.cmdmem GE_CMD_VERTEXTYPE) →
      flushCount (processOp env (cmdWord GE_CMD_VERTEXTYPE p) s).calls =
        flushCount s.calls + 1 ∧
      (∃ rest, (processOp env (cmdWord GE_CMD_VERTEXTYPE p) s).calls =
        s.calls ++ Call.Flush s.gstate :: rest ∧ flushCount rest = 0) ∧
      (processOp env (cmdWord GE_CMD_VERTEXTYPE p) s).gstate.cmdmem GE_CMD_VERTEXTYPE =
        cmdWord GE_CMD_VERTEXTYPE p) := by
  rw [processOp_vertextype_skin env s p hp hT hsw]
  unfold changesOutsideWeightCount
  refine ⟨?_, ?_⟩
  · intro h
    rw [if_neg h]
    exact ⟨rfl, rfl⟩
  · intro h
    rw [if_pos h]
    refine ⟨?_, ⟨_, rfl, ?_⟩, ?_⟩
    · simp only [flushCount, List.countP_append, List.countP_cons, Call.isFlush]
      split_ifs <;> simp [Call.isFlush]
    · split_ifs <;> simp [flushCount, Call.isFlush]
    · simp [GPU.setCmd]

set_option maxRecDepth 100000 in
/-- Witness for C27: on a core constructed with software skinning, a `VERTEXTYPE` command
that sets the through-mode bit flushes once. -/
theorem vertextype_software_skinning_witness :
    flushCount (processOp Env.skinning (cmdWord GE_CMD_VERTEXTYPE 0x800000)
        GPU.sampleSkinning).calls = flushCount GPU.sampleSkinning.calls + 1 :=
  ((vertextype_software_skinning Env.skinning GPU.sampleSkinning 0x800000 (by decide) rfl
    rfl).2 (by unfold changesOutsideWeightCount; decide)).1

/-- C29. Vertex type and the UV uniform: on a core with the constructed flag table, in both
skinning modes, a `VERTEXTYPE` command calls `DirtyUniform(UVSCALEOFFSET)` (once) if and
only if its diff has a bit set in the texture-coordinate field or the through-mode bit, and
it makes no `DirtyUniform` call for any other group. -/
theorem vertextype_uv_uniform (env : Env) (s : GPU) (p : Nat) (hp : p < 2 ^ 24)
    (hT : s.commandFlags_ = commandFlagsOf env.bPrescaleUV env.bSoftwareSkinning env.usingGLES2) :
    (changesTexCoordOrThrough
        (cmdWord GE_CMD_VERTEXTYPE p ^^^ s.gstate.cmdmem GE_CMD_VERTEXTYPE) →
      dirtyCount DirtyGroup.UVSCALEOFFSET (processOp env (cmdWord GE_CMD_VERTEXTYPE p) s).calls =
        dirtyCount DirtyGroup.UVSCALEOFFSET s.calls + 1 ∧
      dirtyUniformCount (processOp env (cmdWord GE_CMD_VERTEXTYPE p) s).calls =
        dirtyUniformCount s.calls + 1) ∧
    (¬ changesTexCoordOrThrough
        (cmdWord GE_CMD_VERTEXTYPE p ^^^ s.gstate.cmdmem GE_CMD_VERTEXTYPE) →
      dirtyUniformCount (processOp env (cmdWord GE_CMD_VERTEXTYPE p) s).calls =
        dirtyUniformCount s.calls) := by
  unfold changesTexCoordOrThrough
  cases hsw : env.bSoftwareSkinning
  · rw [processOp_vertextype_noskin env s p hp hT hsw]
    refine ⟨?_, ?_⟩
    · intro h
      rw [if_pos h]
      simp [GPU.DirtyUniform, GPU.call, GPU.Flush, GPU.setCmd, dirtyCount, dirtyUniformCount,
        List.countP_append, Call.isDirty, Call.isDirtyUniform]
    · intro h
      rw [if_neg h]
      split_ifs <;>
        simp [GPU.call, GPU.Flush, GPU.setCmd, dirtyUniformCount, List.countP_append,
          Call.isDirtyUniform]
  · rw [processOp_vertextype_skin env s p hp hT hsw]
    refine ⟨?_, ?_⟩
    · intro h
      rw [if_pos (texCoordThrough_outside_weightCount _ h), if_pos h]
      simp [dirtyCount, dirtyUniformCount, List.countP_append, List.countP_cons, Call.isDirty,
        Call.isDirtyUniform]
    · intro h
      rw [if_neg h]
      split_ifs <;>
        simp [GPU.setCmd, dirtyUniformCount, List.countP_append, List.countP_cons,
          Call.isDirtyUniform]

set_option maxRecDepth 100000 in
/-- Witness for C29: a `VERTEXTYPE` command that sets a texture-coordinate format on a
freshly constructed core. -/
theorem vertextype_uv_uniform_witness :
    dirtyCount DirtyGroup.UVSCALEOFFSET
        (processOp Env.sample (cmdWord GE_CMD_VERTEXTYPE 0x000002) GPU.sample).calls =
      dirtyCount DirtyGroup.UVSCALEOFFSET GPU.sample.calls + 1 :=
  ((vertextype_uv_uniform Env.sample GPU.sample 0x000002 (by decide) rfl).1
    (by unfold changesTexCoordOrThrough; decide)).1

/-! ## Matrix seek and sequential write -/

theorem and_indexMask (f : MatrixFamily) (k : Nat) : k &&& f.indexMask = k % (f.indexMask + 1) := by
  cases f
  · exact Nat.and_pow_two_sub_one_eq_mod k 4
  · exact Nat.and_pow_two_sub_one_eq_mod k 4
  · exact Nat.and_pow_two_sub_one_eq_mod k 4
  · exact Nat.and_pow_two_sub_one_eq_mod k 4
  · exact Nat.and_pow_two_sub_one_eq_mod k 7

theorem word_and_fullMask (f : MatrixFamily) (k : Nat) (hk : k < 2 ^ 24) :
    cmdWord f.numberOp k &&& (0xFF000000 ||| f.indexMask) =
      cmdWord f.numberOp (k &&& f.indexMask) := by
  unfold cmdWord
  cases f
  · exact word_and_mask4 _ k (by decide) hk
  · exact word_and_mask4 _ k (by decide) hk
  · exact word_and_mask4 _ k (by decide) hk
  · exact word_and_mask4 _ k (by decide) hk
  · exact word_and_mask7 _ k (by decide) hk

/-- The index register after a `*NUMBER` command: the opcode byte and the payload under the
index mask. -/
theorem processOp_matrixNumber_reg (env : Env) (s : GPU) (f : MatrixFamily) (k : Nat)
    (hk : k < 2 ^ 24)
    (hT : s.commandFlags_ = commandFlagsOf env.bPrescaleUV env.bSoftwareSkinning env.usingGLES2) :
    (processOp env (cmdWord f.numberOp k) s).gstate.cmdmem f.numberOp =
      cmdWord f.numberOp (k &&& f.indexMask) := by
  have hcmd := cmdWord_shiftRight f.numberOp k hk
  have hflag : s.commandFlags_ (cmdWord f.numberOp k >>> 24) = FLAG_EXECUTE := by
    rw [hcmd, hT]
    exact constructed_familyNumber _ _ _ f
  rw [processOp_execute_only env _ s hflag, hcmd]
  simp only [ExecuteOpInternal, hcmd, selectCase_familyNumber, runCase, execMatrixNumber,
    GPU.setCmd, Function.update_same]
  exact word_and_fullMask f k hk

/-- C28. Matrix seek and sequential write: on a core with the constructed flag table, for
each family, after a `*NUMBER` command with 24-bit payload `k` the index register is the
opcode byte together with `k`'s low bits (`k & 0xF` for world, view, projection and
texture-gen, `k & 0x7F` for bone), and the index is those low bits.  When `k` plus the
number of following `*DATA` commands `v0..vN` does not exceed the matrix size, after the
first `n` of them slots `k..k+n-1` hold `vj << 8` and every other slot of every matrix is
as before: the slots are written in increasing order and, at the end, slot `k+i` holds
`vi << 8` for every `i <= N`, all other slots unchanged. -/
theorem matrix_seek_write (env : Env) (s : GPU) (f : MatrixFamily) (k : Nat) (vs : List Nat)
    (hT : s.commandFlags_ = commandFlagsOf env.bPrescaleUV env.bSoftwareSkinning env.usingGLES2)
    (hk : k < 2 ^ 24) (hvs : ∀ v ∈ vs, v < 2 ^ 24) :
    (processOp env (cmdWord f.numberOp k) s).gstate.cmdmem f.numberOp =
      cmdWord f.numberOp (k &&& f.indexMask) ∧
    f.index (processOp env (cmdWord f.numberOp k) s).gstate = k &&& f.indexMask ∧
    f.indexMask = (if f = MatrixFamily.bone then 0x7F else 0xF) ∧
    (k + vs.length ≤ f.size → ∀ n, n ≤ vs.length →
      (∀ j, j < n →
        f.matrix (processOps env (cmdWord f.numberOp k ::
          (vs.take n).map (cmdWord f.dataOp)) s).gstate (k + j) = vs.getD j 0 <<< 8) ∧
      (∀ j, (j < k ∨ k + n ≤ j) →
        f.matrix (processOps env (cmdWord f.numberOp k ::
          (vs.take n).map (cmdWord f.dataOp)) s).gstate j = f.matrix s.gstate j) ∧
      (∀ f' : MatrixFamily, f' ≠ f →
        f'.matrix (processOps env (cmdWord f.numberOp k ::
          (vs.take n).map (cmdWord f.dataOp)) s).gstate = f'.matrix s.gstate)) := by
  obtain ⟨hm0, hi0, _, hfl0⟩ := processOp_matrixNumber env s f k hk hT
  have hT0 := hfl0.trans hT
  have hidx : f.index (processOp env (cmdWord f.numberOp k) s).gstate = k &&& f.indexMask := by
    have := hi0 f
    rw [if_pos rfl] at this
    rw [this, and_indexMask]
  refine ⟨processOp_matrixNumber_reg env s f k hk hT, hidx, by cases f <;> rfl, ?_⟩
  intro hfit n hn
  have hsz := size_le_indexMask f
  by_cases h0 : n = 0
  · subst h0
    simp only [List.take_zero, List.map_nil, processOps_cons, processOps_nil]
    exact ⟨fun j hj => absurd hj (Nat.not_lt_zero j), fun j _ => by rw [hm0 f],
      fun f' _ => hm0 f'⟩
  have hkk : k &&& f.indexMask = k := by
    rw [and_indexMask]
    exact Nat.mod_eq_of_lt (by omega)
  rw [hkk] at hidx
  have hlenn : (vs.take n).length = n := by
    rw [List.length_take]
    omega
  obtain ⟨h1, h2, h3, _⟩ := processOps_data env f (vs.take n)
    (processOp env (cmdWord f.numberOp k) s)
    (fun v hv => hvs v (List.mem_of_mem_take hv)) hT0
    (by rw [hidx, hlenn]; omega)
  rw [hidx, hlenn] at h1 h2
  rw [processOps_cons]
  refine ⟨?_, ?_, ?_⟩
  · intro j hj
    refine (h1 j hj).trans ?_
    congr 1
    simp [List.getD_eq_getElem?_getD, List.getElem?_take, hj]
  · intro j hj
    rw [h2 j hj, hm0 f]
  · intro f' hff
    rw [h3 f' hff, hm0 f']

set_option maxRecDepth 100000 in
/-- Witness for C28: a seek to bone slot 24 followed by three `BONEMATRIXDATA` commands on a
freshly constructed core. -/
theorem matrix_seek_write_witness :
    MatrixFamily.bone.matrix (processOps Env.sample (cmdWord MatrixFamily.bone.numberOp 24 ::
        ([1, 2, 3].take 3).map (cmdWord MatrixFamily.bone.dataOp)) GPU.sample).gstate (24 + 2)
      = [1, 2, 3].getD 2 0 <<< 8 :=
  ((matrix_seek_write Env.sample GPU.sample MatrixFamily.bone 24 [1, 2, 3] rfl (by decide)
    (by decide)).2.2.2 (by decide) 3 (by decide)).1 2 (by decide)

/-! ## Light parameters -/

set_option maxRecDepth 100000 in
theorem seeded_lightPos (g : Bool) :
    ∀ l, l < 4 → ∀ c, c < 3 →
      (seedTable (commandTable g)).commandFlags_ (lightPosOp l c) =
          FLAG_FLUSHBEFOREONCHANGE ||| FLAG_EXECUTEONCHANGE ∧
        selectCase g (lightPosOp l c) = OpCase.lightVec 0 (3 * l + c) ∧
        lightPosOp l c ∉ [GE_CMD_TEXSCALEU, GE_CMD_TEXSCALEV, GE_CMD_TEXOFFSETU,
          GE_CMD_TEXOFFSETV, GE_CMD_VERTEXTYPE] := by
  cases g <;> decide!

set_option maxRecDepth 100000 in
theorem seeded_lightDir (g : Bool) :
    ∀ l, l < 4 → ∀ c, c < 3 →
      (seedTable (commandTable g)).commandFlags_ (lightDirOp l c) =
          FLAG_FLUSHBEFOREONCHANGE ||| FLAG_EXECUTEONCHANGE ∧
        selectCase g (lightDirOp l c) = OpCase.lightVec 1 (3 * l + c) ∧
        lightDirOp l c ∉ [GE_CMD_TEXSCALEU, GE_CMD_TEXSCALEV, GE_CMD_TEXOFFSETU,
          GE_CMD_TEXOFFSETV, GE_CMD_VERTEXTYPE] := by
  cases g <;> decide!

set_option maxRecDepth 100000 in
theorem seeded_lightAtt (g : Bool) :
    ∀ l, l < 4 → ∀ c, c < 3 →
      (seedTable (commandTable g)).commandFlags_ (lightAttOp l c) =
          FLAG_FLUSHBEFOREONCHANGE ||| FLAG_EXECUTEONCHANGE ∧
        selectCase g (lightAttOp l c) = OpCase.lightVec 2 (3 * l + c) ∧
        lightAttOp l c ∉ [GE_CMD_TEXSCALEU, GE_CMD_TEXSCALEV, GE_CMD_TEXOFFSETU,
          GE_CMD_TEXOFFSETV, GE_CMD_VERTEXTYPE] := by
  cases g <;> decide!

set_option maxRecDepth 100000 in
theorem seeded_lightColor (g : Bool) :
    ∀ l, l < 4 → ∀ c, c < 3 →
      (seedTable (commandTable g)).commandFlags_ (lightColorOp c l) =
          FLAG_FLUSHBEFOREONCHANGE ||| FLAG_EXECUTEONCHANGE ∧
        selectCase g (lightColorOp c l) = OpCase.lightColor (3 * l + c) ∧
        lightColorOp c l ∉ [GE_CMD_TEXSCALEU, GE_CMD_TEXSCALEV, GE_CMD_TEXOFFSETU,
          GE_CMD_TEXOFFSETV, GE_CMD_VERTEXTYPE] := by
  cases g <;> decide!

set_option maxRecDepth 100000 in
theorem seeded_lightScalar (g : Bool) :
    ∀ l, l < 4 →
      ((seedTable (commandTable g)).commandFlags_ (lightSpotCoefOp l) =
          FLAG_FLUSHBEFOREONCHANGE ||| FLAG_EXECUTEONCHANGE ∧
        selectCase g (lightSpotCoefOp l) = OpCase.LKS l ∧
        lightSpotCoefOp l ∉ [GE_CMD_TEXSCALEU, GE_CMD_TEXSCALEV, GE_CMD_TEXOFFSETU,
          GE_CMD_TEXOFFSETV, GE_CMD_VERTEXTYPE]) ∧
      ((seedTable (commandTable g)).commandFlags_ (lightAngleOp l) =
          FLAG_FLUSHBEFOREONCHANGE ||| FLAG_EXECUTEONCHANGE ∧
        selectCase g (lightAngleOp l) = OpCase.LKO l ∧
        lightAngleOp l ∉ [GE_CMD_TEXSCALEU, GE_CMD_TEXSCALEV, GE_CMD_TEXOFFSETU,
          GE_CMD_TEXOFFSETV, GE_CMD_VERTEXTYPE]) := by
  cases g <;> decide!

/-- The loop body on a command of an opcode flagged `FLUSHBEFOREONCHANGE | EXECUTEONCHANGE`
in the seeded table (and outside the configuration switches): nothing when the word equals
the mirrored word; otherwise a flush, the store, and the case body with a non-zero diff. -/
theorem processOp_onChange (env : Env) (s : GPU) (c p : Nat) (hp : p < 2 ^ 24)
    (hT : s.commandFlags_ = commandFlagsOf env.bPrescaleUV env.bSoftwareSkinning env.usingGLES2)
    (hs : (seedTable (commandTable env.usingGLES2)).commandFlags_ c =
      FLAG_FLUSHBEFOREONCHANGE ||| FLAG_EXECUTEONCHANGE)
    (hn : c ∉ [GE_CMD_TEXSCALEU, GE_CMD_TEXSCALEV, GE_CMD_TEXOFFSETU, GE_CMD_TEXOFFSETV,
      GE_CMD_VERTEXTYPE]) :
    processOp env (cmdWord c p) s =
      runCase env (selectCase env.usingGLES2 c) (cmdWord c p)
        (cmdWord c p ^^^ s.gstate.cmdmem c)
        ((if cmdWord c p = s.gstate.cmdmem c then s else s.Flush).setCmd c (cmdWord c p)) := by
  have hcmd := cmdWord_shiftRight c p hp
  have hfl : s.commandFlags_ (cmdWord c p >>> 24) =
      FLAG_FLUSHBEFOREONCHANGE ||| FLAG_EXECUTEONCHANGE := by
    rw [hcmd, hT]
    exact constructed_of_seeded _ _ _ _ _ hs hn
  rw [processOp_flags_flushOnChange_execute env _ s (Or.inr hfl), hcmd, ExecuteOpInternal, hcmd]

theorem three_mul_add_div (l c : Nat) (hc : c < 3) : (3 * l + c) / 3 = l := by omega

theorem three_mul_add_mod (l c : Nat) (hc : c < 3) : (3 * l + c) % 3 = c := by omega

/-- C30. Light parameters: on a core with the constructed flag table, for light `l < 4` and
component `c < 3`, a command of a light-parameter opcode whose word differs from the
mirrored word is processed as: a flush by the loop (under the old registers), the store of
the word, the update of the one cache entry the opcode names (position, direction or
attenuation component `c` of light `l`, its spot coefficient, its cutoff angle, or its
ambient/diffuse/specular colour `c`, the three channels being the bytes of the payload),
and one `DirtyUniform` call, for `LIGHT l`.  Nothing else changes: the rest of the derived
state, every other light's cached values included, is as before.  A command whose word
equals the mirrored word changes nothing. -/
theorem light_parameters (env : Env) (s : GPU) (l c p : Nat) (hl : l < 4) (hc : c < 3)
    (hp : p < 2 ^ 24)
    (hT : s.commandFlags_ = commandFlagsOf env.bPrescaleUV env.bSoftwareSkinning env.usingGLES2) :
    (cmdWord (lightPosOp l c) p ≠ s.gstate.cmdmem (lightPosOp l c) →
      processOp env (cmdWord (lightPosOp l c) p) s =
        { s.setCmd (lightPosOp l c) (cmdWord (lightPosOp l c) p) with
          gstate_c := { s.gstate_c with
            lightpos := Function.update s.gstate_c.lightpos l
              (Function.update (s.gstate_c.lightpos l) c (getFloat24 p)) },
          calls := s.calls ++ [Call.Flush s.gstate, Call.DirtyUniform (DirtyGroup.LIGHT l)] }) ∧
    (cmdWord (lightDirOp l c) p ≠ s.gstate.cmdmem (lightDirOp l c) →
      processOp env (cmdWord (lightDirOp l c) p) s =
        { s.setCmd (lightDirOp l c) (cmdWord (lightDirOp l c) p) with
          gstate_c := { s.gstate_c with
            lightdir := Function.update s.gstate_c.lightdir l
              (Function.update (s.gstate_c.lightdir l) c (getFloat24 p)) },
          calls := s.calls ++ [Call.Flush s.gstate, Call.DirtyUniform (DirtyGroup.LIGHT l)] }) ∧
    (cmdWord (lightAttOp l c) p ≠ s.gstate.cmdmem (lightAttOp l c) →
      processOp env (cmdWord (lightAttOp l c) p) s =
        { s.setCmd (lightAttOp l c) (cmdWord (lightAttOp l c) p) with
          gstate_c := { s.gstate_c with
            lightatt := Function.update s.gstate_c.lightatt l
              (Function.update (s.gstate_c.lightatt l) c (getFloat24 p)) },
          calls := s.calls ++ [Call.Flush s.gstate, Call.DirtyUniform (DirtyGroup.LIGHT l)] }) ∧
    (cmdWord (lightSpotCoefOp l) p ≠ s.gstate.cmdmem (lightSpotCoefOp l) →
      processOp env (cmdWord (lightSpotCoefOp l) p) s =
        { s.setCmd (lightSpotCoefOp l) (cmdWord (lightSpotCoefOp l) p) with
          gstate_c := { s.gstate_c with
            lightspotCoef := Function.update s.gstate_c.lightspotCoef l (getFloat24 p) },
          calls := s.calls ++ [Call.Flush s.gstate, Call.DirtyUniform (DirtyGroup.LIGHT l)] }) ∧
    (cmdWord (lightAngleOp l) p ≠ s.gstate.cmdmem (lightAngleOp l) →
      processOp env (cmdWord (lightAngleOp l) p) s =
        { s.setCmd (lightAngleOp l) (cmdWord (lightAngleOp l) p) with
          gstate_c := { s.gstate_c with
            lightangle := Function.update s.gstate_c.lightangle l (getFloat24 p) },
          calls := s.calls ++ [Call.Flush s.gstate, Call.DirtyUniform (DirtyGroup.LIGHT l)] }) ∧
    (cmdWord (lightColorOp c l) p ≠ s.gstate.cmdmem (lightColorOp c l) →
      processOp env (cmdWord (lightColorOp c l) p) s =
        { s.setCmd (lightColorOp c l) (cmdWord (lightColorOp c l) p) with
          gstate_c := { s.gstate_c with
            lightColor := Function.update s.gstate_c.lightColor c
              (Function.update (s.gstate_c.lightColor c) l
                (Function.update (Function.update (Function.update (s.gstate_c.lightColor c l)
                  0 (p &&& 0xff)) 1 ((p >>> 8) &&& 0xff)) 2 (p >>> 16))) },
          calls := s.calls ++ [Call.Flush s.gstate, Call.DirtyUniform (DirtyGroup.LIGHT l)] }) ∧
    (∀ op ∈ [lightPosOp l c, lightDirOp l c, lightAttOp l c, lightSpotCoefOp l, lightAngleOp l,
        lightColorOp c l],
      cmdWord op p = s.gstate.cmdmem op → processOp env (cmdWord op p) s = s) := by
  obtain ⟨hp1, hp2, hp3⟩ := seeded_lightPos env.usingGLES2 l hl c hc
  obtain ⟨hd1, hd2, hd3⟩ := seeded_lightDir env.usingGLES2 l hl c hc
  obtain ⟨ha1, ha2, ha3⟩ := seeded_lightAtt env.usingGLES2 l hl c hc
  obtain ⟨hc1, hc2, hc3⟩ := seeded_lightColor env.usingGLES2 l hl c hc
  obtain ⟨⟨hs1, hs2, hs3⟩, ⟨ho1, ho2, ho3⟩⟩ := seeded_lightScalar env.usingGLES2 l hl
  have hdiv := three_mul_add_div l c hc
  have hmod := three_mul_add_mod l c hc
  refine ⟨?_, ?_, ?_, ?_, ?_, ?_, ?_⟩
  · intro hne
    have hx : cmdWord (lightPosOp l c) p ^^^ s.gstate.cmdmem (lightPosOp l c) ≠ 0 :=
      Nat.xor_ne_zero.mpr hne
    rw [processOp_onChange env s _ p hp hT hp1 hp3, hp2, if_neg hne]
    simp [runCase, execLightVec, hx, cmdWord_payload _ _ hp, hdiv, hmod, GPU.Flush, GPU.call,
      GPU.setCmd, GPU.DirtyUniform]
  · intro hne
    have hx : cmdWord (lightDirOp l c) p ^^^ s.gstate.cmdmem (lightDirOp l c) ≠ 0 :=
      Nat.xor_ne_zero.mpr hne
    rw [processOp_onChange env s _ p hp hT hd1 hd3, hd2, if_neg hne]
    simp [runCase, execLightVec, hx, cmdWord_payload _ _ hp, hdiv, hmod, GPU.Flush, GPU.call,
      GPU.setCmd, GPU.DirtyUniform]
  · intro hne
    have hx : cmdWord (lightAttOp l c) p ^^^ s.gstate.cmdmem (lightAttOp l c) ≠ 0 :=
      Nat.xor_ne_zero.mpr hne
    rw [processOp_onChange env s _ p hp hT ha1 ha3, ha2, if_neg hne]
    simp [runCase, execLightVec, hx, cmdWord_payload _ _ hp, hdiv, hmod, GPU.Flush, GPU.call,
      GPU.setCmd, GPU.DirtyUniform]
  · intro hne
    have hx : cmdWord (lightSpotCoefOp l) p ^^^ s.gstate.cmdmem (lightSpotCoefOp l) ≠ 0 :=
      Nat.xor_ne_zero.mpr hne
    rw [processOp_onChange env s _ p hp hT hs1 hs3, hs2, if_neg hne]
    simp [runCase, execLKS, hx, cmdWord_payload _ _ hp, GPU.Flush, GPU.call,
      GPU.setCmd, GPU.DirtyUniform]
  · intro hne
    have hx : cmdWord (lightAngleOp l) p ^^^ s.gstate.cmdmem (lightAngleOp l) ≠ 0 :=
      Nat.xor_ne_zero.mpr hne
    rw [processOp_onChange env s _ p hp hT ho1 ho3, ho2, if_neg hne]
    simp [runCase, execLKO, hx, cmdWord_payload _ _ hp, GPU.Flush, GPU.call,
      GPU.setCmd, GPU.DirtyUniform]
  · intro hne
    have hx : cmdWord (lightColorOp c l) p ^^^ s.gstate.cmdmem (lightColorOp c l) ≠ 0 :=
      Nat.xor_ne_zero.mpr hne
    rw [processOp_onChange env s _ p hp hT hc1 hc3, hc2, if_neg hne]
    simp [runCase, execLightColor, hx, cmdWord_payload _ _ hp, hdiv, hmod, GPU.Flush, GPU.call,
      GPU.setCmd, GPU.DirtyUniform]
  · intro op hop heq
    have hx : cmdWord op p ^^^ s.gstate.cmdmem op = 0 := Nat.xor_eq_zero.mpr heq
    have hself : s.setCmd op (cmdWord op p) = s := by
      rw [heq]
      exact setCmd_self s op
    simp only [List.mem_cons, List.mem_singleton, List.not_mem_nil, or_false] at hop
    rcases hop with h | h | h | h | h | h <;> subst h
    · rw [processOp_onChange env s _ p hp hT hp1 hp3, hp2, if_pos heq, hself]
      simp [runCase, execLightVec, hx]
    · rw [processOp_onChange env s _ p hp hT hd1 hd3, hd2, if_pos heq, hself]
      simp [runCase, execLightVec, hx]
    · rw [processOp_onChange env s _ p hp hT ha1 ha3, ha2, if_pos heq, hself]
      simp [runCase, execLightVec, hx]
    · rw [processOp_onChange env s _ p hp hT hs1 hs3, hs2, if_pos heq, hself]
      simp [runCase, execLKS, hx]
    · rw [processOp_onChange env s _ p hp hT ho1 ho3, ho2, if_pos heq, hself]
      simp [runCase, execLKO, hx]
    · rw [processOp_onChange env s _ p hp hT hc1 hc3, hc2, if_pos heq, hself]
      simp [runCase, execLightColor, hx]

set_option maxRecDepth 100000 in
/-- Witness for C30: the `LY2` command (light 2, component 1 of the position) and the
`LDC1` command (diffuse colour of light 1) on a freshly constructed core. -/
theorem light_parameters_witness :
    lightPosOp 2 1 = GE_CMD_LY2 ∧ lightColorOp 1 1 = GE_CMD_LDC1 ∧
    processOp Env.sample (cmdWord (lightPosOp 2 1) 0x3F8000) GPU.sample =
      { GPU.sample.setCmd (lightPosOp 2 1) (cmdWord (lightPosOp 2 1) 0x3F8000) with
        gstate_c := { GPU.sample.gstate_c with
          lightpos := Function.update GPU.sample.gstate_c.lightpos 2
            (Function.update (GPU.sample.gstate_c.lightpos 2) 1 (getFloat24 0x3F8000)) },
        calls := GPU.sample.calls ++
          [Call.Flush GPU.sample.gstate, Call.DirtyUniform (DirtyGroup.LIGHT 2)] } :=
  ⟨rfl, rfl, (light_parameters Env.sample GPU.sample 2 1 0x3F8000 (by decide) (by decide)
    (by decide) rfl).1 (by decide)⟩

/-! ## Uniform groups -/

set_option maxRecDepth 100000 in
theorem seeded_uniformGroupTable (g : Bool) :
    ∀ e ∈ uniformGroupTable,
      (seedTable (commandTable g)).commandFlags_ e.1 =
          FLAG_FLUSHBEFOREONCHANGE ||| FLAG_EXECUTEONCHANGE ∧
      selectCase g e.1 = OpCase.dirty e.2 ∧
      e.1 ∉ [GE_CMD_TEXSCALEU, GE_CMD_TEXSCALEV, GE_CMD_TEXOFFSETU, GE_CMD_TEXOFFSETV,
        GE_CMD_VERTEXTYPE] := by
  cases g <;> decide!

/-- C31. Uniform group mapping: on a core with the constructed flag table, for each opcode
of the table (`FOGCOLOR` -> `FOGCOLOR`; `FOG1`, `FOG2` -> `FOGCOEF`; `AMBIENTCOLOR`,
`AMBIENTALPHA` -> `AMBIENT`; `MATERIALDIFFUSE` -> `MATDIFFUSE`; `MATERIALEMISSIVE` ->
`MATEMISSIVE`; `MATERIALAMBIENT`, `MATERIALALPHA` -> `MATAMBIENTALPHA`; `MATERIALSPECULAR`,
`MATERIALSPECULARCOEF` -> `MATSPECULAR`; `ALPHATEST`, `COLORREF` -> `ALPHACOLORREF`;
`TEXENVCOLOR` -> `TEXENV`; `STENCILTEST` -> `STENCILREPLACEVALUE`), a command whose word
differs from the mirrored word makes exactly two calls, the loop's flush and one
`DirtyUniform` of the listed group, and a command whose word equals the mirrored word
changes nothing and marks nothing dirty. -/
theorem uniform_group_mapping (env : Env) (s : GPU) (c : Nat) (what : DirtyGroup) (p : Nat)
    (hm : (c, what) ∈ uniformGroupTable) (hp : p < 2 ^ 24)
    (hT : s.commandFlags_ = commandFlagsOf env.bPrescaleUV env.bSoftwareSkinning env.usingGLES2) :
    (cmdWord c p ≠ s.gstate.cmdmem c →
      (processOp env (cmdWord c p) s).calls =
        s.calls ++ [Call.Flush s.gstate, Call.DirtyUniform what] ∧
      dirtyCount what (processOp env (cmdWord c p) s).calls = dirtyCount what s.calls + 1 ∧
      dirtyUniformCount (processOp env (cmdWord c p) s).calls = dirtyUniformCount s.calls + 1) ∧
    (cmdWord c p = s.gstate.cmdmem c →
      processOp env (cmdWord c p) s = s ∧
      dirtyUniformCount (processOp env (cmdWord c p) s).calls = dirtyUniformCount s.calls) := by
  obtain ⟨hs, hsel, hn⟩ := seeded_uniformGroupTable env.usingGLES2 (c, what) hm
  rw [processOp_onChange env s c p hp hT hs hn, hsel]
  refine ⟨?_, ?_⟩
  · intro hne
    have hx : cmdWord c p ^^^ s.gstate.cmdmem c ≠ 0 := Nat.xor_ne_zero.mpr hne
    simp [runCase, dirtyOnChange, hx, hne, GPU.DirtyUniform, GPU.call, GPU.Flush, GPU.setCmd,
      dirtyCount, dirtyUniformCount, List.countP_append, List.countP_cons, Call.isDirty,
      Call.isDirtyUniform]
  · intro heq
    have hx : cmdWord c p ^^^ s.gstate.cmdmem c = 0 := Nat.xor_eq_zero.mpr heq
    have hself : s.setCmd c (cmdWord c p) = s := by
      rw [heq]
      exact setCmd_self s c
    simp [runCase, dirtyOnChange, hx, heq, hself]
    rw [← heq, hself]
    simp

set_option maxRecDepth 100000 in
/-- Witness for C31: a `MATERIALALPHA` command on a freshly constructed core, whose slot
holds another word. -/
theorem uniform_group_mapping_witness :
    dirtyCount DirtyGroup.MATAMBIENTALPHA
        (processOp Env.sample (cmdWord GE_CMD_MATERIALALPHA 0x0000FF) GPU.sample).calls =
      dirtyCount DirtyGroup.MATAMBIENTALPHA GPU.sample.calls + 1 :=
  ((uniform_group_mapping Env.sample GPU.sample GE_CMD_MATERIALALPHA DirtyGroup.MATAMBIENTALPHA
    0x0000FF (by decide) (by decide) rfl).1 (by decide)).2.1

/-! ## `LOADCLUT` -/

set_option maxRecDepth 100000 in
theorem seeded_loadclut (g : Bool) :
    (seedTable (commandTable g)).commandFlags_ GE_CMD_LOADCLUT =
        FLAG_FLUSHBEFOREONCHANGE ||| FLAG_EXECUTE ∧
      selectCase g GE_CMD_LOADCLUT = OpCase.LOADCLUT := by
  cases g <;> decide!

/-- C32. `LOADCLUT` always loads: on a core with the constructed flag table, every
`LOADCLUT` command, whether or not its word equals the mirrored word, calls the texture
cache's `LoadClut` exactly once, as its last call, and leaves `textureChanged` true; the
only other call is the loop's flush, made before it (under the old registers) exactly when
the word differs from the mirrored word. -/
theorem loadclut_always_loads (env : Env) (s : GPU) (p : Nat) (hp : p < 2 ^ 24)
    (hT : s.commandFlags_ = commandFlagsOf env.bPrescaleUV env.bSoftwareSkinning env.usingGLES2) :
    (processOp env (cmdWord GE_CMD_LOADCLUT p) s).calls =
      s.calls ++
        (if cmdWord GE_CMD_LOADCLUT p = s.gstate.cmdmem GE_CMD_LOADCLUT then []
          else [Call.Flush s.gstate]) ++ [Call.LoadClut] ∧
    ((processOp env (cmdWord GE_CMD_LOADCLUT p) s).calls.drop s.calls.length).countP
      Call.isLoadClut = 1 ∧
    (processOp env (cmdWord GE_CMD_LOADCLUT p) s).gstate_c.textureChanged = true := by
  have hcmd := cmdWord_shiftRight GE_CMD_LOADCLUT p hp
  obtain ⟨hs, hsel⟩ := seeded_loadclut env.usingGLES2
  have hfl : s.commandFlags_ (cmdWord GE_CMD_LOADCLUT p >>> 24) =
      FLAG_FLUSHBEFOREONCHANGE ||| FLAG_EXECUTE := by
    rw [hcmd, hT]
    exact constructed_of_seeded _ _ _ _ _ hs (by decide)
  rw [processOp_flags_flushOnChange_execute env _ s (Or.inl hfl), hcmd]
  simp only [ExecuteOpInternal, hcmd, hsel, runCase]
  by_cases heq : cmdWord GE_CMD_LOADCLUT p = s.gstate.cmdmem GE_CMD_LOADCLUT
  · simp [heq, GPU.setTextureChanged, GPU.call, GPU.setCmd, Call.isLoadClut]
  · simp [heq, GPU.setTextureChanged, GPU.call, GPU.setCmd, GPU.Flush, Call.isLoadClut,
      List.countP_cons]

set_option maxRecDepth 100000 in
/-- Witness for C32: a `LOADCLUT` command on a freshly constructed core. -/
theorem loadclut_always_loads_witness :
    (processOp Env.sample (cmdWord GE_CMD_LOADCLUT 0x000020) GPU.sample).gstate_c.textureChanged
      = true :=
  (loadclut_always_loads Env.sample GPU.sample 0x000020 (by decide) rfl).2.2

/-! ## Update-from-memory hint -/

/-- C33. Update-from-memory hint: in a transfer that passes validation, among the calls the
transfer makes there is exactly one `UpdateFromMemory`, with the destination base, the size
`(dstY + height) * dstStride * bpp` (32-bit) and `safe = true`, if the source base is a RAM
address, the destination base is a VRAM address, the strides are equal and `srcX`, `srcY`,
`dstX`, `dstY` are all zero; otherwise there is none. -/
theorem update_from_memory_hint (env : Env) (s : GPU)
    (hv : transferValid env (readTransferRegs env s.gstate) = true) :
    (updateFromMemoryCondition env (readTransferRegs env s.gstate) →
      ((DoBlockTransfer env s).calls.drop s.calls.length).filter Call.isUpdateFromMemory =
        [Call.UpdateFromMemory (readTransferRegs env s.gstate).dstBasePtr
          ((((readTransferRegs env s.gstate).dstY + (readTransferRegs env s.gstate).height) *
            (readTransferRegs env s.gstate).dstStride * (readTransferRegs env s.gstate).bpp) %
              2 ^ 32) true]) ∧
    (¬ updateFromMemoryCondition env (readTransferRegs env s.gstate) →
      ((DoBlockTransfer env s).calls.drop s.calls.length).filter Call.isUpdateFromMemory = []) ∧
    (∃ rest, (DoBlockTransfer env s).calls = s.calls ++ rest) := by
  simp only [transferValid, Bool.and_eq_true] at hv
  obtain ⟨⟨⟨h1, h2⟩, h3⟩, h4⟩ := hv
  unfold DoBlockTransfer updateFromMemoryCondition
  simp only [h1, h2, h3, h4, not_true_eq_false, if_false, GPU.call]
  refine ⟨?_, ?_, ?_⟩
  · rintro ⟨hc1, hc2⟩
    rw [if_pos hc1, if_pos hc2]
    split_ifs <;> simp [List.append_assoc, List.filter_cons, Call.isUpdateFromMemory]
  · intro hc
    by_cases hc1 : env.IsRAMAddress (readTransferRegs env s.gstate).srcBasePtr = true ∧
        env.IsVRAMAddress (readTransferRegs env s.gstate).dstBasePtr = true
    · have hc2 : ¬ ((readTransferRegs env s.gstate).dstStride =
          (readTransferRegs env s.gstate).srcStride ∧ (readTransferRegs env s.gstate).dstY = 0 ∧
          (readTransferRegs env s.gstate).dstX = 0 ∧ (readTransferRegs env s.gstate).srcX = 0 ∧
          (readTransferRegs env s.gstate).srcY = 0) := fun h => hc ⟨hc1, h⟩
      rw [if_pos hc1, if_neg hc2]
      split_ifs <;> simp [List.append_assoc, List.filter_cons, Call.isUpdateFromMemory]
    · rw [if_neg hc1]
      split_ifs <;> simp [List.append_assoc, List.filter_cons, Call.isUpdateFromMemory]
  · split_ifs <;> exact ⟨_, by simp only [List.append_assoc]; rfl⟩

set_option maxRecDepth 100000 in
/-- Witness for C33: a frame uploaded from RAM to the start of VRAM with equal strides and
zero offsets hints the framebuffer manager once. -/
theorem update_from_memory_hint_witness :
    ((DoBlockTransfer Env.upload GPU.sample).calls.drop GPU.sample.calls.length).filter
        Call.isUpdateFromMemory =
      [Call.UpdateFromMemory (readTransferRegs Env.upload GPU.sample.gstate).dstBasePtr
        ((((readTransferRegs Env.upload GPU.sample.gstate).dstY +
            (readTransferRegs Env.upload GPU.sample.gstate).height) *
          (readTransferRegs Env.upload GPU.sample.gstate).dstStride *
          (readTransferRegs Env.upload GPU.sample.gstate).bpp) % 2 ^ 32) true] :=
  (update_from_memory_hint Env.upload GPU.sample (by decide)).1
    (by unfold updateFromMemoryCondition; decide)

/-! ## The flush test of the loop and `CheckFlushOp` -/

/-- C39. The flush test inlined in `FastRunLoop` agrees with `CheckFlushOp`: for every
command word, state and flag table, the loop body is `CheckFlushOp(cmd, diff)` (which is
what `PreExecuteOp(op, diff)` does) followed by the mirror write and the execute test, with
`diff` the word xor the mirrored word; and for every opcode and diff `CheckFlushOp` calls
`Flush` exactly when the flags hold `FLUSHBEFORE`, or the diff is non-zero and they hold
`FLUSHBEFOREONCHANGE`.  (The log line under `dumpThisFrame_` has no counterpart in the
state.) -/
theorem loop_flush_agrees_with_CheckFlushOp (env : Env) (op : Nat) (s : GPU) :
    processOp env op s =
      (if s.commandFlags_ (op >>> 24) &&& FLAG_ANY_EXECUTE ≠ 0 then
        ExecuteOpInternal env op (op ^^^ s.gstate.cmdmem (op >>> 24))
          ((CheckFlushOp (op >>> 24) (op ^^^ s.gstate.cmdmem (op >>> 24)) s).setCmd
            (op >>> 24) op)
       else (CheckFlushOp (op >>> 24) (op ^^^ s.gstate.cmdmem (op >>> 24)) s).setCmd
          (op >>> 24) op) ∧
    (∀ diff, PreExecuteOp op diff s = CheckFlushOp (op >>> 24) diff s) ∧
    (∀ cmd diff,
      (s.commandFlags_ cmd &&& FLAG_FLUSHBEFORE ≠ 0 ∨
          (diff ≠ 0 ∧ s.commandFlags_ cmd &&& FLAG_FLUSHBEFOREONCHANGE ≠ 0) →
        CheckFlushOp cmd diff s = s.Flush ∧
        (CheckFlushOp cmd diff s).calls = s.calls ++ [Call.Flush s.gstate]) ∧
      (¬ (s.commandFlags_ cmd &&& FLAG_FLUSHBEFORE ≠ 0 ∨
          (diff ≠ 0 ∧ s.commandFlags_ cmd &&& FLAG_FLUSHBEFOREONCHANGE ≠ 0)) →
        CheckFlushOp cmd diff s = s)) := by
  refine ⟨rfl, fun _ => rfl, ?_⟩
  intro cmd diff
  refine ⟨?_, ?_⟩
  · intro h
    simp only [CheckFlushOp]
    rw [if_pos h]
    exact ⟨rfl, rfl⟩
  · intro h
    simp only [CheckFlushOp]
    rw [if_neg h]

set_option maxRecDepth 100000 in
/-- Witness for C39: `SIGNAL` is flagged `FLUSHBEFORE`, so `CheckFlushOp` flushes on a
freshly constructed core even with a zero diff. -/
theorem loop_flush_agrees_with_CheckFlushOp_witness :
    (CheckFlushOp GE_CMD_SIGNAL 0 GPU.sample).calls =
      GPU.sample.calls ++ [Call.Flush GPU.sample.gstate] :=
  (((loop_flush_agrees_with_CheckFlushOp Env.sample (cmdWord GE_CMD_SIGNAL 0) GPU.sample).2.2
    GE_CMD_SIGNAL 0).1 (Or.inl (by decide))).2

/-! ## Cache invalidation events -/

/-- C35 (as stated) fails: for the event `InvalidateCache{addr = 0x04000000, size = 0, kind =
HINT}` the texture cache receives `InvalidateAll` and the framebuffer manager is notified
all the same; for `InvalidateCache{addr = 0x04000000, size = 16, kind = ALL}` the texture
cache receives the range invalidation and the framebuffer manager is not notified. -/
theorem invalidate_all_still_notifies :
    (ProcessEvent EventHandlers.sample
      (GPUEvent.INVALIDATE_CACHE 0x04000000 0 GPUInvalidationType.GPU_INVALIDATE_HINT)
      GPU.sample).calls =
      [Call.InvalidateAll GPUInvalidationType.GPU_INVALIDATE_HINT,
        Call.UpdateFromMemory 0x04000000 0 false] ∧
    (ProcessEvent EventHandlers.sample
      (GPUEvent.INVALIDATE_CACHE 0x04000000 16 GPUInvalidationType.GPU_INVALIDATE_ALL)
      GPU.sample).calls =
      [Call.Invalidate 0x04000000 16 GPUInvalidationType.GPU_INVALIDATE_ALL] := by
  constructor <;> rfl

/-- C35 (amended). `InvalidateCache` handling: processing an `InvalidateCache{addr, size,
kind}` event makes exactly one texture-cache call, `Invalidate(addr, size, kind)` if
`size > 0` and `InvalidateAll(kind)` otherwise, and after it the framebuffer manager is
notified, by `UpdateFromMemory(addr, size, kind == SAFE)`, if and only if `kind` is not
`ALL`, whichever texture-cache call was made; nothing but the call trace changes. -/
theorem invalidate_cache_event (h : EventHandlers) (s : GPU) (addr : Nat) (size : Int)
    (kind : GPUInvalidationType) :
    (ProcessEvent h (GPUEvent.INVALIDATE_CACHE addr size kind) s).calls =
      s.calls ++
        [if size > 0 then Call.Invalidate addr (toU32 size) kind else Call.InvalidateAll kind] ++
        (if kind ≠ GPUInvalidationType.GPU_INVALIDATE_ALL then
          [Call.UpdateFromMemory addr (toU32 size)
            (decide (kind = GPUInvalidationType.GPU_INVALIDATE_SAFE))]
         else []) ∧
    ((ProcessEvent h (GPUEvent.INVALIDATE_CACHE addr size kind) s).calls.drop
      s.calls.length).countP Call.isTextureCacheInvalidation = 1 ∧
    ((ProcessEvent h (GPUEvent.INVALIDATE_CACHE addr size kind) s).calls.drop
      s.calls.length).countP Call.isUpdateFromMemory =
        (if kind ≠ GPUInvalidationType.GPU_INVALIDATE_ALL then 1 else 0) ∧
    ProcessEvent h (GPUEvent.INVALIDATE_CACHE addr size kind) s =
      { s with calls := (ProcessEvent h (GPUEvent.INVALIDATE_CACHE addr size kind) s).calls } ∧
    (0 < size → size < 2 ^ 31 → toU32 size = size.toNat) := by
  refine ⟨?_, ?_, ?_, ?_, ?_⟩
  · simp only [ProcessEvent, InvalidateCacheInternal, GPU.call]
    split_ifs <;> simp
  · simp only [ProcessEvent, InvalidateCacheInternal, GPU.call]
    split_ifs <;>
      simp [List.countP_cons, Call.isTextureCacheInvalidation]
  · simp only [ProcessEvent, InvalidateCacheInternal, GPU.call]
    split_ifs <;> simp [List.countP_cons, Call.isUpdateFromMemory]
  · simp only [ProcessEvent, InvalidateCacheInternal, GPU.call]
    split_ifs <;> rfl
  · intro h0 h1
    unfold toU32
    rw [Int.emod_eq_of_lt (le_of_lt h0) (lt_trans h1 (by norm_num))]

/-- Witness for C35 (amended): a range invalidation of 16 bytes; its size is passed on
unchanged. -/
theorem invalidate_cache_event_witness : toU32 16 = (16 : Int).toNat :=
  (invalidate_cache_event EventHandlers.sample GPU.sample 0x04000000 16
    GPUInvalidationType.GPU_INVALIDATE_HINT).2.2.2.2 (by decide) (by decide)

/-! ## Matrix writes stay in bounds -/

theorem and_15_lt (x : Nat) : x &&& 0xF < 16 := Nat.lt_succ_of_le Nat.and_le_right

theorem runCase_world_bounds (env : Env) (c : OpCase) (op diff : Nat) (s : GPU) (j : Nat)
    (hj : 12 ≤ j) :
    (runCase env c op diff s).gstate.worldMatrix j = s.gstate.worldMatrix j := by
  have h15 := and_15_lt (s.gstate.cmdmem GE_CMD_PROJMATRIXNUMBER)
  cases c <;>
    simp only [runCase, execPRIM, execBEZIER, execSPLINE, patchFront, execBOUNDINGBOX,
      execVERTEXTYPE, framebufChangedOnChange, textureChangedOnChange, dirtyOnChange, execUV,
      DoBlockTransfer, execTEXSIZE0, execLightVec, execLKS, execLKO, execLightColor,
      execMORPHWEIGHT, execMatrixNumber, execWORLDMATRIXDATA, execVIEWMATRIXDATA,
      execPROJMATRIXDATA, execTGENMATRIXDATA, execBONEMATRIXDATA, delegateToCommon,
      GPU.call, GPU.Flush, GPU.DirtyUniform, GPU.setCmd, GPU.setTextureChanged,
      GPU.setFramebufChanged, GPU.setBboxResult] <;>
    (try split_ifs) <;>
    first
      | rfl
      | (simp only [Function.update_apply]
         split_ifs <;> first | rfl | omega)

theorem runCase_view_bounds (env : Env) (c : OpCase) (op diff : Nat) (s : GPU) (j : Nat)
    (hj : 12 ≤ j) :
    (runCase env c op diff s).gstate.viewMatrix j = s.gstate.viewMatrix j := by
  have h15 := and_15_lt (s.gstate.cmdmem GE_CMD_PROJMATRIXNUMBER)
  cases c <;>
    simp only [runCase, execPRIM, execBEZIER, execSPLINE, patchFront, execBOUNDINGBOX,
      execVERTEXTYPE, framebufChangedOnChange, textureChangedOnChange, dirtyOnChange, execUV,
      DoBlockTransfer, execTEXSIZE0, execLightVec, execLKS, execLKO, execLightColor,
      execMORPHWEIGHT, execMatrixNumber, execWORLDMATRIXDATA, execVIEWMATRIXDATA,
      execPROJMATRIXDATA, execTGENMATRIXDATA, execBONEMATRIXDATA, delegateToCommon,
      GPU.call, GPU.Flush, GPU.DirtyUniform, GPU.setCmd, GPU.setTextureChanged,
      GPU.setFramebufChanged, GPU.setBboxResult] <;>
    (try split_ifs) <;>
    first
      | rfl
      | (simp only [Function.update_apply]
         split_ifs <;> first | rfl | omega)

theorem runCase_proj_bounds (env : Env) (c : OpCase) (op diff : Nat) (s : GPU) (j : Nat)
    (hj : 16 ≤ j) :
    (runCase env c op diff s).gstate.projMatrix j = s.gstate.projMatrix j := by
  have h15 := and_15_lt (s.gstate.cmdmem GE_CMD_PROJMATRIXNUMBER)
  cases c <;>
    simp only [runCase, execPRIM, execBEZIER, execSPLINE, patchFront, execBOUNDINGBOX,
      execVERTEXTYPE, framebufChangedOnChange, textureChangedOnChange, dirtyOnChange, execUV,
      DoBlockTransfer, execTEXSIZE0, execLightVec, execLKS, execLKO, execLightColor,
      execMORPHWEIGHT, execMatrixNumber, execWORLDMATRIXDATA, execVIEWMATRIXDATA,
      execPROJMATRIXDATA, execTGENMATRIXDATA, execBONEMATRIXDATA, delegateToCommon,
      GPU.call, GPU.Flush, GPU.DirtyUniform, GPU.setCmd, GPU.setTextureChanged,
      GPU.setFramebufChanged, GPU.setBboxResult] <;>
    (try split_ifs) <;>
    first
      | rfl
      | (simp only [Function.update_apply]
         split_ifs <;> first | rfl | omega)

theorem runCase_tgen_bounds (env : Env) (c : OpCase) (op diff : Nat) (s : GPU) (j : Nat)
    (hj : 12 ≤ j) :
    (runCase env c op diff s).gstate.tgenMatrix j = s.gstate.tgenMatrix j := by
  have h15 := and_15_lt (s.gstate.cmdmem GE_CMD_PROJMATRIXNUMBER)
  cases c <;>
    simp only [runCase, execPRIM, execBEZIER, execSPLINE, patchFront, execBOUNDINGBOX,
      execVERTEXTYPE, framebufChangedOnChange, textureChangedOnChange, dirtyOnChange, execUV,
      DoBlockTransfer, execTEXSIZE0, execLightVec, execLKS, execLKO, execLightColor,
      execMORPHWEIGHT, execMatrixNumber, execWORLDMATRIXDATA, execVIEWMATRIXDATA,
      execPROJMATRIXDATA, execTGENMATRIXDATA, execBONEMATRIXDATA, delegateToCommon,
      GPU.call, GPU.Flush, GPU.DirtyUniform, GPU.setCmd, GPU.setTextureChanged,
      GPU.setFramebufChanged, GPU.setBboxResult] <;>
    (try split_ifs) <;>
    first
      | rfl
      | (simp only [Function.update_apply]
         split_ifs <;> first | rfl | omega)

theorem runCase_bone_bounds (env : Env) (c : OpCase) (op diff : Nat) (s : GPU) (j : Nat)
    (hj : 96 ≤ j) :
    (runCase env c op diff s).gstate.boneMatrix j = s.gstate.boneMatrix j := by
  have h15 := and_15_lt (s.gstate.cmdmem GE_CMD_PROJMATRIXNUMBER)
  cases c <;>
    simp only [runCase, execPRIM, execBEZIER, execSPLINE, patchFront, execBOUNDINGBOX,
      execVERTEXTYPE, framebufChangedOnChange, textureChangedOnChange, dirtyOnChange, execUV,
      DoBlockTransfer, execTEXSIZE0, execLightVec, execLKS, execLKO, execLightColor,
      execMORPHWEIGHT, execMatrixNumber, execWORLDMATRIXDATA, execVIEWMATRIXDATA,
      execPROJMATRIXDATA, execTGENMATRIXDATA, execBONEMATRIXDATA, delegateToCommon,
      GPU.call, GPU.Flush, GPU.DirtyUniform, GPU.setCmd, GPU.setTextureChanged,
      GPU.setFramebufChanged, GPU.setBboxResult] <;>
    (try split_ifs) <;>
    first
      | rfl
      | (simp only [Function.update_apply]
         split_ifs <;> first | rfl | omega)

/-- No case body changes a matrix slot at or beyond the size of its matrix. -/
theorem runCase_matrix_bounds (env : Env) (c : OpCase) (op diff : Nat) (s : GPU)
    (f : MatrixFamily) (j : Nat) (hj : f.size ≤ j) :
    f.matrix (runCase env c op diff s).gstate j = f.matrix s.gstate j := by
  cases f
  · exact runCase_world_bounds env c op diff s j hj
  · exact runCase_view_bounds env c op diff s j hj
  · exact runCase_proj_bounds env c op diff s j hj
  · exact runCase_tgen_bounds env c op diff s j hj
  · exact runCase_bone_bounds env c op diff s j hj

theorem processOp_matrix_bounds (env : Env) (op : Nat) (s : GPU) (f : MatrixFamily) (j : Nat)
    (hj : f.size ≤ j) :
    f.matrix (processOp env op s).gstate j = f.matrix s.gstate j := by
  have hset : ∀ t : GPU, f.matrix (t.setCmd (op >>> 24) op).gstate j = f.matrix t.gstate j := by
    intro t
    cases f <;> rfl
  have hflush : f.matrix s.Flush.gstate j = f.matrix s.gstate j := rfl
  simp only [processOp, ExecuteOpInternal]
  split_ifs <;> simp only [runCase_matrix_bounds env _ _ _ _ f j hj, hset, hflush]

/-- C37. Matrix writes stay in bounds: for every sequence of command words, every flag
table and every initial state (so every initial value of the five index registers), no slot
at or beyond the size of its matrix (12 for world, view and texture-gen, 16 for projection,
96 for bone) is changed by the loop; a slot that a command changes has an index strictly
less than the size of its matrix.  The same holds for the executor run on any word and
diff. -/
theorem matrix_writes_in_bounds (env : Env) (s : GPU) (f : MatrixFamily) :
    (∀ ops j, f.size ≤ j → f.matrix (processOps env ops s).gstate j = f.matrix s.gstate j) ∧
    (∀ op j, f.matrix (processOp env op s).gstate j ≠ f.matrix s.gstate j → j < f.size) ∧
    (∀ op diff j,
      f.matrix (ExecuteOpInternal env op diff s).gstate j ≠ f.matrix s.gstate j → j < f.size) ∧
    f.size = (match f with
      | MatrixFamily.proj => 16
      | MatrixFamily.bone => 96
      | _ => 12) := by
  refine ⟨?_, ?_, ?_, by cases f <;> rfl⟩
  · intro ops
    induction ops generalizing s with
    | nil => intro j _; rfl
    | cons op ops ih =>
      intro j hj
      rw [processOps_cons, ih (processOp env op s) j hj, processOp_matrix_bounds env op s f j hj]
  · intro op j hne
    by_contra hlt
    exact hne (processOp_matrix_bounds env op s f j (by omega))
  · intro op diff j hne
    by_contra hlt
    exact hne (runCase_matrix_bounds env _ op diff s f j (by omega))

set_option maxRecDepth 100000 in
/-- Witness for C37: with the world index at 13, a `WORLDMATRIXDATA` command leaves slot 13
(beyond the 12 slots of the world matrix) as it is. -/
theorem matrix_writes_in_bounds_witness :
    MatrixFamily.world.matrix
        (processOps Env.sample [cmdWord GE_CMD_WORLDMATRIXNUMBER 13,
          cmdWord GE_CMD_WORLDMATRIXDATA 0x3F8000] GPU.sample).gstate 13 =
      MatrixFamily.world.matrix GPU.sample.gstate 13 :=
  (matrix_writes_in_bounds Env.sample GPU.sample MatrixFamily.world).1
    [cmdWord GE_CMD_WORLDMATRIXNUMBER 13, cmdWord GE_CMD_WORLDMATRIXDATA 0x3F8000] 13
    (by decide)

/-! ## The top byte of the mirror slots -/

set_option maxRecDepth 100000 in
theorem selectCase_keepsTopByte (g : Bool) :
    ∀ cmd, cmd < 256 → (selectCase g cmd).keepsTopByte = true ∧
      ∀ r, (selectCase g cmd).writesReg = some r → r < 256 := by
  have h : ∀ cmd, cmd < 256 → (selectCase g cmd).keepsTopByte = true ∧
      ((selectCase g cmd).writesReg.getD 0 < 256) := by
    cases g <;> decide!
  intro cmd hc
  refine ⟨(h cmd hc).1, ?_⟩
  intro r hr
  have := (h cmd hc).2
  rw [hr] at this
  exact this

theorem and_fullMask_shiftRight (x c mask : Nat) (hm : mask = 0xFF00000F ∨ mask = 0xFF00007F)
    (hx : x >>> 24 = c) (hc : c < 256) : (x &&& mask) >>> 24 = c := by
  apply Nat.eq_of_testBit_eq
  intro i
  have hxi : x.testBit (24 + i) = c.testBit i := by
    rw [← hx, Nat.testBit_shiftRight]
  rw [Nat.testBit_shiftRight, Nat.testBit_and, hxi]
  by_cases hi : i < 8
  · have hmi : mask.testBit (24 + i) = true := by
      rcases hm with h | h <;> subst h
      · rw [testBit_FF00000F]
        simp
        omega
      · rw [testBit_FF00007F]
        simp
        omega
    rw [hmi, Bool.and_true]
  · have hci : c.testBit i = false := testBit_of_lt_of_le (show c < 2 ^ 8 from hc) (by omega)
    rw [hci, Bool.false_and]

theorem word_decompose (x : Nat) : x = cmdWord (x >>> 24) (x &&& 0xFFFFFF) := by
  unfold cmdWord
  apply Nat.eq_of_testBit_eq
  intro i
  have hF : (0xFFFFFF : Nat).testBit i = decide (i < 24) := testBit_lowMask 24 i
  rw [Nat.testBit_or, Nat.testBit_shiftLeft, Nat.testBit_shiftRight, Nat.testBit_and, hF]
  by_cases hi : i < 24
  · have : ¬ 24 ≤ i := by omega
    simp [hi, this]
  · have h24 : 24 ≤ i := by omega
    have he : 24 + (i - 24) = i := by omega
    simp [hi, h24, he]

theorem payload_lt (x : Nat) : x &&& 0xFFFFFF < 2 ^ 24 :=
  Nat.lt_succ_of_le Nat.and_le_right

/-- A case body that keeps the top byte of the register it writes preserves the tagging of
the mirror. -/
theorem runCase_mirrorTagged (env : Env) (c : OpCase) (op diff : Nat) (s : GPU)
    (hk : c.keepsTopByte = true) (hr : ∀ r, c.writesReg = some r → r < 256)
    (ht : mirrorTagged s.gstate) : mirrorTagged (runCase env c op diff s).gstate := by
  intro j hj
  by_cases hw : c.writesReg = some j
  · cases c <;> simp only [OpCase.writesReg, Option.some.injEq, reduceCtorEq] at hw
    · rename_i numReg mask
      subst hw
      simp only [OpCase.keepsTopByte, decide_eq_true_eq] at hk
      simp only [runCase, execMatrixNumber, GPU.setCmd, Function.update_same]
      exact and_fullMask_shiftRight _ _ _ hk (ht numReg hj) hj
    · subst hw
      simp only [runCase, execWORLDMATRIXDATA, GPU.setCmd, Function.update_same]
      exact word_shiftRight _ _ (lt_of_le_of_lt Nat.and_le_right (by norm_num))
    · subst hw
      simp only [runCase, execVIEWMATRIXDATA, GPU.setCmd, Function.update_same]
      exact word_shiftRight _ _ (lt_of_le_of_lt Nat.and_le_right (by norm_num))
    · subst hw
      simp only [runCase, execPROJMATRIXDATA, GPU.setCmd, Function.update_same]
      exact word_shiftRight _ _ (lt_of_le_of_lt Nat.and_le_right (by norm_num))
    · subst hw
      simp only [runCase, execTGENMATRIXDATA, GPU.setCmd, Function.update_same]
      exact word_shiftRight _ _ (lt_of_le_of_lt Nat.and_le_right (by norm_num))
    · subst hw
      simp only [runCase, execBONEMATRIXDATA, GPU.setCmd, Function.update_same]
      exact word_shiftRight _ _ (lt_of_le_of_lt Nat.and_le_right (by norm_num))
  · rw [runCase_cmdmem env c op diff s j hw]
    exact ht j hj

theorem ExecuteOpInternal_mirrorTagged (env : Env) (op diff : Nat) (s : GPU)
    (hop : op < 2 ^ 32) (ht : mirrorTagged s.gstate) :
    mirrorTagged (ExecuteOpInternal env op diff s).gstate := by
  obtain ⟨hk, hr⟩ := selectCase_keepsTopByte env.usingGLES2 (op >>> 24) (shiftRight_lt_256 op hop)
  exact runCase_mirrorTagged env _ op diff s hk hr ht

theorem setCmd_mirrorTagged (s : GPU) (op : Nat) (ht : mirrorTagged s.gstate) :
    mirrorTagged (s.setCmd (op >>> 24) op).gstate := by
  intro j hj
  simp only [GPU.setCmd, Function.update_apply]
  split_ifs with h
  · exact h.symm
  · exact ht j hj

theorem processOp_mirrorTagged (env : Env) (op : Nat) (s : GPU) (hop : op < 2 ^ 32)
    (ht : mirrorTagged s.gstate) : mirrorTagged (processOp env op s).gstate := by
  have hflush : mirrorTagged s.Flush.gstate := ht
  simp only [processOp]
  split_ifs
  · exact ExecuteOpInternal_mirrorTagged env op _ _ hop (setCmd_mirrorTagged _ op hflush)
  · exact ExecuteOpInternal_mirrorTagged env op _ _ hop (setCmd_mirrorTagged _ op ht)
  · exact setCmd_mirrorTagged _ op hflush
  · exact setCmd_mirrorTagged _ op ht

/-- C36. Diff means payload change: the property that every mirror slot `c` holds a word
whose top byte is `c` is preserved by the loop body on every 32-bit command word (hence by
every sequence of them) and by the executor run on any 32-bit word and any diff, the matrix
`*NUMBER`/`*DATA` handlers that rewrite index registers included; under it, for every
opcode `c` and 24-bit payload `p` the diff of the command `(c, p)` against the mirror is
non-zero if and only if `p` differs from the payload stored in slot `c`. -/
theorem diff_means_payload_change (env : Env) (s : GPU) (ht : mirrorTagged s.gstate) :
    (∀ op, op < 2 ^ 32 → mirrorTagged (processOp env op s).gstate) ∧
    (∀ ops : List Nat, (∀ op ∈ ops, op < 2 ^ 32) →
      mirrorTagged (processOps env ops s).gstate) ∧
    (∀ op diff, op < 2 ^ 32 → mirrorTagged (ExecuteOpInternal env op diff s).gstate) ∧
    (∀ c p, c < 256 → p < 2 ^ 24 →
      (cmdWord c p ^^^ s.gstate.cmdmem c ≠ 0 ↔ p ≠ s.gstate.cmdmem c &&& 0xFFFFFF)) := by
  refine ⟨fun op hop => processOp_mirrorTagged env op s hop ht, ?_,
    fun op diff hop => ExecuteOpInternal_mirrorTagged env op diff s hop ht, ?_⟩
  · intro ops
    induction ops generalizing s with
    | nil => intro _; exact ht
    | cons op ops ih =>
      intro hops
      rw [processOps_cons]
      exact ih (processOp env op s)
        (processOp_mirrorTagged env op s (hops op (List.mem_cons_self _ _)) ht)
        (fun o ho => hops o (List.mem_cons_of_mem _ ho))
  · intro c p hc hp
    have hdec := word_decompose (s.gstate.cmdmem c)
    rw [ht c hc] at hdec
    rw [Nat.xor_ne_zero]
    constructor
    · intro hne heq
      apply hne
      rw [hdec, ← heq]
    · intro hne heq
      apply hne
      have := congrArg (· &&& 0xFFFFFF) heq
      simp only [cmdWord_payload c p hp] at this
      exact this

set_option maxRecDepth 100000 in
/-- Witness for C36: on a reset mirror, the command `(FOGCOLOR, 0x112233)` has a non-zero
diff, its payload differing from the stored payload 0. -/
theorem diff_means_payload_change_witness :
    cmdWord GE_CMD_FOGCOLOR 0x112233 ^^^ GPU.sampleReset.gstate.cmdmem GE_CMD_FOGCOLOR ≠ 0 ↔
      0x112233 ≠ GPU.sampleReset.gstate.cmdmem GE_CMD_FOGCOLOR &&& 0xFFFFFF :=
  (diff_means_payload_change Env.sample GPU.sampleReset
    (fun c _ => Nat.shiftLeft_shiftRight c 24)).2.2.2 GE_CMD_FOGCOLOR 0x112233 (by decide)
    (by decide)

/-! ## The addresses a transfer touches -/

/-- The copy loop changes no byte outside the destination rows. -/
theorem copyRows_outside (r : TransferRegs) (memory : Nat → Nat) (a : Nat) :
    ∀ n, (∀ y, y < n → ¬ inDstRow r y a) →
      (List.range n).foldl
        (fun m y => memcpy m (dstLineStartAddr r y) (srcLineStartAddr r y) (r.width * r.bpp))
        memory a = memory a := by
  intro n
  induction n with
  | zero => intro _; rfl
  | succ n ih =>
    intro ha
    have hn : ¬ inDstRow r n a := ha n (Nat.lt_succ_self n)
    unfold inDstRow rowBytes at hn
    rw [List.range_succ, List.foldl_append]
    simp only [List.foldl_cons, List.foldl_nil]
    unfold memcpy
    rw [if_neg hn]
    exact ih (fun y hy => ha y (Nat.lt_succ_of_lt hy))

/-- A byte that a transfer changes lies in a destination row. -/
theorem DoBlockTransfer_changed_in_row (env : Env) (s : GPU) (a : Nat)
    (hne : (DoBlockTransfer env s).memory a ≠ s.memory a) :
    ∃ y, y < (readTransferRegs env s.gstate).height ∧
      inDstRow (readTransferRegs env s.gstate) y a := by
  by_contra hno
  apply hne
  by_cases hv : transferValid env (readTransferRegs env s.gstate) = true
  · rw [DoBlockTransfer_memory env s hv]
    exact copyRows_outside _ _ a _ (fun y hy hin => hno ⟨y, hy, hin⟩)
  · rw [DoBlockTransfer_invalid env s (by simpa using hv)]

theorem toU32_natCast (n : Nat) (h : n < 2 ^ 32) : toU32 (n : Int) = n := by
  unfold toU32
  have h2 : ((n : Int) % 2 ^ 32) = (n : Int) :=
    Int.emod_eq_of_lt (Int.ofNat_nonneg n) (by exact_mod_cast h)
  rw [h2]
  exact Int.toNat_natCast n

/-- The value `lastAddr` of either rectangle, when the height and the width are positive
and one past the bottom-right pixel does not exceed `2^32`, and the line starts below
it. -/
theorem lastAddr_bracket (base X Y S w h bpp y b : Nat)
    (hnw : base + ((h - 1 + Y) * S + (X + w)) * bpp ≤ 2 ^ 32)
    (hy : y < h) (hb : b < w * bpp) :
    toU32 ((base : Int) + (((h : Int) - 1 + Y) * S + (X + w - 1)) * bpp) =
        base + ((h - 1 + Y) * S + (X + w - 1)) * bpp ∧
      (base + ((y + Y) * S + X) * bpp) % 2 ^ 32 = base + ((y + Y) * S + X) * bpp ∧
      base + ((y + Y) * S + X) * bpp + b ≤
        base + ((h - 1 + Y) * S + (X + w - 1)) * bpp + bpp - 1 := by
  have hw1 : 1 ≤ w := by
    rcases Nat.eq_zero_or_pos w with h0 | h0
    · rw [h0, Nat.zero_mul] at hb
      exact absurd hb (Nat.not_lt_zero b)
    · exact h0
  have hbpp : 1 ≤ bpp := by
    rcases Nat.eq_zero_or_pos bpp with h0 | h0
    · rw [h0, Nat.mul_zero] at hb
      exact absurd hb (Nat.not_lt_zero b)
    · exact h0
  have hh1 : 1 ≤ h := by omega
  have hm1 : (y + Y) * S ≤ (h - 1 + Y) * S := Nat.mul_le_mul_right _ (by omega)
  have hm2 : ((y + Y) * S + (X + w)) * bpp ≤ ((h - 1 + Y) * S + (X + w)) * bpp :=
    Nat.mul_le_mul_right _ (by omega)
  have e1 : ((y + Y) * S + (X + w)) * bpp = ((y + Y) * S + X) * bpp + w * bpp := by ring
  have e2 : ((h - 1 + Y) * S + (X + w)) * bpp =
      ((h - 1 + Y) * S + (X + w - 1)) * bpp + bpp := by
    have hk : X + w = (X + w - 1) + 1 := by omega
    conv_lhs => rw [hk]
    ring
  have hcast : (base : Int) + (((h : Int) - 1 + Y) * S + (X + w - 1)) * bpp =
      ((base + ((h - 1 + Y) * S + (X + w - 1)) * bpp : Nat) : Int) := by
    push_cast [Nat.cast_sub hh1, Nat.cast_sub (show 1 ≤ X + w by omega)]
    ring
  refine ⟨?_, ?_, ?_⟩
  · rw [hcast]
    exact toU32_natCast _ (by omega)
  · exact Nat.mod_eq_of_lt (by omega)
  · omega

theorem copyRowsUpTo_succ (r : TransferRegs) (memory : Nat → Nat) (n : Nat) :
    copyRowsUpTo r memory (n + 1) =
      memcpy (copyRowsUpTo r memory n) (dstLineStartAddr r n) (srcLineStartAddr r n)
        (r.width * r.bpp) := by
  unfold copyRowsUpTo
  rw [List.range_succ, List.foldl_append]
  rfl

/-- Iteration `y` of the copy loop stores at byte `b` of destination line `y` the byte it
reads at byte `b` of source line `y` in the memory left by the iterations before it. -/
theorem copyRowsUpTo_reads (r : TransferRegs) (memory : Nat → Nat) (y b : Nat)
    (hb : b < r.width * r.bpp) :
    copyRowsUpTo r memory (y + 1) (dstLineStartAddr r y + b) =
      copyRowsUpTo r memory y (srcLineStartAddr r y + b) := by
  rw [copyRowsUpTo_succ]
  unfold memcpy
  rw [if_pos ⟨Nat.le_add_right _ _, by omega⟩, Nat.add_sub_cancel_left]

/-- The copy loop reads nothing outside a range that holds all the source rows: two
memories that agree on the range are taken to memories that agree on the range and on every
destination row copied so far. -/
theorem copyRowsUpTo_agree (r : TransferRegs) (m1 m2 : Nat → Nat) (lo hi : Nat)
    (hsrc : ∀ y, y < r.height → ∀ b, b < r.width * r.bpp →
      lo ≤ srcLineStartAddr r y + b ∧ srcLineStartAddr r y + b ≤ hi)
    (h0 : ∀ a, lo ≤ a → a ≤ hi → m1 a = m2 a) :
    ∀ n, n ≤ r.height →
      (∀ a, lo ≤ a → a ≤ hi → copyRowsUpTo r m1 n a = copyRowsUpTo r m2 n a) ∧
      (∀ y, y < n → ∀ a, inDstRow r y a → copyRowsUpTo r m1 n a = copyRowsUpTo r m2 n a) := by
  intro n
  induction n with
  | zero =>
    intro _
    exact ⟨h0, fun y hy => absurd hy (Nat.not_lt_zero y)⟩
  | succ k ih =>
    intro hk
    obtain ⟨i1, i2⟩ := ih (by omega)
    have hrow : ∀ a, dstLineStartAddr r k ≤ a ∧ a < dstLineStartAddr r k + r.width * r.bpp →
        copyRowsUpTo r m1 (k + 1) a = copyRowsUpTo r m2 (k + 1) a := by
      intro a ha
      rw [copyRowsUpTo_succ, copyRowsUpTo_succ]
      unfold memcpy
      rw [if_pos ha, if_pos ha]
      have hb : a - dstLineStartAddr r k < r.width * r.bpp := by omega
      obtain ⟨s1, s2⟩ := hsrc k (by omega) _ hb
      exact i1 _ s1 s2
    have hother : ∀ a, ¬ (dstLineStartAddr r k ≤ a ∧ a < dstLineStartAddr r k + r.width * r.bpp) →
        copyRowsUpTo r m1 k a = copyRowsUpTo r m2 k a →
        copyRowsUpTo r m1 (k + 1) a = copyRowsUpTo r m2 (k + 1) a := by
      intro a ha he
      rw [copyRowsUpTo_succ, copyRowsUpTo_succ]
      unfold memcpy
      rw [if_neg ha, if_neg ha]
      exact he
    constructor
    · intro a hlo hhi
      by_cases ha : dstLineStartAddr r k ≤ a ∧ a < dstLineStartAddr r k + r.width * r.bpp
      · exact hrow a ha
      · exact hother a ha (i1 a hlo hhi)
    · intro y hy a hin
      by_cases ha : dstLineStartAddr r k ≤ a ∧ a < dstLineStartAddr r k + r.width * r.bpp
      · exact hrow a ha
      · have hyk : y < k := by
          rcases Nat.lt_succ_iff_lt_or_eq.mp hy with h | h
          · exact h
          · subst h
            exact absurd hin ha
        exact hother a ha (i2 y hyk a hin)

/-- C38. Validated endpoints bracket the copy: for every transfer that passes the four
address checks and whose address arithmetic does not wrap around 32 bits, the four
validated addresses are valid, every source byte read by the copy loop (byte `b` of source
line `y`) lies in `[srcBasePtr, srcLastAddr + bpp - 1]`, every destination byte written
(byte `b` of destination line `y`) lies in `[dstBasePtr, dstLastAddr + bpp - 1]`, and every
byte of memory that the transfer changes lies in the latter range.  The reads are those of
the copy loop of `DoBlockTransfer`: the memory it leaves is that of the loop after `height`
iterations, iteration `y` stores at byte `b` of destination line `y` the byte it reads at
byte `b` of source line `y`, and nothing outside `[srcBasePtr, srcLastAddr + bpp - 1]` is
read: changing emulated memory outside that range beforehand changes no byte that the
transfer writes. -/
theorem validated_endpoints_bracket (env : Env) (s : GPU)
    (hv : transferValid env (readTransferRegs env s.gstate) = true)
    (hnw : transferNoWrap (readTransferRegs env s.gstate)) :
    (env.IsValidAddress (readTransferRegs env s.gstate).srcBasePtr = true ∧
      env.IsValidAddress (readTransferRegs env s.gstate).dstBasePtr = true ∧
      env.IsValidAddress (srcLastAddr (readTransferRegs env s.gstate)) = true ∧
      env.IsValidAddress (dstLastAddr (readTransferRegs env s.gstate)) = true) ∧
    (∀ y, y < (readTransferRegs env s.gstate).height →
      ∀ b, b < (readTransferRegs env s.gstate).width * (readTransferRegs env s.gstate).bpp →
        ((readTransferRegs env s.gstate).srcBasePtr ≤
            srcLineStartAddr (readTransferRegs env s.gstate) y + b ∧
          srcLineStartAddr (readTransferRegs env s.gstate) y + b ≤
            srcLastAddr (readTransferRegs env s.gstate) +
              (readTransferRegs env s.gstate).bpp - 1) ∧
        ((readTransferRegs env s.gstate).dstBasePtr ≤
            dstLineStartAddr (readTransferRegs env s.gstate) y + b ∧
          dstLineStartAddr (readTransferRegs env s.gstate) y + b ≤
            dstLastAddr (readTransferRegs env s.gstate) +
              (readTransferRegs env s.gstate).bpp - 1)) ∧
    (∀ a, (DoBlockTransfer env s).memory a ≠ s.memory a →
      (readTransferRegs env s.gstate).dstBasePtr ≤ a ∧
        a ≤ dstLastAddr (readTransferRegs env s.gstate) +
          (readTransferRegs env s.gstate).bpp - 1) ∧
    (DoBlockTransfer env s).memory =
      copyRowsUpTo (readTransferRegs env s.gstate) s.memory
        (readTransferRegs env s.gstate).height ∧
    (∀ y, y < (readTransferRegs env s.gstate).height →
      ∀ b, b < (readTransferRegs env s.gstate).width * (readTransferRegs env s.gstate).bpp →
        copyRowsUpTo (readTransferRegs env s.gstate) s.memory (y + 1)
            (dstLineStartAddr (readTransferRegs env s.gstate) y + b) =
          copyRowsUpTo (readTransferRegs env s.gstate) s.memory y
            (srcLineStartAddr (readTransferRegs env s.gstate) y + b)) ∧
    (∀ m : Nat → Nat,
      (∀ a, (readTransferRegs env s.gstate).srcBasePtr ≤ a →
        a ≤ srcLastAddr (readTransferRegs env s.gstate) +
          (readTransferRegs env s.gstate).bpp - 1 → m a = s.memory a) →
      ∀ y, y < (readTransferRegs env s.gstate).height →
        ∀ b, b < (readTransferRegs env s.gstate).width * (readTransferRegs env s.gstate).bpp →
          (DoBlockTransfer env { s with memory := m }).memory
              (dstLineStartAddr (readTransferRegs env s.gstate) y + b) =
            (DoBlockTransfer env s).memory
              (dstLineStartAddr (readTransferRegs env s.gstate) y + b)) := by
  have hrows : ∀ y, y < (readTransferRegs env s.gstate).height →
      ∀ b, b < (readTransferRegs env s.gstate).width * (readTransferRegs env s.gstate).bpp →
        ((readTransferRegs env s.gstate).srcBasePtr ≤
            srcLineStartAddr (readTransferRegs env s.gstate) y + b ∧
          srcLineStartAddr (readTransferRegs env s.gstate) y + b ≤
            srcLastAddr (readTransferRegs env s.gstate) +
              (readTransferRegs env s.gstate).bpp - 1) ∧
        ((readTransferRegs env s.gstate).dstBasePtr ≤
            dstLineStartAddr (readTransferRegs env s.gstate) y + b ∧
          dstLineStartAddr (readTransferRegs env s.gstate) y + b ≤
            dstLastAddr (readTransferRegs env s.gstate) +
              (readTransferRegs env s.gstate).bpp - 1) := by
    intro y hy b hb
    obtain ⟨s1, s2, s3⟩ := lastAddr_bracket _ _ _ _ _ _ _ y b hnw.1 hy hb
    obtain ⟨d1, d2, d3⟩ := lastAddr_bracket _ _ _ _ _ _ _ y b hnw.2 hy hb
    unfold srcLineStartAddr srcLastAddr dstLineStartAddr dstLastAddr
    rw [s1, s2, d1, d2]
    exact ⟨⟨by omega, s3⟩, ⟨by omega, d3⟩⟩
  have hmem : (DoBlockTransfer env s).memory =
      copyRowsUpTo (readTransferRegs env s.gstate) s.memory
        (readTransferRegs env s.gstate).height := DoBlockTransfer_memory env s hv
  refine ⟨?_, hrows, ?_, hmem, ?_, ?_⟩
  · simp only [transferValid, Bool.and_eq_true] at hv
    obtain ⟨⟨⟨h1, h2⟩, h3⟩, h4⟩ := hv
    exact ⟨h1, h2, h3, h4⟩
  · intro a hne
    obtain ⟨y, hy, hin⟩ := DoBlockTransfer_changed_in_row env s a hne
    obtain ⟨hlo, hhi⟩ := hin
    unfold rowBytes at hhi
    have hb : a - dstLineStartAddr (readTransferRegs env s.gstate) y <
        (readTransferRegs env s.gstate).width * (readTransferRegs env s.gstate).bpp := by omega
    have := (hrows y hy _ hb).2
    have he : dstLineStartAddr (readTransferRegs env s.gstate) y +
        (a - dstLineStartAddr (readTransferRegs env s.gstate) y) = a := by omega
    rw [he] at this
    exact this
  · intro y _ b hb
    exact copyRowsUpTo_reads _ _ y b hb
  · intro m hm y hy b hb
    have hmem2 : (DoBlockTransfer env { s with memory := m }).memory =
        copyRowsUpTo (readTransferRegs env s.gstate) m
          (readTransferRegs env s.gstate).height :=
      DoBlockTransfer_memory env { s with memory := m } hv
    rw [hmem, hmem2]
    have hagree := copyRowsUpTo_agree (readTransferRegs env s.gstate) m s.memory
      (readTransferRegs env s.gstate).srcBasePtr
      (srcLastAddr (readTransferRegs env s.gstate) + (readTransferRegs env s.gstate).bpp - 1)
      (fun y hy b hb => (hrows y hy b hb).1) hm
      (readTransferRegs env s.gstate).height (le_refl _)
    refine hagree.2 y hy _ ⟨Nat.le_add_right _ _, ?_⟩
    unfold rowBytes
    omega

set_option maxRecDepth 100000 in
/-- Witness for C38: in a 2 x 2 transfer of 2-byte pixels, the last byte of the last source
row lies inside the validated bracket, and the second iteration of the copy loop stores it
as the last byte of the last destination row. -/
theorem validated_endpoints_bracket_witness :
    srcLineStartAddr (readTransferRegs Env.transfer GPU.sampleMemory.gstate) 1 + 3 ≤
      srcLastAddr (readTransferRegs Env.transfer GPU.sampleMemory.gstate) +
        (readTransferRegs Env.transfer GPU.sampleMemory.gstate).bpp - 1 ∧
    copyRowsUpTo (readTransferRegs Env.transfer GPU.sampleMemory.gstate)
        GPU.sampleMemory.memory (1 + 1)
        (dstLineStartAddr (readTransferRegs Env.transfer GPU.sampleMemory.gstate) 1 + 3) =
      copyRowsUpTo (readTransferRegs Env.transfer GPU.sampleMemory.gstate)
        GPU.sampleMemory.memory 1
        (srcLineStartAddr (readTransferRegs Env.transfer GPU.sampleMemory.gstate) 1 + 3) :=
  have h := validated_endpoints_bracket Env.transfer GPU.sampleMemory (by decide)
    (by unfold transferNoWrap; decide)
  ⟨((h.2.1 1 (by decide) 3 (by decide)).1).2, h.2.2.2.2.1 1 (by decide) 3 (by decide)⟩

/-- A validated transfer calls the texture cache's `Invalidate` with the start
`invalidateStart`, the size `invalidateSize` and the kind `GPU_INVALIDATE_HINT`. -/
theorem DoBlockTransfer_invalidate_call (env : Env) (s : GPU)
    (hv : transferValid env (readTransferRegs env s.gstate) = true) :
    Call.Invalidate (invalidateStart (readTransferRegs env s.gstate))
        (invalidateSize (readTransferRegs env s.gstate))
        GPUInvalidationType.GPU_INVALIDATE_HINT ∈ (DoBlockTransfer env s).calls := by
  simp only [transferValid, Bool.and_eq_true] at hv
  obtain ⟨⟨⟨h1, h2⟩, h3⟩, h4⟩ := hv
  unfold DoBlockTransfer invalidateStart invalidateSize
  simp only [h1, h2, h3, h4, not_true_eq_false, if_false, GPU.call]
  split_ifs <;> simp

/-- The rows of a destination rectangle whose width does not exceed its stride lie in the
range that starts at the first pixel and is `height * stride * bpp` bytes long. -/
theorem row_in_invalidated_range (base X Y S w h bpp y b : Nat)
    (hnw : base + (Y * S + X) * bpp + h * S * bpp ≤ 2 ^ 32) (hsz : h * S * bpp < 2 ^ 31)
    (hw : w ≤ S) (hy : y < h) (hb : b < w * bpp) :
    (base + (Y * S + X) * bpp) % 2 ^ 32 ≤ (base + ((y + Y) * S + X) * bpp) % 2 ^ 32 + b ∧
      (base + ((y + Y) * S + X) * bpp) % 2 ^ 32 + b <
        (base + (Y * S + X) * bpp) % 2 ^ 32 + (h * S * bpp) % 2 ^ 32 := by
  have e1 : ((y + Y) * S + X) * bpp = y * (S * bpp) + (Y * S + X) * bpp := by ring
  have e2 : h * S * bpp = h * (S * bpp) := by ring
  have hm : (y + 1) * (S * bpp) ≤ h * (S * bpp) := Nat.mul_le_mul_right _ hy
  have e3 : (y + 1) * (S * bpp) = y * (S * bpp) + S * bpp := by ring
  have hwb : w * bpp ≤ S * bpp := Nat.mul_le_mul_right _ hw
  rw [e3] at hm
  rw [e2] at hnw hsz
  rw [e1, e2]
  have hpos : 0 < h * (S * bpp) := by omega
  rw [Nat.mod_eq_of_lt (show base + (Y * S + X) * bpp < 2 ^ 32 by omega),
    Nat.mod_eq_of_lt (show base + (y * (S * bpp) + (Y * S + X) * bpp) < 2 ^ 32 by omega),
    Nat.mod_eq_of_lt (show h * (S * bpp) < 2 ^ 32 by omega)]
  omega

set_option maxRecDepth 100000 in
/-- C34 (as stated) fails: a transfer of 9 x 2 pixels of 2 bytes whose destination stride
is 8 pixels passes validation; the texture cache is told to invalidate the 32 bytes from
`0x08900000`, yet the copy of row 1 writes the byte at `0x08900021` (it held 33 and holds
49 afterwards), which lies past the end `0x08900020` of that range. -/
theorem invalidation_misses_wide_row :
    transferValid Env.transferNarrow
        (readTransferRegs Env.transferNarrow GPU.sampleMemory.gstate) = true ∧
    (DoBlockTransfer Env.transferNarrow GPU.sampleMemory).calls =
      GPU.sampleMemory.calls ++
        [Call.NotifyBlockTransfer 0x08900000 0x08800000,
          Call.Invalidate 0x08900000 32 GPUInvalidationType.GPU_INVALIDATE_HINT] ∧
    invalidateStart (readTransferRegs Env.transferNarrow GPU.sampleMemory.gstate) =
      0x08900000 ∧
    invalidateSize (readTransferRegs Env.transferNarrow GPU.sampleMemory.gstate) = 32 ∧
    inDstRow (readTransferRegs Env.transferNarrow GPU.sampleMemory.gstate) 1 0x08900021 ∧
    GPU.sampleMemory.memory 0x08900021 = 33 ∧
    (DoBlockTransfer Env.transferNarrow GPU.sampleMemory).memory 0x08900021 = 49 ∧
    ¬ (0x08900021 < 0x08900000 + 32) := by
  refine ⟨by decide, rfl, by decide, by decide, ?_, by decide, by decide!, by decide⟩
  unfold inDstRow
  exact ⟨by decide, by decide⟩

/-- C34 (amended). Invalidation covers the transfer: for every transfer that passes
validation, whose width does not exceed its destination stride and whose invalidated range
does not wrap around 32 bits (its end is at most `2^32` and its size is below `2^31`),
`DoBlockTransfer` calls the texture cache's `Invalidate` with
the start `dstBase + (dstY * dstStride + dstX) * bpp`, the size
`height * dstStride * bpp` and the kind `GPU_INVALIDATE_HINT`, every destination byte
written by the row-by-row copy (byte `b < width * bpp` of destination line `y < height`)
lies in the range from that start of that size, and so does every byte of memory that the
transfer changes. -/
theorem invalidation_covers_transfer (env : Env) (s : GPU)
    (hv : transferValid env (readTransferRegs env s.gstate) = true)
    (hw : (readTransferRegs env s.gstate).width ≤ (readTransferRegs env s.gstate).dstStride)
    (hnw : dstRangeNoWrap (readTransferRegs env s.gstate)) :
    Call.Invalidate (invalidateStart (readTransferRegs env s.gstate))
        (invalidateSize (readTransferRegs env s.gstate))
        GPUInvalidationType.GPU_INVALIDATE_HINT ∈ (DoBlockTransfer env s).calls ∧
    (∀ y, y < (readTransferRegs env s.gstate).height →
      ∀ b, b < (readTransferRegs env s.gstate).width * (readTransferRegs env s.gstate).bpp →
        invalidateStart (readTransferRegs env s.gstate) ≤
            dstLineStartAddr (readTransferRegs env s.gstate) y + b ∧
          dstLineStartAddr (readTransferRegs env s.gstate) y + b <
            invalidateStart (readTransferRegs env s.gstate) +
              invalidateSize (readTransferRegs env s.gstate)) ∧
    (∀ a, (DoBlockTransfer env s).memory a ≠ s.memory a →
      invalidateStart (readTransferRegs env s.gstate) ≤ a ∧
        a < invalidateStart (readTransferRegs env s.gstate) +
          invalidateSize (readTransferRegs env s.gstate)) ∧
    invalidateStart (readTransferRegs env s.gstate) =
      ((readTransferRegs env s.gstate).dstBasePtr +
        ((readTransferRegs env s.gstate).dstY * (readTransferRegs env s.gstate).dstStride +
          (readTransferRegs env s.gstate).dstX) * (readTransferRegs env s.gstate).bpp) % 2 ^ 32 ∧
    invalidateSize (readTransferRegs env s.gstate) =
      ((readTransferRegs env s.gstate).height * (readTransferRegs env s.gstate).dstStride *
        (readTransferRegs env s.gstate).bpp) % 2 ^ 32 := by
  have hrows : ∀ y, y < (readTransferRegs env s.gstate).height →
      ∀ b, b < (readTransferRegs env s.gstate).width * (readTransferRegs env s.gstate).bpp →
        invalidateStart (readTransferRegs env s.gstate) ≤
            dstLineStartAddr (readTransferRegs env s.gstate) y + b ∧
          dstLineStartAddr (readTransferRegs env s.gstate) y + b <
            invalidateStart (readTransferRegs env s.gstate) +
              invalidateSize (readTransferRegs env s.gstate) := by
    intro y hy b hb
    unfold invalidateStart invalidateSize dstLineStartAddr
    exact row_in_invalidated_range _ _ _ _ _ _ _ y b hnw.1 hnw.2 hw hy hb
  refine ⟨DoBlockTransfer_invalidate_call env s hv, hrows, ?_, rfl, rfl⟩
  intro a hne
  obtain ⟨y, hy, hin⟩ := DoBlockTransfer_changed_in_row env s a hne
  obtain ⟨hlo, hhi⟩ := hin
  unfold rowBytes at hhi
  have hb : a - dstLineStartAddr (readTransferRegs env s.gstate) y <
      (readTransferRegs env s.gstate).width * (readTransferRegs env s.gstate).bpp := by omega
  have := hrows y hy _ hb
  have he : dstLineStartAddr (readTransferRegs env s.gstate) y +
      (a - dstLineStartAddr (readTransferRegs env s.gstate) y) = a := by omega
  rw [he] at this
  exact this

set_option maxRecDepth 100000 in
/-- Witness for C34 (amended): a transfer of 2 x 2 pixels of 2 bytes with destination
stride 16. -/
theorem invalidation_covers_transfer_witness :
    Call.Invalidate (invalidateStart (readTransferRegs Env.transfer GPU.sampleMemory.gstate))
        (invalidateSize (readTransferRegs Env.transfer GPU.sampleMemory.gstate))
        GPUInvalidationType.GPU_INVALIDATE_HINT ∈
      (DoBlockTransfer Env.transfer GPU.sampleMemory).calls :=
  (invalidation_covers_transfer Env.transfer GPU.sampleMemory (by decide) (by decide)
    (by unfold dstRangeNoWrap; decide)).1

end PPSSPP
